import Mathlib

/-!
# Rootfs A/B validation and boot flow of the Android launcher

A shallow embedding of `Silicon/NVIDIA/Application/AndroidLauncher/L4TRootfsValidation.c`
(with the declarations of `L4TRootfsValidation.h`) and of the functions of
`Silicon/NVIDIA/Application/AndroidLauncher/AndroidLauncher.c` (`FindPartitionInfo`,
`ProcessBootParams`, `BootAndroidStylePartition`, `AndroidLauncher`), and theorems about them.

* `UINT32` objects are natural numbers; the one arithmetic operation of the file
  (`RetryCount--`) is taken modulo `2^32`.
* The module-level `mRootfsInfo`, the UEFI variable store behind `gRT` and the
  sequence of calls made to services outside the file are carried in an explicit
  `MACHINE` value that every stateful function takes and returns.
* `ResetCold ()` never returns to its caller: `ValidateRootfsStatus` yields an
  `OUTCOME`, either `Returned Status` or `ColdReset`.
* `DEBUG ((...))` lines only log and are left out.
-/

namespace L4TRootfsValidation

/-! ## Base types -/

/-- The `EFI_STATUS` values that occur in the file or that the variable services answer. -/
inductive EFI_STATUS
  | EFI_SUCCESS
  | EFI_LOAD_ERROR
  | EFI_INVALID_PARAMETER
  | EFI_UNSUPPORTED
  | EFI_BUFFER_TOO_SMALL
  | EFI_DEVICE_ERROR
  | EFI_WRITE_PROTECTED
  | EFI_OUT_OF_RESOURCES
  | EFI_NOT_FOUND
  | EFI_SECURITY_VIOLATION
  deriving DecidableEq, Repr

open EFI_STATUS

/-- The macro `EFI_ERROR (Status)`: every value but `EFI_SUCCESS` listed above is an error code. -/
def EFI_ERROR : EFI_STATUS → Bool
  | EFI_SUCCESS => false
  | _ => true

/-- Number of values of a `UINT32`. -/
@[simp] abbrev UINT32_MODULUS : Nat := 4294967296

/-- C logical negation `!x` of an unsigned value. -/
def LogicalNot (x : Nat) : Nat := if x = 0 then 1 else 0

/-! ## `L4TRootfsValidation.h` -/

@[simp] abbrev ROOTFS_SLOT_A : Nat := 0
@[simp] abbrev ROOTFS_SLOT_B : Nat := 1
@[simp] abbrev ROOTFS_RETRY_MAX : Nat := 7
@[simp] abbrev ANDROIDLAUNCHER_STATUS_BOOTING : Nat := 1
@[simp] abbrev DELAY_SECOND : Nat := 1000000

@[simp] abbrev RF_STATUS_A : Nat := 0
@[simp] abbrev RF_STATUS_B : Nat := 1
@[simp] abbrev RF_RETRY_A : Nat := 2
@[simp] abbrev RF_RETRY_B : Nat := 3
@[simp] abbrev RF_FW_NEXT : Nat := 4
@[simp] abbrev RF_BC_STATUS : Nat := 5
@[simp] abbrev RF_VARIABLE_INDEX_MAX : Nat := 6

/-- The constants that the file takes from `NVIDIAConfiguration.h`, a header that is not part
of the source tree at hand; they are a parameter of every function that uses one.
`ANDROIDLAUNCHER_STATUS_NORMAL` and `ANDROIDLAUNCHER_STATUS_UNBOOTABLE` are defined in
`L4TRootfsValidation.h` as `NVIDIA_OS_STATUS_NORMAL` and `NVIDIA_OS_STATUS_UNBOOTABLE`. -/
structure NVIDIA_CONFIGURATION where
  NVIDIA_OS_STATUS_NORMAL : Nat
  NVIDIA_OS_STATUS_UNBOOTABLE : Nat
  NVIDIA_L4T_BOOTMODE_BOOTIMG : Nat
  NVIDIA_L4T_BOOTMODE_RECOVERY : Nat

/-- The macro `ANDROIDLAUNCHER_STATUS_UNBOOTABLE`. -/
@[simp] abbrev ANDROIDLAUNCHER_STATUS_UNBOOTABLE (Cfg : NVIDIA_CONFIGURATION) : Nat :=
  Cfg.NVIDIA_OS_STATUS_UNBOOTABLE

/-- The `RF_VARIABLE` of the header. -/
structure RF_VARIABLE where
  Value : Nat
  UpdateFlag : Nat

/-- The `L4T_RF_AB_PARAM` of the header; the array `RootfsVar` is a function of the index. -/
structure L4T_RF_AB_PARAM where
  RootfsVar : Nat → RF_VARIABLE
  CurrentSlot : Nat

/-- The `L4T_BOOT_PARAMS` of the header. -/
structure L4T_BOOT_PARAMS where
  BootMode : Nat
  BootChain : Nat
  deriving DecidableEq, Repr

/-- Assignment `Info.RootfsVar[Index].Value = Value`. -/
def L4T_RF_AB_PARAM.SetValue (Info : L4T_RF_AB_PARAM) (Index Value : Nat) : L4T_RF_AB_PARAM :=
  { Info with
    RootfsVar := fun i =>
      if i = Index then { Info.RootfsVar i with Value := Value } else Info.RootfsVar i }

/-- Assignment `Info.RootfsVar[Index].UpdateFlag = UpdateFlag`. -/
def L4T_RF_AB_PARAM.SetUpdateFlag (Info : L4T_RF_AB_PARAM) (Index UpdateFlag : Nat) :
    L4T_RF_AB_PARAM :=
  { Info with
    RootfsVar := fun i =>
      if i = Index then { Info.RootfsVar i with UpdateFlag := UpdateFlag } else Info.RootfsVar i }

/-! ## The environment: variable services, console, timer, reset -/

/-- What the variable store holds under one name. -/
inductive VARIABLE_CELL
  | Present (Value : Nat)
  | Absent
  | Unreadable
  deriving DecidableEq, Repr

/-- The UEFI variable store behind `gRT`, restricted to the names the application uses and
addressed by a key: the six names of `mRFAbVariable` by their index, `BootChainFwCurrent` by
6 and `BootChainOsCurrent` by 7. `Cell` is the content. `SetResult Index Data` is the answer of
the store to a `SetVariable` on that name with that data (`none` is the zero-size call that
deletes): the call takes effect only when the answer is `EFI_SUCCESS`. -/
structure VARIABLE_STORE where
  Cell : Nat → VARIABLE_CELL
  SetResult : Nat → Option Nat → EFI_STATUS

/-- A call that leaves the file. -/
inductive EVENT
  | GetVariable (Index : Nat)
  | SetVariable (Index : Nat) (Value : Nat)
  | DeleteVariable (Index : Nat)
  | Print
  | MicroSecondDelay (MicroSeconds : Nat)
  | ResetCold
  deriving DecidableEq, Repr

/-- The state a function of the file runs in: the variable store, the module-level
`mRootfsInfo`, and the calls made so far, oldest first. -/
structure MACHINE where
  Store : VARIABLE_STORE
  mRootfsInfo : L4T_RF_AB_PARAM
  Trace : List EVENT

/-- The definition `L4T_RF_AB_PARAM  mRootfsInfo = { 0 };`. -/
def mRootfsInfoInitial : L4T_RF_AB_PARAM :=
  { RootfsVar := fun _ => { Value := 0, UpdateFlag := 0 }, CurrentSlot := 0 }

/-- The machine when the application is entered: `mRootfsInfo` as defined, no call made. -/
def MACHINE.Entry (Store : VARIABLE_STORE) : MACHINE :=
  { Store := Store, mRootfsInfo := mRootfsInfoInitial, Trace := [] }

/-- The service `gRT->GetVariable` with a four-byte buffer that holds `Value` on entry. -/
def gRT_GetVariable (m : MACHINE) (Index Value : Nat) : EFI_STATUS × Nat × MACHINE :=
  let m1 : MACHINE := { m with Trace := m.Trace ++ [EVENT.GetVariable Index] }
  match m.Store.Cell Index with
  | VARIABLE_CELL.Present v => (EFI_SUCCESS, v, m1)
  | VARIABLE_CELL.Absent => (EFI_NOT_FOUND, Value, m1)
  | VARIABLE_CELL.Unreadable => (EFI_DEVICE_ERROR, Value, m1)

/-- Replace the content of the store under one name. -/
def VARIABLE_STORE.Put (Store : VARIABLE_STORE) (Index : Nat) (c : VARIABLE_CELL) :
    VARIABLE_STORE :=
  { Store with Cell := fun i => if i = Index then c else Store.Cell i }

/-- The service `gRT->SetVariable` with four bytes of data. -/
def gRT_SetVariable (m : MACHINE) (Index Value : Nat) : EFI_STATUS × MACHINE :=
  let m1 : MACHINE := { m with Trace := m.Trace ++ [EVENT.SetVariable Index Value] }
  if EFI_ERROR (m.Store.SetResult Index (some Value)) then
    (m.Store.SetResult Index (some Value), m1)
  else
    (EFI_SUCCESS, { m1 with Store := m.Store.Put Index (VARIABLE_CELL.Present Value) })

/-- The service `gRT->SetVariable` with data size 0, which deletes the variable. -/
def gRT_DeleteVariable (m : MACHINE) (Index : Nat) : EFI_STATUS × MACHINE :=
  let m1 : MACHINE := { m with Trace := m.Trace ++ [EVENT.DeleteVariable Index] }
  if EFI_ERROR (m.Store.SetResult Index none) then
    (m.Store.SetResult Index none, m1)
  else
    match m.Store.Cell Index with
    | VARIABLE_CELL.Absent => (EFI_NOT_FOUND, m1)
    | _ => (EFI_SUCCESS, { m1 with Store := m.Store.Put Index VARIABLE_CELL.Absent })

/-! ## `L4TRootfsValidation.c` -/

/-- The function `RFGetVariable`; `Value` is the content of `*Value` on entry, the second
component of the result its content on return. -/
def RFGetVariable (m : MACHINE) (VariableIndex Value : Nat) : EFI_STATUS × Nat × MACHINE :=
  if VariableIndex ≥ RF_VARIABLE_INDEX_MAX then
    (EFI_INVALID_PARAMETER, Value, m)
  else
    match gRT_GetVariable m VariableIndex 0 with
    | (Status, Value, m) =>
      if EFI_ERROR Status then
        if Status = EFI_NOT_FOUND then
          if VariableIndex = RF_RETRY_A ∨ VariableIndex = RF_RETRY_B then
            (EFI_SUCCESS, ROOTFS_RETRY_MAX, m)
          else if VariableIndex = RF_FW_NEXT ∨ VariableIndex = RF_BC_STATUS then
            (EFI_SUCCESS, Value, m)
          else
            (Status, Value, m)
        else
          (Status, Value, m)
      else
        (Status, Value, m)

/-- The function `RFSetVariable`. -/
def RFSetVariable (m : MACHINE) (VariableIndex Value : Nat) : EFI_STATUS × MACHINE :=
  if VariableIndex ≥ RF_VARIABLE_INDEX_MAX then
    (EFI_INVALID_PARAMETER, m)
  else
    gRT_SetVariable m VariableIndex Value

/-- The function `RFDeleteVariable`. -/
def RFDeleteVariable (m : MACHINE) (VariableIndex : Nat) : EFI_STATUS × MACHINE :=
  if VariableIndex ≥ RF_VARIABLE_INDEX_MAX then
    (EFI_INVALID_PARAMETER, m)
  else
    gRT_DeleteVariable m VariableIndex

/-- The function `SetStatusTomRootfsInfo`, on the value of `mRootfsInfo`. -/
def SetStatusTomRootfsInfo (Info : L4T_RF_AB_PARAM) (RootfsSlot RootfsStatus : Nat) :
    EFI_STATUS × L4T_RF_AB_PARAM :=
  if RootfsSlot > ROOTFS_SLOT_B then
    (EFI_INVALID_PARAMETER, Info)
  else if RootfsSlot = ROOTFS_SLOT_A then
    (EFI_SUCCESS, (Info.SetValue RF_STATUS_A RootfsStatus).SetUpdateFlag RF_STATUS_A 1)
  else
    (EFI_SUCCESS, (Info.SetValue RF_STATUS_B RootfsStatus).SetUpdateFlag RF_STATUS_B 1)

/-- The function `GetRetryCountFrommRootfsInfo`. Its callers pass the address of a local, so
the `NULL` test is false; `RootfsRetryCount` is the content of that local on entry. -/
def GetRetryCountFrommRootfsInfo (Info : L4T_RF_AB_PARAM) (RootfsSlot RootfsRetryCount : Nat) :
    EFI_STATUS × Nat :=
  if RootfsSlot > ROOTFS_SLOT_B then
    (EFI_INVALID_PARAMETER, RootfsRetryCount)
  else if RootfsSlot = ROOTFS_SLOT_A then
    (EFI_SUCCESS, (Info.RootfsVar RF_RETRY_A).Value)
  else
    (EFI_SUCCESS, (Info.RootfsVar RF_RETRY_B).Value)

/-- The function `SetRetryCountTomRootfsInfo`. -/
def SetRetryCountTomRootfsInfo (Info : L4T_RF_AB_PARAM) (RootfsSlot RootfsRetryCount : Nat) :
    EFI_STATUS × L4T_RF_AB_PARAM :=
  if RootfsSlot > ROOTFS_SLOT_B then
    (EFI_INVALID_PARAMETER, Info)
  else if RootfsSlot = ROOTFS_SLOT_A then
    (EFI_SUCCESS, (Info.SetValue RF_RETRY_A RootfsRetryCount).SetUpdateFlag RF_RETRY_A 1)
  else
    (EFI_SUCCESS, (Info.SetValue RF_RETRY_B RootfsRetryCount).SetUpdateFlag RF_RETRY_B 1)

/-- The function `IsValidRootfs`. -/
def IsValidRootfs (Cfg : NVIDIA_CONFIGURATION) (Info : L4T_RF_AB_PARAM) : Bool :=
  if (Info.RootfsVar RF_STATUS_A).Value = ANDROIDLAUNCHER_STATUS_UNBOOTABLE Cfg ∧
      (Info.RootfsVar RF_STATUS_B).Value = ANDROIDLAUNCHER_STATUS_UNBOOTABLE Cfg then
    false
  else
    true

/-- The loop of `CheckAndUpdateVariable` over the indices still to visit; `Status` is the
local of that name. -/
def CheckAndUpdateVariableLoop : List Nat → EFI_STATUS → MACHINE → EFI_STATUS × MACHINE
  | [], Status, m => (Status, m)
  | Index :: Rest, Status, m =>
    if (m.mRootfsInfo.RootfsVar Index).UpdateFlag ≠ 0 then
      match RFSetVariable m Index (m.mRootfsInfo.RootfsVar Index).Value with
      | (Status1, m1) =>
        if EFI_ERROR Status1 then (Status1, m1)
        else CheckAndUpdateVariableLoop Rest Status1 m1
    else
      CheckAndUpdateVariableLoop Rest Status m

/-- The function `CheckAndUpdateVariable`. -/
def CheckAndUpdateVariable (m : MACHINE) : EFI_STATUS × MACHINE :=
  CheckAndUpdateVariableLoop (List.range RF_VARIABLE_INDEX_MAX) EFI_SUCCESS m

/-- The function `IsRootfsSlotBootable`. The local `RetryCount` has no initial value in the
source and is only read after a successful `GetRetryCountFrommRootfsInfo`; it starts at 0 here. -/
def IsRootfsSlotBootable (Info : L4T_RF_AB_PARAM) (RootfsSlot : Nat) : Bool :=
  match GetRetryCountFrommRootfsInfo Info RootfsSlot 0 with
  | (Status, RetryCount) =>
    if EFI_ERROR Status then false
    else if RetryCount ≠ 0 then true
    else false

/-- The function `DecreaseRootfsRetryCount`; `RetryCount--` is the `UINT32` decrement. -/
def DecreaseRootfsRetryCount (Info : L4T_RF_AB_PARAM) (RootfsSlot : Nat) :
    EFI_STATUS × L4T_RF_AB_PARAM :=
  match GetRetryCountFrommRootfsInfo Info RootfsSlot 0 with
  | (Status, RetryCount) =>
    if EFI_ERROR Status then (Status, Info)
    else if RetryCount ≠ 0 then
      SetRetryCountTomRootfsInfo Info RootfsSlot
        ((RetryCount + (UINT32_MODULUS - 1)) % UINT32_MODULUS)
    else
      (EFI_INVALID_PARAMETER, Info)

/-- How a call of `ValidateRootfsStatus` ends: it returns a status, or `ResetCold ()` is
reached and control never comes back. -/
inductive OUTCOME
  | Returned (Status : EFI_STATUS)
  | ColdReset
  deriving DecidableEq, Repr

/-- The first loop of `ValidateRootfsStatus` over the indices still to visit. The first
component is `some Status` when the function returns `Status` from inside the loop. -/
def ReadRootfsVariables : List Nat → MACHINE → Option EFI_STATUS × MACHINE
  | [], m => (none, m)
  | Index :: Rest, m =>
    match RFGetVariable m Index (m.mRootfsInfo.RootfsVar Index).Value with
    | (Status, Value, m1) =>
      let m2 : MACHINE := { m1 with mRootfsInfo := m1.mRootfsInfo.SetValue Index Value }
      if EFI_ERROR Status then (some EFI_LOAD_ERROR, m2)
      else ReadRootfsVariables Rest m2

/-- The part of `ValidateRootfsStatus` between the test of `IsValidRootfs` and the label
`Exit`: the value of `Status` at the label, `*BootParams` and `mRootfsInfo`. -/
def ValidateRootfsStatusSlots (Cfg : NVIDIA_CONFIGURATION) (Info : L4T_RF_AB_PARAM)
    (NonCurrentSlot : Nat) (BootParams : L4T_BOOT_PARAMS) :
    EFI_STATUS × L4T_BOOT_PARAMS × L4T_RF_AB_PARAM :=
  if IsRootfsSlotBootable Info Info.CurrentSlot then
    match DecreaseRootfsRetryCount Info Info.CurrentSlot with
    | (Status, Info1) =>
      if EFI_ERROR Status then (Status, BootParams, Info1)
      else
        match SetStatusTomRootfsInfo Info1 Info1.CurrentSlot ANDROIDLAUNCHER_STATUS_BOOTING with
        | (Status, Info2) => (Status, BootParams, Info2)
  else
    match SetStatusTomRootfsInfo Info Info.CurrentSlot (ANDROIDLAUNCHER_STATUS_UNBOOTABLE Cfg) with
    | (Status, Info1) =>
      if EFI_ERROR Status then (Status, BootParams, Info1)
      else if IsRootfsSlotBootable Info1 NonCurrentSlot then
        (Status, BootParams,
          (Info1.SetValue RF_FW_NEXT NonCurrentSlot).SetUpdateFlag RF_FW_NEXT 1)
      else
        match SetStatusTomRootfsInfo Info1 NonCurrentSlot
            (ANDROIDLAUNCHER_STATUS_UNBOOTABLE Cfg) with
        | (Status, Info2) =>
          (Status, { BootParams with BootMode := Cfg.NVIDIA_L4T_BOOTMODE_RECOVERY }, Info2)

/-- The part of `ValidateRootfsStatus` from the label `Exit` on. -/
def ValidateRootfsStatusExit (Status : EFI_STATUS) (BootParams : L4T_BOOT_PARAMS)
    (m : MACHINE) : OUTCOME × L4T_BOOT_PARAMS × MACHINE :=
  if Status = EFI_SUCCESS then
    let BootParams1 : L4T_BOOT_PARAMS :=
      { BootParams with BootChain := m.mRootfsInfo.CurrentSlot }
    match CheckAndUpdateVariable m with
    | (Status1, m1) =>
      if (m1.mRootfsInfo.RootfsVar RF_FW_NEXT).UpdateFlag ≠ 0 then
        match RFDeleteVariable m1 RF_BC_STATUS with
        | (_, m2) =>
          (OUTCOME.ColdReset, BootParams1,
            { m2 with
              Trace := m2.Trace ++
                [EVENT.Print, EVENT.MicroSecondDelay (2 * DELAY_SECOND), EVENT.ResetCold] })
      else
        (OUTCOME.Returned Status1, BootParams1, m1)
  else
    (OUTCOME.Returned Status, BootParams, m)

/-- The function `ValidateRootfsStatus`: how the call ends, `*BootParams` and the machine
at that point. -/
def ValidateRootfsStatus (Cfg : NVIDIA_CONFIGURATION) (m : MACHINE)
    (BootParams : L4T_BOOT_PARAMS) : OUTCOME × L4T_BOOT_PARAMS × MACHINE :=
  if BootParams.BootMode = Cfg.NVIDIA_L4T_BOOTMODE_RECOVERY then
    (OUTCOME.Returned EFI_SUCCESS, BootParams, m)
  else if BootParams.BootChain > ROOTFS_SLOT_B then
    (OUTCOME.Returned EFI_INVALID_PARAMETER, BootParams, m)
  else
    match ReadRootfsVariables (List.range RF_VARIABLE_INDEX_MAX) m with
    | (some Status, m1) => (OUTCOME.Returned Status, BootParams, m1)
    | (none, m1) =>
      let m2 : MACHINE :=
        { m1 with mRootfsInfo := { m1.mRootfsInfo with CurrentSlot := BootParams.BootChain } }
      let NonCurrentSlot : Nat := LogicalNot m2.mRootfsInfo.CurrentSlot
      if ! IsValidRootfs Cfg m2.mRootfsInfo then
        (OUTCOME.Returned EFI_SUCCESS,
          { BootParams with BootMode := Cfg.NVIDIA_L4T_BOOTMODE_RECOVERY }, m2)
      else
        match ValidateRootfsStatusSlots Cfg m2.mRootfsInfo NonCurrentSlot BootParams with
        | (Status, BootParams1, Info) =>
          ValidateRootfsStatusExit Status BootParams1 { m2 with mRootfsInfo := Info }

/-! ## Strings of `CHAR16` and the `BaseLib` functions on them

A `CHAR16` string is the list of its code units before the terminating `NUL`. The functions
below are those of the `BaseLib` library that `AndroidLauncher.c` calls, as they behave on
such strings; the limits that the library takes from platform configuration
(`PcdMaximumUnicodeStringLength`) are left out. -/

/-- The string literal `L"..."`. -/
def L (s : String) : List Nat := s.toList.map Char.toNat

/-- The code unit `Str[i]`; at the end of the string it is the terminating `NUL`. -/
def CharAt (Str : List Nat) (i : Nat) : Nat := Str.getD i 0

/-- The library function `StrLen`. -/
def StrLen (Str : List Nat) : Nat := Str.length

/-- The library function `StrnLenS`: the length when it is below `MaxSize`, else `MaxSize`. -/
def StrnLenS (Str : List Nat) (MaxSize : Nat) : Nat := min Str.length MaxSize

/-- The library function `StrCmp`: the difference of the first two code units that differ,
the end of a string counting as `NUL`. -/
def StrCmp : List Nat → List Nat → Int
  | [], [] => 0
  | [], b :: _ => 0 - (b : Int)
  | a :: _, [] => (a : Int)
  | a :: FirstRest, b :: SecondRest =>
    if a = b then StrCmp FirstRest SecondRest else (a : Int) - (b : Int)

/-- The library function `StrStr`: the offset in `Str` of the first occurrence of
`SearchString` (the returned pointer is `Str` plus that offset), `none` for `NULL`. -/
def StrStr : List Nat → List Nat → Option Nat
  | [], SearchString => if SearchString = [] then some 0 else none
  | c :: Rest, SearchString =>
    if SearchString.isPrefixOf (c :: Rest) then some 0
    else (StrStr Rest SearchString).map (fun Offset => Offset + 1)

/-! ## The environment of the partition lookup: handle database and device paths -/

/-- An `EFI_HANDLE`; 0 is the `NULL` handle. -/
abbrev EFI_HANDLE : Type := Nat

@[simp] abbrev PARTITION_TYPE_GPT : Nat := 2
@[simp] abbrev MEDIA_DEVICE_PATH : Nat := 4
@[simp] abbrev MEDIA_HARDDRIVE_DP : Nat := 1

/-- What the lookup reads of an `EFI_PARTITION_INFO_PROTOCOL`: `Type` (here `PartitionType`) and
`Info.Gpt.PartitionName`. -/
structure EFI_PARTITION_INFO_PROTOCOL where
  PartitionType : Nat
  PartitionName : List Nat

/-- A node of a device path before the end node: type, sub-type and, for a hard drive node,
the `PartitionNumber` of `HARDDRIVE_DEVICE_PATH`. -/
structure EFI_DEVICE_PATH_NODE where
  NodeType : Nat
  SubType : Nat
  PartitionNumber : Nat

/-- The handle database as the lookup queries it. `Parents` is
`PARSE_HANDLE_DATABASE_PARENTS` and `Children` is `ParseHandleDatabaseForChildControllers`
(status and handle buffer); `PartitionInfo` is `gBS->HandleProtocol` for the partition
information protocol (`none` when it fails); `DevicePath` is `DevicePathFromHandle` (`none`
for `NULL`). -/
structure HANDLE_DATABASE where
  Parents : EFI_HANDLE → EFI_STATUS × List EFI_HANDLE
  Children : EFI_HANDLE → EFI_STATUS × List EFI_HANDLE
  PartitionInfo : EFI_HANDLE → Option EFI_PARTITION_INFO_PROTOCOL
  DevicePath : EFI_HANDLE → Option (List EFI_DEVICE_PATH_NODE)

/-- A call that `FindPartitionInfo` makes outside the file; `Print` is the message
`Falling back to alternative boot path`. -/
inductive RESOLVER_EVENT
  | ParseHandleDatabaseParents (Handle : EFI_HANDLE)
  | ParseHandleDatabaseForChildControllers (Handle : EFI_HANDLE)
  | HandleProtocol (Handle : EFI_HANDLE)
  | DevicePathFromHandle (Handle : EFI_HANDLE)
  | Print
  deriving DecidableEq, Repr

/-! ## `AndroidLauncher.h` and `AndroidLauncher.c`: the partition lookup

`ErrorPrint (...)` lines only report, `ASSERT (...)` is the no-op of a release build and
`FreePool` only releases memory: they are left out. -/

@[simp] abbrev MAX_PARTITION_NAME_SIZE : Nat := 36

/-- The loop over the nodes of a device path in `LocatePartitionIndex`. -/
def LocatePartitionIndexNodes : List EFI_DEVICE_PATH_NODE → Nat
  | [] => 0
  | Node :: Rest =>
    if Node.NodeType = MEDIA_DEVICE_PATH ∧ Node.SubType = MEDIA_HARDDRIVE_DP then
      Node.PartitionNumber
    else LocatePartitionIndexNodes Rest

/-- The function `LocatePartitionIndex`: the index and the calls made. -/
def LocatePartitionIndex (Db : HANDLE_DATABASE) (DeviceHandle : EFI_HANDLE) :
    Nat × List RESOLVER_EVENT :=
  if DeviceHandle = 0 then (0, [])
  else
    match Db.DevicePath DeviceHandle with
    | none => (0, [RESOLVER_EVENT.DevicePathFromHandle DeviceHandle])
    | some DevicePath =>
      (LocatePartitionIndexNodes DevicePath, [RESOLVER_EVENT.DevicePathFromHandle DeviceHandle])

/-- The locals `FoundHandle`, `FoundHandleGeneric` and `FoundHandleAlt` of
`FindPartitionInfo`. -/
structure FOUND_HANDLES where
  FoundHandle : EFI_HANDLE
  FoundHandleGeneric : EFI_HANDLE
  FoundHandleAlt : EFI_HANDLE
  deriving DecidableEq, Repr

/-- The part `Look for A/B Names` of the inner loop of `FindPartitionInfo`, for the child
handle `Child` whose GPT partition name is `Name`. The sums and differences of a character
and `BootChain` are `UINT32` operations. -/
def FindPartitionInfoName (PartitionBasename : List Nat) (PartitionBasenameLen BootChain : Nat)
    (Found : FOUND_HANDLES) (Child : EFI_HANDLE) (Name : List Nat) : FOUND_HANDLES :=
  if StrCmp Name PartitionBasename = 0 then
    { Found with FoundHandleGeneric := Child }
  else if PartitionBasenameLen + 2 = StrLen Name then
    match StrStr Name PartitionBasename with
    | none => Found
    | some SubString =>
      if SubString = 2 ∧ CharAt Name 1 = 95 then
        let Found1 : FOUND_HANDLES :=
          if CharAt Name 0 = (65 + BootChain) % UINT32_MODULUS ∨
              CharAt Name 0 = (97 + BootChain) % UINT32_MODULUS then
            { Found with FoundHandle := Child }
          else Found
        if CharAt Name 0 = (66 + UINT32_MODULUS - BootChain) % UINT32_MODULUS ∨
            CharAt Name 0 = (98 + UINT32_MODULUS - BootChain) % UINT32_MODULUS then
          { Found1 with FoundHandleAlt := Child }
        else Found1
      else if SubString = 0 ∧ CharAt Name PartitionBasenameLen = 95 then
        if CharAt Name (PartitionBasenameLen + 1) = (97 + BootChain) % UINT32_MODULUS ∨
            CharAt Name (PartitionBasenameLen + 1) = (65 + BootChain) % UINT32_MODULUS then
          { Found with FoundHandle := Child }
        else if CharAt Name (PartitionBasenameLen + 1)
              = (98 + UINT32_MODULUS - BootChain) % UINT32_MODULUS ∨
            CharAt Name (PartitionBasenameLen + 1)
              = (66 + UINT32_MODULUS - BootChain) % UINT32_MODULUS then
          { Found with FoundHandleAlt := Child }
        else Found
      else Found
  else Found

/-- One pass of the inner loop of `FindPartitionInfo`: a child without the partition
information protocol or with a type other than GPT is skipped. -/
def FindPartitionInfoChild (Db : HANDLE_DATABASE) (PartitionBasename : List Nat)
    (PartitionBasenameLen BootChain : Nat) (Found : FOUND_HANDLES) (Child : EFI_HANDLE) :
    FOUND_HANDLES :=
  match Db.PartitionInfo Child with
  | none => Found
  | some PartitionInfo =>
    if PartitionInfo.PartitionType ≠ PARTITION_TYPE_GPT then Found
    else
      FindPartitionInfoName PartitionBasename PartitionBasenameLen BootChain Found Child
        PartitionInfo.PartitionName

/-- The inner loop of `FindPartitionInfo` over the child handles still to visit. -/
def FindPartitionInfoChildren (Db : HANDLE_DATABASE) (PartitionBasename : List Nat)
    (PartitionBasenameLen BootChain : Nat) :
    List EFI_HANDLE → FOUND_HANDLES → List RESOLVER_EVENT → FOUND_HANDLES × List RESOLVER_EVENT
  | [], Found, Trace => (Found, Trace)
  | Child :: Rest, Found, Trace =>
    FindPartitionInfoChildren Db PartitionBasename PartitionBasenameLen BootChain Rest
      (FindPartitionInfoChild Db PartitionBasename PartitionBasenameLen BootChain Found Child)
      (Trace ++ [RESOLVER_EVENT.HandleProtocol Child])

/-- The outer loop of `FindPartitionInfo` over the parent handles still to visit. The first
component is `some Status` when the function returns `Status` from inside the loop. -/
def FindPartitionInfoParents (Db : HANDLE_DATABASE) (PartitionBasename : List Nat)
    (PartitionBasenameLen BootChain : Nat) :
    List EFI_HANDLE → FOUND_HANDLES → List RESOLVER_EVENT →
      Option EFI_STATUS × FOUND_HANDLES × List RESOLVER_EVENT
  | [], Found, Trace => (none, Found, Trace)
  | Parent :: Rest, Found, Trace =>
    let Trace1 := Trace ++ [RESOLVER_EVENT.ParseHandleDatabaseForChildControllers Parent]
    if EFI_ERROR (Db.Children Parent).1 then
      (some (Db.Children Parent).1, Found, Trace1)
    else
      match FindPartitionInfoChildren Db PartitionBasename PartitionBasenameLen BootChain
          (Db.Children Parent).2 Found Trace1 with
      | (Found1, Trace2) =>
        FindPartitionInfoParents Db PartitionBasename PartitionBasenameLen BootChain Rest
          Found1 Trace2

/-- What `FindPartitionInfo` hands back: the status, the contents of `*PartitionIndex` and
`*PartitionHandle` (`none` for a `NULL` pointer) and the calls made. -/
structure FIND_PARTITION_RESULT where
  Status : EFI_STATUS
  PartitionIndex : Option Nat
  PartitionHandle : Option EFI_HANDLE
  Trace : List RESOLVER_EVENT

/-- The handle that `FindPartitionInfo` settles on after the loops, with the calls made so
far: `FoundHandle`, else `FoundHandleGeneric`, else `FoundHandleAlt` with the message. -/
def FindPartitionInfoChoice (Found : FOUND_HANDLES) (Trace : List RESOLVER_EVENT) :
    EFI_HANDLE × List RESOLVER_EVENT :=
  if Found.FoundHandle = 0 then
    if Found.FoundHandleGeneric ≠ 0 then (Found.FoundHandleGeneric, Trace)
    else (Found.FoundHandleAlt, Trace ++ [RESOLVER_EVENT.Print])
  else (Found.FoundHandle, Trace)

/-- The part of `FindPartitionInfo` after the loops. -/
def FindPartitionInfoFinish (Db : HANDLE_DATABASE) (Found : FOUND_HANDLES)
    (Trace : List RESOLVER_EVENT) (PartitionIndex : Option Nat)
    (PartitionHandle : Option EFI_HANDLE) : FIND_PARTITION_RESULT :=
  if Found.FoundHandle = 0 ∧ Found.FoundHandleGeneric = 0 ∧ Found.FoundHandleAlt = 0 then
    { Status := EFI_NOT_FOUND, PartitionIndex := PartitionIndex
      PartitionHandle := PartitionHandle, Trace := Trace }
  else
    match FindPartitionInfoChoice Found Trace with
    | (FoundHandle, Trace1) =>
      match LocatePartitionIndex Db FoundHandle with
      | (FoundIndex, Trace2) =>
        if FoundIndex = 0 then
          { Status := EFI_DEVICE_ERROR, PartitionIndex := PartitionIndex
            PartitionHandle := PartitionHandle, Trace := Trace1 ++ Trace2 }
        else
          { Status := EFI_SUCCESS
            PartitionIndex := PartitionIndex.map (fun _ => FoundIndex)
            PartitionHandle := PartitionHandle.map (fun _ => FoundHandle)
            Trace := Trace1 ++ Trace2 }

/-- The function `FindPartitionInfo`. `PartitionBasename` is `none` for a `NULL` pointer;
`PartitionIndex` and `PartitionHandle` hold the contents of the two optional outputs on
entry, `none` for a `NULL` pointer. -/
def FindPartitionInfo (Db : HANDLE_DATABASE) (DeviceHandle : EFI_HANDLE)
    (PartitionBasename : Option (List Nat)) (BootChain : Nat) (PartitionIndex : Option Nat)
    (PartitionHandle : Option EFI_HANDLE) : FIND_PARTITION_RESULT :=
  if BootChain > 1 then
    { Status := EFI_UNSUPPORTED, PartitionIndex := PartitionIndex
      PartitionHandle := PartitionHandle, Trace := [] }
  else
    match PartitionBasename with
    | none =>
      { Status := EFI_INVALID_PARAMETER, PartitionIndex := PartitionIndex
        PartitionHandle := PartitionHandle, Trace := [] }
    | some Basename =>
      if EFI_ERROR (Db.Parents DeviceHandle).1 then
        { Status := (Db.Parents DeviceHandle).1, PartitionIndex := PartitionIndex
          PartitionHandle := PartitionHandle
          Trace := [RESOLVER_EVENT.ParseHandleDatabaseParents DeviceHandle] }
      else
        match FindPartitionInfoParents Db Basename
            (StrnLenS Basename MAX_PARTITION_NAME_SIZE) BootChain (Db.Parents DeviceHandle).2
            { FoundHandle := 0, FoundHandleGeneric := 0, FoundHandleAlt := 0 }
            [RESOLVER_EVENT.ParseHandleDatabaseParents DeviceHandle] with
        | (some Status, _, Trace) =>
          { Status := Status, PartitionIndex := PartitionIndex
            PartitionHandle := PartitionHandle, Trace := Trace }
        | (none, Found, Trace) =>
          FindPartitionInfoFinish Db Found Trace PartitionIndex PartitionHandle

/-! ## `ProcessBootParams`

The two chain variables are held in the same variable store as the six of `mRFAbVariable`,
under the keys 6 and 7. The constants of `AndroidLauncher.h` are strings; the limit
`RSIZE_MAX` of the library (`PcdMaximumUnicodeStringLength`) is a parameter. Code units: 48
to 57 are the digits, 32 is the space, 9 the tab. The `ErrorPrint (...)` lines only report and
are left out. -/

/-- The variable `BootChainFwCurrent` (`BOOT_FW_VARIABLE_NAME`) by its key in the store. -/
@[simp] abbrev BOOT_FW_VARIABLE_NAME : Nat := 6

/-- The variable `BootChainOsCurrent` (`BOOT_OS_VARIABLE_NAME`) by its key in the store. -/
@[simp] abbrev BOOT_OS_VARIABLE_NAME : Nat := 7

def BOOTMODE_BOOTIMG_STRING : List Nat := L "bootmode=bootimg"
def BOOTMODE_RECOVERY_STRING : List Nat := L "bootmode=recovery"
def BOOTCHAIN_OVERRIDE_STRING : List Nat := L "bootchain="

@[simp] abbrev MAX_UINT64 : Nat := 18446744073709551615

/-- What `AndroidLauncher.c` reads of an `EFI_LOADED_IMAGE_PROTOCOL`. -/
structure EFI_LOADED_IMAGE_PROTOCOL where
  DeviceHandle : EFI_HANDLE
  LoadOptionsSize : Nat
  LoadOptions : List Nat

/-- The library function `InternalIsDecimalDigitCharacter`. -/
def InternalIsDecimalDigitCharacter (c : Nat) : Bool := decide (48 ≤ c ∧ c ≤ 57)

/-- The digit loop of `StrDecimalToUint64S`: the status and `*Data`. -/
def StrDecimalToUint64SDigits : List Nat → Nat → EFI_STATUS × Nat
  | [], Data => (EFI_SUCCESS, Data)
  | c :: Rest, Data =>
    if InternalIsDecimalDigitCharacter c then
      if Data > (MAX_UINT64 - (c - 48)) / 10 then (EFI_UNSUPPORTED, MAX_UINT64)
      else StrDecimalToUint64SDigits Rest (Data * 10 + (c - 48))
    else (EFI_SUCCESS, Data)

/-- The library function `StrDecimalToUint64S` called with `EndPointer == NULL`: the status
and `*Data`, which holds `Data` on entry. Pad spaces and tabs, then leading zeros, are
skipped; the digits that follow are read until the first other code unit. -/
def StrDecimalToUint64S (RSIZE_MAX : Nat) (Str : List Nat) (Data : Nat) : EFI_STATUS × Nat :=
  if RSIZE_MAX ≠ 0 ∧ ¬ (StrnLenS Str (RSIZE_MAX + 1) ≤ RSIZE_MAX) then
    (EFI_INVALID_PARAMETER, Data)
  else
    StrDecimalToUint64SDigits
      ((Str.dropWhile (fun c => decide (c = 32 ∨ c = 9))).dropWhile (fun c => decide (c = 48)))
      0

/-- The part of `ProcessBootParams` under `if (LoadedImage->LoadOptionsSize)`. -/
def ProcessBootParamsLoadOptions (Cfg : NVIDIA_CONFIGURATION) (RSIZE_MAX : Nat)
    (LoadedImage : EFI_LOADED_IMAGE_PROTOCOL) (BootParams : L4T_BOOT_PARAMS) :
    L4T_BOOT_PARAMS :=
  if LoadedImage.LoadOptionsSize ≠ 0 then
    let BootParams1 : L4T_BOOT_PARAMS :=
      if (StrStr LoadedImage.LoadOptions BOOTMODE_BOOTIMG_STRING).isSome then
        { BootParams with BootMode := Cfg.NVIDIA_L4T_BOOTMODE_BOOTIMG }
      else BootParams
    let BootParams2 : L4T_BOOT_PARAMS :=
      if (StrStr LoadedImage.LoadOptions BOOTMODE_RECOVERY_STRING).isSome then
        { BootParams1 with BootMode := Cfg.NVIDIA_L4T_BOOTMODE_RECOVERY }
      else BootParams1
    match StrStr LoadedImage.LoadOptions BOOTCHAIN_OVERRIDE_STRING with
    | none => BootParams2
    | some Offset =>
      match StrDecimalToUint64S RSIZE_MAX
          (LoadedImage.LoadOptions.drop (Offset + StrLen BOOTCHAIN_OVERRIDE_STRING)) 0 with
      | (Status, StringValue) =>
        if EFI_ERROR Status then BootParams2
        else if StringValue ≤ 1 then
          { BootParams2 with BootChain := StringValue % UINT32_MODULUS }
        else BootParams2
  else BootParams

/-- The part of `ProcessBootParams` between the `NULL` checks and the call of
`ValidateRootfsStatus`: `*BootParams` at that call and the machine. The local `BootChain` is
not initialised in the source; it is read only after a `GetVariable` that succeeded. -/
def ProcessBootParamsResolve (Cfg : NVIDIA_CONFIGURATION) (RSIZE_MAX : Nat) (m : MACHINE)
    (LoadedImage : EFI_LOADED_IMAGE_PROTOCOL) : L4T_BOOT_PARAMS × MACHINE :=
  let BootParams : L4T_BOOT_PARAMS :=
    { BootMode := Cfg.NVIDIA_L4T_BOOTMODE_BOOTIMG, BootChain := 0 }
  match gRT_GetVariable m BOOT_FW_VARIABLE_NAME 0 with
  | (Status, BootChain, m1) =>
    let BootParams1 : L4T_BOOT_PARAMS :=
      if EFI_ERROR Status = false ∧ BootChain ≤ 1 then
        { BootParams with BootChain := BootChain }
      else BootParams
    match gRT_GetVariable m1 BOOT_OS_VARIABLE_NAME BootChain with
    | (Status, BootChain, m2) =>
      let BootParams2 : L4T_BOOT_PARAMS :=
        if EFI_ERROR Status = false ∧ BootChain ≤ 1 then
          { BootParams1 with BootChain := BootChain }
        else BootParams1
      (ProcessBootParamsLoadOptions Cfg RSIZE_MAX LoadedImage BootParams2, m2)

/-- The part of `ProcessBootParams` after the call of `ValidateRootfsStatus`, from how that
call ended: after a cold reset nothing more runs; otherwise `BootChainOsCurrent` is written
and `EFI_SUCCESS` returned. -/
def ProcessBootParamsStore (Validated : OUTCOME × L4T_BOOT_PARAMS × MACHINE) :
    OUTCOME × L4T_BOOT_PARAMS × MACHINE :=
  match Validated with
  | (OUTCOME.ColdReset, BootParams, m) => (OUTCOME.ColdReset, BootParams, m)
  | (OUTCOME.Returned _, BootParams, m) =>
    (OUTCOME.Returned EFI_SUCCESS, BootParams,
      (gRT_SetVariable m BOOT_OS_VARIABLE_NAME BootParams.BootChain).2)

/-- The function `ProcessBootParams`: how the call ends, `*BootParams` and the machine at
that point. `LoadedImage` and `BootParams` are `none` for a `NULL` pointer. -/
def ProcessBootParams (Cfg : NVIDIA_CONFIGURATION) (RSIZE_MAX : Nat) (m : MACHINE)
    (LoadedImage : Option EFI_LOADED_IMAGE_PROTOCOL) (BootParams : Option L4T_BOOT_PARAMS) :
    OUTCOME × Option L4T_BOOT_PARAMS × MACHINE :=
  match LoadedImage, BootParams with
  | some LoadedImage, some _ =>
    match ProcessBootParamsResolve Cfg RSIZE_MAX m LoadedImage with
    | (BootParams1, m1) =>
      match ProcessBootParamsStore (ValidateRootfsStatus Cfg m1 BootParams1) with
      | (Outcome, BootParams2, m2) => (Outcome, some BootParams2, m2)
  | _, _ => (OUTCOME.Returned EFI_INVALID_PARAMETER, BootParams, m)

/-! ## `BootAndroidStylePartition` and the entry point `AndroidLauncher`

The loader works on what the firmware and the libraries give it. That environment is a
parameter (`LOADER_ENVIRONMENT`): the handle database, the protocols on a partition handle,
the answers of `ReadDisk`, of the pool and page allocators, of `AndroidBootImgGetImgSize`, of
the `libfdt` functions, of `InstallConfigurationTable` and of `AndroidBootImgBoot`, and the
two constants `sizeof (ANDROID_BOOTIMG_HEADER)` and `PcdSignedImageHeaderSize`. A buffer is the
list of its bytes, a device tree is the list of the bytes of its blob. The state that changes
is the device tree installed under `gFdtTableGuid` and the calls made so far. A call of the
loader ends with `some Status` when it returns `Status`; it ends with `none` when it reads
through the local pointer `ExpandedDtb` while that pointer is unassigned or `NULL`, where the
language defines no behaviour. The `ErrorPrint (...)` and `DEBUG ((...))` lines only report
and are left out. -/

/-- What the loader reads of `BlockIo->Media`. -/
structure EFI_BLOCK_IO_MEDIA where
  MediaId : Nat
  BlockSize : Nat
  LastBlock : Nat

/-- The environment of the loader. `BlockIoProtocol` and `DiskIoProtocol` are the answers of
`gBS->HandleProtocol` for the two protocols on a handle; `ReadDisk Handle MediaId Offset Size`
is the answer of `DiskIo->ReadDisk` of the protocol on that handle and the bytes read;
`AcpiTable` is the answer of `EfiGetSystemConfigurationTable (&gEfiAcpiTableGuid, ...)`. -/
structure LOADER_ENVIRONMENT where
  Db : HANDLE_DATABASE
  BlockIoProtocol : EFI_HANDLE → EFI_STATUS × EFI_BLOCK_IO_MEDIA
  DiskIoProtocol : EFI_HANDLE → EFI_STATUS
  ReadDisk : EFI_HANDLE → Nat → Nat → Nat → EFI_STATUS × List Nat
  ANDROID_BOOTIMG_HEADER_SIZE : Nat
  PcdSignedImageHeaderSize : Nat
  AndroidBootImgGetImgSize : List Nat → EFI_STATUS × Nat
  AllocatePool : Nat → Bool
  AcpiTable : EFI_STATUS
  fdt_check_header : List Nat → Int
  fdt_totalsize : List Nat → Nat
  AllocatePages : Nat → Bool
  fdt_open_into : List Nat → Nat → Int × List Nat
  InstallConfigurationTable : List Nat → EFI_STATUS
  AndroidBootImgBoot : List Nat → Nat → EFI_STATUS

/-- A call that `BootAndroidStylePartition` makes. -/
inductive LOADER_EVENT
  | FindPartitionInfo (PartitionBasename : List Nat) (BootChain : Nat)
  | HandleProtocolBlockIo (Handle : EFI_HANDLE)
  | HandleProtocolDiskIo (Handle : EFI_HANDLE)
  | ReadDisk (Handle : EFI_HANDLE) (MediaId Offset Size : Nat)
  | AndroidBootImgGetImgSize (Header : List Nat)
  | AllocatePool (Size : Nat)
  | EfiGetSystemConfigurationTableAcpi
  | EfiGetSystemConfigurationTableFdt
  | AllocatePages (Pages : Nat)
  | InstallConfigurationTable (Table : List Nat)
  | FreePages
  | AndroidBootImgBoot (Image : List Nat) (ImageSize : Nat)
  deriving DecidableEq, Repr

/-- The state the loader changes: the device tree installed under `gFdtTableGuid` (`none`
when there is none) and the calls made so far, oldest first. -/
structure LOADER_STATE where
  FdtTable : Option (List Nat)
  Trace : List LOADER_EVENT

/-- Record a call. -/
def LOADER_STATE.Call (s : LOADER_STATE) (e : LOADER_EVENT) : LOADER_STATE :=
  { s with Trace := s.Trace ++ [e] }

@[simp] abbrev UINT64_MODULUS : Nat := 18446744073709551616

/-- The macro `EFI_SIZE_TO_PAGES`. -/
def EFI_SIZE_TO_PAGES (Size : Nat) : Nat :=
  Size / 4096 + (if Size % 4096 ≠ 0 then 1 else 0)

/-- The service `gBS->InstallConfigurationTable (&gFdtTableGuid, Table)`: the table is
installed unless the answer is an error. -/
def gBS_InstallConfigurationTable (Env : LOADER_ENVIRONMENT) (s : LOADER_STATE)
    (Table : List Nat) : EFI_STATUS × LOADER_STATE :=
  if EFI_ERROR (Env.InstallConfigurationTable Table) then
    (Env.InstallConfigurationTable Table, s.Call (LOADER_EVENT.InstallConfigurationTable Table))
  else
    (Env.InstallConfigurationTable Table,
      { FdtTable := some Table
        Trace := s.Trace ++ [LOADER_EVENT.InstallConfigurationTable Table] })

/-- What the local `ExpandedDtb` holds when `AndroidBootImgBoot` is called. It is declared
without an initial value and is assigned only by `AllocatePages` in the device tree branch:
it has no value when that branch is not taken, it is `NULL` when the allocation failed, and
otherwise it points to the allocated pages. -/
inductive EXPANDED_DTB
  | Unassigned
  | Null
  | Pages
  deriving DecidableEq, Repr

/-- The end of `BootAndroidStylePartition`, from `if (CurrentDtb != NULL)` to the `return`.
`Status` is the local of that name, `CurrentDtb` the local of that name, `none` for `NULL`. -/
def BootAndroidStylePartitionRestore (Env : LOADER_ENVIRONMENT) (s : LOADER_STATE)
    (Status : EFI_STATUS) (CurrentDtb : Option (List Nat)) : Option EFI_STATUS × LOADER_STATE :=
  match CurrentDtb with
  | some Table =>
    (some (gBS_InstallConfigurationTable Env s Table).1,
      (gBS_InstallConfigurationTable Env s Table).2)
  | none => (some Status, s)

/-- The part of `BootAndroidStylePartition` from the call of `AndroidBootImgBoot` to the
end. The first component of the result is `some Status` when the function returns `Status`,
and `none` when it reads through a pointer that points to nothing: after a failed
`AndroidBootImgBoot` the argument `fdt_totalsize (ExpandedDtb)` of `FreePages` reads the
header behind `ExpandedDtb`, which is defined only when `ExpandedDtb` points to allocated
pages; with `ExpandedDtb` unassigned or `NULL` the language defines no behaviour from there
on, and the state is the one reached before that read. `FreePages` is recorded as a call,
without arguments. -/
def BootAndroidStylePartitionBoot (Env : LOADER_ENVIRONMENT) (s : LOADER_STATE)
    (Image : List Nat) (ImageSize : Nat) (ExpandedDtb : EXPANDED_DTB)
    (CurrentDtb : Option (List Nat)) : Option EFI_STATUS × LOADER_STATE :=
  let s1 : LOADER_STATE := s.Call (LOADER_EVENT.AndroidBootImgBoot Image ImageSize)
  let Status : EFI_STATUS := Env.AndroidBootImgBoot Image ImageSize
  if EFI_ERROR Status then
    match ExpandedDtb with
    | EXPANDED_DTB.Pages =>
      BootAndroidStylePartitionRestore Env (s1.Call LOADER_EVENT.FreePages) Status CurrentDtb
    | EXPANDED_DTB.Null => (none, s1)
    | EXPANDED_DTB.Unassigned => (none, s1)
  else BootAndroidStylePartitionRestore Env s1 Status CurrentDtb

/-- The part of `BootAndroidStylePartition` from `ExpandedDtb = AllocatePages (...)` on, for
the device tree blob `Dtb` found on the partition. `2 * fdt_totalsize (Dtb)` is a 32-bit
product. -/
def BootAndroidStylePartitionInstall (Env : LOADER_ENVIRONMENT) (s : LOADER_STATE)
    (Dtb Image : List Nat) (ImageSize : Nat) : Option EFI_STATUS × LOADER_STATE :=
  let Size : Nat := (2 * Env.fdt_totalsize Dtb) % UINT32_MODULUS
  let s1 : LOADER_STATE := s.Call (LOADER_EVENT.AllocatePages (EFI_SIZE_TO_PAGES Size))
  if Env.AllocatePages (EFI_SIZE_TO_PAGES Size) = true ∧ (Env.fdt_open_into Dtb Size).1 = 0 then
    let ExpandedDtb : List Nat := (Env.fdt_open_into Dtb Size).2
    let s2 : LOADER_STATE := s1.Call LOADER_EVENT.EfiGetSystemConfigurationTableFdt
    match s.FdtTable with
    | none => (some EFI_NOT_FOUND, s2)
    | some CurrentDtb =>
      match gBS_InstallConfigurationTable Env s2 ExpandedDtb with
      | (Status, s3) =>
        if EFI_ERROR Status then (some Status, s3.Call LOADER_EVENT.FreePages)
        else BootAndroidStylePartitionBoot Env s3 Image ImageSize EXPANDED_DTB.Pages
          (some CurrentDtb)
  else
    BootAndroidStylePartitionBoot Env s1 Image ImageSize
      (if Env.AllocatePages (EFI_SIZE_TO_PAGES Size) = true then EXPANDED_DTB.Pages
        else EXPANDED_DTB.Null)
      none

/-- The part of `BootAndroidStylePartition` under `if (EFI_ERROR (Status))` after the lookup of
the ACPI table: the device tree partition is looked up, read whole and checked. `Handle` is
the content of the local `PartitionHandle` on entry. -/
def BootAndroidStylePartitionDtb (Env : LOADER_ENVIRONMENT) (s : LOADER_STATE)
    (DeviceHandle : EFI_HANDLE) (BootImgDtbPartitionBasename : List Nat)
    (BootParams : L4T_BOOT_PARAMS) (Handle : EFI_HANDLE) (Image : List Nat) (ImageSize : Nat) :
    Option EFI_STATUS × LOADER_STATE :=
  let s1 : LOADER_STATE :=
    s.Call (LOADER_EVENT.FindPartitionInfo BootImgDtbPartitionBasename BootParams.BootChain)
  let Found : FIND_PARTITION_RESULT :=
    FindPartitionInfo Env.Db DeviceHandle (some BootImgDtbPartitionBasename) BootParams.BootChain
      none (some Handle)
  if EFI_ERROR Found.Status then (some Found.Status, s1)
  else
    let PartitionHandle : EFI_HANDLE := Found.PartitionHandle.getD Handle
    let s2 : LOADER_STATE := s1.Call (LOADER_EVENT.HandleProtocolBlockIo PartitionHandle)
    if EFI_ERROR (Env.BlockIoProtocol PartitionHandle).1 then
      (some (Env.BlockIoProtocol PartitionHandle).1, s2)
    else
      let Media : EFI_BLOCK_IO_MEDIA := (Env.BlockIoProtocol PartitionHandle).2
      let s3 : LOADER_STATE := s2.Call (LOADER_EVENT.HandleProtocolDiskIo PartitionHandle)
      if EFI_ERROR (Env.DiskIoProtocol PartitionHandle) then
        (some (Env.DiskIoProtocol PartitionHandle), s3)
      else
        let Size : Nat :=
          ((Media.LastBlock + 1) % UINT64_MODULUS * Media.BlockSize) % UINT64_MODULUS
        let s4 : LOADER_STATE := s3.Call (LOADER_EVENT.AllocatePool Size)
        if Env.AllocatePool Size = false then (some EFI_OUT_OF_RESOURCES, s4)
        else
          let s5 : LOADER_STATE :=
            s4.Call (LOADER_EVENT.ReadDisk PartitionHandle Media.MediaId 0 Size)
          let Read : EFI_STATUS × List Nat := Env.ReadDisk PartitionHandle Media.MediaId 0 Size
          if EFI_ERROR Read.1 then (some Read.1, s5)
          else if Env.fdt_check_header Read.2 ≠ 0 then
            if Env.fdt_check_header (Read.2.drop Env.PcdSignedImageHeaderSize) ≠ 0 then
              (some Read.1, s5)
            else
              BootAndroidStylePartitionInstall Env s5
                (Read.2.drop Env.PcdSignedImageHeaderSize) Image ImageSize
          else BootAndroidStylePartitionInstall Env s5 Read.2 Image ImageSize

/-- The part of `BootAndroidStylePartition` from `Image = AllocatePool (ImageSize)` on, for
the offset and the size that the header probe settled on. -/
def BootAndroidStylePartitionImage (Env : LOADER_ENVIRONMENT) (s : LOADER_STATE)
    (DeviceHandle : EFI_HANDLE) (BootImgDtbPartitionBasename : List Nat)
    (BootParams : L4T_BOOT_PARAMS) (PartitionHandle : EFI_HANDLE) (Media : EFI_BLOCK_IO_MEDIA)
    (Offset ImageSize : Nat) : Option EFI_STATUS × LOADER_STATE :=
  let s1 : LOADER_STATE := s.Call (LOADER_EVENT.AllocatePool ImageSize)
  if Env.AllocatePool ImageSize = false then (some EFI_OUT_OF_RESOURCES, s1)
  else
    let s2 : LOADER_STATE :=
      s1.Call (LOADER_EVENT.ReadDisk PartitionHandle Media.MediaId Offset ImageSize)
    let Read : EFI_STATUS × List Nat :=
      Env.ReadDisk PartitionHandle Media.MediaId Offset ImageSize
    if EFI_ERROR Read.1 then (some Read.1, s2)
    else
      let s3 : LOADER_STATE := s2.Call LOADER_EVENT.EfiGetSystemConfigurationTableAcpi
      if EFI_ERROR Env.AcpiTable then
        BootAndroidStylePartitionDtb Env s3 DeviceHandle BootImgDtbPartitionBasename BootParams
          PartitionHandle Read.2 ImageSize
      else
        BootAndroidStylePartitionBoot Env s3 Read.2 ImageSize EXPANDED_DTB.Unassigned none

/-- The part of `BootAndroidStylePartition` from the first `ReadDisk` on: the header is read
at offset 0 and, when `AndroidBootImgGetImgSize` refuses it, at the offset
`PcdSignedImageHeaderSize`. -/
def BootAndroidStylePartitionHeader (Env : LOADER_ENVIRONMENT) (s : LOADER_STATE)
    (DeviceHandle : EFI_HANDLE) (BootImgDtbPartitionBasename : List Nat)
    (BootParams : L4T_BOOT_PARAMS) (PartitionHandle : EFI_HANDLE) (Media : EFI_BLOCK_IO_MEDIA) :
    Option EFI_STATUS × LOADER_STATE :=
  let Read0 : EFI_STATUS × List Nat :=
    Env.ReadDisk PartitionHandle Media.MediaId 0 Env.ANDROID_BOOTIMG_HEADER_SIZE
  let s1 : LOADER_STATE :=
    s.Call (LOADER_EVENT.ReadDisk PartitionHandle Media.MediaId 0 Env.ANDROID_BOOTIMG_HEADER_SIZE)
  if EFI_ERROR Read0.1 then (some Read0.1, s1)
  else
    let s2 : LOADER_STATE := s1.Call (LOADER_EVENT.AndroidBootImgGetImgSize Read0.2)
    if EFI_ERROR (Env.AndroidBootImgGetImgSize Read0.2).1 then
      let Read1 : EFI_STATUS × List Nat :=
        Env.ReadDisk PartitionHandle Media.MediaId Env.PcdSignedImageHeaderSize
          Env.ANDROID_BOOTIMG_HEADER_SIZE
      let s3 : LOADER_STATE :=
        s2.Call (LOADER_EVENT.ReadDisk PartitionHandle Media.MediaId
          Env.PcdSignedImageHeaderSize Env.ANDROID_BOOTIMG_HEADER_SIZE)
      if EFI_ERROR Read1.1 then (some Read1.1, s3)
      else
        let s4 : LOADER_STATE := s3.Call (LOADER_EVENT.AndroidBootImgGetImgSize Read1.2)
        if EFI_ERROR (Env.AndroidBootImgGetImgSize Read1.2).1 then
          (some (Env.AndroidBootImgGetImgSize Read1.2).1, s4)
        else
          BootAndroidStylePartitionImage Env s4 DeviceHandle BootImgDtbPartitionBasename
            BootParams PartitionHandle Media Env.PcdSignedImageHeaderSize
            (Env.AndroidBootImgGetImgSize Read1.2).2
    else
      BootAndroidStylePartitionImage Env s2 DeviceHandle BootImgDtbPartitionBasename BootParams
        PartitionHandle Media 0 (Env.AndroidBootImgGetImgSize Read0.2).2

/-- The function `BootAndroidStylePartition`: `some Status` when it returns `Status`, `none`
when it reads through the unassigned or `NULL` pointer `ExpandedDtb`, and the state reached.
The local `PartitionHandle` has no initial value in the source and is read only after a
`FindPartitionInfo` that succeeded, which sets it; it starts at 0 here. -/
def BootAndroidStylePartition (Env : LOADER_ENVIRONMENT) (s : LOADER_STATE)
    (DeviceHandle : EFI_HANDLE) (BootImgPartitionBasename BootImgDtbPartitionBasename : List Nat)
    (BootParams : L4T_BOOT_PARAMS) : Option EFI_STATUS × LOADER_STATE :=
  let s1 : LOADER_STATE :=
    s.Call (LOADER_EVENT.FindPartitionInfo BootImgPartitionBasename BootParams.BootChain)
  let Found : FIND_PARTITION_RESULT :=
    FindPartitionInfo Env.Db DeviceHandle (some BootImgPartitionBasename) BootParams.BootChain
      none (some 0)
  if EFI_ERROR Found.Status then (some Found.Status, s1)
  else
    let PartitionHandle : EFI_HANDLE := Found.PartitionHandle.getD 0
    let s2 : LOADER_STATE := s1.Call (LOADER_EVENT.HandleProtocolBlockIo PartitionHandle)
    if EFI_ERROR (Env.BlockIoProtocol PartitionHandle).1 then
      (some (Env.BlockIoProtocol PartitionHandle).1, s2)
    else
      let s3 : LOADER_STATE := s2.Call (LOADER_EVENT.HandleProtocolDiskIo PartitionHandle)
      if EFI_ERROR (Env.DiskIoProtocol PartitionHandle) then
        (some (Env.DiskIoProtocol PartitionHandle), s3)
      else
        BootAndroidStylePartitionHeader Env s3 DeviceHandle BootImgDtbPartitionBasename
          BootParams PartitionHandle (Env.BlockIoProtocol PartitionHandle).2

def BOOTIMG_BASE_NAME : List Nat := L "boot"
def BOOTIMG_DTB_BASE_NAME : List Nat := L "kernel-dtb"
def RECOVERY_BASE_NAME : List Nat := L "recovery"
def RECOVERY_DTB_BASE_NAME : List Nat := L "recovery-dtb"

/-- The entry point `AndroidLauncher`. `LoadedImage` is the answer of
`gBS->HandleProtocol (ImageHandle, &gEfiLoadedImageProtocolGuid, ...)` and the protocol found.
The local `BootParams` has no initial value in the source; `ProcessBootParams` sets both of
its fields before it reads any. The result is how the call ends (`none` when
`BootAndroidStylePartition` reads through the unassigned or `NULL` pointer) and the two
states. -/
def AndroidLauncher (Cfg : NVIDIA_CONFIGURATION) (RSIZE_MAX : Nat) (Env : LOADER_ENVIRONMENT)
    (m : MACHINE) (s : LOADER_STATE) (LoadedImage : EFI_STATUS × EFI_LOADED_IMAGE_PROTOCOL) :
    Option OUTCOME × MACHINE × LOADER_STATE :=
  if EFI_ERROR LoadedImage.1 then (some (OUTCOME.Returned LoadedImage.1), m, s)
  else
    match ProcessBootParams Cfg RSIZE_MAX m (some LoadedImage.2)
        (some { BootMode := 0, BootChain := 0 }) with
    | (OUTCOME.ColdReset, _, m1) => (some OUTCOME.ColdReset, m1, s)
    | (OUTCOME.Returned Status, none, m1) => (some (OUTCOME.Returned Status), m1, s)
    | (OUTCOME.Returned Status, some BootParams, m1) =>
      if EFI_ERROR Status then (some (OUTCOME.Returned Status), m1, s)
      else if BootParams.BootMode = Cfg.NVIDIA_L4T_BOOTMODE_BOOTIMG then
        match BootAndroidStylePartition Env s LoadedImage.2.DeviceHandle BOOTIMG_BASE_NAME
            BOOTIMG_DTB_BASE_NAME BootParams with
        | (Status1, s1) => (Status1.map OUTCOME.Returned, m1, s1)
      else if BootParams.BootMode = Cfg.NVIDIA_L4T_BOOTMODE_RECOVERY then
        match BootAndroidStylePartition Env s LoadedImage.2.DeviceHandle RECOVERY_BASE_NAME
            RECOVERY_DTB_BASE_NAME BootParams with
        | (Status1, s1) => (Status1.map OUTCOME.Returned, m1, s1)
      else (some (OUTCOME.Returned Status), m1, s)

/-! ## Vocabulary of the statements -/

/-- Index of the retry counter of a slot (`RF_RETRY_A` for slot A, `RF_RETRY_B` otherwise),
as `GetRetryCountFrommRootfsInfo` and `SetRetryCountTomRootfsInfo` select it. -/
def RetryIndex (RootfsSlot : Nat) : Nat :=
  if RootfsSlot = ROOTFS_SLOT_A then RF_RETRY_A else RF_RETRY_B

/-- Index of the status variable of a slot, as `SetStatusTomRootfsInfo` selects it. -/
def StatusIndex (RootfsSlot : Nat) : Nat :=
  if RootfsSlot = ROOTFS_SLOT_A then RF_STATUS_A else RF_STATUS_B

/-- Status that `RFGetVariable` returns for a variable of the store. -/
def LoadStatus (Store : VARIABLE_STORE) (Index : Nat) : EFI_STATUS :=
  (RFGetVariable (MACHINE.Entry Store) Index 0).1

/-- Value that `RFGetVariable` leaves in `*Value` for a variable of the store. -/
def LoadedValue (Store : VARIABLE_STORE) (Index : Nat) : Nat :=
  (RFGetVariable (MACHINE.Entry Store) Index 0).2.1

/-- All six variables load: `RFGetVariable` returns `EFI_SUCCESS` for each index. -/
def VARIABLE_STORE.Loads (Store : VARIABLE_STORE) : Prop :=
  ∀ Index, Index < RF_VARIABLE_INDEX_MAX → LoadStatus Store Index = EFI_SUCCESS

/-- Every `SetVariable` call on the store, deleting ones included, is answered `EFI_SUCCESS`. -/
def VARIABLE_STORE.WritesSucceed (Store : VARIABLE_STORE) : Prop :=
  ∀ Index Data, Store.SetResult Index Data = EFI_SUCCESS

/-- The six `GetVariable` calls of the first loop of `ValidateRootfsStatus`. -/
def ReadTrace : List EVENT :=
  (List.range RF_VARIABLE_INDEX_MAX).map EVENT.GetVariable

/-- The value of `mRootfsInfo` after the first loop of `ValidateRootfsStatus` has run to its
end from the entry machine: every `Value` is the loaded one, no `UpdateFlag` is set. -/
def LoadedInfo (Store : VARIABLE_STORE) : L4T_RF_AB_PARAM :=
  { RootfsVar := fun i =>
      if i < RF_VARIABLE_INDEX_MAX then { Value := LoadedValue Store i, UpdateFlag := 0 }
      else { Value := 0, UpdateFlag := 0 }
    CurrentSlot := 0 }

/-- The snapshot after the branch of `ValidateRootfsStatus` taken when the current slot is
bootable: retry count of the slot decremented, its status `BOOTING`, both flagged. -/
def BootableInfo (Info : L4T_RF_AB_PARAM) (Slot : Nat) : L4T_RF_AB_PARAM :=
  (((Info.SetValue (RetryIndex Slot)
      (((Info.RootfsVar (RetryIndex Slot)).Value + (UINT32_MODULUS - 1)) % UINT32_MODULUS)).SetUpdateFlag
      (RetryIndex Slot) 1).SetValue (StatusIndex Slot) ANDROIDLAUNCHER_STATUS_BOOTING).SetUpdateFlag
      (StatusIndex Slot) 1

/-- The snapshot after the branch of `ValidateRootfsStatus` that requests a chain switch:
status of the current slot unbootable, `BootChainFwNext` the other slot, both flagged. -/
def SwitchInfo (Cfg : NVIDIA_CONFIGURATION) (Info : L4T_RF_AB_PARAM) (Slot NonCurrentSlot : Nat) :
    L4T_RF_AB_PARAM :=
  (((Info.SetValue (StatusIndex Slot) (ANDROIDLAUNCHER_STATUS_UNBOOTABLE Cfg)).SetUpdateFlag
      (StatusIndex Slot) 1).SetValue RF_FW_NEXT NonCurrentSlot).SetUpdateFlag RF_FW_NEXT 1

/-- The snapshot after the branch of `ValidateRootfsStatus` taken when neither slot is
bootable: both statuses unbootable and flagged. -/
def ExhaustedInfo (Cfg : NVIDIA_CONFIGURATION) (Info : L4T_RF_AB_PARAM)
    (Slot NonCurrentSlot : Nat) : L4T_RF_AB_PARAM :=
  (((Info.SetValue (StatusIndex Slot) (ANDROIDLAUNCHER_STATUS_UNBOOTABLE Cfg)).SetUpdateFlag
      (StatusIndex Slot) 1).SetValue (StatusIndex NonCurrentSlot)
      (ANDROIDLAUNCHER_STATUS_UNBOOTABLE Cfg)).SetUpdateFlag (StatusIndex NonCurrentSlot) 1

/-- The `SetVariable` calls a complete commit of the flagged entries among `Indices` makes. -/
def CommitTrace (Info : L4T_RF_AB_PARAM) (Indices : List Nat) : List EVENT :=
  (Indices.filter (fun i => decide ((Info.RootfsVar i).UpdateFlag ≠ 0))).map
    (fun i => EVENT.SetVariable i (Info.RootfsVar i).Value)

/-- The store after a complete commit of the flagged entries among `Indices`. -/
def CommitStore (Info : L4T_RF_AB_PARAM) (Indices : List Nat) (Store : VARIABLE_STORE) :
    VARIABLE_STORE :=
  { Cell := fun i =>
      if i ∈ Indices ∧ (Info.RootfsVar i).UpdateFlag ≠ 0 then
        VARIABLE_CELL.Present (Info.RootfsVar i).Value
      else Store.Cell i
    SetResult := Store.SetResult }

/-- All-or-nothing reading of a commit: after `CheckAndUpdateVariable` the store holds the
snapshot `Value` under every flagged index, or it holds under every flagged index what it
held before. -/
def CommitIsAllOrNothing (m : MACHINE) : Prop :=
  (∀ i, i < RF_VARIABLE_INDEX_MAX → (m.mRootfsInfo.RootfsVar i).UpdateFlag ≠ 0 →
      (CheckAndUpdateVariable m).2.Store.Cell i
        = VARIABLE_CELL.Present (m.mRootfsInfo.RootfsVar i).Value) ∨
    (∀ i, i < RF_VARIABLE_INDEX_MAX → (m.mRootfsInfo.RootfsVar i).UpdateFlag ≠ 0 →
      (CheckAndUpdateVariable m).2.Store.Cell i = m.Store.Cell i)

/-- What the loop body of `FindPartitionInfo` does with a GPT partition name when no handle
has been found yet and the child handle is 1: the handle 1 appears in the field of each
category the name is put in. -/
def ClassifyPartitionName (PartitionBasename : List Nat) (BootChain : Nat) (Name : List Nat) :
    FOUND_HANDLES :=
  FindPartitionInfoName PartitionBasename (StrnLenS PartitionBasename MAX_PARTITION_NAME_SIZE)
    BootChain { FoundHandle := 0, FoundHandleGeneric := 0, FoundHandleAlt := 0 } 1 Name

/-- The name is a primary match: the loop body stores the child in `FoundHandle`. -/
def IsPrimaryMatch (PartitionBasename : List Nat) (BootChain : Nat) (Name : List Nat) : Bool :=
  decide ((ClassifyPartitionName PartitionBasename BootChain Name).FoundHandle = 1)

/-- The name is a generic match: the loop body stores the child in `FoundHandleGeneric`. -/
def IsGenericMatch (PartitionBasename : List Nat) (BootChain : Nat) (Name : List Nat) : Bool :=
  decide ((ClassifyPartitionName PartitionBasename BootChain Name).FoundHandleGeneric = 1)

/-- The name is an alternate match: the loop body stores the child in `FoundHandleAlt`. -/
def IsAlternateMatch (PartitionBasename : List Nat) (BootChain : Nat) (Name : List Nat) :
    Bool :=
  decide ((ClassifyPartitionName PartitionBasename BootChain Name).FoundHandleAlt = 1)

/-- What the lines of `ProcessBootParams` under `See if boot option is passed in` take as the
override, in closed form: `none` when there are no load options, when `StrStr` finds no
`bootchain=`, or when `StrDecimalToUint64S` returns an error; otherwise the value that
`StrDecimalToUint64S` returns for the text after the occurrence `StrStr` found. -/
def ParsedBootChainOverride (RSIZE_MAX : Nat) (LoadedImage : EFI_LOADED_IMAGE_PROTOCOL) :
    Option Nat :=
  if LoadedImage.LoadOptionsSize = 0 then none
  else
    match StrStr LoadedImage.LoadOptions BOOTCHAIN_OVERRIDE_STRING with
    | none => none
    | some Offset =>
      if EFI_ERROR (StrDecimalToUint64S RSIZE_MAX
          (LoadedImage.LoadOptions.drop (Offset + BOOTCHAIN_OVERRIDE_STRING.length)) 0).1 then
        none
      else
        some (StrDecimalToUint64S RSIZE_MAX
          (LoadedImage.LoadOptions.drop (Offset + BOOTCHAIN_OVERRIDE_STRING.length)) 0).2

/-- A blank: the space (32) or the tab (9). -/
def IsBlank (c : Nat) : Bool := decide (c = 32 ∨ c = 9)

/-- A decimal digit: a code unit from `0` (48) to `9` (57). -/
def IsDecimalDigit (c : Nat) : Bool := decide (48 ≤ c ∧ c ≤ 57)

/-- The number that a list of decimal digits writes in base 10, the most significant digit
first; the empty list writes 0. -/
def DecimalNumber (Digits : List Nat) : Nat :=
  Digits.foldl (fun n c => 10 * n + (c - 48)) 0

/-- In the words of the specification: the number `N` of an override `bootchain=N`, given the
text that follows `bootchain=` in the load options. It is the number written by the decimal
digits that follow, blanks before them skipped; when no digit follows, it is 0. -/
def OverrideNumber (Text : List Nat) : Nat :=
  DecimalNumber ((Text.dropWhile IsBlank).takeWhile IsDecimalDigit)

/-- The value of a chain variable, `none` when it is absent or cannot be read. -/
def ChainVariable (Store : VARIABLE_STORE) (Index : Nat) : Option Nat :=
  match Store.Cell Index with
  | VARIABLE_CELL.Present v => some v
  | _ => none

/-- The initial chain in the words of the specification, without an override: the OS-chain
value when present and at most 1, otherwise the firmware-chain value when present and at most
1, otherwise 0. -/
def InitialBootChainOfVariables (OsChain FwChain : Option Nat) : Nat :=
  match OsChain with
  | some v => if v ≤ 1 then v else
    match FwChain with
    | some w => if w ≤ 1 then w else 0
    | none => 0
  | none =>
    match FwChain with
    | some w => if w ≤ 1 then w else 0
    | none => 0

/-- The initial chain in the words of the specification: the override `N` when it is present
and at most 1, otherwise the chain resolved from the variables. -/
def InitialBootChain (Override OsChain FwChain : Option Nat) : Nat :=
  match Override with
  | some N => if N ≤ 1 then N else InitialBootChainOfVariables OsChain FwChain
  | none => InitialBootChainOfVariables OsChain FwChain

/-- What a run of the rootfs validation leaves alone: the answers of the store to writes, the
content under every key from `RF_VARIABLE_INDEX_MAX` on, and the trace so far, to which calls
are added of which none writes or deletes under such a key. -/
def EngineFrame (m m1 : MACHINE) : Prop :=
  m1.Store.SetResult = m.Store.SetResult ∧
  (∀ i, RF_VARIABLE_INDEX_MAX ≤ i → m1.Store.Cell i = m.Store.Cell i) ∧
  ∃ T, m1.Trace = m.Trace ++ T ∧
    ∀ i, RF_VARIABLE_INDEX_MAX ≤ i →
      EVENT.DeleteVariable i ∉ T ∧ ∀ v, EVENT.SetVariable i v ∉ T

/-- The chain-switch path of `ValidateRootfsStatus` is taken from the entry machine: the mode
is not recovery, all six variables load, the two statuses are not both unbootable, the loaded
retry count of the current slot is 0 and that of the other slot is not. -/
def OnChainSwitchPath (Cfg : NVIDIA_CONFIGURATION) (Store : VARIABLE_STORE)
    (BootParams : L4T_BOOT_PARAMS) : Prop :=
  BootParams.BootMode ≠ Cfg.NVIDIA_L4T_BOOTMODE_RECOVERY ∧ Store.Loads ∧
  ¬ (Store.Cell RF_STATUS_A = VARIABLE_CELL.Present (ANDROIDLAUNCHER_STATUS_UNBOOTABLE Cfg) ∧
    Store.Cell RF_STATUS_B = VARIABLE_CELL.Present (ANDROIDLAUNCHER_STATUS_UNBOOTABLE Cfg)) ∧
  LoadedValue Store (RetryIndex BootParams.BootChain) = 0 ∧
  LoadedValue Store (RetryIndex (1 - BootParams.BootChain)) ≠ 0

/-- One run of `ValidateRootfsStatus` for slot `c` in boot-image mode, started with a fresh
snapshot (the entry machine) over the given store. -/
def RunFromFreshSnapshot (Cfg : NVIDIA_CONFIGURATION) (c : Nat) (Store : VARIABLE_STORE) :
    OUTCOME × L4T_BOOT_PARAMS × MACHINE :=
  ValidateRootfsStatus Cfg (MACHINE.Entry Store)
    { BootMode := Cfg.NVIDIA_L4T_BOOTMODE_BOOTIMG, BootChain := c }

/-- The store after `k` such runs in sequence, each over the store the run before left. -/
def StoreAfterRuns (Cfg : NVIDIA_CONFIGURATION) (c : Nat) : Nat → VARIABLE_STORE → VARIABLE_STORE
  | 0, Store => Store
  | k + 1, Store => (RunFromFreshSnapshot Cfg c (StoreAfterRuns Cfg c k Store)).2.2.Store

/-- All six variables load, decided by running `RFGetVariable` on each index. -/
instance (Store : VARIABLE_STORE) : Decidable Store.Loads := by
  unfold VARIABLE_STORE.Loads
  infer_instance

/-! ## Sample inputs -/

/-- A sample choice of the four constants of `NVIDIAConfiguration.h`. -/
def SampleConfiguration : NVIDIA_CONFIGURATION :=
  { NVIDIA_OS_STATUS_NORMAL := 0
    NVIDIA_OS_STATUS_UNBOOTABLE := 255
    NVIDIA_L4T_BOOTMODE_BOOTIMG := 2
    NVIDIA_L4T_BOOTMODE_RECOVERY := 3 }

/-- The store that holds the listed cells under the indices 0, 1, ... (nothing under any
other index) and answers every `SetVariable` with `EFI_SUCCESS`. -/
def StoreOfCells (Cells : List VARIABLE_CELL) : VARIABLE_STORE :=
  { Cell := fun i => Cells.getD i VARIABLE_CELL.Absent
    SetResult := fun _ _ => EFI_SUCCESS }

/-- Both slots marked unbootable, retry counters 3 and 0, no firmware chain variable. -/
def SampleStoreDeadEnd : VARIABLE_STORE :=
  StoreOfCells [.Present 255, .Present 255, .Present 3, .Present 0, .Absent, .Absent]

/-- A device on its first boots: both slots `NORMAL` (0), no retry counter written yet, no
firmware chain variable. -/
def SampleStoreFresh : VARIABLE_STORE :=
  StoreOfCells [.Present 0, .Present 0, .Absent, .Absent, .Absent, .Absent]

/-- Slot A has used up its retries, slot B has 4 left, a stale `BootChainFwStatus` exists. -/
def SampleStoreSwitch : VARIABLE_STORE :=
  StoreOfCells [.Present 1, .Present 0, .Present 0, .Present 4, .Absent, .Present 1]

/-- Both retry counters at 0, slot A already marked unbootable, slot B still `BOOTING`. -/
def SampleStoreExhausted : VARIABLE_STORE :=
  StoreOfCells [.Present 255, .Present 1, .Present 0, .Present 0, .Absent, .Absent]

/-- No `RootfsStatusSlotB` in the store; `RootfsRetrySlotA` holds 3. -/
def SampleStoreNoStatusB : VARIABLE_STORE :=
  StoreOfCells [.Present 0, .Absent, .Present 3, .Absent, .Absent, .Absent]

/-- A snapshot with `CurrentSlot = 0` whose entries 1 (value 255) and 3 (value 6) are
flagged, the others holding 0 and not flagged. -/
def SampleSnapshot : L4T_RF_AB_PARAM :=
  { RootfsVar := fun i =>
      if i = 1 then { Value := 255, UpdateFlag := 1 }
      else if i = 3 then { Value := 6, UpdateFlag := 1 }
      else { Value := 0, UpdateFlag := 0 }
    CurrentSlot := 0 }

/-- The fresh sample store, except that every `SetVariable` on `RootfsRetrySlotB` is
answered `EFI_WRITE_PROTECTED`. -/
def SampleStoreRetryBProtected : VARIABLE_STORE :=
  { Cell := SampleStoreFresh.Cell
    SetResult := fun i _ => if i = RF_RETRY_B then EFI_WRITE_PROTECTED else EFI_SUCCESS }

/-- The chain-switch sample store, except that every `SetVariable` on `RootfsStatusSlotA` is
answered `EFI_WRITE_PROTECTED`. -/
def SampleStoreSwitchProtected : VARIABLE_STORE :=
  { Cell := SampleStoreSwitch.Cell
    SetResult := fun i _ => if i = RF_STATUS_A then EFI_WRITE_PROTECTED else EFI_SUCCESS }

/-- A disk with the given GPT partition names: the device handle 1 has the single parent 2,
whose children are the handles 10, 11, ... in the order of the names; child `10 + i` is a GPT
partition with the `i`-th name and a device path whose hard drive node has partition number
`i + 1`. -/
def SampleDisk (Names : List (List Nat)) : HANDLE_DATABASE :=
  { Parents := fun h => if h = 1 then (EFI_SUCCESS, [2]) else (EFI_NOT_FOUND, [])
    Children := fun h =>
      if h = 2 then (EFI_SUCCESS, (List.range Names.length).map (fun i => 10 + i))
      else (EFI_NOT_FOUND, [])
    PartitionInfo := fun h =>
      if 10 ≤ h ∧ h < 10 + Names.length then
        some { PartitionType := PARTITION_TYPE_GPT, PartitionName := Names.getD (h - 10) [] }
      else none
    DevicePath := fun h =>
      if 10 ≤ h ∧ h < 10 + Names.length then
        some [{ NodeType := 3, SubType := 29, PartitionNumber := 0 },
          { NodeType := MEDIA_DEVICE_PATH, SubType := MEDIA_HARDDRIVE_DP
            PartitionNumber := h - 9 }]
      else none }

/-- The sample disk with the partitions `kernel-dtb_a` (handle 10) and `kernel-dtb_b`
(handle 11). -/
def SampleDiskBothSlots : HANDLE_DATABASE :=
  SampleDisk [L "kernel-dtb_a", L "kernel-dtb_b"]

/-- Load options `bootchain=2` on the device handle of the sample disks. -/
def SampleImageChain2 : EFI_LOADED_IMAGE_PROTOCOL :=
  { DeviceHandle := 1, LoadOptionsSize := 24, LoadOptions := L "bootchain=2" }

/-- Load options `bootmode=bootimg bootchain=1` on the device handle of the sample disks. -/
def SampleImageChain1 : EFI_LOADED_IMAGE_PROTOCOL :=
  { DeviceHandle := 1, LoadOptionsSize := 58, LoadOptions := L "bootmode=bootimg bootchain=1" }

/-- No load options, on the device handle of the sample disks. -/
def SampleImageNoOptions : EFI_LOADED_IMAGE_PROTOCOL :=
  { DeviceHandle := 1, LoadOptionsSize := 0, LoadOptions := [] }

/-- The fresh sample store with `BootChainFwCurrent` holding 1 and no `BootChainOsCurrent`. -/
def SampleStoreFwChain1 : VARIABLE_STORE :=
  StoreOfCells [.Present 0, .Present 0, .Absent, .Absent, .Absent, .Absent, .Present 1]

/-- Both slots `NORMAL`, slot A with 2 retries left, slot B with 4. -/
def SampleStoreTwoLeft : VARIABLE_STORE :=
  StoreOfCells [.Present 0, .Present 0, .Present 2, .Present 4, .Absent, .Absent]

/-- A boot image for the sample loader: the magic `ANDROID!`, then the image size 20 in the
byte the sample size computation reads, then the rest of the 20 bytes. -/
def SampleBootImage : List Nat :=
  L "ANDROID!" ++ [20, 0, 0, 0] ++ List.replicate 8 7

/-- The sample boot image behind a signed-image header of 16 bytes. -/
def SampleSignedBootImage : List Nat :=
  List.replicate 16 0 ++ SampleBootImage

/-- A device tree blob for the sample loader: the magic `d0 0d fe ed`, the total size 16,
then the rest of the 16 bytes. -/
def SampleDtb : List Nat :=
  [208, 13, 254, 237, 0, 0, 0, 16] ++ List.replicate 8 1

/-- A device tree partition filled with zeros. -/
def SampleCorruptDtb : List Nat :=
  List.replicate 32 0

/-- A sample environment of the loader over the disk with the partitions `boot_a`, `boot_b`
(both holding `BootContent`), `kernel-dtb_a` and `kernel-dtb_b` (both holding `DtbContent`),
handles 10 to 13. Every protocol is found, every read and allocation succeeds, a read gives
the bytes of the partition from the offset on; the header size is 12, the signed-image header
size 16, a partition has 4 blocks of 8 bytes. A boot image header is accepted when it starts
with `ANDROID!`, a device tree blob when it starts with `d0 0d fe ed`. `AcpiTable` and the
answer `BootResult` of `AndroidBootImgBoot` are as given. -/
def SampleLoader (BootContent DtbContent : List Nat) (AcpiTable BootResult : EFI_STATUS) :
    LOADER_ENVIRONMENT :=
  { Db := SampleDisk [L "boot_a", L "boot_b", L "kernel-dtb_a", L "kernel-dtb_b"]
    BlockIoProtocol := fun h => (EFI_SUCCESS, { MediaId := h, BlockSize := 8, LastBlock := 3 })
    DiskIoProtocol := fun _ => EFI_SUCCESS
    ReadDisk := fun h _ Offset Size =>
      (EFI_SUCCESS, ((if h < 12 then BootContent else DtbContent).drop Offset).take Size)
    ANDROID_BOOTIMG_HEADER_SIZE := 12
    PcdSignedImageHeaderSize := 16
    AndroidBootImgGetImgSize := fun Header =>
      if Header.take 8 = L "ANDROID!" then (EFI_SUCCESS, Header.getD 8 0)
      else (EFI_INVALID_PARAMETER, 0)
    AllocatePool := fun _ => true
    AcpiTable := AcpiTable
    fdt_check_header := fun Blob => if Blob.take 4 = [208, 13, 254, 237] then 0 else -9
    fdt_totalsize := fun Blob => Blob.getD 7 0
    AllocatePages := fun _ => true
    fdt_open_into := fun Blob _ => (0, Blob)
    InstallConfigurationTable := fun _ => EFI_SUCCESS
    AndroidBootImgBoot := fun _ _ => BootResult }

/-- The loader state on entry in the samples: the firmware has installed the device tree
`[1, 2, 3]`, no call has been made. -/
def SampleLoaderState : LOADER_STATE :=
  { FdtTable := some [1, 2, 3], Trace := [] }

/-- The exhausted sample store, except that every `SetVariable` on `RootfsStatusSlotA` is
answered `EFI_WRITE_PROTECTED`. -/
def SampleStoreExhaustedProtected : VARIABLE_STORE :=
  { Cell := SampleStoreExhausted.Cell
    SetResult := fun i _ => if i = RF_STATUS_A then EFI_WRITE_PROTECTED else EFI_SUCCESS }

/-- No `RootfsStatusSlotB` in the store; slot A has used up its retries. -/
def SampleStoreNoStatusBSpent : VARIABLE_STORE :=
  StoreOfCells [.Present 0, .Absent, .Present 0, .Absent, .Absent, .Absent]

/-- The sample loader with a valid boot image and device tree and no ACPI table, except that
`fdt_open_into` fails (`-FDT_ERR_NOSPACE`) and `AndroidBootImgBoot` fails with `BootResult`. -/
def SampleLoaderOpenFails (BootResult : EFI_STATUS) : LOADER_ENVIRONMENT :=
  { SampleLoader SampleBootImage SampleDtb EFI_NOT_FOUND BootResult with
    fdt_open_into := fun Blob _ => (-3, Blob) }

/-- No `RootfsStatusSlotA` in the store; the five other variables exist and hold 255, 3, 5, 1
and 9. -/
def SampleStoreNoStatusA : VARIABLE_STORE :=
  StoreOfCells [.Absent, .Present 255, .Present 3, .Present 5, .Present 1, .Present 9]

/-- Load options `bootchain=abc` on the device handle of the sample disks. -/
def SampleImageChainAbc : EFI_LOADED_IMAGE_PROTOCOL :=
  { DeviceHandle := 1, LoadOptionsSize := 28, LoadOptions := L "bootchain=abc" }

/-- Load options `bootchain=`, with nothing after the equals sign, on the device handle of the
sample disks. -/
def SampleImageChainEmpty : EFI_LOADED_IMAGE_PROTOCOL :=
  { DeviceHandle := 1, LoadOptionsSize := 22, LoadOptions := L "bootchain=" }
/-! ## Lemmas on the variable accessors and the two loops -/

theorem RFGetVariable_eq (m : MACHINE) (Index Value : Nat) (h : Index < RF_VARIABLE_INDEX_MAX) :
    RFGetVariable m Index Value =
      (LoadStatus m.Store Index, LoadedValue m.Store Index,
        { m with Trace := m.Trace ++ [EVENT.GetVariable Index] }) := by
  have h1 : ¬ (Index ≥ RF_VARIABLE_INDEX_MAX) := by omega
  unfold LoadStatus LoadedValue RFGetVariable gRT_GetVariable MACHINE.Entry
  simp only [h1, if_false]
  cases m.Store.Cell Index <;> simp [EFI_ERROR]
  split_ifs <;> rfl

theorem ReadRootfsVariables_of_loads (Store : VARIABLE_STORE) (h : Store.Loads) :
    ReadRootfsVariables (List.range RF_VARIABLE_INDEX_MAX) (MACHINE.Entry Store) =
      (none, { Store := Store, mRootfsInfo := LoadedInfo Store, Trace := ReadTrace }) := by
  have h0 := h 0 (by decide)
  have h1 := h 1 (by decide)
  have h2 := h 2 (by decide)
  have h3 := h 3 (by decide)
  have h4 := h 4 (by decide)
  have h5 := h 5 (by decide)
  have hr : List.range RF_VARIABLE_INDEX_MAX = [0, 1, 2, 3, 4, 5] := by decide
  rw [hr]
  simp only [ReadRootfsVariables, RFGetVariable_eq _ _ _ (by decide : (0:Nat) < RF_VARIABLE_INDEX_MAX),
    RFGetVariable_eq _ _ _ (by decide : (1:Nat) < RF_VARIABLE_INDEX_MAX),
    RFGetVariable_eq _ _ _ (by decide : (2:Nat) < RF_VARIABLE_INDEX_MAX),
    RFGetVariable_eq _ _ _ (by decide : (3:Nat) < RF_VARIABLE_INDEX_MAX),
    RFGetVariable_eq _ _ _ (by decide : (4:Nat) < RF_VARIABLE_INDEX_MAX),
    RFGetVariable_eq _ _ _ (by decide : (5:Nat) < RF_VARIABLE_INDEX_MAX),
    MACHINE.Entry, h0, h1, h2, h3, h4, h5, EFI_ERROR]
  simp only [Bool.false_eq_true, if_false, Prod.mk.injEq, true_and, MACHINE.mk.injEq]
  refine ⟨?_, ?_⟩
  · unfold LoadedInfo L4T_RF_AB_PARAM.SetValue mRootfsInfoInitial
    simp only [L4T_RF_AB_PARAM.mk.injEq, and_true]
    funext i
    by_cases c0 : i = 0
    · subst c0; simp [RF_VARIABLE_INDEX_MAX]
    by_cases c1 : i = 1
    · subst c1; simp [RF_VARIABLE_INDEX_MAX]
    by_cases c2 : i = 2
    · subst c2; simp [RF_VARIABLE_INDEX_MAX]
    by_cases c3 : i = 3
    · subst c3; simp [RF_VARIABLE_INDEX_MAX]
    by_cases c4 : i = 4
    · subst c4; simp [RF_VARIABLE_INDEX_MAX]
    by_cases c5 : i = 5
    · subst c5; simp [RF_VARIABLE_INDEX_MAX]
    have : ¬ i < 6 := by omega
    simp [c0, c1, c2, c3, c4, c5, this, RF_VARIABLE_INDEX_MAX]
  · decide

theorem LoadedValue_of_present (Store : VARIABLE_STORE) (Index v : Nat)
    (hi : Index < RF_VARIABLE_INDEX_MAX) (h : Store.Cell Index = VARIABLE_CELL.Present v) :
    LoadStatus Store Index = EFI_SUCCESS ∧ LoadedValue Store Index = v := by
  have h1 : ¬ (Index ≥ RF_VARIABLE_INDEX_MAX) := by omega
  unfold LoadStatus LoadedValue RFGetVariable gRT_GetVariable MACHINE.Entry
  simp [h1, h, EFI_ERROR]

theorem Cell_of_loads_status (Store : VARIABLE_STORE) (Index : Nat)
    (hi : Index = RF_STATUS_A ∨ Index = RF_STATUS_B)
    (h : LoadStatus Store Index = EFI_SUCCESS) :
    Store.Cell Index = VARIABLE_CELL.Present (LoadedValue Store Index) := by
  unfold LoadStatus LoadedValue RFGetVariable gRT_GetVariable MACHINE.Entry at *
  rcases hi with hi | hi <;> subst hi <;> revert h <;>
    cases Store.Cell _ <;> simp [EFI_ERROR]

theorem ValidateRootfsStatus_of_loads (Cfg : NVIDIA_CONFIGURATION) (Store : VARIABLE_STORE)
    (BootParams : L4T_BOOT_PARAMS)
    (hMode : BootParams.BootMode ≠ Cfg.NVIDIA_L4T_BOOTMODE_RECOVERY)
    (hChain : BootParams.BootChain ≤ ROOTFS_SLOT_B) (hLoads : Store.Loads) :
    ValidateRootfsStatus Cfg (MACHINE.Entry Store) BootParams =
      if ! IsValidRootfs Cfg (LoadedInfo Store) then
        (OUTCOME.Returned EFI_SUCCESS,
          { BootParams with BootMode := Cfg.NVIDIA_L4T_BOOTMODE_RECOVERY },
          { Store := Store
            mRootfsInfo := { LoadedInfo Store with CurrentSlot := BootParams.BootChain }
            Trace := ReadTrace })
      else
        ValidateRootfsStatusExit
          (ValidateRootfsStatusSlots Cfg
            { LoadedInfo Store with CurrentSlot := BootParams.BootChain }
            (LogicalNot BootParams.BootChain) BootParams).1
          (ValidateRootfsStatusSlots Cfg
            { LoadedInfo Store with CurrentSlot := BootParams.BootChain }
            (LogicalNot BootParams.BootChain) BootParams).2.1
          { Store := Store
            mRootfsInfo := (ValidateRootfsStatusSlots Cfg
              { LoadedInfo Store with CurrentSlot := BootParams.BootChain }
              (LogicalNot BootParams.BootChain) BootParams).2.2
            Trace := ReadTrace } := by
  have hc : ¬ (BootParams.BootChain > ROOTFS_SLOT_B) := by omega
  unfold ValidateRootfsStatus
  rw [if_neg hMode, if_neg hc, ReadRootfsVariables_of_loads Store hLoads]
  simp only [IsValidRootfs]


/-! ## Lemmas on the snapshot and the decision -/

@[simp] theorem SetValue_Value (Info : L4T_RF_AB_PARAM) (i v j : Nat) :
    ((Info.SetValue i v).RootfsVar j).Value = if j = i then v else (Info.RootfsVar j).Value := by
  unfold L4T_RF_AB_PARAM.SetValue
  by_cases h : j = i <;> simp [h]

@[simp] theorem SetValue_UpdateFlag (Info : L4T_RF_AB_PARAM) (i v j : Nat) :
    ((Info.SetValue i v).RootfsVar j).UpdateFlag = (Info.RootfsVar j).UpdateFlag := by
  unfold L4T_RF_AB_PARAM.SetValue
  by_cases h : j = i <;> simp [h]

@[simp] theorem SetValue_CurrentSlot (Info : L4T_RF_AB_PARAM) (i v : Nat) :
    (Info.SetValue i v).CurrentSlot = Info.CurrentSlot := rfl

@[simp] theorem SetUpdateFlag_Value (Info : L4T_RF_AB_PARAM) (i f j : Nat) :
    ((Info.SetUpdateFlag i f).RootfsVar j).Value = (Info.RootfsVar j).Value := by
  unfold L4T_RF_AB_PARAM.SetUpdateFlag
  by_cases h : j = i <;> simp [h]

@[simp] theorem SetUpdateFlag_UpdateFlag (Info : L4T_RF_AB_PARAM) (i f j : Nat) :
    ((Info.SetUpdateFlag i f).RootfsVar j).UpdateFlag
      = if j = i then f else (Info.RootfsVar j).UpdateFlag := by
  unfold L4T_RF_AB_PARAM.SetUpdateFlag
  by_cases h : j = i <;> simp [h]

@[simp] theorem SetUpdateFlag_CurrentSlot (Info : L4T_RF_AB_PARAM) (i f : Nat) :
    (Info.SetUpdateFlag i f).CurrentSlot = Info.CurrentSlot := rfl

@[simp] theorem LoadedInfo_Value (Store : VARIABLE_STORE) (i : Nat) :
    ((LoadedInfo Store).RootfsVar i).Value
      = if i < RF_VARIABLE_INDEX_MAX then LoadedValue Store i else 0 := by
  unfold LoadedInfo
  by_cases h : i < RF_VARIABLE_INDEX_MAX <;> simp [h]

@[simp] theorem LoadedInfo_UpdateFlag (Store : VARIABLE_STORE) (i : Nat) :
    ((LoadedInfo Store).RootfsVar i).UpdateFlag = 0 := by
  unfold LoadedInfo
  by_cases h : i < RF_VARIABLE_INDEX_MAX <;> simp [h]

@[simp] theorem Put_Cell (Store : VARIABLE_STORE) (i j : Nat) (c : VARIABLE_CELL) :
    (Store.Put i c).Cell j = if j = i then c else Store.Cell j := rfl

@[simp] theorem Put_SetResult (Store : VARIABLE_STORE) (i : Nat) (c : VARIABLE_CELL) :
    (Store.Put i c).SetResult = Store.SetResult := rfl

theorem EFI_ERROR_eq_false (Status : EFI_STATUS) :
    EFI_ERROR Status = false ↔ Status = EFI_SUCCESS := by
  cases Status <;> simp [EFI_ERROR]

theorem IsRootfsSlotBootable_eq (Info : L4T_RF_AB_PARAM) (RootfsSlot : Nat)
    (h : RootfsSlot ≤ ROOTFS_SLOT_B) :
    IsRootfsSlotBootable Info RootfsSlot
      = decide ((Info.RootfsVar (RetryIndex RootfsSlot)).Value ≠ 0) := by
  have hs : RootfsSlot = 0 ∨ RootfsSlot = 1 := by
    have h1 : RootfsSlot ≤ 1 := h
    omega
  rcases hs with rfl | rfl <;>
    simp [IsRootfsSlotBootable, GetRetryCountFrommRootfsInfo, RetryIndex, EFI_ERROR]

theorem ValidateRootfsStatusSlots_bootable (Cfg : NVIDIA_CONFIGURATION) (Info : L4T_RF_AB_PARAM)
    (NonCurrentSlot : Nat) (BootParams : L4T_BOOT_PARAMS)
    (hSlot : Info.CurrentSlot ≤ ROOTFS_SLOT_B)
    (hRetry : (Info.RootfsVar (RetryIndex Info.CurrentSlot)).Value ≠ 0) :
    ValidateRootfsStatusSlots Cfg Info NonCurrentSlot BootParams
      = (EFI_SUCCESS, BootParams, BootableInfo Info Info.CurrentSlot) := by
  have hs : Info.CurrentSlot = 0 ∨ Info.CurrentSlot = 1 := by
    have h1 : Info.CurrentSlot ≤ 1 := hSlot
    omega
  unfold ValidateRootfsStatusSlots
  rw [IsRootfsSlotBootable_eq Info _ hSlot]
  rcases hs with h | h <;> rw [h] at hRetry ⊢ <;>
    simp [RetryIndex] at hRetry <;>
    simp [DecreaseRootfsRetryCount, GetRetryCountFrommRootfsInfo, SetRetryCountTomRootfsInfo,
      SetStatusTomRootfsInfo, EFI_ERROR, hRetry, RetryIndex, StatusIndex, BootableInfo, h]


theorem ValidateRootfsStatusSlots_switch (Cfg : NVIDIA_CONFIGURATION) (Info : L4T_RF_AB_PARAM)
    (BootParams : L4T_BOOT_PARAMS)
    (hSlot : Info.CurrentSlot ≤ ROOTFS_SLOT_B)
    (hRetry : (Info.RootfsVar (RetryIndex Info.CurrentSlot)).Value = 0)
    (hOther : (Info.RootfsVar (RetryIndex (LogicalNot Info.CurrentSlot))).Value ≠ 0) :
    ValidateRootfsStatusSlots Cfg Info (LogicalNot Info.CurrentSlot) BootParams
      = (EFI_SUCCESS, BootParams,
          SwitchInfo Cfg Info Info.CurrentSlot (LogicalNot Info.CurrentSlot)) := by
  have hs : Info.CurrentSlot = 0 ∨ Info.CurrentSlot = 1 := by
    have h1 : Info.CurrentSlot ≤ 1 := hSlot
    omega
  unfold ValidateRootfsStatusSlots
  rw [IsRootfsSlotBootable_eq Info _ hSlot]
  rcases hs with h | h <;> rw [h] at hRetry hOther ⊢ <;>
    simp [RetryIndex, LogicalNot] at hRetry hOther <;>
    simp [IsRootfsSlotBootable, GetRetryCountFrommRootfsInfo,
      SetStatusTomRootfsInfo, EFI_ERROR, hRetry, hOther, RetryIndex, StatusIndex, SwitchInfo, h,
      LogicalNot]

theorem ValidateRootfsStatusSlots_exhausted (Cfg : NVIDIA_CONFIGURATION)
    (Info : L4T_RF_AB_PARAM) (BootParams : L4T_BOOT_PARAMS)
    (hSlot : Info.CurrentSlot ≤ ROOTFS_SLOT_B)
    (hRetry : (Info.RootfsVar (RetryIndex Info.CurrentSlot)).Value = 0)
    (hOther : (Info.RootfsVar (RetryIndex (LogicalNot Info.CurrentSlot))).Value = 0) :
    ValidateRootfsStatusSlots Cfg Info (LogicalNot Info.CurrentSlot) BootParams
      = (EFI_SUCCESS, { BootParams with BootMode := Cfg.NVIDIA_L4T_BOOTMODE_RECOVERY },
          ExhaustedInfo Cfg Info Info.CurrentSlot (LogicalNot Info.CurrentSlot)) := by
  have hs : Info.CurrentSlot = 0 ∨ Info.CurrentSlot = 1 := by
    have h1 : Info.CurrentSlot ≤ 1 := hSlot
    omega
  unfold ValidateRootfsStatusSlots
  rw [IsRootfsSlotBootable_eq Info _ hSlot]
  rcases hs with h | h <;> rw [h] at hRetry hOther ⊢ <;>
    simp [RetryIndex, LogicalNot] at hRetry hOther <;>
    simp [IsRootfsSlotBootable, GetRetryCountFrommRootfsInfo,
      SetStatusTomRootfsInfo, EFI_ERROR, hRetry, hOther, RetryIndex, StatusIndex, ExhaustedInfo, h,
      LogicalNot]

/-! ## Lemmas on the commit loop -/

theorem CheckAndUpdateVariableLoop_of_writesSucceed (Indices : List Nat) :
    ∀ m : MACHINE, (∀ i ∈ Indices, i < RF_VARIABLE_INDEX_MAX) → m.Store.WritesSucceed →
      CheckAndUpdateVariableLoop Indices EFI_SUCCESS m =
        (EFI_SUCCESS,
          { Store := CommitStore m.mRootfsInfo Indices m.Store
            mRootfsInfo := m.mRootfsInfo
            Trace := m.Trace ++ CommitTrace m.mRootfsInfo Indices }) := by
  induction Indices with
  | nil =>
    intro m _ _
    simp [CheckAndUpdateVariableLoop, CommitTrace, CommitStore]
  | cons Index Rest ih =>
    intro m hIdx hW
    have hI : ¬ (Index ≥ RF_VARIABLE_INDEX_MAX) := by
      have := hIdx Index (List.mem_cons_self _ _)
      omega
    have hRest : ∀ i ∈ Rest, i < RF_VARIABLE_INDEX_MAX :=
      fun i hi => hIdx i (List.mem_cons_of_mem _ hi)
    unfold CheckAndUpdateVariableLoop
    by_cases hF : (m.mRootfsInfo.RootfsVar Index).UpdateFlag = 0
    · simp only [hF, ne_eq, not_true_eq_false, if_false]
      rw [ih m hRest hW]
      simp only [Prod.mk.injEq, MACHINE.mk.injEq, true_and]
      refine ⟨?_, ?_⟩
      · simp only [CommitStore, VARIABLE_STORE.mk.injEq, and_true]
        funext i
        by_cases hi : i = Index
        · subst hi; simp [hF]
        · simp [hi]
      · simp [CommitTrace, List.filter_cons, hF]
    · have hput : (m.Store.Put Index
          (VARIABLE_CELL.Present (m.mRootfsInfo.RootfsVar Index).Value)).WritesSucceed :=
        fun i d => hW i d
      simp only [ne_eq, hF, not_false_eq_true, if_true, RFSetVariable, if_neg hI, gRT_SetVariable,
        hW Index _, EFI_ERROR, Bool.false_eq_true, if_false]
      rw [ih ⟨m.Store.Put Index (VARIABLE_CELL.Present (m.mRootfsInfo.RootfsVar Index).Value),
        m.mRootfsInfo,
        m.Trace ++ [EVENT.SetVariable Index (m.mRootfsInfo.RootfsVar Index).Value]⟩ hRest hput]
      simp only [Prod.mk.injEq, MACHINE.mk.injEq, true_and]
      refine ⟨?_, ?_⟩
      · simp only [CommitStore, VARIABLE_STORE.mk.injEq, Put_SetResult, and_true]
        funext i
        by_cases hi : i = Index
        · subst hi; simp [hF]
        · simp [hi]
      · simp [CommitTrace, List.filter_cons, hF]

theorem CheckAndUpdateVariableLoop_mRootfsInfo (Indices : List Nat) :
    ∀ (Status : EFI_STATUS) (m : MACHINE),
      (CheckAndUpdateVariableLoop Indices Status m).2.mRootfsInfo = m.mRootfsInfo := by
  induction Indices with
  | nil => intro Status m; rfl
  | cons Index Rest ih =>
    intro Status m
    unfold CheckAndUpdateVariableLoop
    by_cases hF : (m.mRootfsInfo.RootfsVar Index).UpdateFlag = 0
    · simp only [hF, ne_eq, not_true_eq_false, if_false]
      exact ih Status m
    · simp only [ne_eq, hF, not_false_eq_true, if_true]
      by_cases hI : Index ≥ RF_VARIABLE_INDEX_MAX
      · simp [RFSetVariable, hI, EFI_ERROR]
      · simp only [RFSetVariable, if_neg hI, gRT_SetVariable]
        split_ifs with h1 h2
        · rfl
        · simp [EFI_ERROR] at h2
        · rw [ih]

theorem CheckAndUpdateVariableLoop_trace (Indices : List Nat) :
    ∀ (Status : EFI_STATUS) (m : MACHINE),
      ∃ T, (CheckAndUpdateVariableLoop Indices Status m).2.Trace = m.Trace ++ T ∧
        T <+: CommitTrace m.mRootfsInfo Indices := by
  induction Indices with
  | nil => intro Status m; exact ⟨[], by simp [CheckAndUpdateVariableLoop], List.nil_prefix⟩
  | cons Index Rest ih =>
    intro Status m
    unfold CheckAndUpdateVariableLoop
    by_cases hF : (m.mRootfsInfo.RootfsVar Index).UpdateFlag = 0
    · simp only [hF, ne_eq, not_true_eq_false, if_false]
      obtain ⟨T, hT, hP⟩ := ih Status m
      exact ⟨T, hT, by simpa [CommitTrace, List.filter_cons, hF] using hP⟩
    · simp only [ne_eq, hF, not_false_eq_true, if_true]
      by_cases hI : Index ≥ RF_VARIABLE_INDEX_MAX
      · exact ⟨[], by simp [RFSetVariable, hI, EFI_ERROR], List.nil_prefix⟩
      · simp only [RFSetVariable, if_neg hI, gRT_SetVariable]
        split_ifs with h1 h2
        · refine ⟨[EVENT.SetVariable Index (m.mRootfsInfo.RootfsVar Index).Value], rfl, ?_⟩
          simp [CommitTrace, List.filter_cons, hF]
        · simp [EFI_ERROR] at h2
        · obtain ⟨T, hT, hP⟩ := ih EFI_SUCCESS
            ⟨m.Store.Put Index (VARIABLE_CELL.Present (m.mRootfsInfo.RootfsVar Index).Value),
              m.mRootfsInfo,
              m.Trace ++ [EVENT.SetVariable Index (m.mRootfsInfo.RootfsVar Index).Value]⟩
          refine ⟨EVENT.SetVariable Index (m.mRootfsInfo.RootfsVar Index).Value :: T, ?_, ?_⟩
          · rw [hT]; simp
          · simpa [CommitTrace, List.filter_cons, hF] using hP


/-! ## Lemmas on the load loop and on the exit path -/

theorem RFGetVariable_status (m : MACHINE) (Index Value : Nat) :
    (RFGetVariable m Index Value).1 = LoadStatus m.Store Index := by
  by_cases h : Index < RF_VARIABLE_INDEX_MAX
  · rw [RFGetVariable_eq m Index Value h]
  · have h1 : Index ≥ RF_VARIABLE_INDEX_MAX := by omega
    simp only [RFGetVariable, LoadStatus, if_pos h1]

theorem RFGetVariable_machine (m : MACHINE) (Index Value : Nat) :
    (RFGetVariable m Index Value).2.2 =
      { m with
        Trace := m.Trace ++
          (if Index < RF_VARIABLE_INDEX_MAX then [EVENT.GetVariable Index] else []) } := by
  by_cases h : Index < RF_VARIABLE_INDEX_MAX
  · rw [RFGetVariable_eq m Index Value h, if_pos h]
  · have h1 : Index ≥ RF_VARIABLE_INDEX_MAX := by omega
    simp only [RFGetVariable, if_pos h1, if_neg h, List.append_nil]

theorem ReadRootfsVariables_frame (Indices : List Nat) :
    ∀ m : MACHINE,
      (ReadRootfsVariables Indices m).2.Store = m.Store ∧
      (∀ i, ((ReadRootfsVariables Indices m).2.mRootfsInfo.RootfsVar i).UpdateFlag
        = (m.mRootfsInfo.RootfsVar i).UpdateFlag) ∧
      (∃ T, (ReadRootfsVariables Indices m).2.Trace = m.Trace ++ T ∧
        T <+: Indices.map EVENT.GetVariable) ∧
      ((ReadRootfsVariables Indices m).1 = none ∨
        (ReadRootfsVariables Indices m).1 = some EFI_LOAD_ERROR) ∧
      ((ReadRootfsVariables Indices m).1 = none →
        ∀ i ∈ Indices, LoadStatus m.Store i = EFI_SUCCESS) := by
  induction Indices with
  | nil =>
    intro m
    exact ⟨rfl, fun _ => rfl, ⟨[], by simp [ReadRootfsVariables], List.nil_prefix⟩,
      Or.inl rfl, fun _ i hi => absurd hi (List.not_mem_nil i)⟩
  | cons Index Rest ih =>
    intro m
    have hS := RFGetVariable_status m Index (m.mRootfsInfo.RootfsVar Index).Value
    have hM := RFGetVariable_machine m Index (m.mRootfsInfo.RootfsVar Index).Value
    unfold ReadRootfsVariables
    generalize RFGetVariable m Index (m.mRootfsInfo.RootfsVar Index).Value = r at hS hM
    obtain ⟨Status, Value, m1⟩ := r
    simp only at hS hM
    subst hS hM
    simp only
    by_cases hE : EFI_ERROR (LoadStatus m.Store Index) = true
    · rw [if_pos hE]
      refine ⟨rfl, fun i => by simp, ?_, Or.inr rfl, fun h => by simp at h⟩
      refine ⟨_, rfl, ?_⟩
      split_ifs
      · simp
      · exact List.nil_prefix
    · rw [if_neg hE]
      have hOk : LoadStatus m.Store Index = EFI_SUCCESS :=
        (EFI_ERROR_eq_false _).1 (by simpa using hE)
      have hlt : Index < RF_VARIABLE_INDEX_MAX := by
        by_contra hge
        have h1 : Index ≥ RF_VARIABLE_INDEX_MAX := by omega
        simp [LoadStatus, RFGetVariable, h1] at hOk
      obtain ⟨h1, h2, ⟨T, hT, hP⟩, h4, h5⟩ := ih
        ⟨m.Store, m.mRootfsInfo.SetValue Index Value,
          m.Trace ++ (if Index < RF_VARIABLE_INDEX_MAX then [EVENT.GetVariable Index] else [])⟩
      refine ⟨h1, fun i => by rw [h2 i]; simp, ?_, h4, ?_⟩
      · refine ⟨EVENT.GetVariable Index :: T, ?_, ?_⟩
        · rw [hT, if_pos hlt]; simp
        · simpa using hP
      · intro hn i hi
        rcases List.mem_cons.1 hi with rfl | hi
        · exact hOk
        · exact h5 hn i hi

theorem ReadRootfsVariables_none_iff (Store : VARIABLE_STORE) :
    (ReadRootfsVariables (List.range RF_VARIABLE_INDEX_MAX) (MACHINE.Entry Store)).1 = none
      ↔ Store.Loads := by
  constructor
  · intro h i hi
    exact (ReadRootfsVariables_frame _ (MACHINE.Entry Store)).2.2.2.2 h i (List.mem_range.2 hi)
  · intro h
    rw [ReadRootfsVariables_of_loads Store h]

theorem RFDeleteVariable_of_writesSucceed (m : MACHINE) (h : m.Store.WritesSucceed) :
    (RFDeleteVariable m RF_BC_STATUS).2 =
      { m with
        Store := m.Store.Put RF_BC_STATUS VARIABLE_CELL.Absent
        Trace := m.Trace ++ [EVENT.DeleteVariable RF_BC_STATUS] } := by
  have hW : ∀ i d, m.Store.SetResult i d = EFI_SUCCESS := h
  have h5 : ¬ (RF_BC_STATUS ≥ RF_VARIABLE_INDEX_MAX) := by decide
  unfold RFDeleteVariable
  rw [if_neg h5]
  unfold gRT_DeleteVariable
  rw [hW]
  simp only [EFI_ERROR, Bool.false_eq_true, if_false]
  cases hc : m.Store.Cell RF_BC_STATUS
  · rfl
  · have hst : m.Store.Put RF_BC_STATUS VARIABLE_CELL.Absent = m.Store := by
      cases hs : m.Store with
      | mk Cell SetResult =>
        rw [hs] at hc
        simp only [VARIABLE_STORE.Put, VARIABLE_STORE.mk.injEq, and_true]
        funext i
        by_cases hi : i = RF_BC_STATUS
        · subst hi; simpa using hc.symm
        · simp [hi]
    simp only [hst]
  · rfl

theorem ValidateRootfsStatusExit_of_writesSucceed (BootParams : L4T_BOOT_PARAMS) (m : MACHINE)
    (h : m.Store.WritesSucceed) :
    ValidateRootfsStatusExit EFI_SUCCESS BootParams m =
      if (m.mRootfsInfo.RootfsVar RF_FW_NEXT).UpdateFlag ≠ 0 then
        (OUTCOME.ColdReset, { BootParams with BootChain := m.mRootfsInfo.CurrentSlot },
          { Store := (CommitStore m.mRootfsInfo (List.range RF_VARIABLE_INDEX_MAX) m.Store).Put
              RF_BC_STATUS VARIABLE_CELL.Absent
            mRootfsInfo := m.mRootfsInfo
            Trace := m.Trace ++ CommitTrace m.mRootfsInfo (List.range RF_VARIABLE_INDEX_MAX) ++
              [EVENT.DeleteVariable RF_BC_STATUS, EVENT.Print,
                EVENT.MicroSecondDelay (2 * DELAY_SECOND), EVENT.ResetCold] })
      else
        (OUTCOME.Returned EFI_SUCCESS,
          { BootParams with BootChain := m.mRootfsInfo.CurrentSlot },
          { Store := CommitStore m.mRootfsInfo (List.range RF_VARIABLE_INDEX_MAX) m.Store
            mRootfsInfo := m.mRootfsInfo
            Trace := m.Trace ++ CommitTrace m.mRootfsInfo (List.range RF_VARIABLE_INDEX_MAX) }) := by
  have hc := CheckAndUpdateVariableLoop_of_writesSucceed (List.range RF_VARIABLE_INDEX_MAX) m
    (fun i hi => List.mem_range.1 hi) h
  have hW2 : (CommitStore m.mRootfsInfo (List.range RF_VARIABLE_INDEX_MAX) m.Store).WritesSucceed :=
    fun i d => h i d
  unfold ValidateRootfsStatusExit CheckAndUpdateVariable
  rw [hc]
  simp only [if_true]
  by_cases hF : (m.mRootfsInfo.RootfsVar RF_FW_NEXT).UpdateFlag = 0
  · simp only [hF, ne_eq, not_true_eq_false, if_false]
  · simp only [ne_eq, hF, not_false_eq_true, if_true]
    rw [RFDeleteVariable_of_writesSucceed
      ⟨CommitStore m.mRootfsInfo (List.range RF_VARIABLE_INDEX_MAX) m.Store, m.mRootfsInfo,
        m.Trace ++ CommitTrace m.mRootfsInfo (List.range RF_VARIABLE_INDEX_MAX)⟩ hW2]
    simp


theorem IsValidRootfs_LoadedInfo (Cfg : NVIDIA_CONFIGURATION) (Store : VARIABLE_STORE)
    (hLoads : Store.Loads) :
    IsValidRootfs Cfg (LoadedInfo Store) = true ↔
      ¬ (Store.Cell RF_STATUS_A
          = VARIABLE_CELL.Present (ANDROIDLAUNCHER_STATUS_UNBOOTABLE Cfg) ∧
        Store.Cell RF_STATUS_B
          = VARIABLE_CELL.Present (ANDROIDLAUNCHER_STATUS_UNBOOTABLE Cfg)) := by
  have hcA := Cell_of_loads_status Store RF_STATUS_A (Or.inl rfl) (hLoads _ (by decide))
  have hcB := Cell_of_loads_status Store RF_STATUS_B (Or.inr rfl) (hLoads _ (by decide))
  rw [hcA, hcB]
  simp only [IsValidRootfs, VARIABLE_CELL.Present.injEq, LoadedInfo_Value]
  simp
  tauto

/-! ## Lemmas for arbitrary stores -/

theorem ValidateRootfsStatusSlots_eq (Cfg : NVIDIA_CONFIGURATION) (Info : L4T_RF_AB_PARAM)
    (BootParams : L4T_BOOT_PARAMS) (hSlot : Info.CurrentSlot ≤ ROOTFS_SLOT_B) :
    ValidateRootfsStatusSlots Cfg Info (LogicalNot Info.CurrentSlot) BootParams =
      if (Info.RootfsVar (RetryIndex Info.CurrentSlot)).Value ≠ 0 then
        (EFI_SUCCESS, BootParams, BootableInfo Info Info.CurrentSlot)
      else if (Info.RootfsVar (RetryIndex (LogicalNot Info.CurrentSlot))).Value ≠ 0 then
        (EFI_SUCCESS, BootParams,
          SwitchInfo Cfg Info Info.CurrentSlot (LogicalNot Info.CurrentSlot))
      else
        (EFI_SUCCESS, { BootParams with BootMode := Cfg.NVIDIA_L4T_BOOTMODE_RECOVERY },
          ExhaustedInfo Cfg Info Info.CurrentSlot (LogicalNot Info.CurrentSlot)) := by
  by_cases h1 : (Info.RootfsVar (RetryIndex Info.CurrentSlot)).Value = 0
  · by_cases h2 : (Info.RootfsVar (RetryIndex (LogicalNot Info.CurrentSlot))).Value = 0
    · rw [if_neg (not_not.2 h1), if_neg (not_not.2 h2)]
      exact ValidateRootfsStatusSlots_exhausted Cfg Info BootParams hSlot h1 h2
    · rw [if_neg (not_not.2 h1), if_pos h2]
      exact ValidateRootfsStatusSlots_switch Cfg Info BootParams hSlot h1 h2
  · rw [if_pos h1]
    exact ValidateRootfsStatusSlots_bootable Cfg Info _ BootParams hSlot h1

theorem mem_CommitTrace (Info : L4T_RF_AB_PARAM) (Indices : List Nat) (e : EVENT) :
    e ∈ CommitTrace Info Indices ↔
      ∃ i, i ∈ Indices ∧ (Info.RootfsVar i).UpdateFlag ≠ 0 ∧
        e = EVENT.SetVariable i (Info.RootfsVar i).Value := by
  unfold CommitTrace
  simp only [List.mem_map, List.mem_filter, decide_eq_true_eq]
  constructor
  · rintro ⟨i, ⟨hi, hf⟩, rfl⟩
    exact ⟨i, hi, hf, rfl⟩
  · rintro ⟨i, hi, hf, rfl⟩
    exact ⟨i, ⟨hi, hf⟩, rfl⟩

theorem RFDeleteVariable_frame (m : MACHINE) :
    (RFDeleteVariable m RF_BC_STATUS).2.mRootfsInfo = m.mRootfsInfo ∧
      (RFDeleteVariable m RF_BC_STATUS).2.Trace
        = m.Trace ++ [EVENT.DeleteVariable RF_BC_STATUS] := by
  have h5 : ¬ (RF_BC_STATUS ≥ RF_VARIABLE_INDEX_MAX) := by decide
  unfold RFDeleteVariable
  rw [if_neg h5]
  unfold gRT_DeleteVariable
  split_ifs
  · exact ⟨rfl, rfl⟩
  · cases m.Store.Cell RF_BC_STATUS <;> exact ⟨rfl, rfl⟩

theorem ValidateRootfsStatusExit_success (BootParams : L4T_BOOT_PARAMS) (m : MACHINE) :
    ∃ T, T <+: CommitTrace m.mRootfsInfo (List.range RF_VARIABLE_INDEX_MAX) ∧
      (ValidateRootfsStatusExit EFI_SUCCESS BootParams m).1
        = (if (m.mRootfsInfo.RootfsVar RF_FW_NEXT).UpdateFlag ≠ 0 then OUTCOME.ColdReset
          else OUTCOME.Returned (CheckAndUpdateVariable m).1) ∧
      (ValidateRootfsStatusExit EFI_SUCCESS BootParams m).2.1
        = { BootParams with BootChain := m.mRootfsInfo.CurrentSlot } ∧
      (ValidateRootfsStatusExit EFI_SUCCESS BootParams m).2.2.mRootfsInfo = m.mRootfsInfo ∧
      (ValidateRootfsStatusExit EFI_SUCCESS BootParams m).2.2.Trace
        = m.Trace ++ T ++
          (if (m.mRootfsInfo.RootfsVar RF_FW_NEXT).UpdateFlag ≠ 0 then
            [EVENT.DeleteVariable RF_BC_STATUS, EVENT.Print,
              EVENT.MicroSecondDelay (2 * DELAY_SECOND), EVENT.ResetCold]
          else []) := by
  obtain ⟨T, hT, hP⟩ :=
    CheckAndUpdateVariableLoop_trace (List.range RF_VARIABLE_INDEX_MAX) EFI_SUCCESS m
  have hI := CheckAndUpdateVariableLoop_mRootfsInfo (List.range RF_VARIABLE_INDEX_MAX)
    EFI_SUCCESS m
  refine ⟨T, hP, ?_⟩
  unfold ValidateRootfsStatusExit CheckAndUpdateVariable
  generalize CheckAndUpdateVariableLoop (List.range RF_VARIABLE_INDEX_MAX) EFI_SUCCESS m = r
    at hT hI
  obtain ⟨Status1, m1⟩ := r
  simp only at hT hI
  have hD := RFDeleteVariable_frame m1
  rw [if_pos rfl]
  simp only [hI]
  by_cases hF : (m.mRootfsInfo.RootfsVar RF_FW_NEXT).UpdateFlag = 0
  · have hF1 : ¬ ((m.mRootfsInfo.RootfsVar RF_FW_NEXT).UpdateFlag ≠ 0) := not_not.2 hF
    rw [if_neg hF1, if_neg hF1, if_neg hF1, List.append_nil]
    exact ⟨rfl, rfl, hI, hT⟩
  · have hF1 : (m.mRootfsInfo.RootfsVar RF_FW_NEXT).UpdateFlag ≠ 0 := hF
    rw [if_pos hF1, if_pos hF1, if_pos hF1]
    refine ⟨rfl, rfl, ?_, ?_⟩
    · show (RFDeleteVariable m1 RF_BC_STATUS).2.mRootfsInfo = m.mRootfsInfo
      rw [hD.1, hI]
    · show (RFDeleteVariable m1 RF_BC_STATUS).2.Trace ++ _ = _
      rw [hD.2, hT]
      simp

theorem ValidateRootfsStatus_of_not_loads (Cfg : NVIDIA_CONFIGURATION) (Store : VARIABLE_STORE)
    (BootParams : L4T_BOOT_PARAMS)
    (hMode : BootParams.BootMode ≠ Cfg.NVIDIA_L4T_BOOTMODE_RECOVERY)
    (hChain : BootParams.BootChain ≤ ROOTFS_SLOT_B) (hLoads : ¬ Store.Loads) :
    ValidateRootfsStatus Cfg (MACHINE.Entry Store) BootParams =
      (OUTCOME.Returned EFI_LOAD_ERROR, BootParams,
        (ReadRootfsVariables (List.range RF_VARIABLE_INDEX_MAX) (MACHINE.Entry Store)).2) := by
  have hc : ¬ (BootParams.BootChain > ROOTFS_SLOT_B) := by omega
  have hn := (ReadRootfsVariables_none_iff Store).not.2 hLoads
  have hs := (ReadRootfsVariables_frame (List.range RF_VARIABLE_INDEX_MAX)
    (MACHINE.Entry Store)).2.2.2.1.resolve_left hn
  unfold ValidateRootfsStatus
  rw [if_neg hMode, if_neg hc]
  generalize ReadRootfsVariables (List.range RF_VARIABLE_INDEX_MAX) (MACHINE.Entry Store) = r
    at hs
  obtain ⟨o, m1⟩ := r
  simp only at hs
  subst hs
  rfl

theorem ValidateRootfsStatus_of_recovery (Cfg : NVIDIA_CONFIGURATION) (m : MACHINE)
    (BootParams : L4T_BOOT_PARAMS)
    (hMode : BootParams.BootMode = Cfg.NVIDIA_L4T_BOOTMODE_RECOVERY) :
    ValidateRootfsStatus Cfg m BootParams = (OUTCOME.Returned EFI_SUCCESS, BootParams, m) := by
  simp only [ValidateRootfsStatus, hMode, if_true]

theorem ValidateRootfsStatus_of_invalid_chain (Cfg : NVIDIA_CONFIGURATION) (m : MACHINE)
    (BootParams : L4T_BOOT_PARAMS)
    (hMode : BootParams.BootMode ≠ Cfg.NVIDIA_L4T_BOOTMODE_RECOVERY)
    (hChain : BootParams.BootChain > ROOTFS_SLOT_B) :
    ValidateRootfsStatus Cfg m BootParams
      = (OUTCOME.Returned EFI_INVALID_PARAMETER, BootParams, m) := by
  simp only [ValidateRootfsStatus, hMode, hChain, if_true, if_false]

theorem RetryIndex_cases (Slot : Nat) : RetryIndex Slot = 2 ∨ RetryIndex Slot = 3 := by
  unfold RetryIndex
  split_ifs
  · exact Or.inl rfl
  · exact Or.inr rfl

theorem StatusIndex_cases (Slot : Nat) : StatusIndex Slot = 0 ∨ StatusIndex Slot = 1 := by
  unfold StatusIndex
  split_ifs
  · exact Or.inl rfl
  · exact Or.inr rfl

theorem BootableInfo_UpdateFlag (Info : L4T_RF_AB_PARAM) (Slot j : Nat) :
    ((BootableInfo Info Slot).RootfsVar j).UpdateFlag
      = if j = StatusIndex Slot then 1
        else if j = RetryIndex Slot then 1 else (Info.RootfsVar j).UpdateFlag := by
  simp [BootableInfo]

theorem SwitchInfo_UpdateFlag (Cfg : NVIDIA_CONFIGURATION) (Info : L4T_RF_AB_PARAM)
    (Slot NonCurrentSlot j : Nat) :
    ((SwitchInfo Cfg Info Slot NonCurrentSlot).RootfsVar j).UpdateFlag
      = if j = RF_FW_NEXT then 1
        else if j = StatusIndex Slot then 1 else (Info.RootfsVar j).UpdateFlag := by
  simp [SwitchInfo]

theorem ExhaustedInfo_UpdateFlag (Cfg : NVIDIA_CONFIGURATION) (Info : L4T_RF_AB_PARAM)
    (Slot NonCurrentSlot j : Nat) :
    ((ExhaustedInfo Cfg Info Slot NonCurrentSlot).RootfsVar j).UpdateFlag
      = if j = StatusIndex NonCurrentSlot then 1
        else if j = StatusIndex Slot then 1 else (Info.RootfsVar j).UpdateFlag := by
  simp [ExhaustedInfo]

theorem ReadRootfsVariables_Value_of_reached (Store : VARIABLE_STORE) (Index : Nat)
    (hI : Index < RF_VARIABLE_INDEX_MAX)
    (hPrev : ∀ j, j < Index → LoadStatus Store j = EFI_SUCCESS) :
    ((ReadRootfsVariables (List.range RF_VARIABLE_INDEX_MAX)
        (MACHINE.Entry Store)).2.mRootfsInfo.RootfsVar Index).Value
      = LoadedValue Store Index := by
  have hr : List.range RF_VARIABLE_INDEX_MAX = [0, 1, 2, 3, 4, 5] := by decide
  have h6 : Index < 6 := hI
  rw [hr]
  simp only [ReadRootfsVariables,
    RFGetVariable_eq _ _ _ (by decide : (0:Nat) < RF_VARIABLE_INDEX_MAX),
    RFGetVariable_eq _ _ _ (by decide : (1:Nat) < RF_VARIABLE_INDEX_MAX),
    RFGetVariable_eq _ _ _ (by decide : (2:Nat) < RF_VARIABLE_INDEX_MAX),
    RFGetVariable_eq _ _ _ (by decide : (3:Nat) < RF_VARIABLE_INDEX_MAX),
    RFGetVariable_eq _ _ _ (by decide : (4:Nat) < RF_VARIABLE_INDEX_MAX),
    RFGetVariable_eq _ _ _ (by decide : (5:Nat) < RF_VARIABLE_INDEX_MAX),
    MACHINE.Entry]
  interval_cases Index
  · split_ifs <;> simp
  · have h0 := hPrev 0 (by decide)
    simp only [h0, EFI_ERROR, Bool.false_eq_true, if_false]
    split_ifs <;> simp
  · have h0 := hPrev 0 (by decide)
    have h1 := hPrev 1 (by decide)
    simp only [h0, h1, EFI_ERROR, Bool.false_eq_true, if_false]
    split_ifs <;> simp
  · have h0 := hPrev 0 (by decide)
    have h1 := hPrev 1 (by decide)
    have h2 := hPrev 2 (by decide)
    simp only [h0, h1, h2, EFI_ERROR, Bool.false_eq_true, if_false]
    split_ifs <;> simp
  · have h0 := hPrev 0 (by decide)
    have h1 := hPrev 1 (by decide)
    have h2 := hPrev 2 (by decide)
    have h3 := hPrev 3 (by decide)
    simp only [h0, h1, h2, h3, EFI_ERROR, Bool.false_eq_true, if_false]
    split_ifs <;> simp
  · have h0 := hPrev 0 (by decide)
    have h1 := hPrev 1 (by decide)
    have h2 := hPrev 2 (by decide)
    have h3 := hPrev 3 (by decide)
    have h4 := hPrev 4 (by decide)
    simp only [h0, h1, h2, h3, h4, EFI_ERROR, Bool.false_eq_true, if_false]
    split_ifs <;> simp

/-! ## Lemmas on a commit with failing writes -/

theorem CheckAndUpdateVariableLoop_stops (n : Nat) :
    ∀ (a : Nat) (m : MACHINE), a + n = RF_VARIABLE_INDEX_MAX →
      ∃ k, a ≤ k ∧ k ≤ RF_VARIABLE_INDEX_MAX ∧
        (∀ i, a ≤ i → i < k → (m.mRootfsInfo.RootfsVar i).UpdateFlag ≠ 0 →
          EFI_ERROR (m.Store.SetResult i (some (m.mRootfsInfo.RootfsVar i).Value)) = false) ∧
        (∀ i, (CheckAndUpdateVariableLoop (List.range' a n) EFI_SUCCESS m).2.Store.Cell i
          = if (a ≤ i ∧ i < k) ∧ (m.mRootfsInfo.RootfsVar i).UpdateFlag ≠ 0 then
              VARIABLE_CELL.Present (m.mRootfsInfo.RootfsVar i).Value
            else m.Store.Cell i) ∧
        (k = RF_VARIABLE_INDEX_MAX →
          (CheckAndUpdateVariableLoop (List.range' a n) EFI_SUCCESS m).1 = EFI_SUCCESS) ∧
        (k < RF_VARIABLE_INDEX_MAX →
          (m.mRootfsInfo.RootfsVar k).UpdateFlag ≠ 0 ∧
          EFI_ERROR (m.Store.SetResult k (some (m.mRootfsInfo.RootfsVar k).Value)) = true ∧
          (CheckAndUpdateVariableLoop (List.range' a n) EFI_SUCCESS m).1
            = m.Store.SetResult k (some (m.mRootfsInfo.RootfsVar k).Value)) := by
  induction n with
  | zero =>
    intro a m ha
    have ha6 : a = 6 := by
      have : a + 0 = 6 := ha
      omega
    refine ⟨a, le_refl a, by rw [ha6], fun i h1 h2 => by omega, ?_, fun _ => rfl, ?_⟩
    · intro i
      have hn : ¬ ((a ≤ i ∧ i < a) ∧ (m.mRootfsInfo.RootfsVar i).UpdateFlag ≠ 0) := by
        rintro ⟨⟨h1, h2⟩, -⟩
        omega
      rw [if_neg hn]
      rfl
    · intro hk
      have : a < 6 := hk
      omega
  | succ n ih =>
    intro a m ha
    have ha6 : a + (n + 1) = 6 := ha
    have hI : ¬ (a ≥ RF_VARIABLE_INDEX_MAX) := by
      have : ¬ (a ≥ 6) := by omega
      exact this
    rw [List.range'_succ]
    unfold CheckAndUpdateVariableLoop
    by_cases hF : (m.mRootfsInfo.RootfsVar a).UpdateFlag = 0
    · simp only [hF, ne_eq, not_true_eq_false, if_false]
      obtain ⟨k, hk1, hk2, hk3, hk4, hk5, hk6⟩ := ih (a + 1) m (by rw [← ha]; omega)
      refine ⟨k, by omega, hk2, ?_, ?_, hk5, hk6⟩
      · intro i h1 h2 hd
        by_cases hia : i = a
        · subst hia; exact absurd hF hd
        · exact hk3 i (by omega) h2 hd
      · intro i
        rw [hk4 i]
        by_cases hia : i = a
        · subst hia
          simp [hF]
        · have : (a + 1 ≤ i ∧ i < k) ↔ (a ≤ i ∧ i < k) := by
            constructor
            · rintro ⟨h1, h2⟩; exact ⟨by omega, h2⟩
            · rintro ⟨h1, h2⟩; exact ⟨by omega, h2⟩
          simp only [this]
    · simp only [ne_eq, hF, not_false_eq_true, if_true, RFSetVariable, if_neg hI, gRT_SetVariable]
      by_cases hE : EFI_ERROR (m.Store.SetResult a (some (m.mRootfsInfo.RootfsVar a).Value)) = true
      · simp only [hE, if_true]
        refine ⟨a, le_refl a, by omega, fun i h1 h2 => by omega, ?_, ?_, ?_⟩
        · intro i
          have hn : ¬ ((a ≤ i ∧ i < a) ∧ (m.mRootfsInfo.RootfsVar i).UpdateFlag ≠ 0) := by
            rintro ⟨⟨h1, h2⟩, -⟩
            omega
          rw [if_neg hn]
        · intro hk
          have : a = 6 := hk
          omega
        · intro _
          exact ⟨hF, hE, rfl⟩
      · have hE1 : EFI_ERROR (m.Store.SetResult a (some (m.mRootfsInfo.RootfsVar a).Value))
            = false := by simpa using hE
        have hS : EFI_ERROR EFI_SUCCESS = false := rfl
        simp only [hE1, Bool.false_eq_true, if_false, hS]
        obtain ⟨k, hk1, hk2, hk3, hk4, hk5, hk6⟩ := ih (a + 1)
          ⟨m.Store.Put a (VARIABLE_CELL.Present (m.mRootfsInfo.RootfsVar a).Value),
            m.mRootfsInfo,
            m.Trace ++ [EVENT.SetVariable a (m.mRootfsInfo.RootfsVar a).Value]⟩
          (by rw [← ha]; omega)
        simp only [Put_SetResult] at hk3 hk6
        refine ⟨k, by omega, hk2, ?_, ?_, hk5, hk6⟩
        · intro i h1 h2 hd
          by_cases hia : i = a
          · subst hia; exact hE1
          · exact hk3 i (by omega) h2 hd
        · intro i
          rw [hk4 i]
          by_cases hia : i = a
          · subst hia
            have h1 : ¬ (i + 1 ≤ i ∧ i < k) := by omega
            have h2 : (i ≤ i ∧ i < k) := by omega
            simp [h1, h2, hF]
          · have : (a + 1 ≤ i ∧ i < k) ↔ (a ≤ i ∧ i < k) := by
              constructor
              · rintro ⟨h1, h2⟩; exact ⟨by omega, h2⟩
              · rintro ⟨h1, h2⟩; exact ⟨by omega, h2⟩
            simp only [this, Put_Cell, if_neg hia]

theorem CheckAndUpdateVariableLoop_store_frame (Indices : List Nat) :
    ∀ (Status : EFI_STATUS) (m : MACHINE),
      (CheckAndUpdateVariableLoop Indices Status m).2.Store.SetResult = m.Store.SetResult ∧
      ∀ i, (m.mRootfsInfo.RootfsVar i).UpdateFlag = 0 →
        (CheckAndUpdateVariableLoop Indices Status m).2.Store.Cell i = m.Store.Cell i := by
  induction Indices with
  | nil => intro Status m; exact ⟨rfl, fun _ _ => rfl⟩
  | cons Index Rest ih =>
    intro Status m
    unfold CheckAndUpdateVariableLoop
    by_cases hF : (m.mRootfsInfo.RootfsVar Index).UpdateFlag = 0
    · simp only [hF, ne_eq, not_true_eq_false, if_false]
      exact ih Status m
    · simp only [ne_eq, hF, not_false_eq_true, if_true]
      by_cases hI : Index ≥ RF_VARIABLE_INDEX_MAX
      · simp only [RFSetVariable, if_pos hI]
        have hE : EFI_ERROR EFI_INVALID_PARAMETER = true := rfl
        rw [if_pos hE]
        exact ⟨rfl, fun _ _ => rfl⟩
      · simp only [RFSetVariable, if_neg hI, gRT_SetVariable]
        by_cases hE : EFI_ERROR (m.Store.SetResult Index
            (some (m.mRootfsInfo.RootfsVar Index).Value)) = true
        · rw [if_pos hE, if_pos hE]
          exact ⟨rfl, fun _ _ => rfl⟩
        · have hS : EFI_ERROR EFI_SUCCESS = false := rfl
          simp only [hE, Bool.false_eq_true, if_false, hS]
          obtain ⟨h1, h2⟩ := ih EFI_SUCCESS
            ⟨m.Store.Put Index (VARIABLE_CELL.Present (m.mRootfsInfo.RootfsVar Index).Value),
              m.mRootfsInfo,
              m.Trace ++ [EVENT.SetVariable Index (m.mRootfsInfo.RootfsVar Index).Value]⟩
          refine ⟨h1, ?_⟩
          intro i hi
          rw [h2 i hi]
          have hne : i ≠ Index := by
            intro heq
            subst heq
            exact hF hi
          simp [hne]

theorem RFDeleteVariable_Cell (m : MACHINE) :
    (RFDeleteVariable m RF_BC_STATUS).2.Store.Cell RF_BC_STATUS
      = if EFI_ERROR (m.Store.SetResult RF_BC_STATUS none) then m.Store.Cell RF_BC_STATUS
        else VARIABLE_CELL.Absent := by
  have h5 : ¬ (RF_BC_STATUS ≥ RF_VARIABLE_INDEX_MAX) := by decide
  unfold RFDeleteVariable
  rw [if_neg h5]
  unfold gRT_DeleteVariable
  by_cases hE : EFI_ERROR (m.Store.SetResult RF_BC_STATUS none) = true
  · simp only [hE, if_true]
  · simp only [hE, Bool.false_eq_true, if_false]
    cases hc : m.Store.Cell RF_BC_STATUS <;> simp [hc]

theorem ValidateRootfsStatusExit_Cell_BC_STATUS (BootParams : L4T_BOOT_PARAMS) (m : MACHINE)
    (hF : (m.mRootfsInfo.RootfsVar RF_BC_STATUS).UpdateFlag = 0) :
    (ValidateRootfsStatusExit EFI_SUCCESS BootParams m).2.2.Store.Cell RF_BC_STATUS
      = if (m.mRootfsInfo.RootfsVar RF_FW_NEXT).UpdateFlag ≠ 0 ∧
            EFI_ERROR (m.Store.SetResult RF_BC_STATUS none) = false then
          VARIABLE_CELL.Absent
        else m.Store.Cell RF_BC_STATUS := by
  obtain ⟨hR, hC⟩ := CheckAndUpdateVariableLoop_store_frame
    (List.range RF_VARIABLE_INDEX_MAX) EFI_SUCCESS m
  have hI := CheckAndUpdateVariableLoop_mRootfsInfo (List.range RF_VARIABLE_INDEX_MAX)
    EFI_SUCCESS m
  have hC5 := hC RF_BC_STATUS hF
  unfold ValidateRootfsStatusExit CheckAndUpdateVariable
  generalize CheckAndUpdateVariableLoop (List.range RF_VARIABLE_INDEX_MAX) EFI_SUCCESS m = r
    at hR hC5 hI
  obtain ⟨Status1, m1⟩ := r
  simp only at hR hC5 hI
  have hD := RFDeleteVariable_Cell m1
  rw [if_pos rfl]
  simp only [hI]
  by_cases hN : (m.mRootfsInfo.RootfsVar RF_FW_NEXT).UpdateFlag = 0
  · have hN1 : ¬ ((m.mRootfsInfo.RootfsVar RF_FW_NEXT).UpdateFlag ≠ 0) := not_not.2 hN
    rw [if_neg hN1, if_neg (fun h => hN1 h.1)]
    exact hC5
  · have hN1 : (m.mRootfsInfo.RootfsVar RF_FW_NEXT).UpdateFlag ≠ 0 := hN
    rw [if_pos hN1]
    show (RFDeleteVariable m1 RF_BC_STATUS).2.Store.Cell RF_BC_STATUS = _
    rw [hD, hR, hC5]
    by_cases hE : EFI_ERROR (m.Store.SetResult RF_BC_STATUS none) = true
    · simp [hE]
    · simp [hE, hN1]

theorem LoadStatus_congr (S1 S2 : VARIABLE_STORE) (h : S1.Cell = S2.Cell) (Index : Nat) :
    LoadStatus S1 Index = LoadStatus S2 Index ∧ LoadedValue S1 Index = LoadedValue S2 Index := by
  unfold LoadStatus LoadedValue RFGetVariable gRT_GetVariable MACHINE.Entry
  simp only [h]
  by_cases hI : Index ≥ RF_VARIABLE_INDEX_MAX
  · simp only [if_pos hI, and_self]
  · simp only [if_neg hI]
    cases S2.Cell Index
    · simp [EFI_ERROR]
    · simp only [EFI_ERROR, if_true]
      split_ifs <;> simp
    · simp [EFI_ERROR]

theorem LoadedInfo_congr (S1 S2 : VARIABLE_STORE) (h : S1.Cell = S2.Cell) :
    LoadedInfo S1 = LoadedInfo S2 := by
  unfold LoadedInfo
  simp only [(LoadStatus_congr S1 S2 h _).2]

theorem Loads_congr (S1 S2 : VARIABLE_STORE) (h : S1.Cell = S2.Cell) (hL : S1.Loads) :
    S2.Loads := by
  intro i hi
  rw [← (LoadStatus_congr S1 S2 h i).1]
  exact hL i hi

/-! ## Lemmas on strings -/

theorem StrCmp_self (Str : List Nat) : StrCmp Str Str = 0 := by
  induction Str with
  | nil => rfl
  | cons c Rest ih => simp [StrCmp, ih]

theorem StrCmp_append_ne_zero (Base : List Nat) (c : Nat) (Rest : List Nat) (hc : c ≠ 0) :
    StrCmp (Base ++ c :: Rest) Base ≠ 0 := by
  induction Base with
  | nil =>
    simp only [List.nil_append, StrCmp]
    omega
  | cons b BaseRest ih => simpa [StrCmp] using ih

theorem StrStr_at_start (Str SearchString : List Nat) (h : SearchString <+: Str) :
    StrStr Str SearchString = some 0 := by
  cases Str with
  | nil =>
    have : SearchString = [] := List.prefix_nil.1 h
    simp [StrStr, this]
  | cons c Rest =>
    have hp : SearchString.isPrefixOf (c :: Rest) = true := List.isPrefixOf_iff_prefix.2 h
    simp [StrStr, hp]

theorem StrStr_cons_skip (c : Nat) (Rest SearchString : List Nat)
    (h : ¬ SearchString <+: c :: Rest) :
    StrStr (c :: Rest) SearchString
      = (StrStr Rest SearchString).map (fun Offset => Offset + 1) := by
  have hp : SearchString.isPrefixOf (c :: Rest) = false := by
    cases hb : SearchString.isPrefixOf (c :: Rest)
    · rfl
    · exact absurd (List.isPrefixOf_iff_prefix.1 hb) h
  simp [StrStr, hp]

theorem CharAt_append_length (Base : List Nat) (c : Nat) (Rest : List Nat) :
    CharAt (Base ++ c :: Rest) Base.length = c := by
  induction Base with
  | nil => rfl
  | cons b BaseRest ih =>
    have : CharAt (b :: BaseRest ++ c :: Rest) (b :: BaseRest).length
        = CharAt (BaseRest ++ c :: Rest) BaseRest.length := rfl
    rw [this, ih]

theorem CharAt_append_length_succ (Base : List Nat) (c d : Nat) (Rest : List Nat) :
    CharAt (Base ++ c :: d :: Rest) (Base.length + 1) = d := by
  have h : Base ++ c :: d :: Rest = (Base ++ [c]) ++ d :: Rest := by simp
  have hl : Base.length + 1 = (Base ++ [c]).length := by simp
  rw [h, hl]
  exact CharAt_append_length _ _ _

/-! ## Lemmas on the classification of partition names -/

theorem ClassifyPartitionName_suffixed (Base : List Nat) (s X : Nat)
    (hLen : Base.length ≤ MAX_PARTITION_NAME_SIZE) (hs : s ≤ 1) :
    ClassifyPartitionName Base s (Base ++ [95, X]) =
      if X = 97 + s ∨ X = 65 + s then
        { FoundHandle := 1, FoundHandleGeneric := 0, FoundHandleAlt := 0 }
      else if X = 98 - s ∨ X = 66 - s then
        { FoundHandle := 0, FoundHandleGeneric := 0, FoundHandleAlt := 1 }
      else { FoundHandle := 0, FoundHandleGeneric := 0, FoundHandleAlt := 0 } := by
  have hcmp : StrCmp (Base ++ [95, X]) Base ≠ 0 := StrCmp_append_ne_zero Base 95 [X] (by decide)
  have hlen : StrnLenS Base MAX_PARTITION_NAME_SIZE + 2 = StrLen (Base ++ [95, X]) := by
    have h36 : Base.length ≤ 36 := hLen
    simp [StrnLenS, StrLen, Nat.min_eq_left h36]
  have hL : StrnLenS Base MAX_PARTITION_NAME_SIZE = Base.length := by
    have h36 : Base.length ≤ 36 := hLen
    simp [StrnLenS, Nat.min_eq_left h36]
  have hstr : StrStr (Base ++ [95, X]) Base = some 0 :=
    StrStr_at_start _ _ (List.prefix_append Base [95, X])
  have h1 : CharAt (Base ++ [95, X]) Base.length = 95 := CharAt_append_length Base 95 [X]
  have h2 : CharAt (Base ++ [95, X]) (Base.length + 1) = X :=
    CharAt_append_length_succ Base 95 X []
  have hs01 : s = 0 ∨ s = 1 := by omega
  unfold ClassifyPartitionName FindPartitionInfoName
  rw [if_neg hcmp, if_pos hlen, hstr]
  simp only [hL, h1, h2]
  rcases hs01 with rfl | rfl <;> simp

theorem ClassifyPartitionName_self (Base : List Nat) (s : Nat) :
    ClassifyPartitionName Base s Base
      = { FoundHandle := 0, FoundHandleGeneric := 1, FoundHandleAlt := 0 } := by
  unfold ClassifyPartitionName FindPartitionInfoName
  rw [if_pos (StrCmp_self Base)]

theorem LocatePartitionIndex_zero (Db : HANDLE_DATABASE) :
    (LocatePartitionIndex Db 0).1 = 0 := rfl

theorem LocatePartitionIndexNodes_of_no_hard_drive (Nodes : List EFI_DEVICE_PATH_NODE)
    (h : ∀ n ∈ Nodes, ¬ (n.NodeType = MEDIA_DEVICE_PATH ∧ n.SubType = MEDIA_HARDDRIVE_DP)) :
    LocatePartitionIndexNodes Nodes = 0 := by
  induction Nodes with
  | nil => rfl
  | cons Node Rest ih =>
    unfold LocatePartitionIndexNodes
    rw [if_neg (h Node (List.mem_cons_self _ _))]
    exact ih (fun n hn => h n (List.mem_cons_of_mem _ hn))

theorem LocatePartitionIndex_of_no_hard_drive (Db : HANDLE_DATABASE) (Handle : EFI_HANDLE)
    (Nodes : List EFI_DEVICE_PATH_NODE) (hPath : Db.DevicePath Handle = some Nodes)
    (h : ∀ n ∈ Nodes, ¬ (n.NodeType = MEDIA_DEVICE_PATH ∧ n.SubType = MEDIA_HARDDRIVE_DP)) :
    (LocatePartitionIndex Db Handle).1 = 0 := by
  unfold LocatePartitionIndex
  split_ifs
  · rfl
  · rw [hPath]
    exact LocatePartitionIndexNodes_of_no_hard_drive Nodes h

theorem ProcessBootParamsLoadOptions_BootChain (Cfg : NVIDIA_CONFIGURATION) (RSIZE_MAX : Nat)
    (LoadedImage : EFI_LOADED_IMAGE_PROTOCOL) (BootParams : L4T_BOOT_PARAMS) :
    (ProcessBootParamsLoadOptions Cfg RSIZE_MAX LoadedImage BootParams).BootChain =
      match ParsedBootChainOverride RSIZE_MAX LoadedImage with
      | some N => if N ≤ 1 then N else BootParams.BootChain
      | none => BootParams.BootChain := by
  unfold ProcessBootParamsLoadOptions ParsedBootChainOverride StrLen
  by_cases hS : LoadedImage.LoadOptionsSize = 0
  · simp [hS]
  · simp only [hS, ne_eq, not_false_eq_true, if_true, if_false]
    cases hO : StrStr LoadedImage.LoadOptions BOOTCHAIN_OVERRIDE_STRING with
    | none => simp only []; split_ifs <;> rfl
    | some Offset =>
      simp only []
      by_cases hE : EFI_ERROR (StrDecimalToUint64S RSIZE_MAX
          (LoadedImage.LoadOptions.drop (Offset + BOOTCHAIN_OVERRIDE_STRING.length)) 0).1 = true
      · simp only [hE, if_true]
        split_ifs <;> rfl
      · simp only [hE, Bool.false_eq_true, if_false]
        by_cases hN : (StrDecimalToUint64S RSIZE_MAX
            (LoadedImage.LoadOptions.drop (Offset + BOOTCHAIN_OVERRIDE_STRING.length)) 0).2 ≤ 1
        · simp only [hN, if_true]
          have hN1 : (StrDecimalToUint64S RSIZE_MAX
            (LoadedImage.LoadOptions.drop (Offset + BOOTCHAIN_OVERRIDE_STRING.length)) 0).2 %
              UINT32_MODULUS = (StrDecimalToUint64S RSIZE_MAX
            (LoadedImage.LoadOptions.drop (Offset + BOOTCHAIN_OVERRIDE_STRING.length)) 0).2 := by
            apply Nat.mod_eq_of_lt
            unfold UINT32_MODULUS
            omega
          rw [hN1]
        · simp only [hN, if_false]
          split_ifs <;> rfl

theorem ProcessBootParamsResolve_machine (Cfg : NVIDIA_CONFIGURATION) (RSIZE_MAX : Nat)
    (m : MACHINE) (LoadedImage : EFI_LOADED_IMAGE_PROTOCOL) :
    (ProcessBootParamsResolve Cfg RSIZE_MAX m LoadedImage).2 =
      { m with
        Trace := m.Trace ++
          [EVENT.GetVariable BOOT_FW_VARIABLE_NAME, EVENT.GetVariable BOOT_OS_VARIABLE_NAME] } := by
  unfold ProcessBootParamsResolve gRT_GetVariable
  cases hF : m.Store.Cell BOOT_FW_VARIABLE_NAME <;>
    cases hO : m.Store.Cell BOOT_OS_VARIABLE_NAME <;>
    simp [hF, hO]

theorem ProcessBootParamsResolve_BootChain (Cfg : NVIDIA_CONFIGURATION) (RSIZE_MAX : Nat)
    (m : MACHINE) (LoadedImage : EFI_LOADED_IMAGE_PROTOCOL) :
    (ProcessBootParamsResolve Cfg RSIZE_MAX m LoadedImage).1.BootChain =
      InitialBootChain (ParsedBootChainOverride RSIZE_MAX LoadedImage)
        (ChainVariable m.Store BOOT_OS_VARIABLE_NAME)
        (ChainVariable m.Store BOOT_FW_VARIABLE_NAME) := by
  unfold ProcessBootParamsResolve gRT_GetVariable InitialBootChain InitialBootChainOfVariables
    ChainVariable
  cases hF : m.Store.Cell BOOT_FW_VARIABLE_NAME <;>
    cases hO : m.Store.Cell BOOT_OS_VARIABLE_NAME <;>
    simp only [hF, hO, ProcessBootParamsLoadOptions_BootChain] <;>
    cases ParsedBootChainOverride RSIZE_MAX LoadedImage <;>
    simp only [EFI_ERROR] <;>
    split_ifs <;> simp_all

/-! ## What the rootfs validation leaves alone -/

theorem EngineFrame_refl (m : MACHINE) : EngineFrame m m :=
  ⟨rfl, fun _ _ => rfl, [], (List.append_nil _).symm,
    fun _ _ => ⟨List.not_mem_nil _, fun _ => List.not_mem_nil _⟩⟩

theorem EngineFrame_trans (a b c : MACHINE) (h1 : EngineFrame a b) (h2 : EngineFrame b c) :
    EngineFrame a c := by
  obtain ⟨s1, c1, T1, t1, n1⟩ := h1
  obtain ⟨s2, c2, T2, t2, n2⟩ := h2
  refine ⟨s2.trans s1, fun i hi => (c2 i hi).trans (c1 i hi), T1 ++ T2,
    by rw [t2, t1, List.append_assoc], ?_⟩
  intro i hi
  refine ⟨?_, ?_⟩
  · simp only [List.mem_append, not_or]
    exact ⟨(n1 i hi).1, (n2 i hi).1⟩
  · intro v
    simp only [List.mem_append, not_or]
    exact ⟨(n1 i hi).2 v, (n2 i hi).2 v⟩

theorem EngineFrame_of_eq (m m1 : MACHINE) (hS : m1.Store = m.Store)
    (hT : m1.Trace = m.Trace) : EngineFrame m m1 := by
  refine ⟨by rw [hS], fun _ _ => by rw [hS], [], by rw [hT, List.append_nil], ?_⟩
  exact fun _ _ => ⟨List.not_mem_nil _, fun _ => List.not_mem_nil _⟩

theorem RFSetVariable_engineFrame (m : MACHINE) (Index Value : Nat) :
    EngineFrame m (RFSetVariable m Index Value).2 := by
  unfold RFSetVariable
  by_cases hI : Index ≥ RF_VARIABLE_INDEX_MAX
  · rw [if_pos hI]
    exact EngineFrame_refl m
  · rw [if_neg hI]
    have hlt : Index < 6 := by
      have h : ¬ (Index ≥ 6) := hI
      omega
    have hT : ∀ i, RF_VARIABLE_INDEX_MAX ≤ i →
        EVENT.DeleteVariable i ∉ [EVENT.SetVariable Index Value] ∧
        ∀ v, EVENT.SetVariable i v ∉ [EVENT.SetVariable Index Value] := by
      intro i hi
      have hi6 : 6 ≤ i := hi
      refine ⟨by simp, ?_⟩
      intro v h
      simp only [List.mem_singleton, EVENT.SetVariable.injEq] at h
      omega
    unfold gRT_SetVariable
    split_ifs
    · exact ⟨rfl, fun _ _ => rfl, [EVENT.SetVariable Index Value], rfl, hT⟩
    · refine ⟨rfl, ?_, [EVENT.SetVariable Index Value], rfl, hT⟩
      intro i hi
      have hi6 : 6 ≤ i := hi
      have hne : i ≠ Index := by omega
      simp [VARIABLE_STORE.Put, hne]

theorem RFDeleteVariable_engineFrame (m : MACHINE) (Index : Nat) :
    EngineFrame m (RFDeleteVariable m Index).2 := by
  unfold RFDeleteVariable
  by_cases hI : Index ≥ RF_VARIABLE_INDEX_MAX
  · rw [if_pos hI]
    exact EngineFrame_refl m
  · rw [if_neg hI]
    have hlt : Index < 6 := by
      have h : ¬ (Index ≥ 6) := hI
      omega
    have hT : ∀ i, RF_VARIABLE_INDEX_MAX ≤ i →
        EVENT.DeleteVariable i ∉ [EVENT.DeleteVariable Index] ∧
        ∀ v, EVENT.SetVariable i v ∉ [EVENT.DeleteVariable Index] := by
      intro i hi
      have hi6 : 6 ≤ i := hi
      refine ⟨?_, fun v => by simp⟩
      intro h
      simp only [List.mem_singleton, EVENT.DeleteVariable.injEq] at h
      omega
    unfold gRT_DeleteVariable
    split_ifs
    · exact ⟨rfl, fun _ _ => rfl, [EVENT.DeleteVariable Index], rfl, hT⟩
    · cases m.Store.Cell Index
      · refine ⟨rfl, ?_, [EVENT.DeleteVariable Index], rfl, hT⟩
        intro i hi
        have hi6 : 6 ≤ i := hi
        have hne : i ≠ Index := by omega
        simp [VARIABLE_STORE.Put, hne]
      · exact ⟨rfl, fun _ _ => rfl, [EVENT.DeleteVariable Index], rfl, hT⟩
      · refine ⟨rfl, ?_, [EVENT.DeleteVariable Index], rfl, hT⟩
        intro i hi
        have hi6 : 6 ≤ i := hi
        have hne : i ≠ Index := by omega
        simp [VARIABLE_STORE.Put, hne]

theorem CheckAndUpdateVariableLoop_engineFrame (Indices : List Nat) :
    ∀ (Status : EFI_STATUS) (m : MACHINE),
      EngineFrame m (CheckAndUpdateVariableLoop Indices Status m).2 := by
  induction Indices with
  | nil => intro Status m; exact EngineFrame_refl m
  | cons Index Rest ih =>
    intro Status m
    unfold CheckAndUpdateVariableLoop
    by_cases hF : (m.mRootfsInfo.RootfsVar Index).UpdateFlag = 0
    · simp only [hF, ne_eq, not_true_eq_false, if_false]
      exact ih Status m
    · simp only [ne_eq, hF, not_false_eq_true, if_true]
      have hS := RFSetVariable_engineFrame m Index (m.mRootfsInfo.RootfsVar Index).Value
      generalize RFSetVariable m Index (m.mRootfsInfo.RootfsVar Index).Value = r at hS
      obtain ⟨Status1, m1⟩ := r
      simp only at hS ⊢
      split_ifs
      · exact hS
      · exact EngineFrame_trans _ _ _ hS (ih Status1 m1)

theorem ReadRootfsVariables_engineFrame (Indices : List Nat) (m : MACHINE) :
    EngineFrame m (ReadRootfsVariables Indices m).2 := by
  obtain ⟨hS, _, ⟨T, hT, hP⟩, _, _⟩ := ReadRootfsVariables_frame Indices m
  refine ⟨by rw [hS], fun _ _ => by rw [hS], T, hT, ?_⟩
  intro i _
  refine ⟨?_, ?_⟩
  · intro h
    have := hP.subset h
    simp at this
  · intro v h
    have := hP.subset h
    simp at this

theorem ValidateRootfsStatusExit_engineFrame (Status : EFI_STATUS)
    (BootParams : L4T_BOOT_PARAMS) (m : MACHINE) :
    EngineFrame m (ValidateRootfsStatusExit Status BootParams m).2.2 := by
  unfold ValidateRootfsStatusExit CheckAndUpdateVariable
  by_cases hS : Status = EFI_SUCCESS
  · rw [if_pos hS]
    have hC := CheckAndUpdateVariableLoop_engineFrame (List.range RF_VARIABLE_INDEX_MAX)
      EFI_SUCCESS m
    generalize CheckAndUpdateVariableLoop (List.range RF_VARIABLE_INDEX_MAX) EFI_SUCCESS m = r
      at hC
    obtain ⟨Status1, m1⟩ := r
    simp only at hC ⊢
    split_ifs
    · have hD := RFDeleteVariable_engineFrame m1 RF_BC_STATUS
      generalize RFDeleteVariable m1 RF_BC_STATUS = d at hD
      obtain ⟨Status2, m2⟩ := d
      simp only at hD ⊢
      refine EngineFrame_trans _ _ _ (EngineFrame_trans _ _ _ hC hD) ?_
      refine ⟨rfl, fun _ _ => rfl, _, rfl, ?_⟩
      intro i _
      exact ⟨by simp, fun v => by simp⟩
    · exact hC
  · rw [if_neg hS]
    exact EngineFrame_refl m

theorem ValidateRootfsStatus_engineFrame (Cfg : NVIDIA_CONFIGURATION) (m : MACHINE)
    (BootParams : L4T_BOOT_PARAMS) :
    EngineFrame m (ValidateRootfsStatus Cfg m BootParams).2.2 := by
  unfold ValidateRootfsStatus
  by_cases hM : BootParams.BootMode = Cfg.NVIDIA_L4T_BOOTMODE_RECOVERY
  · rw [if_pos hM]
    exact EngineFrame_refl m
  · rw [if_neg hM]
    by_cases hC : BootParams.BootChain > ROOTFS_SLOT_B
    · rw [if_pos hC]
      exact EngineFrame_refl m
    · rw [if_neg hC]
      have hR := ReadRootfsVariables_engineFrame (List.range RF_VARIABLE_INDEX_MAX) m
      generalize ReadRootfsVariables (List.range RF_VARIABLE_INDEX_MAX) m = r at hR
      obtain ⟨o, m1⟩ := r
      cases o with
      | some Status => exact hR
      | none =>
        simp only at hR ⊢
        split_ifs
        · exact EngineFrame_trans _ _ _ hR (EngineFrame_of_eq _ _ rfl rfl)
        · generalize ValidateRootfsStatusSlots Cfg
            { m1.mRootfsInfo with CurrentSlot := BootParams.BootChain }
            (LogicalNot BootParams.BootChain) BootParams = s
          obtain ⟨Status, BootParams1, Info⟩ := s
          simp only
          exact EngineFrame_trans _ _ _
            (EngineFrame_trans _ _ _ hR (EngineFrame_of_eq _ _ rfl rfl))
            (ValidateRootfsStatusExit_engineFrame Status BootParams1 _)

theorem ValidateRootfsStatus_BootChain (Cfg : NVIDIA_CONFIGURATION) (m : MACHINE)
    (BootParams : L4T_BOOT_PARAMS) :
    (ValidateRootfsStatus Cfg m BootParams).2.1.BootChain = BootParams.BootChain := by
  unfold ValidateRootfsStatus
  by_cases hM : BootParams.BootMode = Cfg.NVIDIA_L4T_BOOTMODE_RECOVERY
  · rw [if_pos hM]
  · rw [if_neg hM]
    by_cases hC : BootParams.BootChain > ROOTFS_SLOT_B
    · rw [if_pos hC]
    · rw [if_neg hC]
      generalize ReadRootfsVariables (List.range RF_VARIABLE_INDEX_MAX) m = r
      obtain ⟨o, m1⟩ := r
      cases o with
      | some Status => rfl
      | none =>
        simp only
        split_ifs
        · rfl
        · have hSlot : ({ m1.mRootfsInfo with CurrentSlot := BootParams.BootChain } :
              L4T_RF_AB_PARAM).CurrentSlot ≤ ROOTFS_SLOT_B := by
            show BootParams.BootChain ≤ ROOTFS_SLOT_B
            exact Nat.le_of_not_gt hC
          have hE := ValidateRootfsStatusSlots_eq Cfg
            { m1.mRootfsInfo with CurrentSlot := BootParams.BootChain } BootParams hSlot
          simp only at hE
          rw [hE]
          split_ifs <;>
            simp only [(ValidateRootfsStatusExit_success _ _).choose_spec.2.2.1] <;>
            simp [BootableInfo, SwitchInfo, ExhaustedInfo]

theorem ValidateRootfsStatusExit_BootMode (Status : EFI_STATUS) (BootParams : L4T_BOOT_PARAMS)
    (m : MACHINE) :
    (ValidateRootfsStatusExit Status BootParams m).2.1.BootMode = BootParams.BootMode := by
  unfold ValidateRootfsStatusExit
  by_cases hS : Status = EFI_SUCCESS
  · rw [if_pos hS]
    generalize CheckAndUpdateVariable m = r
    obtain ⟨Status1, m1⟩ := r
    simp only
    split_ifs <;> rfl
  · rw [if_neg hS]

theorem ValidateRootfsStatus_BootMode (Cfg : NVIDIA_CONFIGURATION) (m : MACHINE)
    (BootParams : L4T_BOOT_PARAMS) :
    (ValidateRootfsStatus Cfg m BootParams).2.1.BootMode = BootParams.BootMode ∨
      (ValidateRootfsStatus Cfg m BootParams).2.1.BootMode =
        Cfg.NVIDIA_L4T_BOOTMODE_RECOVERY := by
  unfold ValidateRootfsStatus
  by_cases hM : BootParams.BootMode = Cfg.NVIDIA_L4T_BOOTMODE_RECOVERY
  · rw [if_pos hM]
    exact Or.inl rfl
  · rw [if_neg hM]
    by_cases hC : BootParams.BootChain > ROOTFS_SLOT_B
    · rw [if_pos hC]
      exact Or.inl rfl
    · rw [if_neg hC]
      generalize ReadRootfsVariables (List.range RF_VARIABLE_INDEX_MAX) m = r
      obtain ⟨o, m1⟩ := r
      cases o with
      | some Status => exact Or.inl rfl
      | none =>
        simp only
        split_ifs
        · exact Or.inr rfl
        · have hSlot : ({ m1.mRootfsInfo with CurrentSlot := BootParams.BootChain } :
              L4T_RF_AB_PARAM).CurrentSlot ≤ ROOTFS_SLOT_B := by
            show BootParams.BootChain ≤ ROOTFS_SLOT_B
            exact Nat.le_of_not_gt hC
          have hE := ValidateRootfsStatusSlots_eq Cfg
            { m1.mRootfsInfo with CurrentSlot := BootParams.BootChain } BootParams hSlot
          simp only at hE
          rw [hE]
          split_ifs
          · exact Or.inl (ValidateRootfsStatusExit_BootMode _ _ _)
          · exact Or.inl (ValidateRootfsStatusExit_BootMode _ _ _)
          · exact Or.inr (ValidateRootfsStatusExit_BootMode _ _ _)

/-! ## Lemmas on the calls of one run -/

theorem ValidateRootfsStatusExit_mem_trace (BootParams : L4T_BOOT_PARAMS) (m : MACHINE)
    (e : EVENT) (h : e ∈ (ValidateRootfsStatusExit EFI_SUCCESS BootParams m).2.2.Trace) :
    e ∈ m.Trace ∨
      (∃ i, i < RF_VARIABLE_INDEX_MAX ∧ (m.mRootfsInfo.RootfsVar i).UpdateFlag ≠ 0 ∧
        e = EVENT.SetVariable i (m.mRootfsInfo.RootfsVar i).Value) ∨
      ((m.mRootfsInfo.RootfsVar RF_FW_NEXT).UpdateFlag ≠ 0 ∧
        e ∈ [EVENT.DeleteVariable RF_BC_STATUS, EVENT.Print,
          EVENT.MicroSecondDelay (2 * DELAY_SECOND), EVENT.ResetCold]) := by
  obtain ⟨T, hP, _, _, _, hT⟩ := ValidateRootfsStatusExit_success BootParams m
  rw [hT] at h
  simp only [List.mem_append] at h
  rcases h with (h | h) | h
  · exact Or.inl h
  · obtain ⟨i, hi, hf, he⟩ := (mem_CommitTrace _ _ _).1 (hP.subset h)
    exact Or.inr (Or.inl ⟨i, List.mem_range.1 hi, hf, he⟩)
  · by_cases hF : (m.mRootfsInfo.RootfsVar RF_FW_NEXT).UpdateFlag = 0
    · rw [if_neg (not_not.2 hF)] at h
      exact absurd h (List.not_mem_nil _)
    · rw [if_pos hF] at h
      exact Or.inr (Or.inr ⟨hF, h⟩)

theorem not_mem_ReadTrace (e : EVENT) (h : e ∈ ReadTrace) : ∃ i, e = EVENT.GetVariable i := by
  unfold ReadTrace at h
  obtain ⟨i, _, hi⟩ := List.mem_map.1 h
  exact ⟨i, hi.symm⟩

theorem ValidateRootfsStatusExit_footprint (BootParams : L4T_BOOT_PARAMS) (m : MACHINE)
    (Other Next : Nat) (P : Prop) (hT : m.Trace = ReadTrace)
    (hOther : (m.mRootfsInfo.RootfsVar Other).UpdateFlag = 0)
    (hStatus : (m.mRootfsInfo.RootfsVar RF_BC_STATUS).UpdateFlag = 0)
    (hNext : (m.mRootfsInfo.RootfsVar RF_FW_NEXT).UpdateFlag ≠ 0 →
      P ∧ (m.mRootfsInfo.RootfsVar RF_FW_NEXT).Value = Next) :
    (∀ v, EVENT.SetVariable Other v ∉
      (ValidateRootfsStatusExit EFI_SUCCESS BootParams m).2.2.Trace) ∧
    (∀ v, EVENT.SetVariable RF_BC_STATUS v ∉
      (ValidateRootfsStatusExit EFI_SUCCESS BootParams m).2.2.Trace) ∧
    (EVENT.DeleteVariable RF_BC_STATUS ∈
      (ValidateRootfsStatusExit EFI_SUCCESS BootParams m).2.2.Trace → P) ∧
    (∀ v, EVENT.SetVariable RF_FW_NEXT v ∈
      (ValidateRootfsStatusExit EFI_SUCCESS BootParams m).2.2.Trace → P ∧ v = Next) := by
  refine ⟨?_, ?_, ?_, ?_⟩
  · intro v h
    rcases ValidateRootfsStatusExit_mem_trace BootParams m _ h with h | ⟨i, _, hf, he⟩ | ⟨_, h⟩
    · rw [hT] at h
      obtain ⟨i, hi⟩ := not_mem_ReadTrace _ h
      cases hi
    · cases he
      exact hf hOther
    · simp at h
  · intro v h
    rcases ValidateRootfsStatusExit_mem_trace BootParams m _ h with h | ⟨i, _, hf, he⟩ | ⟨_, h⟩
    · rw [hT] at h
      obtain ⟨i, hi⟩ := not_mem_ReadTrace _ h
      cases hi
    · cases he
      exact hf hStatus
    · simp at h
  · intro h
    rcases ValidateRootfsStatusExit_mem_trace BootParams m _ h with h | ⟨i, _, hf, he⟩ | ⟨hF, _⟩
    · rw [hT] at h
      obtain ⟨i, hi⟩ := not_mem_ReadTrace _ h
      cases hi
    · cases he
    · exact (hNext hF).1
  · intro v h
    rcases ValidateRootfsStatusExit_mem_trace BootParams m _ h with h | ⟨i, _, hf, he⟩ | ⟨_, h⟩
    · rw [hT] at h
      obtain ⟨i, hi⟩ := not_mem_ReadTrace _ h
      cases hi
    · cases he
      exact ⟨(hNext hf).1, (hNext hf).2⟩
    · simp at h

theorem CheckAndUpdateVariable_error (m : MACHINE)
    (h : EFI_ERROR (CheckAndUpdateVariable m).1 = true) :
    ∃ i, i < RF_VARIABLE_INDEX_MAX ∧ (m.mRootfsInfo.RootfsVar i).UpdateFlag ≠ 0 ∧
      EFI_ERROR (m.Store.SetResult i (some (m.mRootfsInfo.RootfsVar i).Value)) = true ∧
      (CheckAndUpdateVariable m).1 =
        m.Store.SetResult i (some (m.mRootfsInfo.RootfsVar i).Value) := by
  have hr : List.range RF_VARIABLE_INDEX_MAX = List.range' 0 6 := by decide
  obtain ⟨k, -, hk2, -, -, hk5, hk6⟩ := CheckAndUpdateVariableLoop_stops 6 0 m (by decide)
  unfold CheckAndUpdateVariable at h ⊢
  rw [hr] at h ⊢
  by_cases hk : k = RF_VARIABLE_INDEX_MAX
  · rw [hk5 hk] at h
    exact absurd h (by decide)
  · have hlt : k < RF_VARIABLE_INDEX_MAX := Nat.lt_of_le_of_ne hk2 hk
    obtain ⟨h1, h2, h3⟩ := hk6 hlt
    exact ⟨k, hlt, h1, h2, h3⟩

theorem ValidateRootfsStatusExit_returned (BootParams : L4T_BOOT_PARAMS) (m : MACHINE)
    (E : EFI_STATUS)
    (h : (ValidateRootfsStatusExit EFI_SUCCESS BootParams m).1 = OUTCOME.Returned E) :
    E = (CheckAndUpdateVariable m).1 := by
  obtain ⟨_, _, hO, _⟩ := ValidateRootfsStatusExit_success BootParams m
  rw [hO] at h
  split_ifs at h
  injection h with h
  exact h.symm

theorem helpers_succeed (Info : L4T_RF_AB_PARAM) (Slot x : Nat) (hSlot : Slot ≤ ROOTFS_SLOT_B) :
    (GetRetryCountFrommRootfsInfo Info Slot x).1 = EFI_SUCCESS ∧
    (SetStatusTomRootfsInfo Info Slot x).1 = EFI_SUCCESS ∧
    (SetRetryCountTomRootfsInfo Info Slot x).1 = EFI_SUCCESS ∧
    (IsRootfsSlotBootable Info Slot = true →
      (DecreaseRootfsRetryCount Info Slot).1 = EFI_SUCCESS) := by
  have h1 : Slot ≤ 1 := hSlot
  have hc : Slot = 0 ∨ Slot = 1 := by omega
  rcases hc with rfl | rfl
  · refine ⟨by simp [GetRetryCountFrommRootfsInfo], by simp [SetStatusTomRootfsInfo],
      by simp [SetRetryCountTomRootfsInfo], ?_⟩
    intro hB
    simp only [IsRootfsSlotBootable, GetRetryCountFrommRootfsInfo] at hB
    simp only [DecreaseRootfsRetryCount, GetRetryCountFrommRootfsInfo,
      SetRetryCountTomRootfsInfo]
    split_ifs at hB ⊢ <;> simp_all
  · refine ⟨by simp [GetRetryCountFrommRootfsInfo], by simp [SetStatusTomRootfsInfo],
      by simp [SetRetryCountTomRootfsInfo], ?_⟩
    intro hB
    simp only [IsRootfsSlotBootable, GetRetryCountFrommRootfsInfo] at hB
    simp only [DecreaseRootfsRetryCount, GetRetryCountFrommRootfsInfo,
      SetRetryCountTomRootfsInfo]
    split_ifs at hB ⊢ <;> simp_all

/-! ## The classification of a name in closed form -/

theorem ClassifyPartitionName_eq (Base Name : List Nat) (s : Nat) :
    ClassifyPartitionName Base s Name =
      if StrCmp Name Base = 0 then
        { FoundHandle := 0, FoundHandleGeneric := 1, FoundHandleAlt := 0 }
      else if StrnLenS Base MAX_PARTITION_NAME_SIZE + 2 = StrLen Name then
        match StrStr Name Base with
        | none => { FoundHandle := 0, FoundHandleGeneric := 0, FoundHandleAlt := 0 }
        | some SubString =>
          if SubString = 2 ∧ CharAt Name 1 = 95 then
            { FoundHandle :=
                if CharAt Name 0 = (65 + s) % UINT32_MODULUS ∨
                  CharAt Name 0 = (97 + s) % UINT32_MODULUS then 1 else 0
              FoundHandleGeneric := 0
              FoundHandleAlt :=
                if CharAt Name 0 = (66 + UINT32_MODULUS - s) % UINT32_MODULUS ∨
                  CharAt Name 0 = (98 + UINT32_MODULUS - s) % UINT32_MODULUS then 1 else 0 }
          else if SubString = 0 ∧
              CharAt Name (StrnLenS Base MAX_PARTITION_NAME_SIZE) = 95 then
            { FoundHandle :=
                if CharAt Name (StrnLenS Base MAX_PARTITION_NAME_SIZE + 1)
                    = (97 + s) % UINT32_MODULUS ∨
                  CharAt Name (StrnLenS Base MAX_PARTITION_NAME_SIZE + 1)
                    = (65 + s) % UINT32_MODULUS then 1 else 0
              FoundHandleGeneric := 0
              FoundHandleAlt :=
                if ¬ (CharAt Name (StrnLenS Base MAX_PARTITION_NAME_SIZE + 1)
                      = (97 + s) % UINT32_MODULUS ∨
                    CharAt Name (StrnLenS Base MAX_PARTITION_NAME_SIZE + 1)
                      = (65 + s) % UINT32_MODULUS) ∧
                  (CharAt Name (StrnLenS Base MAX_PARTITION_NAME_SIZE + 1)
                      = (98 + UINT32_MODULUS - s) % UINT32_MODULUS ∨
                    CharAt Name (StrnLenS Base MAX_PARTITION_NAME_SIZE + 1)
                      = (66 + UINT32_MODULUS - s) % UINT32_MODULUS) then 1 else 0 }
          else { FoundHandle := 0, FoundHandleGeneric := 0, FoundHandleAlt := 0 }
      else { FoundHandle := 0, FoundHandleGeneric := 0, FoundHandleAlt := 0 } := by
  unfold ClassifyPartitionName FindPartitionInfoName
  generalize StrnLenS Base MAX_PARTITION_NAME_SIZE = Len
  by_cases h1 : StrCmp Name Base = 0
  · simp only [h1, if_true]
  · by_cases h2 : Len + 2 = StrLen Name
    · cases hS : StrStr Name Base with
      | none => simp only [h1, h2, if_true, if_false]
      | some SubString =>
        simp only [h1, h2, if_true, if_false]
        by_cases h3 : SubString = 2 ∧ CharAt Name 1 = 95
        · rw [if_pos h3, if_pos h3]
          by_cases h4 : CharAt Name 0 = (65 + s) % UINT32_MODULUS ∨
              CharAt Name 0 = (97 + s) % UINT32_MODULUS <;>
            by_cases h5 : CharAt Name 0 = (66 + UINT32_MODULUS - s) % UINT32_MODULUS ∨
              CharAt Name 0 = (98 + UINT32_MODULUS - s) % UINT32_MODULUS <;>
            simp only [h4, h5, if_true, if_false]
        · rw [if_neg h3, if_neg h3]
          by_cases h6 : SubString = 0 ∧ CharAt Name Len = 95
          · rw [if_pos h6, if_pos h6]
            by_cases h7 : CharAt Name (Len + 1) = (97 + s) % UINT32_MODULUS ∨
                CharAt Name (Len + 1) = (65 + s) % UINT32_MODULUS <;>
              by_cases h8 : CharAt Name (Len + 1)
                  = (98 + UINT32_MODULUS - s) % UINT32_MODULUS ∨
                CharAt Name (Len + 1) = (66 + UINT32_MODULUS - s) % UINT32_MODULUS <;>
              simp only [h7, h8, if_true, if_false, not_true_eq_false,
                not_false_eq_true, false_and, and_self, and_false, and_true]
          · rw [if_neg h6, if_neg h6]
    · simp only [h1, h2, if_true, if_false]

/-! ## Lemmas on consecutive runs -/

theorem LoadStatus_of_cell (S1 S2 : VARIABLE_STORE) (Index : Nat)
    (h : S1.Cell Index = S2.Cell Index) :
    LoadStatus S1 Index = LoadStatus S2 Index ∧ LoadedValue S1 Index = LoadedValue S2 Index := by
  unfold LoadStatus LoadedValue RFGetVariable gRT_GetVariable MACHINE.Entry
  simp only [h]
  by_cases hI : Index ≥ RF_VARIABLE_INDEX_MAX
  · simp only [if_pos hI, and_self]
  · simp only [if_neg hI]
    cases S2.Cell Index
    · simp [EFI_ERROR]
    · simp only [EFI_ERROR, if_true]
      split_ifs <;> simp
    · simp [EFI_ERROR]

theorem ValidateRootfsStatus_run_bootable (Cfg : NVIDIA_CONFIGURATION) (Store : VARIABLE_STORE)
    (c : Nat)
    (hCfg : Cfg.NVIDIA_L4T_BOOTMODE_BOOTIMG ≠ Cfg.NVIDIA_L4T_BOOTMODE_RECOVERY)
    (hLoads : Store.Loads)
    (hValid : ¬ (Store.Cell RF_STATUS_A
          = VARIABLE_CELL.Present (ANDROIDLAUNCHER_STATUS_UNBOOTABLE Cfg) ∧
        Store.Cell RF_STATUS_B
          = VARIABLE_CELL.Present (ANDROIDLAUNCHER_STATUS_UNBOOTABLE Cfg)))
    (hWrites : Store.WritesSucceed) (hChain : c ≤ ROOTFS_SLOT_B)
    (hPos : 0 < LoadedValue Store (RetryIndex c))
    (h32 : LoadedValue Store (RetryIndex c) < UINT32_MODULUS) :
    (ValidateRootfsStatus Cfg (MACHINE.Entry Store)
        { BootMode := Cfg.NVIDIA_L4T_BOOTMODE_BOOTIMG, BootChain := c }).1
        = OUTCOME.Returned EFI_SUCCESS ∧
      (ValidateRootfsStatus Cfg (MACHINE.Entry Store)
        { BootMode := Cfg.NVIDIA_L4T_BOOTMODE_BOOTIMG, BootChain := c }).2.1
        = { BootMode := Cfg.NVIDIA_L4T_BOOTMODE_BOOTIMG, BootChain := c } ∧
      (ValidateRootfsStatus Cfg (MACHINE.Entry Store)
        { BootMode := Cfg.NVIDIA_L4T_BOOTMODE_BOOTIMG, BootChain := c }).2.2.Store.SetResult
        = Store.SetResult ∧
      (∀ i, (ValidateRootfsStatus Cfg (MACHINE.Entry Store)
          { BootMode := Cfg.NVIDIA_L4T_BOOTMODE_BOOTIMG, BootChain := c }).2.2.Store.Cell i
        = if i = StatusIndex c then VARIABLE_CELL.Present ANDROIDLAUNCHER_STATUS_BOOTING
          else if i = RetryIndex c then
            VARIABLE_CELL.Present (LoadedValue Store (RetryIndex c) - 1)
          else Store.Cell i) := by
  have hv := (IsValidRootfs_LoadedInfo Cfg Store hLoads).2 hValid
  have hChain1 : c ≤ 1 := hChain
  have hc : c = 0 ∨ c = 1 := by omega
  have hr : List.range 6 = [0, 1, 2, 3, 4, 5] := by decide
  rw [ValidateRootfsStatus_of_loads Cfg Store _ hCfg hChain hLoads, hv]
  rcases hc with rfl | rfl
  · have hPos1 : 0 < LoadedValue Store 2 := hPos
    have h321 : LoadedValue Store 2 < 4294967296 := h32
    have hdec : (LoadedValue Store 2 + 4294967295) % 4294967296 = LoadedValue Store 2 - 1 := by
      omega
    rw [ValidateRootfsStatusSlots_bootable Cfg _ _ _ (by simp) (by simp [RetryIndex]; omega)]
    simp only [Bool.not_true, Bool.false_eq_true, if_false]
    rw [ValidateRootfsStatusExit_of_writesSucceed _ _ hWrites]
    simp [BootableInfo, RetryIndex, StatusIndex, CommitTrace, CommitStore, hr, List.filter_cons,
      hdec, ReadTrace]
    intro i
    by_cases h0 : i = 0 <;> by_cases h2 : i = 2 <;> simp [h0, h2]
  · have hPos1 : 0 < LoadedValue Store 3 := hPos
    have h321 : LoadedValue Store 3 < 4294967296 := h32
    have hdec : (LoadedValue Store 3 + 4294967295) % 4294967296 = LoadedValue Store 3 - 1 := by
      omega
    rw [ValidateRootfsStatusSlots_bootable Cfg _ _ _ (by simp) (by simp [RetryIndex]; omega)]
    simp only [Bool.not_true, Bool.false_eq_true, if_false]
    rw [ValidateRootfsStatusExit_of_writesSucceed _ _ hWrites]
    simp [BootableInfo, RetryIndex, StatusIndex, CommitTrace, CommitStore, hr, List.filter_cons,
      hdec, ReadTrace]
    intro i
    by_cases h1 : i = 1 <;> by_cases h3 : i = 3 <;> simp [h1, h3]

theorem ValidateRootfsStatus_run_zero (Cfg : NVIDIA_CONFIGURATION) (Store : VARIABLE_STORE)
    (c : Nat)
    (hCfg : Cfg.NVIDIA_L4T_BOOTMODE_BOOTIMG ≠ Cfg.NVIDIA_L4T_BOOTMODE_RECOVERY)
    (hLoads : Store.Loads)
    (hValid : ¬ (Store.Cell RF_STATUS_A
          = VARIABLE_CELL.Present (ANDROIDLAUNCHER_STATUS_UNBOOTABLE Cfg) ∧
        Store.Cell RF_STATUS_B
          = VARIABLE_CELL.Present (ANDROIDLAUNCHER_STATUS_UNBOOTABLE Cfg)))
    (hWrites : Store.WritesSucceed) (hChain : c ≤ ROOTFS_SLOT_B)
    (hZero : LoadedValue Store (RetryIndex c) = 0) :
    ((ValidateRootfsStatus Cfg (MACHINE.Entry Store)
          { BootMode := Cfg.NVIDIA_L4T_BOOTMODE_BOOTIMG, BootChain := c }).1
          = OUTCOME.ColdReset ∨
        ((ValidateRootfsStatus Cfg (MACHINE.Entry Store)
            { BootMode := Cfg.NVIDIA_L4T_BOOTMODE_BOOTIMG, BootChain := c }).1
            = OUTCOME.Returned EFI_SUCCESS ∧
          (ValidateRootfsStatus Cfg (MACHINE.Entry Store)
            { BootMode := Cfg.NVIDIA_L4T_BOOTMODE_BOOTIMG, BootChain := c }).2.1.BootMode
            = Cfg.NVIDIA_L4T_BOOTMODE_RECOVERY)) ∧
      (ValidateRootfsStatus Cfg (MACHINE.Entry Store)
          { BootMode := Cfg.NVIDIA_L4T_BOOTMODE_BOOTIMG, BootChain := c }).2.2.Store.Cell
          (StatusIndex c)
        = VARIABLE_CELL.Present (ANDROIDLAUNCHER_STATUS_UNBOOTABLE Cfg) := by
  have hv := (IsValidRootfs_LoadedInfo Cfg Store hLoads).2 hValid
  have hChain1 : c ≤ 1 := hChain
  have hc : c = 0 ∨ c = 1 := by omega
  have hr : List.range 6 = [0, 1, 2, 3, 4, 5] := by decide
  rw [ValidateRootfsStatus_of_loads Cfg Store _ hCfg hChain hLoads, hv]
  rcases hc with rfl | rfl
  · have hZ : LoadedValue Store 2 = 0 := hZero
    by_cases hO : LoadedValue Store 3 = 0
    · have hex := ValidateRootfsStatusSlots_exhausted Cfg
        { LoadedInfo Store with CurrentSlot := 0 }
        { BootMode := Cfg.NVIDIA_L4T_BOOTMODE_BOOTIMG, BootChain := 0 }
        (by simp) (by simp [RetryIndex, hZ]) (by simp [RetryIndex, LogicalNot, hO])
      simp only at hex
      simp only [hex, Bool.not_true, Bool.false_eq_true, if_false]
      rw [ValidateRootfsStatusExit_of_writesSucceed _ _ hWrites]
      simp [ExhaustedInfo, RetryIndex, StatusIndex, CommitTrace, CommitStore, hr,
        List.filter_cons, ReadTrace, LogicalNot]
    · have hsw := ValidateRootfsStatusSlots_switch Cfg
        { LoadedInfo Store with CurrentSlot := 0 }
        { BootMode := Cfg.NVIDIA_L4T_BOOTMODE_BOOTIMG, BootChain := 0 } (by simp)
        (by simp [RetryIndex, hZ]) (by simp [RetryIndex, LogicalNot]; omega)
      simp only at hsw
      simp only [hsw, Bool.not_true, Bool.false_eq_true, if_false]
      rw [ValidateRootfsStatusExit_of_writesSucceed _ _ hWrites]
      simp [SwitchInfo, RetryIndex, StatusIndex, CommitTrace, CommitStore, hr, List.filter_cons,
        ReadTrace, LogicalNot]
  · have hZ : LoadedValue Store 3 = 0 := hZero
    by_cases hO : LoadedValue Store 2 = 0
    · have hex := ValidateRootfsStatusSlots_exhausted Cfg
        { LoadedInfo Store with CurrentSlot := 1 }
        { BootMode := Cfg.NVIDIA_L4T_BOOTMODE_BOOTIMG, BootChain := 1 }
        (by simp) (by simp [RetryIndex, hZ]) (by simp [RetryIndex, LogicalNot, hO])
      simp only at hex
      simp only [hex, Bool.not_true, Bool.false_eq_true, if_false]
      rw [ValidateRootfsStatusExit_of_writesSucceed _ _ hWrites]
      simp [ExhaustedInfo, RetryIndex, StatusIndex, CommitTrace, CommitStore, hr,
        List.filter_cons, ReadTrace, LogicalNot]
    · have hsw := ValidateRootfsStatusSlots_switch Cfg
        { LoadedInfo Store with CurrentSlot := 1 }
        { BootMode := Cfg.NVIDIA_L4T_BOOTMODE_BOOTIMG, BootChain := 1 } (by simp)
        (by simp [RetryIndex, hZ]) (by simp [RetryIndex, LogicalNot]; omega)
      simp only at hsw
      simp only [hsw, Bool.not_true, Bool.false_eq_true, if_false]
      rw [ValidateRootfsStatusExit_of_writesSucceed _ _ hWrites]
      simp [SwitchInfo, RetryIndex, StatusIndex, CommitTrace, CommitStore, hr, List.filter_cons,
        ReadTrace, LogicalNot]

theorem StoreAfterRuns_invariant (Cfg : NVIDIA_CONFIGURATION) (Store : VARIABLE_STORE)
    (c r : Nat) (hChain : c ≤ ROOTFS_SLOT_B) (h32 : r < UINT32_MODULUS)
    (hCfg : Cfg.NVIDIA_L4T_BOOTMODE_BOOTIMG ≠ Cfg.NVIDIA_L4T_BOOTMODE_RECOVERY)
    (hU : ANDROIDLAUNCHER_STATUS_UNBOOTABLE Cfg ≠ ANDROIDLAUNCHER_STATUS_BOOTING)
    (hLoads : Store.Loads)
    (hValid : ¬ (Store.Cell RF_STATUS_A
          = VARIABLE_CELL.Present (ANDROIDLAUNCHER_STATUS_UNBOOTABLE Cfg) ∧
        Store.Cell RF_STATUS_B
          = VARIABLE_CELL.Present (ANDROIDLAUNCHER_STATUS_UNBOOTABLE Cfg)))
    (hWrites : Store.WritesSucceed)
    (hRetry : LoadedValue Store (RetryIndex c) = r) :
    ∀ k, k ≤ r →
      (StoreAfterRuns Cfg c k Store).Loads ∧ (StoreAfterRuns Cfg c k Store).WritesSucceed ∧
      ¬ ((StoreAfterRuns Cfg c k Store).Cell RF_STATUS_A
          = VARIABLE_CELL.Present (ANDROIDLAUNCHER_STATUS_UNBOOTABLE Cfg) ∧
        (StoreAfterRuns Cfg c k Store).Cell RF_STATUS_B
          = VARIABLE_CELL.Present (ANDROIDLAUNCHER_STATUS_UNBOOTABLE Cfg)) ∧
      LoadedValue (StoreAfterRuns Cfg c k Store) (RetryIndex c) = r - k := by
  intro k
  induction k with
  | zero =>
    intro _
    exact ⟨hLoads, hWrites, hValid, hRetry⟩
  | succ k ih =>
    intro hk
    obtain ⟨hL, hW, hV, hR⟩ := ih (by omega)
    have h32a : r < 4294967296 := h32
    obtain ⟨_, _, hSet, hCell⟩ := ValidateRootfsStatus_run_bootable Cfg
      (StoreAfterRuns Cfg c k Store) c hCfg hL hV hW hChain (by rw [hR]; omega)
      (by rw [hR]; show r - k < 4294967296; omega)
    have hChain1 : c ≤ 1 := hChain
    have hc : c = 0 ∨ c = 1 := by omega
    have hU1 : Cfg.NVIDIA_OS_STATUS_UNBOOTABLE ≠ 1 := hU
    have hRetryLt : RetryIndex c < RF_VARIABLE_INDEX_MAX := by
      rcases hc with rfl | rfl <;> decide
    have hStatusLt : StatusIndex c < RF_VARIABLE_INDEX_MAX := by
      rcases hc with rfl | rfl <;> decide
    have hNe : RetryIndex c ≠ StatusIndex c := by
      rcases hc with rfl | rfl <;> decide
    have hCellS := hCell (StatusIndex c)
    rw [if_pos rfl] at hCellS
    have hCellR := hCell (RetryIndex c)
    rw [if_neg hNe, if_pos rfl, hR] at hCellR
    have hEq : StoreAfterRuns Cfg c (k + 1) Store =
        (ValidateRootfsStatus Cfg (MACHINE.Entry (StoreAfterRuns Cfg c k Store))
          { BootMode := Cfg.NVIDIA_L4T_BOOTMODE_BOOTIMG, BootChain := c }).2.2.Store := rfl
    rw [hEq]
    refine ⟨?_, ?_, ?_, ?_⟩
    · intro i hi
      by_cases h1 : i = StatusIndex c
      · rw [h1]
        exact (LoadedValue_of_present _ _ _ hStatusLt hCellS).1
      · by_cases h2 : i = RetryIndex c
        · rw [h2]
          exact (LoadedValue_of_present _ _ _ hRetryLt hCellR).1
        · have hCi := hCell i
          rw [if_neg h1, if_neg h2] at hCi
          rw [(LoadStatus_of_cell _ _ i hCi).1]
          exact hL i hi
    · intro i d
      rw [hSet]
      exact hW i d
    · rintro ⟨hA, hB⟩
      rcases hc with rfl | rfl
      · have hS0 : StatusIndex 0 = RF_STATUS_A := rfl
        rw [hS0] at hCellS
        rw [hCellS] at hA
        injection hA with hA
        exact hU1 hA.symm
      · have hS1 : StatusIndex 1 = RF_STATUS_B := rfl
        rw [hS1] at hCellS
        rw [hCellS] at hB
        injection hB with hB
        exact hU1 hB.symm
    · rw [(LoadedValue_of_present _ _ _ hRetryLt hCellR).2]
      omega

/-! ## Lemmas on the calls of the loader -/

theorem gBS_InstallConfigurationTable_trace (Env : LOADER_ENVIRONMENT) (s : LOADER_STATE)
    (Table : List Nat) :
    (gBS_InstallConfigurationTable Env s Table).2.Trace =
      s.Trace ++ [LOADER_EVENT.InstallConfigurationTable Table] := by
  unfold gBS_InstallConfigurationTable
  split_ifs <;> rfl

theorem BootAndroidStylePartitionRestore_trace (Env : LOADER_ENVIRONMENT) (s : LOADER_STATE)
    (Status : EFI_STATUS) (CurrentDtb : Option (List Nat)) :
    (BootAndroidStylePartitionRestore Env s Status CurrentDtb).2.Trace =
      s.Trace ++
        (match CurrentDtb with
          | some Table => [LOADER_EVENT.InstallConfigurationTable Table]
          | none => []) := by
  unfold BootAndroidStylePartitionRestore
  cases CurrentDtb with
  | none => simp only [List.append_nil]
  | some Table => simp only [gBS_InstallConfigurationTable_trace]

theorem BootAndroidStylePartitionBoot_trace (Env : LOADER_ENVIRONMENT) (s : LOADER_STATE)
    (Image : List Nat) (ImageSize : Nat) (CurrentDtb : Option (List Nat)) :
    (BootAndroidStylePartitionBoot Env s Image ImageSize EXPANDED_DTB.Pages CurrentDtb).2.Trace =
      s.Trace ++ [LOADER_EVENT.AndroidBootImgBoot Image ImageSize] ++
        (if EFI_ERROR (Env.AndroidBootImgBoot Image ImageSize) then [LOADER_EVENT.FreePages]
          else []) ++
        (match CurrentDtb with
          | some Table => [LOADER_EVENT.InstallConfigurationTable Table]
          | none => []) := by
  unfold BootAndroidStylePartitionBoot
  simp only
  split_ifs
  · rw [BootAndroidStylePartitionRestore_trace]
    simp [LOADER_STATE.Call]
  · rw [BootAndroidStylePartitionRestore_trace]
    simp [LOADER_STATE.Call]

theorem Call_trace (s : LOADER_STATE) (e : LOADER_EVENT) :
    s.Trace <+: (s.Call e).Trace :=
  List.prefix_append _ _

theorem BootAndroidStylePartitionRestore_extends (Env : LOADER_ENVIRONMENT) (s : LOADER_STATE)
    (Status : EFI_STATUS) (CurrentDtb : Option (List Nat)) :
    s.Trace <+: (BootAndroidStylePartitionRestore Env s Status CurrentDtb).2.Trace := by
  rw [BootAndroidStylePartitionRestore_trace]
  exact List.prefix_append _ _

theorem BootAndroidStylePartitionBoot_extends (Env : LOADER_ENVIRONMENT) (s : LOADER_STATE)
    (Image : List Nat) (ImageSize : Nat) (ExpandedDtb : EXPANDED_DTB)
    (CurrentDtb : Option (List Nat)) :
    s.Trace <+:
      (BootAndroidStylePartitionBoot Env s Image ImageSize ExpandedDtb CurrentDtb).2.Trace := by
  unfold BootAndroidStylePartitionBoot
  simp only
  split_ifs
  · cases ExpandedDtb
    · exact Call_trace _ _
    · exact Call_trace _ _
    · exact ((Call_trace _ _).trans (Call_trace _ _)).trans
        (BootAndroidStylePartitionRestore_extends _ _ _ _)
  · exact (Call_trace _ _).trans (BootAndroidStylePartitionRestore_extends _ _ _ _)

theorem BootAndroidStylePartitionInstall_extends (Env : LOADER_ENVIRONMENT) (s : LOADER_STATE)
    (Dtb Image : List Nat) (ImageSize : Nat) :
    s.Trace <+: (BootAndroidStylePartitionInstall Env s Dtb Image ImageSize).2.Trace := by
  unfold BootAndroidStylePartitionInstall
  simp only
  by_cases hA : Env.AllocatePages (EFI_SIZE_TO_PAGES
      (2 * Env.fdt_totalsize Dtb % UINT32_MODULUS)) = true ∧
      (Env.fdt_open_into Dtb (2 * Env.fdt_totalsize Dtb % UINT32_MODULUS)).1 = 0
  · rw [if_pos hA]
    cases s.FdtTable with
    | none => exact (Call_trace _ _).trans (Call_trace _ _)
    | some CurrentDtb =>
      simp only
      have hI := gBS_InstallConfigurationTable_trace Env
        ((s.Call (LOADER_EVENT.AllocatePages (EFI_SIZE_TO_PAGES
          (2 * Env.fdt_totalsize Dtb % UINT32_MODULUS)))).Call
          LOADER_EVENT.EfiGetSystemConfigurationTableFdt)
        (Env.fdt_open_into Dtb (2 * Env.fdt_totalsize Dtb % UINT32_MODULUS)).2
      generalize gBS_InstallConfigurationTable Env _ _ = r at hI ⊢
      obtain ⟨Status, s3⟩ := r
      simp only at hI ⊢
      have h3 : s.Trace <+: s3.Trace := by
        rw [hI]
        exact ((Call_trace _ _).trans (Call_trace _ _)).trans (List.prefix_append _ _)
      by_cases hE : EFI_ERROR Status = true
      · rw [if_pos hE]
        exact h3.trans (Call_trace _ _)
      · rw [if_neg hE]
        exact h3.trans (BootAndroidStylePartitionBoot_extends _ _ _ _ _ _)
  · rw [if_neg hA]
    exact (Call_trace _ _).trans (BootAndroidStylePartitionBoot_extends _ _ _ _ _ _)

theorem BootAndroidStylePartitionDtb_extends (Env : LOADER_ENVIRONMENT) (s : LOADER_STATE)
    (DeviceHandle : EFI_HANDLE) (DtbBasename : List Nat) (BootParams : L4T_BOOT_PARAMS)
    (Handle : EFI_HANDLE) (Image : List Nat) (ImageSize : Nat) :
    s.Trace <+: (BootAndroidStylePartitionDtb Env s DeviceHandle DtbBasename BootParams Handle
      Image ImageSize).2.Trace := by
  have c1 := Call_trace s (LOADER_EVENT.FindPartitionInfo DtbBasename BootParams.BootChain)
  unfold BootAndroidStylePartitionDtb
  simp only
  split_ifs
  · exact c1
  · exact c1.trans (Call_trace _ _)
  · exact (c1.trans (Call_trace _ _)).trans (Call_trace _ _)
  · exact ((c1.trans (Call_trace _ _)).trans (Call_trace _ _)).trans (Call_trace _ _)
  · exact (((c1.trans (Call_trace _ _)).trans (Call_trace _ _)).trans (Call_trace _ _)).trans
      (Call_trace _ _)
  · exact (((c1.trans (Call_trace _ _)).trans (Call_trace _ _)).trans (Call_trace _ _)).trans
      (Call_trace _ _)
  · exact ((((c1.trans (Call_trace _ _)).trans (Call_trace _ _)).trans
      (Call_trace _ _)).trans (Call_trace _ _)).trans
      (BootAndroidStylePartitionInstall_extends _ _ _ _ _)
  · exact ((((c1.trans (Call_trace _ _)).trans (Call_trace _ _)).trans
      (Call_trace _ _)).trans (Call_trace _ _)).trans
      (BootAndroidStylePartitionInstall_extends _ _ _ _ _)

theorem BootAndroidStylePartitionImage_trace (Env : LOADER_ENVIRONMENT) (s : LOADER_STATE)
    (DeviceHandle : EFI_HANDLE) (DtbBasename : List Nat) (BootParams : L4T_BOOT_PARAMS)
    (PartitionHandle : EFI_HANDLE) (Media : EFI_BLOCK_IO_MEDIA) (Offset ImageSize : Nat)
    (hPool : Env.AllocatePool ImageSize = true) :
    ∃ T, (BootAndroidStylePartitionImage Env s DeviceHandle DtbBasename BootParams
        PartitionHandle Media Offset ImageSize).2.Trace =
      s.Trace ++ [LOADER_EVENT.AllocatePool ImageSize,
        LOADER_EVENT.ReadDisk PartitionHandle Media.MediaId Offset ImageSize] ++ T := by
  have h2 : ((s.Call (LOADER_EVENT.AllocatePool ImageSize)).Call
        (LOADER_EVENT.ReadDisk PartitionHandle Media.MediaId Offset ImageSize)).Trace =
      s.Trace ++ [LOADER_EVENT.AllocatePool ImageSize,
        LOADER_EVENT.ReadDisk PartitionHandle Media.MediaId Offset ImageSize] := by
    simp [LOADER_STATE.Call]
  have hP : s.Trace ++ [LOADER_EVENT.AllocatePool ImageSize,
        LOADER_EVENT.ReadDisk PartitionHandle Media.MediaId Offset ImageSize] <+:
      (BootAndroidStylePartitionImage Env s DeviceHandle DtbBasename BootParams
        PartitionHandle Media Offset ImageSize).2.Trace := by
    rw [← h2]
    unfold BootAndroidStylePartitionImage
    simp only [hPool, Bool.true_eq_false, if_false]
    split_ifs
    · exact List.prefix_refl _
    · exact (Call_trace _ _).trans (BootAndroidStylePartitionDtb_extends _ _ _ _ _ _ _ _)
    · exact (Call_trace _ _).trans (BootAndroidStylePartitionBoot_extends _ _ _ _ _ _)
  obtain ⟨T, hT⟩ := hP
  exact ⟨T, hT.symm⟩

theorem BootAndroidStylePartitionDtb_corrupt (Env : LOADER_ENVIRONMENT) (s : LOADER_STATE)
    (DeviceHandle : EFI_HANDLE) (DtbBase : List Nat) (BootParams : L4T_BOOT_PARAMS)
    (Handle : EFI_HANDLE) (Image : List Nat) (ImageSize : Nat) (PartitionHandle : EFI_HANDLE)
    (Media : EFI_BLOCK_IO_MEDIA) (Blob : List Nat)
    (hStatus : (FindPartitionInfo Env.Db DeviceHandle (some DtbBase) BootParams.BootChain none
      (some Handle)).Status = EFI_SUCCESS)
    (hHandle : (FindPartitionInfo Env.Db DeviceHandle (some DtbBase) BootParams.BootChain none
      (some Handle)).PartitionHandle = some PartitionHandle)
    (hBlock : Env.BlockIoProtocol PartitionHandle = (EFI_SUCCESS, Media))
    (hDisk : Env.DiskIoProtocol PartitionHandle = EFI_SUCCESS)
    (hPool : Env.AllocatePool
      (((Media.LastBlock + 1) % UINT64_MODULUS * Media.BlockSize) % UINT64_MODULUS) = true)
    (hRead : Env.ReadDisk PartitionHandle Media.MediaId 0
      (((Media.LastBlock + 1) % UINT64_MODULUS * Media.BlockSize) % UINT64_MODULUS) =
        (EFI_SUCCESS, Blob))
    (h0 : Env.fdt_check_header Blob ≠ 0)
    (h1 : Env.fdt_check_header (Blob.drop Env.PcdSignedImageHeaderSize) ≠ 0) :
    BootAndroidStylePartitionDtb Env s DeviceHandle DtbBase BootParams Handle Image ImageSize =
      (some EFI_SUCCESS,
        { FdtTable := s.FdtTable
          Trace := s.Trace ++
            [LOADER_EVENT.FindPartitionInfo DtbBase BootParams.BootChain,
              LOADER_EVENT.HandleProtocolBlockIo PartitionHandle,
              LOADER_EVENT.HandleProtocolDiskIo PartitionHandle,
              LOADER_EVENT.AllocatePool
                (((Media.LastBlock + 1) % UINT64_MODULUS * Media.BlockSize) % UINT64_MODULUS),
              LOADER_EVENT.ReadDisk PartitionHandle Media.MediaId 0
                (((Media.LastBlock + 1) % UINT64_MODULUS * Media.BlockSize) %
                  UINT64_MODULUS)] }) := by
  have hS : EFI_ERROR EFI_SUCCESS = false := rfl
  unfold BootAndroidStylePartitionDtb
  simp only [hStatus, hHandle, hBlock, hDisk, hS, Bool.false_eq_true, if_false,
    Option.getD_some, hPool, Bool.true_eq_false, hRead, ne_eq, h0, not_false_eq_true, if_true,
    h1]
  simp [LOADER_STATE.Call]

/-! ## The calls already made do not influence a run -/

theorem RFGetVariable_congr (S : VARIABLE_STORE) (I : L4T_RF_AB_PARAM) (T1 T2 : List EVENT)
    (Index Value : Nat) :
    (RFGetVariable ⟨S, I, T1⟩ Index Value).1 = (RFGetVariable ⟨S, I, T2⟩ Index Value).1 ∧
    (RFGetVariable ⟨S, I, T1⟩ Index Value).2.1 = (RFGetVariable ⟨S, I, T2⟩ Index Value).2.1 ∧
    (RFGetVariable ⟨S, I, T1⟩ Index Value).2.2.Store = S ∧
    (RFGetVariable ⟨S, I, T2⟩ Index Value).2.2.Store = S ∧
    (RFGetVariable ⟨S, I, T1⟩ Index Value).2.2.mRootfsInfo = I ∧
    (RFGetVariable ⟨S, I, T2⟩ Index Value).2.2.mRootfsInfo = I := by
  by_cases h : Index < RF_VARIABLE_INDEX_MAX
  · rw [RFGetVariable_eq _ _ _ h, RFGetVariable_eq _ _ _ h]
    exact ⟨rfl, rfl, rfl, rfl, rfl, rfl⟩
  · have h1 : Index ≥ RF_VARIABLE_INDEX_MAX := by omega
    simp only [RFGetVariable, if_pos h1, and_self]

theorem ReadRootfsVariables_congr (Indices : List Nat) :
    ∀ (S : VARIABLE_STORE) (I : L4T_RF_AB_PARAM) (T1 T2 : List EVENT),
      (ReadRootfsVariables Indices ⟨S, I, T1⟩).1 = (ReadRootfsVariables Indices ⟨S, I, T2⟩).1 ∧
      (ReadRootfsVariables Indices ⟨S, I, T1⟩).2.Store =
        (ReadRootfsVariables Indices ⟨S, I, T2⟩).2.Store ∧
      (ReadRootfsVariables Indices ⟨S, I, T1⟩).2.mRootfsInfo =
        (ReadRootfsVariables Indices ⟨S, I, T2⟩).2.mRootfsInfo := by
  induction Indices with
  | nil => intro S I T1 T2; exact ⟨rfl, rfl, rfl⟩
  | cons Index Rest ih =>
    intro S I T1 T2
    obtain ⟨h1, h2, h3, h4, h5, h6⟩ := RFGetVariable_congr S I T1 T2 Index (I.RootfsVar Index).Value
    unfold ReadRootfsVariables
    simp only
    generalize RFGetVariable ⟨S, I, T1⟩ Index (I.RootfsVar Index).Value = r1 at h1 h2 h3 h5
    generalize RFGetVariable ⟨S, I, T2⟩ Index (I.RootfsVar Index).Value = r2 at h1 h2 h4 h6
    obtain ⟨St1, V1, ⟨S1, I1, U1⟩⟩ := r1
    obtain ⟨St2, V2, ⟨S2, I2, U2⟩⟩ := r2
    simp only at h1 h2 h3 h4 h5 h6
    subst h1 h2 h3 h4 h5 h6
    simp only
    split_ifs
    · exact ⟨rfl, rfl, rfl⟩
    · exact ih _ _ U1 U2

theorem CheckAndUpdateVariableLoop_congr (Indices : List Nat) :
    ∀ (Status : EFI_STATUS) (S : VARIABLE_STORE) (I : L4T_RF_AB_PARAM) (T1 T2 : List EVENT),
      (CheckAndUpdateVariableLoop Indices Status ⟨S, I, T1⟩).1 =
        (CheckAndUpdateVariableLoop Indices Status ⟨S, I, T2⟩).1 ∧
      (CheckAndUpdateVariableLoop Indices Status ⟨S, I, T1⟩).2.Store =
        (CheckAndUpdateVariableLoop Indices Status ⟨S, I, T2⟩).2.Store ∧
      (CheckAndUpdateVariableLoop Indices Status ⟨S, I, T1⟩).2.mRootfsInfo =
        (CheckAndUpdateVariableLoop Indices Status ⟨S, I, T2⟩).2.mRootfsInfo := by
  induction Indices with
  | nil => intro Status S I T1 T2; exact ⟨rfl, rfl, rfl⟩
  | cons Index Rest ih =>
    intro Status S I T1 T2
    unfold CheckAndUpdateVariableLoop
    by_cases hF : (I.RootfsVar Index).UpdateFlag = 0
    · simp only [hF, ne_eq, not_true_eq_false, if_false]
      exact ih Status S I T1 T2
    · simp only [ne_eq, hF, not_false_eq_true, if_true]
      by_cases hI : Index ≥ RF_VARIABLE_INDEX_MAX
      · simp only [RFSetVariable, if_pos hI]
        have hE : EFI_ERROR EFI_INVALID_PARAMETER = true := rfl
        rw [if_pos hE, if_pos hE]
        exact ⟨rfl, rfl, rfl⟩
      · simp only [RFSetVariable, if_neg hI, gRT_SetVariable]
        by_cases hE : EFI_ERROR (S.SetResult Index (some (I.RootfsVar Index).Value)) = true
        · simp only [if_pos hE, and_self]
        · have hS : EFI_ERROR EFI_SUCCESS = false := rfl
          simp only [if_neg hE, hS, Bool.false_eq_true, if_false]
          exact ih _ _ _ _ _

theorem RFDeleteVariable_congr (S : VARIABLE_STORE) (I : L4T_RF_AB_PARAM) (T1 T2 : List EVENT)
    (Index : Nat) :
    (RFDeleteVariable ⟨S, I, T1⟩ Index).2.Store = (RFDeleteVariable ⟨S, I, T2⟩ Index).2.Store ∧
    (RFDeleteVariable ⟨S, I, T1⟩ Index).2.mRootfsInfo =
      (RFDeleteVariable ⟨S, I, T2⟩ Index).2.mRootfsInfo := by
  unfold RFDeleteVariable gRT_DeleteVariable
  by_cases hI : Index ≥ RF_VARIABLE_INDEX_MAX
  · simp only [if_pos hI, and_self]
  · simp only [if_neg hI]
    split_ifs
    · exact ⟨rfl, rfl⟩
    · cases S.Cell Index <;> exact ⟨rfl, rfl⟩

theorem ValidateRootfsStatusExit_congr (Status : EFI_STATUS) (BootParams : L4T_BOOT_PARAMS)
    (S : VARIABLE_STORE) (I : L4T_RF_AB_PARAM) (T1 T2 : List EVENT) :
    (ValidateRootfsStatusExit Status BootParams ⟨S, I, T1⟩).1 =
      (ValidateRootfsStatusExit Status BootParams ⟨S, I, T2⟩).1 ∧
    (ValidateRootfsStatusExit Status BootParams ⟨S, I, T1⟩).2.1 =
      (ValidateRootfsStatusExit Status BootParams ⟨S, I, T2⟩).2.1 ∧
    (ValidateRootfsStatusExit Status BootParams ⟨S, I, T1⟩).2.2.Store =
      (ValidateRootfsStatusExit Status BootParams ⟨S, I, T2⟩).2.2.Store := by
  unfold ValidateRootfsStatusExit CheckAndUpdateVariable
  by_cases hS : Status = EFI_SUCCESS
  · simp only [if_pos hS]
    obtain ⟨c1, c2, c3⟩ := CheckAndUpdateVariableLoop_congr (List.range RF_VARIABLE_INDEX_MAX)
      EFI_SUCCESS S I T1 T2
    generalize CheckAndUpdateVariableLoop (List.range RF_VARIABLE_INDEX_MAX) EFI_SUCCESS
      ⟨S, I, T1⟩ = r1 at c1 c2 c3
    generalize CheckAndUpdateVariableLoop (List.range RF_VARIABLE_INDEX_MAX) EFI_SUCCESS
      ⟨S, I, T2⟩ = r2 at c1 c2 c3
    obtain ⟨St1, ⟨S1, I1, U1⟩⟩ := r1
    obtain ⟨St2, ⟨S2, I2, U2⟩⟩ := r2
    simp only at c1 c2 c3
    subst c1 c2 c3
    simp only
    split_ifs
    · exact ⟨rfl, rfl, (RFDeleteVariable_congr S1 I1 U1 U2 RF_BC_STATUS).1⟩
    · exact ⟨rfl, rfl, rfl⟩
  · simp only [if_neg hS, and_self]

theorem ValidateRootfsStatus_congr (Cfg : NVIDIA_CONFIGURATION) (BootParams : L4T_BOOT_PARAMS)
    (S : VARIABLE_STORE) (I : L4T_RF_AB_PARAM) (T1 T2 : List EVENT) :
    (ValidateRootfsStatus Cfg ⟨S, I, T1⟩ BootParams).1 =
      (ValidateRootfsStatus Cfg ⟨S, I, T2⟩ BootParams).1 ∧
    (ValidateRootfsStatus Cfg ⟨S, I, T1⟩ BootParams).2.1 =
      (ValidateRootfsStatus Cfg ⟨S, I, T2⟩ BootParams).2.1 ∧
    (ValidateRootfsStatus Cfg ⟨S, I, T1⟩ BootParams).2.2.Store =
      (ValidateRootfsStatus Cfg ⟨S, I, T2⟩ BootParams).2.2.Store := by
  unfold ValidateRootfsStatus
  by_cases hM : BootParams.BootMode = Cfg.NVIDIA_L4T_BOOTMODE_RECOVERY
  · simp only [if_pos hM, and_self]
  · simp only [if_neg hM]
    by_cases hC : BootParams.BootChain > ROOTFS_SLOT_B
    · simp only [if_pos hC, and_self]
    · simp only [if_neg hC]
      obtain ⟨c1, c2, c3⟩ := ReadRootfsVariables_congr (List.range RF_VARIABLE_INDEX_MAX)
        S I T1 T2
      generalize ReadRootfsVariables (List.range RF_VARIABLE_INDEX_MAX) ⟨S, I, T1⟩ = r1
        at c1 c2 c3
      generalize ReadRootfsVariables (List.range RF_VARIABLE_INDEX_MAX) ⟨S, I, T2⟩ = r2
        at c1 c2 c3
      obtain ⟨o1, ⟨S1, I1, U1⟩⟩ := r1
      obtain ⟨o2, ⟨S2, I2, U2⟩⟩ := r2
      simp only at c1 c2 c3
      subst c1 c2 c3
      cases o1 with
      | some Status => exact ⟨rfl, rfl, rfl⟩
      | none =>
        simp only
        split_ifs
        · exact ⟨rfl, rfl, rfl⟩
        · exact ValidateRootfsStatusExit_congr _ _ _ _ _ _

/-! ## Lemmas on a run that returns an error -/

theorem ValidateRootfsStatusExit_error (BootParams : L4T_BOOT_PARAMS) (m : MACHINE)
    (E : EFI_STATUS)
    (hO : (ValidateRootfsStatusExit EFI_SUCCESS BootParams m).1 = OUTCOME.Returned E)
    (hEr : EFI_ERROR E = true) :
    ∃ k, k < RF_VARIABLE_INDEX_MAX ∧ (m.mRootfsInfo.RootfsVar k).UpdateFlag ≠ 0 ∧
      ∀ i, (ValidateRootfsStatusExit EFI_SUCCESS BootParams m).2.2.Store.Cell i
        = if i < k ∧ (m.mRootfsInfo.RootfsVar i).UpdateFlag ≠ 0 then
            VARIABLE_CELL.Present (m.mRootfsInfo.RootfsVar i).Value
          else m.Store.Cell i := by
  have hEq := ValidateRootfsStatusExit_returned BootParams m E hO
  obtain ⟨_, _, hOut, _⟩ := ValidateRootfsStatusExit_success BootParams m
  have hF : (m.mRootfsInfo.RootfsVar RF_FW_NEXT).UpdateFlag = 0 := by
    by_contra hF
    rw [hOut, if_pos hF] at hO
    cases hO
  have hI := CheckAndUpdateVariableLoop_mRootfsInfo (List.range RF_VARIABLE_INDEX_MAX)
    EFI_SUCCESS m
  have hM : (ValidateRootfsStatusExit EFI_SUCCESS BootParams m).2.2
      = (CheckAndUpdateVariable m).2 := by
    unfold ValidateRootfsStatusExit CheckAndUpdateVariable
    rw [if_pos rfl]
    simp only [hI, hF, ne_eq, not_true_eq_false, if_false]
  have hr : List.range RF_VARIABLE_INDEX_MAX = List.range' 0 6 := by decide
  obtain ⟨k, -, hk2, -, hk4, hk5, hk6⟩ := CheckAndUpdateVariableLoop_stops 6 0 m (by decide)
  have hC : CheckAndUpdateVariable m
      = CheckAndUpdateVariableLoop (List.range' 0 6) EFI_SUCCESS m := by
    unfold CheckAndUpdateVariable
    rw [hr]
  have hk : k ≠ RF_VARIABLE_INDEX_MAX := by
    intro hk
    rw [hEq, hC, hk5 hk] at hEr
    exact absurd hEr (by decide)
  have hlt : k < RF_VARIABLE_INDEX_MAX := Nat.lt_of_le_of_ne hk2 hk
  refine ⟨k, hlt, (hk6 hlt).1, ?_⟩
  intro i
  rw [hM, hC, hk4 i]
  simp only [Nat.zero_le, true_and]

theorem flagged_retry_last (c k i : Nat) (hc : c = 0 ∨ c = 1) (hi : i = 2 ∨ i = 3)
    (hk : (if k = StatusIndex c then 1 else if k = RetryIndex c then 1 else 0) ≠ 0) :
    ¬ (i < k ∧ (if i = StatusIndex c then 1 else if i = RetryIndex c then 1 else 0) ≠ 0) := by
  have s0 : StatusIndex 0 = 0 := rfl
  have s1 : StatusIndex 1 = 1 := rfl
  have r0 : RetryIndex 0 = 2 := rfl
  have r1 : RetryIndex 1 = 3 := rfl
  rintro ⟨h1, h2⟩
  rcases hc with rfl | rfl <;> rcases hi with rfl | rfl <;>
    simp only [s0, s1, r0, r1] at hk h2 <;>
    split_ifs at hk h2 <;> omega

theorem ValidateRootfsStatus_error (Cfg : NVIDIA_CONFIGURATION) (Store : VARIABLE_STORE)
    (BootParams : L4T_BOOT_PARAMS) (E : EFI_STATUS)
    (hChain : BootParams.BootChain ≤ ROOTFS_SLOT_B)
    (hO : (ValidateRootfsStatus Cfg (MACHINE.Entry Store) BootParams).1 = OUTCOME.Returned E)
    (hEr : EFI_ERROR E = true) :
    BootParams.BootMode ≠ Cfg.NVIDIA_L4T_BOOTMODE_RECOVERY ∧
    (ValidateRootfsStatus Cfg (MACHINE.Entry Store) BootParams).2.2.Store.Cell RF_RETRY_A
      = Store.Cell RF_RETRY_A ∧
    (ValidateRootfsStatus Cfg (MACHINE.Entry Store) BootParams).2.2.Store.Cell RF_RETRY_B
      = Store.Cell RF_RETRY_B ∧
    ((ValidateRootfsStatus Cfg (MACHINE.Entry Store) BootParams).2.1.BootMode
        = BootParams.BootMode ∨
      ((ValidateRootfsStatus Cfg (MACHINE.Entry Store) BootParams).2.1.BootMode
          = Cfg.NVIDIA_L4T_BOOTMODE_RECOVERY ∧
        Store.Loads ∧ LoadedValue Store RF_RETRY_A = 0 ∧ LoadedValue Store RF_RETRY_B = 0)) := by
  have hMode : BootParams.BootMode ≠ Cfg.NVIDIA_L4T_BOOTMODE_RECOVERY := by
    intro hMode
    rw [ValidateRootfsStatus_of_recovery Cfg _ _ hMode] at hO
    injection hO with hO
    rw [← hO] at hEr
    exact absurd hEr (by decide)
  refine ⟨hMode, ?_⟩
  by_cases hLoads : Store.Loads
  · have hE := ValidateRootfsStatusSlots_eq Cfg
      { LoadedInfo Store with CurrentSlot := BootParams.BootChain } BootParams hChain
    simp only at hE
    have hc1 : BootParams.BootChain ≤ 1 := hChain
    have hc : BootParams.BootChain = 0 ∨ BootParams.BootChain = 1 := by omega
    rw [ValidateRootfsStatus_of_loads Cfg Store _ hMode hChain hLoads] at hO ⊢
    by_cases hv : IsValidRootfs Cfg (LoadedInfo Store) = true
    · rw [hv, hE] at hO ⊢
      simp only [Bool.not_true, Bool.false_eq_true, if_false] at hO ⊢
      by_cases hB : LoadedValue Store (RetryIndex BootParams.BootChain) ≠ 0
      · have hB1 : ((LoadedInfo Store).RootfsVar (RetryIndex BootParams.BootChain)).Value ≠ 0 := by
          rw [LoadedInfo_Value]
          rcases RetryIndex_cases BootParams.BootChain with h | h <;> rw [h] <;>
            rw [h] at hB <;> simpa using hB
        rw [if_pos hB1] at hO ⊢
        simp only at hO ⊢
        obtain ⟨k, hk, hkF, hCell⟩ := ValidateRootfsStatusExit_error _ _ E hO hEr
        simp only [BootableInfo_UpdateFlag, LoadedInfo_UpdateFlag] at hkF hCell
        refine ⟨?_, ?_, Or.inl (ValidateRootfsStatusExit_BootMode _ _ _)⟩
        · rw [hCell, if_neg (flagged_retry_last _ k RF_RETRY_A hc (Or.inl rfl) hkF)]
        · rw [hCell, if_neg (flagged_retry_last _ k RF_RETRY_B hc (Or.inr rfl) hkF)]
      · have hB0 : LoadedValue Store (RetryIndex BootParams.BootChain) = 0 := not_not.1 hB
        have hB1 : ¬ ((LoadedInfo Store).RootfsVar (RetryIndex BootParams.BootChain)).Value ≠ 0 := by
          rw [LoadedInfo_Value]
          rcases RetryIndex_cases BootParams.BootChain with h | h <;> rw [h] <;>
            rw [h] at hB0 <;> simpa using hB0
        rw [if_neg hB1] at hO ⊢
        by_cases hN : LoadedValue Store (RetryIndex (LogicalNot BootParams.BootChain)) ≠ 0
        · have hN1 : ((LoadedInfo Store).RootfsVar
              (RetryIndex (LogicalNot BootParams.BootChain))).Value ≠ 0 := by
            rw [LoadedInfo_Value]
            rcases RetryIndex_cases (LogicalNot BootParams.BootChain) with h | h <;> rw [h] <;>
              rw [h] at hN <;> simpa using hN
          rw [if_pos hN1] at hO
          simp only at hO
          obtain ⟨_, _, hOut, _⟩ := ValidateRootfsStatusExit_success BootParams
            { Store := Store
              mRootfsInfo := SwitchInfo Cfg
                { LoadedInfo Store with CurrentSlot := BootParams.BootChain }
                BootParams.BootChain (LogicalNot BootParams.BootChain)
              Trace := ReadTrace }
          rw [hOut] at hO
          simp only [SwitchInfo_UpdateFlag, if_true, ne_eq, one_ne_zero, not_false_eq_true]
            at hO
          cases hO
        · have hN0 : LoadedValue Store (RetryIndex (LogicalNot BootParams.BootChain)) = 0 :=
            not_not.1 hN
          have hN1 : ¬ ((LoadedInfo Store).RootfsVar
              (RetryIndex (LogicalNot BootParams.BootChain))).Value ≠ 0 := by
            rw [LoadedInfo_Value]
            rcases RetryIndex_cases (LogicalNot BootParams.BootChain) with h | h <;> rw [h] <;>
              rw [h] at hN0 <;> simpa using hN0
          rw [if_neg hN1] at hO ⊢
          simp only at hO ⊢
          obtain ⟨k, hk, hkF, hCell⟩ := ValidateRootfsStatusExit_error _ _ E hO hEr
          simp only [ExhaustedInfo_UpdateFlag, LoadedInfo_UpdateFlag] at hCell
          have hF : ∀ i, i = 2 ∨ i = 3 →
              ¬ (i < k ∧ (if i = StatusIndex (LogicalNot BootParams.BootChain) then 1
                else if i = StatusIndex BootParams.BootChain then 1 else 0) ≠ 0) := by
            rintro i hi ⟨-, h2⟩
            rcases StatusIndex_cases (LogicalNot BootParams.BootChain) with h | h <;>
              rcases StatusIndex_cases BootParams.BootChain with g | g <;>
              rw [h, g] at h2 <;> rcases hi with rfl | rfl <;> simp at h2
          have hA : LoadedValue Store RF_RETRY_A = 0 ∧ LoadedValue Store RF_RETRY_B = 0 := by
            rcases hc with h | h <;> rw [h] at hB0 hN0
            · exact ⟨hB0, hN0⟩
            · exact ⟨hN0, hB0⟩
          refine ⟨?_, ?_, Or.inr ⟨ValidateRootfsStatusExit_BootMode _ _ _, hLoads, hA⟩⟩
          · rw [hCell, if_neg (hF RF_RETRY_A (Or.inl rfl))]
          · rw [hCell, if_neg (hF RF_RETRY_B (Or.inr rfl))]
    · have hv1 : IsValidRootfs Cfg (LoadedInfo Store) = false := by simpa using hv
      rw [hv1] at hO
      simp only [Bool.not_false, if_true] at hO
      injection hO with hO
      rw [← hO] at hEr
      exact absurd hEr (by decide)
  · rw [ValidateRootfsStatus_of_not_loads Cfg Store _ hMode hChain hLoads]
    have hS := (ReadRootfsVariables_frame (List.range RF_VARIABLE_INDEX_MAX)
      (MACHINE.Entry Store)).1
    refine ⟨?_, ?_, Or.inl rfl⟩
    · show (ReadRootfsVariables _ _).2.Store.Cell _ = _
      rw [hS]
      rfl
    · show (ReadRootfsVariables _ _).2.Store.Cell _ = _
      rw [hS]
      rfl

/-! ## Lemmas on the boot parameters that `ProcessBootParams` resolves -/

theorem InitialBootChain_le (Override OsChain FwChain : Option Nat) :
    InitialBootChain Override OsChain FwChain ≤ 1 := by
  have hV : InitialBootChainOfVariables OsChain FwChain ≤ 1 := by
    unfold InitialBootChainOfVariables
    cases OsChain <;> cases FwChain <;> simp only <;> first | omega | (split_ifs <;> omega)
  unfold InitialBootChain
  cases Override with
  | none => exact hV
  | some N =>
    simp only
    split_ifs with h
    · exact h
    · exact hV

theorem ProcessBootParamsLoadOptions_BootMode (Cfg : NVIDIA_CONFIGURATION) (RSIZE_MAX : Nat)
    (LoadedImage : EFI_LOADED_IMAGE_PROTOCOL) (BootParams : L4T_BOOT_PARAMS) :
    (ProcessBootParamsLoadOptions Cfg RSIZE_MAX LoadedImage BootParams).BootMode
        = BootParams.BootMode ∨
      (ProcessBootParamsLoadOptions Cfg RSIZE_MAX LoadedImage BootParams).BootMode
        = Cfg.NVIDIA_L4T_BOOTMODE_BOOTIMG ∨
      (ProcessBootParamsLoadOptions Cfg RSIZE_MAX LoadedImage BootParams).BootMode
        = Cfg.NVIDIA_L4T_BOOTMODE_RECOVERY := by
  unfold ProcessBootParamsLoadOptions
  by_cases hS : LoadedImage.LoadOptionsSize = 0
  · simp [hS]
  · simp only [hS, ne_eq, not_false_eq_true, if_true, if_false]
    cases hO : StrStr LoadedImage.LoadOptions BOOTCHAIN_OVERRIDE_STRING with
    | none => simp only []; split_ifs <;> simp
    | some Offset =>
      simp only []
      split_ifs <;> simp

theorem ProcessBootParamsResolve_BootMode (Cfg : NVIDIA_CONFIGURATION) (RSIZE_MAX : Nat)
    (m : MACHINE) (LoadedImage : EFI_LOADED_IMAGE_PROTOCOL) :
    (ProcessBootParamsResolve Cfg RSIZE_MAX m LoadedImage).1.BootMode
        = Cfg.NVIDIA_L4T_BOOTMODE_BOOTIMG ∨
      (ProcessBootParamsResolve Cfg RSIZE_MAX m LoadedImage).1.BootMode
        = Cfg.NVIDIA_L4T_BOOTMODE_RECOVERY := by
  have hL : ∀ BootParams : L4T_BOOT_PARAMS,
      BootParams.BootMode = Cfg.NVIDIA_L4T_BOOTMODE_BOOTIMG →
      (ProcessBootParamsLoadOptions Cfg RSIZE_MAX LoadedImage BootParams).BootMode
          = Cfg.NVIDIA_L4T_BOOTMODE_BOOTIMG ∨
        (ProcessBootParamsLoadOptions Cfg RSIZE_MAX LoadedImage BootParams).BootMode
          = Cfg.NVIDIA_L4T_BOOTMODE_RECOVERY := by
    intro BootParams hB
    rcases ProcessBootParamsLoadOptions_BootMode Cfg RSIZE_MAX LoadedImage BootParams with
      h | h | h
    · exact Or.inl (h.trans hB)
    · exact Or.inl h
    · exact Or.inr h
  unfold ProcessBootParamsResolve gRT_GetVariable
  cases hF : m.Store.Cell BOOT_FW_VARIABLE_NAME <;>
    cases hO : m.Store.Cell BOOT_OS_VARIABLE_NAME <;>
    simp only [hF, hO] <;>
    apply hL <;>
    split_ifs <;> rfl

theorem ProcessBootParamsResolve_chain_le (Cfg : NVIDIA_CONFIGURATION) (RSIZE_MAX : Nat)
    (m : MACHINE) (LoadedImage : EFI_LOADED_IMAGE_PROTOCOL) :
    (ProcessBootParamsResolve Cfg RSIZE_MAX m LoadedImage).1.BootChain ≤ ROOTFS_SLOT_B := by
  rw [ProcessBootParamsResolve_BootChain]
  exact InitialBootChain_le _ _ _

/-! ## The classification of a name that is a character, an underscore and the base name -/

theorem ReadRootfsVariables_unreached (n : Nat) :
    ∀ (a : Nat) (m : MACHINE) (i : Nat),
      (∃ j, a ≤ j ∧ j < i ∧ LoadStatus m.Store j ≠ EFI_SUCCESS) →
      ((ReadRootfsVariables (List.range' a n) m).2.mRootfsInfo.RootfsVar i).Value
        = (m.mRootfsInfo.RootfsVar i).Value := by
  induction n with
  | zero => intro a m i _; rfl
  | succ n ih =>
    intro a m i hj
    obtain ⟨j, haj, hji, hF⟩ := hj
    have hia : i ≠ a := by omega
    have hSt := RFGetVariable_status m a (m.mRootfsInfo.RootfsVar a).Value
    have hM := RFGetVariable_machine m a (m.mRootfsInfo.RootfsVar a).Value
    rw [List.range'_succ]
    unfold ReadRootfsVariables
    generalize RFGetVariable m a (m.mRootfsInfo.RootfsVar a).Value = r at hSt hM
    obtain ⟨Status, Value, m1⟩ := r
    simp only at hSt hM ⊢
    subst hM
    by_cases hE : EFI_ERROR Status = true
    · rw [if_pos hE]
      simp only [SetValue_Value, if_neg hia]
    · rw [if_neg hE]
      have hS : Status = EFI_SUCCESS := (EFI_ERROR_eq_false Status).1 (by simpa using hE)
      have hja : j ≠ a := by
        rintro rfl
        exact hF (hSt.symm.trans hS)
      have hj1 : a + 1 ≤ j := by omega
      have key := ih (a + 1)
        { Store := m.Store
          mRootfsInfo := m.mRootfsInfo.SetValue a Value
          Trace := m.Trace ++
            (if a < RF_VARIABLE_INDEX_MAX then [EVENT.GetVariable a] else []) }
        i ⟨j, hj1, hji, hF⟩
      exact key.trans (by simp only [SetValue_Value, if_neg hia])

/-! ## Lemmas on the reading of the `bootchain=` override -/

theorem StrStr_first (SearchString Text : List Nat) :
    ∀ Pre : List Nat,
      (∀ k, k < Pre.length → ¬ SearchString <+: (Pre ++ SearchString ++ Text).drop k) →
      StrStr (Pre ++ SearchString ++ Text) SearchString = some Pre.length := by
  intro Pre
  induction Pre with
  | nil =>
    intro _
    exact StrStr_at_start _ _ (by simp)
  | cons c Rest ih =>
    intro h
    have h0 : ¬ SearchString <+: c :: (Rest ++ SearchString ++ Text) := by
      have := h 0 (by simp)
      simpa using this
    have hR : ∀ k, k < Rest.length →
        ¬ SearchString <+: (Rest ++ SearchString ++ Text).drop k := by
      intro k hk
      have := h (k + 1) (by simpa using hk)
      simpa using this
    have hEq : c :: Rest ++ SearchString ++ Text = c :: (Rest ++ SearchString ++ Text) := by
      simp
    rw [hEq, StrStr_cons_skip c _ _ h0, ih hR]
    rfl

theorem StrStr_none (SearchString : List Nat) :
    ∀ Str : List Nat, ¬ SearchString <:+: Str → StrStr Str SearchString = none := by
  intro Str
  induction Str with
  | nil =>
    intro h
    have hne : SearchString ≠ [] := by
      rintro rfl
      exact h List.nil_infix
    simp [StrStr, hne]
  | cons c Rest ih =>
    intro h
    have h0 : ¬ SearchString <+: c :: Rest := fun hp => h hp.isInfix
    have hR : ¬ SearchString <:+: Rest := fun hi => h (hi.trans (List.infix_cons (List.infix_refl _)))
    rw [StrStr_cons_skip c _ _ h0, ih hR]
    rfl

theorem DecimalFold_le (Digits : List Nat) :
    ∀ Data : Nat, Data ≤ Digits.foldl (fun n c => 10 * n + (c - 48)) Data := by
  induction Digits with
  | nil => intro Data; exact le_refl _
  | cons c Rest ih =>
    intro Data
    have := ih (10 * Data + (c - 48))
    simp only [List.foldl_cons]
    omega

theorem StrDecimalToUint64SDigits_eq (Str : List Nat) :
    ∀ Data : Nat,
      (StrDecimalToUint64SDigits Str Data =
          (EFI_SUCCESS, (Str.takeWhile IsDecimalDigit).foldl (fun n c => 10 * n + (c - 48)) Data)) ∨
      (StrDecimalToUint64SDigits Str Data = (EFI_UNSUPPORTED, MAX_UINT64) ∧
        MAX_UINT64 <
          (Str.takeWhile IsDecimalDigit).foldl (fun n c => 10 * n + (c - 48)) Data) := by
  induction Str with
  | nil => intro Data; exact Or.inl rfl
  | cons c Rest ih =>
    intro Data
    unfold StrDecimalToUint64SDigits
    by_cases hD : InternalIsDecimalDigitCharacter c = true
    · have hD1 : IsDecimalDigit c = true := hD
      have hc : 48 ≤ c ∧ c ≤ 57 := by simpa [InternalIsDecimalDigitCharacter] using hD
      rw [if_pos hD, List.takeWhile_cons_of_pos hD1, List.foldl_cons]
      by_cases hO : Data > (MAX_UINT64 - (c - 48)) / 10
      · rw [if_pos hO]
        right
        refine ⟨rfl, ?_⟩
        have hle := DecimalFold_le (Rest.takeWhile IsDecimalDigit) (10 * Data + (c - 48))
        have hO1 : Data > (18446744073709551615 - (c - 48)) / 10 := hO
        have : 18446744073709551615 < 10 * Data + (c - 48) := by omega
        exact lt_of_lt_of_le this hle
      · rw [if_neg hO]
        have hM : Data * 10 + (c - 48) = 10 * Data + (c - 48) := by omega
        rw [hM]
        exact ih _
    · have hD1 : ¬ IsDecimalDigit c = true := hD
      rw [if_neg hD, List.takeWhile_cons_of_neg hD1]
      exact Or.inl rfl

theorem DecimalNumber_skip_zeros (Str : List Nat) :
    ((Str.dropWhile (fun c => decide (c = 48))).takeWhile IsDecimalDigit).foldl
        (fun n c => 10 * n + (c - 48)) 0 =
      DecimalNumber (Str.takeWhile IsDecimalDigit) := by
  unfold DecimalNumber
  induction Str with
  | nil => rfl
  | cons c Rest ih =>
    by_cases h0 : c = 48
    · subst h0
      have hd : IsDecimalDigit 48 = true := by decide
      rw [List.dropWhile_cons_of_pos (by simp), List.takeWhile_cons_of_pos hd, List.foldl_cons]
      exact ih
    · rw [List.dropWhile_cons_of_neg (by simpa using h0)]

theorem StrDecimalToUint64S_eq (RSIZE_MAX : Nat) (Text : List Nat)
    (hLimit : RSIZE_MAX = 0 ∨ Text.length ≤ RSIZE_MAX) :
    StrDecimalToUint64S RSIZE_MAX Text 0 = (EFI_SUCCESS, OverrideNumber Text) ∨
    (StrDecimalToUint64S RSIZE_MAX Text 0 = (EFI_UNSUPPORTED, MAX_UINT64) ∧
      MAX_UINT64 < OverrideNumber Text) := by
  have hC : ¬ (RSIZE_MAX ≠ 0 ∧ ¬ (StrnLenS Text (RSIZE_MAX + 1) ≤ RSIZE_MAX)) := by
    rintro ⟨h0, h1⟩
    rcases hLimit with h | h
    · exact h0 h
    · apply h1
      unfold StrnLenS
      omega
  have hB : (fun c => decide (c = 32 ∨ c = 9)) = IsBlank := rfl
  unfold StrDecimalToUint64S OverrideNumber
  rw [if_neg hC, hB, ← DecimalNumber_skip_zeros]
  exact StrDecimalToUint64SDigits_eq _ 0

theorem StrDecimalToUint64S_too_long (RSIZE_MAX : Nat) (Text : List Nat) (Data : Nat)
    (h0 : RSIZE_MAX ≠ 0) (hLong : RSIZE_MAX < Text.length) :
    StrDecimalToUint64S RSIZE_MAX Text Data = (EFI_INVALID_PARAMETER, Data) := by
  have hC : RSIZE_MAX ≠ 0 ∧ ¬ (StrnLenS Text (RSIZE_MAX + 1) ≤ RSIZE_MAX) := by
    refine ⟨h0, ?_⟩
    unfold StrnLenS
    omega
  unfold StrDecimalToUint64S
  rw [if_pos hC]

theorem ParsedBootChainOverride_absent (RSIZE_MAX : Nat)
    (LoadedImage : EFI_LOADED_IMAGE_PROTOCOL)
    (h : LoadedImage.LoadOptionsSize = 0 ∨
      ¬ BOOTCHAIN_OVERRIDE_STRING <:+: LoadedImage.LoadOptions) :
    ParsedBootChainOverride RSIZE_MAX LoadedImage = none := by
  unfold ParsedBootChainOverride
  rcases h with h | h
  · rw [if_pos h]
  · rw [StrStr_none _ _ h]
    split_ifs <;> rfl

theorem ParsedBootChainOverride_text (RSIZE_MAX : Nat)
    (LoadedImage : EFI_LOADED_IMAGE_PROTOCOL) (Pre Text : List Nat)
    (hSize : LoadedImage.LoadOptionsSize ≠ 0)
    (hOpt : LoadedImage.LoadOptions = Pre ++ BOOTCHAIN_OVERRIDE_STRING ++ Text)
    (hFirst : ∀ k, k < Pre.length →
      ¬ BOOTCHAIN_OVERRIDE_STRING <+: LoadedImage.LoadOptions.drop k) :
    ParsedBootChainOverride RSIZE_MAX LoadedImage =
      if EFI_ERROR (StrDecimalToUint64S RSIZE_MAX Text 0).1 then none
      else some (StrDecimalToUint64S RSIZE_MAX Text 0).2 := by
  have hStr : StrStr LoadedImage.LoadOptions BOOTCHAIN_OVERRIDE_STRING = some Pre.length := by
    rw [hOpt]
    apply StrStr_first
    rw [← hOpt]
    exact hFirst
  have hDrop : LoadedImage.LoadOptions.drop (Pre.length + BOOTCHAIN_OVERRIDE_STRING.length)
      = Text := by
    rw [hOpt, ← List.length_append]
    exact List.drop_left _ _
  unfold ParsedBootChainOverride
  rw [if_neg hSize, hStr]
  simp only [hDrop]
/-! ## Theorems on the specification of the rootfs validation -/

/-- C1 (dead-end precedence). Over a store in which all six counters load and both
`RootfsStatusSlotA` and `RootfsStatusSlotB` hold `ANDROIDLAUNCHER_STATUS_UNBOOTABLE`, a call
with `BootMode = BOOTIMG` and `BootChain` 0 or 1 returns `EFI_SUCCESS` with
`BootMode = RECOVERY` and `BootChain` as passed, whatever the retry counters hold; no
`UpdateFlag` is set, the store is as before, and the only calls made are the six
`GetVariable` of the load loop: no `SetVariable`, no deletion, no `ResetCold`. -/
theorem C1_dead_end_precedence (Cfg : NVIDIA_CONFIGURATION) (Store : VARIABLE_STORE)
    (BootParams : L4T_BOOT_PARAMS)
    (hCfg : Cfg.NVIDIA_L4T_BOOTMODE_BOOTIMG ≠ Cfg.NVIDIA_L4T_BOOTMODE_RECOVERY)
    (hLoads : Store.Loads)
    (hA : Store.Cell RF_STATUS_A = VARIABLE_CELL.Present (ANDROIDLAUNCHER_STATUS_UNBOOTABLE Cfg))
    (hB : Store.Cell RF_STATUS_B = VARIABLE_CELL.Present (ANDROIDLAUNCHER_STATUS_UNBOOTABLE Cfg))
    (hMode : BootParams.BootMode = Cfg.NVIDIA_L4T_BOOTMODE_BOOTIMG)
    (hChain : BootParams.BootChain ≤ ROOTFS_SLOT_B) :
    (ValidateRootfsStatus Cfg (MACHINE.Entry Store) BootParams).1
        = OUTCOME.Returned EFI_SUCCESS ∧
      (ValidateRootfsStatus Cfg (MACHINE.Entry Store) BootParams).2.1
        = { BootMode := Cfg.NVIDIA_L4T_BOOTMODE_RECOVERY, BootChain := BootParams.BootChain } ∧
      (∀ i, ((ValidateRootfsStatus Cfg (MACHINE.Entry Store) BootParams).2.2.mRootfsInfo.RootfsVar
        i).UpdateFlag = 0) ∧
      (ValidateRootfsStatus Cfg (MACHINE.Entry Store) BootParams).2.2.Store = Store ∧
      (ValidateRootfsStatus Cfg (MACHINE.Entry Store) BootParams).2.2.Trace
        = (List.range RF_VARIABLE_INDEX_MAX).map EVENT.GetVariable := by
  have hm : BootParams.BootMode ≠ Cfg.NVIDIA_L4T_BOOTMODE_RECOVERY := by rw [hMode]; exact hCfg
  have hvA := (LoadedValue_of_present Store RF_STATUS_A _ (by decide) hA).2
  have hvB := (LoadedValue_of_present Store RF_STATUS_B _ (by decide) hB).2
  have hv : IsValidRootfs Cfg (LoadedInfo Store) = false := by
    simp [IsValidRootfs, LoadedInfo, hvA, hvB]
  rw [ValidateRootfsStatus_of_loads Cfg Store BootParams hm hChain hLoads, hv]
  refine ⟨rfl, rfl, ?_, rfl, rfl⟩
  intro i
  show (if i < RF_VARIABLE_INDEX_MAX then
      ({ Value := LoadedValue Store i, UpdateFlag := 0 } : RF_VARIABLE)
    else { Value := 0, UpdateFlag := 0 }).UpdateFlag = 0
  split_ifs <;> rfl

/-- Witness of C1: the sample store with both slots unbootable, slot A requested. -/
theorem C1_dead_end_precedence_witness :
    (SampleConfiguration.NVIDIA_L4T_BOOTMODE_BOOTIMG
        ≠ SampleConfiguration.NVIDIA_L4T_BOOTMODE_RECOVERY ∧
      SampleStoreDeadEnd.Loads ∧
      SampleStoreDeadEnd.Cell RF_STATUS_A
        = VARIABLE_CELL.Present (ANDROIDLAUNCHER_STATUS_UNBOOTABLE SampleConfiguration) ∧
      SampleStoreDeadEnd.Cell RF_STATUS_B
        = VARIABLE_CELL.Present (ANDROIDLAUNCHER_STATUS_UNBOOTABLE SampleConfiguration)) ∧
      (ValidateRootfsStatus SampleConfiguration (MACHINE.Entry SampleStoreDeadEnd)
          { BootMode := 2, BootChain := 0 }).1 = OUTCOME.Returned EFI_SUCCESS ∧
      (ValidateRootfsStatus SampleConfiguration (MACHINE.Entry SampleStoreDeadEnd)
          { BootMode := 2, BootChain := 0 }).2.1 = { BootMode := 3, BootChain := 0 } :=
  have h := C1_dead_end_precedence SampleConfiguration SampleStoreDeadEnd
    { BootMode := 2, BootChain := 0 } (by decide) (by decide) (by decide) (by decide)
    (by decide) (by decide)
  ⟨⟨by decide, by decide, by decide, by decide⟩, h.1, h.2.1⟩

/-- C2 (bootable current slot). Over a store in which all counters load, the two statuses
are not both unbootable and every write succeeds, a call with `BootMode = BOOTIMG` and
`BootChain = c` in {0, 1} whose loaded retry count `r` of slot `c` is positive (and a 32-bit
value; an absent counter loads as 7) returns `EFI_SUCCESS` with `*BootParams` as passed. After
the six reads it makes exactly two calls, `SetVariable` of the status of slot `c` to `BOOTING`
and `SetVariable` of the retry counter of slot `c` to `r - 1`: nothing is deleted, there is no
reset, and the store differs from the initial one in these two variables only. -/
theorem C2_bootable_current_slot (Cfg : NVIDIA_CONFIGURATION) (Store : VARIABLE_STORE)
    (BootParams : L4T_BOOT_PARAMS)
    (hCfg : Cfg.NVIDIA_L4T_BOOTMODE_BOOTIMG ≠ Cfg.NVIDIA_L4T_BOOTMODE_RECOVERY)
    (hLoads : Store.Loads)
    (hValid : ¬ (Store.Cell RF_STATUS_A
          = VARIABLE_CELL.Present (ANDROIDLAUNCHER_STATUS_UNBOOTABLE Cfg) ∧
        Store.Cell RF_STATUS_B
          = VARIABLE_CELL.Present (ANDROIDLAUNCHER_STATUS_UNBOOTABLE Cfg)))
    (hWrites : Store.WritesSucceed)
    (hMode : BootParams.BootMode = Cfg.NVIDIA_L4T_BOOTMODE_BOOTIMG)
    (hChain : BootParams.BootChain ≤ ROOTFS_SLOT_B)
    (hPos : 0 < LoadedValue Store (RetryIndex BootParams.BootChain))
    (h32 : LoadedValue Store (RetryIndex BootParams.BootChain) < UINT32_MODULUS) :
    (ValidateRootfsStatus Cfg (MACHINE.Entry Store) BootParams).1
        = OUTCOME.Returned EFI_SUCCESS ∧
      (ValidateRootfsStatus Cfg (MACHINE.Entry Store) BootParams).2.1 = BootParams ∧
      (ValidateRootfsStatus Cfg (MACHINE.Entry Store) BootParams).2.2.Trace
        = (List.range RF_VARIABLE_INDEX_MAX).map EVENT.GetVariable ++
          [EVENT.SetVariable (StatusIndex BootParams.BootChain) ANDROIDLAUNCHER_STATUS_BOOTING,
           EVENT.SetVariable (RetryIndex BootParams.BootChain)
            (LoadedValue Store (RetryIndex BootParams.BootChain) - 1)] ∧
      (∀ i, (ValidateRootfsStatus Cfg (MACHINE.Entry Store) BootParams).2.2.Store.Cell i
        = if i = StatusIndex BootParams.BootChain then
            VARIABLE_CELL.Present ANDROIDLAUNCHER_STATUS_BOOTING
          else if i = RetryIndex BootParams.BootChain then
            VARIABLE_CELL.Present (LoadedValue Store (RetryIndex BootParams.BootChain) - 1)
          else Store.Cell i) := by
  have hm : BootParams.BootMode ≠ Cfg.NVIDIA_L4T_BOOTMODE_RECOVERY := by rw [hMode]; exact hCfg
  have hv := (IsValidRootfs_LoadedInfo Cfg Store hLoads).2 hValid
  obtain ⟨Mode, Chain⟩ := BootParams
  have hChain1 : Chain ≤ 1 := hChain
  have hc : Chain = 0 ∨ Chain = 1 := by omega
  have hr : List.range 6 = [0, 1, 2, 3, 4, 5] := by decide
  rw [ValidateRootfsStatus_of_loads Cfg Store _ hm hChain hLoads, hv]
  rcases hc with rfl | rfl
  · have hPos1 : 0 < LoadedValue Store 2 := hPos
    have h321 : LoadedValue Store 2 < 4294967296 := h32
    have hdec : (LoadedValue Store 2 + 4294967295) % 4294967296 = LoadedValue Store 2 - 1 := by
      omega
    rw [ValidateRootfsStatusSlots_bootable Cfg _ _ _ (by simp) (by simp [RetryIndex]; omega)]
    simp only [Bool.not_true, Bool.false_eq_true, if_false]
    rw [ValidateRootfsStatusExit_of_writesSucceed _ _ hWrites]
    simp [BootableInfo, RetryIndex, StatusIndex, CommitTrace, CommitStore, hr, List.filter_cons,
      hdec, ReadTrace]
    intro i
    by_cases h0 : i = 0 <;> by_cases h2 : i = 2 <;> simp [h0, h2]
  · have hPos1 : 0 < LoadedValue Store 3 := hPos
    have h321 : LoadedValue Store 3 < 4294967296 := h32
    have hdec : (LoadedValue Store 3 + 4294967295) % 4294967296 = LoadedValue Store 3 - 1 := by
      omega
    rw [ValidateRootfsStatusSlots_bootable Cfg _ _ _ (by simp) (by simp [RetryIndex]; omega)]
    simp only [Bool.not_true, Bool.false_eq_true, if_false]
    rw [ValidateRootfsStatusExit_of_writesSucceed _ _ hWrites]
    simp [BootableInfo, RetryIndex, StatusIndex, CommitTrace, CommitStore, hr, List.filter_cons,
      hdec, ReadTrace]
    intro i
    by_cases h1 : i = 1 <;> by_cases h3 : i = 3 <;> simp [h1, h3]

/-- Witness of C2: first boot of slot A, whose absent retry counter loads as 7 and is
written back as 6. -/
theorem C2_bootable_current_slot_witness :
    (SampleStoreFresh.Loads ∧ SampleStoreFresh.WritesSucceed ∧
      0 < LoadedValue SampleStoreFresh (RetryIndex 0)) ∧
    (ValidateRootfsStatus SampleConfiguration (MACHINE.Entry SampleStoreFresh)
        { BootMode := 2, BootChain := 0 }).1 = OUTCOME.Returned EFI_SUCCESS ∧
    (ValidateRootfsStatus SampleConfiguration (MACHINE.Entry SampleStoreFresh)
        { BootMode := 2, BootChain := 0 }).2.2.Trace
      = (List.range RF_VARIABLE_INDEX_MAX).map EVENT.GetVariable ++
        [EVENT.SetVariable RF_STATUS_A 1, EVENT.SetVariable RF_RETRY_A 6] :=
  have h := C2_bootable_current_slot SampleConfiguration SampleStoreFresh
    { BootMode := 2, BootChain := 0 } (by decide) (by decide) (by decide) (fun _ _ => rfl)
    (by decide) (by decide) (by decide) (by decide)
  ⟨⟨by decide, fun _ _ => rfl, by decide⟩, h.1, h.2.2.1⟩

/-- C3 (chain switch). Over a store in which all counters load, the two statuses are not
both unbootable and every write succeeds, a call with `BootMode = BOOTIMG` and
`BootChain = c` in {0, 1} such that the loaded retry count of slot `c` is 0 and that of slot
`1 - c` is not 0 does not return: it ends in `ResetCold ()`. `*BootParams` is as passed. After
the six reads the calls are, in this order, `SetVariable` of the status of slot `c` to
`UNBOOTABLE`, `SetVariable` of `BootChainFwNext` to `1 - c`, the deletion of
`BootChainFwStatus`, `Print`, the two-second delay and `ResetCold`; the store at that point
holds these two values, no `BootChainFwStatus`, and every other variable as before. -/
theorem C3_chain_switch (Cfg : NVIDIA_CONFIGURATION) (Store : VARIABLE_STORE)
    (BootParams : L4T_BOOT_PARAMS)
    (hCfg : Cfg.NVIDIA_L4T_BOOTMODE_BOOTIMG ≠ Cfg.NVIDIA_L4T_BOOTMODE_RECOVERY)
    (hLoads : Store.Loads)
    (hValid : ¬ (Store.Cell RF_STATUS_A
          = VARIABLE_CELL.Present (ANDROIDLAUNCHER_STATUS_UNBOOTABLE Cfg) ∧
        Store.Cell RF_STATUS_B
          = VARIABLE_CELL.Present (ANDROIDLAUNCHER_STATUS_UNBOOTABLE Cfg)))
    (hWrites : Store.WritesSucceed)
    (hMode : BootParams.BootMode = Cfg.NVIDIA_L4T_BOOTMODE_BOOTIMG)
    (hChain : BootParams.BootChain ≤ ROOTFS_SLOT_B)
    (hZero : LoadedValue Store (RetryIndex BootParams.BootChain) = 0)
    (hOther : 0 < LoadedValue Store (RetryIndex (1 - BootParams.BootChain))) :
    (ValidateRootfsStatus Cfg (MACHINE.Entry Store) BootParams).1 = OUTCOME.ColdReset ∧
      (ValidateRootfsStatus Cfg (MACHINE.Entry Store) BootParams).2.1 = BootParams ∧
      (ValidateRootfsStatus Cfg (MACHINE.Entry Store) BootParams).2.2.Trace
        = (List.range RF_VARIABLE_INDEX_MAX).map EVENT.GetVariable ++
          [EVENT.SetVariable (StatusIndex BootParams.BootChain)
              (ANDROIDLAUNCHER_STATUS_UNBOOTABLE Cfg),
           EVENT.SetVariable RF_FW_NEXT (1 - BootParams.BootChain),
           EVENT.DeleteVariable RF_BC_STATUS,
           EVENT.Print, EVENT.MicroSecondDelay 2000000, EVENT.ResetCold] ∧
      (∀ i, (ValidateRootfsStatus Cfg (MACHINE.Entry Store) BootParams).2.2.Store.Cell i
        = if i = StatusIndex BootParams.BootChain then
            VARIABLE_CELL.Present (ANDROIDLAUNCHER_STATUS_UNBOOTABLE Cfg)
          else if i = RF_FW_NEXT then VARIABLE_CELL.Present (1 - BootParams.BootChain)
          else if i = RF_BC_STATUS then VARIABLE_CELL.Absent
          else Store.Cell i) := by
  have hm : BootParams.BootMode ≠ Cfg.NVIDIA_L4T_BOOTMODE_RECOVERY := by rw [hMode]; exact hCfg
  have hv := (IsValidRootfs_LoadedInfo Cfg Store hLoads).2 hValid
  obtain ⟨Mode, Chain⟩ := BootParams
  have hChain1 : Chain ≤ 1 := hChain
  have hc : Chain = 0 ∨ Chain = 1 := by omega
  have hr : List.range 6 = [0, 1, 2, 3, 4, 5] := by decide
  rw [ValidateRootfsStatus_of_loads Cfg Store _ hm hChain hLoads, hv]
  rcases hc with rfl | rfl
  · have hZ : LoadedValue Store 2 = 0 := hZero
    have hO : 0 < LoadedValue Store 3 := hOther
    have hsw := ValidateRootfsStatusSlots_switch Cfg
      { LoadedInfo Store with CurrentSlot := 0 } { BootMode := Mode, BootChain := 0 } (by simp)
      (by simp [RetryIndex, hZ]) (by simp [RetryIndex, LogicalNot]; omega)
    simp only at hsw
    simp only [hsw, Bool.not_true, Bool.false_eq_true, if_false]
    rw [ValidateRootfsStatusExit_of_writesSucceed _ _ hWrites]
    simp [SwitchInfo, RetryIndex, StatusIndex, CommitTrace, CommitStore, hr, List.filter_cons,
      ReadTrace, LogicalNot]
    intro i
    by_cases h0 : i = 0 <;> by_cases h4 : i = 4 <;> by_cases h5 : i = 5 <;> simp [h0, h4, h5]
  · have hZ : LoadedValue Store 3 = 0 := hZero
    have hO : 0 < LoadedValue Store 2 := hOther
    have hsw := ValidateRootfsStatusSlots_switch Cfg
      { LoadedInfo Store with CurrentSlot := 1 } { BootMode := Mode, BootChain := 1 } (by simp)
      (by simp [RetryIndex, hZ]) (by simp [RetryIndex, LogicalNot]; omega)
    simp only at hsw
    simp only [hsw, Bool.not_true, Bool.false_eq_true, if_false]
    rw [ValidateRootfsStatusExit_of_writesSucceed _ _ hWrites]
    simp [SwitchInfo, RetryIndex, StatusIndex, CommitTrace, CommitStore, hr, List.filter_cons,
      ReadTrace, LogicalNot]
    intro i
    by_cases h1 : i = 1 <;> by_cases h4 : i = 4 <;> by_cases h5 : i = 5 <;> simp [h1, h4, h5]

/-- Witness of C3: slot A exhausted, slot B with 4 retries left; the call resets and the
store then holds `BootChainFwNext = 1` and no `BootChainFwStatus`. -/
theorem C3_chain_switch_witness :
    (SampleStoreSwitch.Loads ∧ SampleStoreSwitch.WritesSucceed ∧
      LoadedValue SampleStoreSwitch (RetryIndex 0) = 0 ∧
      0 < LoadedValue SampleStoreSwitch (RetryIndex (1 - 0))) ∧
    (ValidateRootfsStatus SampleConfiguration (MACHINE.Entry SampleStoreSwitch)
        { BootMode := 2, BootChain := 0 }).1 = OUTCOME.ColdReset ∧
    (ValidateRootfsStatus SampleConfiguration (MACHINE.Entry SampleStoreSwitch)
        { BootMode := 2, BootChain := 0 }).2.2.Store.Cell RF_FW_NEXT = VARIABLE_CELL.Present 1 ∧
    (ValidateRootfsStatus SampleConfiguration (MACHINE.Entry SampleStoreSwitch)
        { BootMode := 2, BootChain := 0 }).2.2.Store.Cell RF_BC_STATUS = VARIABLE_CELL.Absent :=
  have h := C3_chain_switch SampleConfiguration SampleStoreSwitch
    { BootMode := 2, BootChain := 0 } (by decide) (by decide) (by decide) (fun _ _ => rfl)
    (by decide) (by decide) (by decide) (by decide)
  ⟨⟨by decide, fun _ _ => rfl, by decide, by decide⟩, h.1, h.2.2.2 RF_FW_NEXT,
    h.2.2.2 RF_BC_STATUS⟩

/-- C4 (both slots exhausted). Over a store in which all counters load and every write
succeeds, a call with `BootMode = BOOTIMG` and `BootChain = c` in {0, 1} for which the loaded
retry counts of both slots are 0 returns `EFI_SUCCESS` with `BootMode = RECOVERY` and
`BootChain = c`; afterwards the stored statuses of both slots are `UNBOOTABLE`;
`BootChainFwNext` is not written, `BootChainFwStatus` is not deleted and `ResetCold` is not
called. -/
theorem C4_both_slots_exhausted (Cfg : NVIDIA_CONFIGURATION) (Store : VARIABLE_STORE)
    (BootParams : L4T_BOOT_PARAMS)
    (hCfg : Cfg.NVIDIA_L4T_BOOTMODE_BOOTIMG ≠ Cfg.NVIDIA_L4T_BOOTMODE_RECOVERY)
    (hLoads : Store.Loads)
    (hWrites : Store.WritesSucceed)
    (hMode : BootParams.BootMode = Cfg.NVIDIA_L4T_BOOTMODE_BOOTIMG)
    (hChain : BootParams.BootChain ≤ ROOTFS_SLOT_B)
    (hZeroA : LoadedValue Store RF_RETRY_A = 0)
    (hZeroB : LoadedValue Store RF_RETRY_B = 0) :
    (ValidateRootfsStatus Cfg (MACHINE.Entry Store) BootParams).1
        = OUTCOME.Returned EFI_SUCCESS ∧
      (ValidateRootfsStatus Cfg (MACHINE.Entry Store) BootParams).2.1
        = { BootMode := Cfg.NVIDIA_L4T_BOOTMODE_RECOVERY, BootChain := BootParams.BootChain } ∧
      (ValidateRootfsStatus Cfg (MACHINE.Entry Store) BootParams).2.2.Store.Cell
          (StatusIndex (1 - BootParams.BootChain))
        = VARIABLE_CELL.Present (ANDROIDLAUNCHER_STATUS_UNBOOTABLE Cfg) ∧
      (ValidateRootfsStatus Cfg (MACHINE.Entry Store) BootParams).2.2.Store.Cell
          (StatusIndex BootParams.BootChain)
        = VARIABLE_CELL.Present (ANDROIDLAUNCHER_STATUS_UNBOOTABLE Cfg) ∧
      (∀ v, EVENT.SetVariable RF_FW_NEXT v ∉
        (ValidateRootfsStatus Cfg (MACHINE.Entry Store) BootParams).2.2.Trace) ∧
      EVENT.DeleteVariable RF_BC_STATUS ∉
        (ValidateRootfsStatus Cfg (MACHINE.Entry Store) BootParams).2.2.Trace ∧
      EVENT.ResetCold ∉ (ValidateRootfsStatus Cfg (MACHINE.Entry Store) BootParams).2.2.Trace := by
  have hm : BootParams.BootMode ≠ Cfg.NVIDIA_L4T_BOOTMODE_RECOVERY := by rw [hMode]; exact hCfg
  obtain ⟨Mode, Chain⟩ := BootParams
  have hChain1 : Chain ≤ 1 := hChain
  have hc : Chain = 0 ∨ Chain = 1 := by omega
  have hr : List.range 6 = [0, 1, 2, 3, 4, 5] := by decide
  have hA : LoadedValue Store 2 = 0 := hZeroA
  have hB : LoadedValue Store 3 = 0 := hZeroB
  rw [ValidateRootfsStatus_of_loads Cfg Store _ hm hChain hLoads]
  by_cases hValid : Store.Cell RF_STATUS_A
        = VARIABLE_CELL.Present (ANDROIDLAUNCHER_STATUS_UNBOOTABLE Cfg) ∧
      Store.Cell RF_STATUS_B = VARIABLE_CELL.Present (ANDROIDLAUNCHER_STATUS_UNBOOTABLE Cfg)
  · have hv : IsValidRootfs Cfg (LoadedInfo Store) = false := by
      have := (IsValidRootfs_LoadedInfo Cfg Store hLoads).not.2 (not_not.2 hValid)
      simpa using this
    have hSA : Store.Cell 0 = VARIABLE_CELL.Present Cfg.NVIDIA_OS_STATUS_UNBOOTABLE := hValid.1
    have hSB : Store.Cell 1 = VARIABLE_CELL.Present Cfg.NVIDIA_OS_STATUS_UNBOOTABLE := hValid.2
    rw [hv]
    rcases hc with rfl | rfl <;> simp [StatusIndex, hSA, hSB, ReadTrace, hr]
  · have hv := (IsValidRootfs_LoadedInfo Cfg Store hLoads).2 hValid
    rw [hv]
    rcases hc with rfl | rfl
    · have hex := ValidateRootfsStatusSlots_exhausted Cfg
        { LoadedInfo Store with CurrentSlot := 0 } { BootMode := Mode, BootChain := 0 }
        (by simp) (by simp [RetryIndex, hA]) (by simp [RetryIndex, LogicalNot, hB])
      simp only at hex
      simp only [hex, Bool.not_true, Bool.false_eq_true, if_false]
      rw [ValidateRootfsStatusExit_of_writesSucceed _ _ hWrites]
      simp [ExhaustedInfo, RetryIndex, StatusIndex, CommitTrace, CommitStore, hr,
        List.filter_cons, ReadTrace, LogicalNot]
    · have hex := ValidateRootfsStatusSlots_exhausted Cfg
        { LoadedInfo Store with CurrentSlot := 1 } { BootMode := Mode, BootChain := 1 }
        (by simp) (by simp [RetryIndex, hB]) (by simp [RetryIndex, LogicalNot, hA])
      simp only at hex
      simp only [hex, Bool.not_true, Bool.false_eq_true, if_false]
      rw [ValidateRootfsStatusExit_of_writesSucceed _ _ hWrites]
      simp [ExhaustedInfo, RetryIndex, StatusIndex, CommitTrace, CommitStore, hr,
        List.filter_cons, ReadTrace, LogicalNot]

/-- Witness of C4: both retry counters 0 on slot B; the call returns with `BootMode`
`RECOVERY` and the status of slot A and of slot B stored as `UNBOOTABLE` (255). -/
theorem C4_both_slots_exhausted_witness :
    (SampleStoreExhausted.Loads ∧ SampleStoreExhausted.WritesSucceed ∧
      LoadedValue SampleStoreExhausted RF_RETRY_A = 0 ∧
      LoadedValue SampleStoreExhausted RF_RETRY_B = 0) ∧
    (ValidateRootfsStatus SampleConfiguration (MACHINE.Entry SampleStoreExhausted)
        { BootMode := 2, BootChain := 1 }).1 = OUTCOME.Returned EFI_SUCCESS ∧
    (ValidateRootfsStatus SampleConfiguration (MACHINE.Entry SampleStoreExhausted)
        { BootMode := 2, BootChain := 1 }).2.1 = { BootMode := 3, BootChain := 1 } ∧
    (ValidateRootfsStatus SampleConfiguration (MACHINE.Entry SampleStoreExhausted)
        { BootMode := 2, BootChain := 1 }).2.2.Store.Cell RF_STATUS_B
      = VARIABLE_CELL.Present 255 :=
  have h := C4_both_slots_exhausted SampleConfiguration SampleStoreExhausted
    { BootMode := 2, BootChain := 1 } (by decide) (by decide) (fun _ _ => rfl)
    (by decide) (by decide) (by decide) (by decide)
  ⟨⟨by decide, fun _ _ => rfl, by decide, by decide⟩, h.1, h.2.1, h.2.2.2.1⟩

/-- C5 (a slot with retry count 0 is never chosen). For every store and every input: if the
call returns `EFI_SUCCESS` with `BootMode = BOOTIMG` and `BootChain = s`, then the retry count
of slot `s` as loaded at the start of the run (an absent counter loading as 7) is not 0.
Moreover, for a slot `s` in {0, 1} and every snapshot, `IsRootfsSlotBootable (s)` is `TRUE`
exactly when the snapshot retry count of `s` is not 0. -/
theorem C5_zero_retry_slot_never_chosen (Cfg : NVIDIA_CONFIGURATION) (Store : VARIABLE_STORE)
    (BootParams : L4T_BOOT_PARAMS) (s : Nat)
    (hCfg : Cfg.NVIDIA_L4T_BOOTMODE_BOOTIMG ≠ Cfg.NVIDIA_L4T_BOOTMODE_RECOVERY) :
    ((ValidateRootfsStatus Cfg (MACHINE.Entry Store) BootParams).1
          = OUTCOME.Returned EFI_SUCCESS →
        (ValidateRootfsStatus Cfg (MACHINE.Entry Store) BootParams).2.1
          = { BootMode := Cfg.NVIDIA_L4T_BOOTMODE_BOOTIMG, BootChain := s } →
        LoadedValue Store (RetryIndex s) ≠ 0) ∧
      (∀ Info : L4T_RF_AB_PARAM, s ≤ ROOTFS_SLOT_B →
        (IsRootfsSlotBootable Info s = true ↔ (Info.RootfsVar (RetryIndex s)).Value ≠ 0)) := by
  refine ⟨?_, fun Info hs => by rw [IsRootfsSlotBootable_eq Info s hs]; simp⟩
  intro hOut hBP
  by_cases hm : BootParams.BootMode = Cfg.NVIDIA_L4T_BOOTMODE_RECOVERY
  · rw [ValidateRootfsStatus_of_recovery Cfg _ _ hm] at hBP
    simp only at hBP
    rw [hBP] at hm
    exact absurd hm hCfg
  by_cases hc : BootParams.BootChain > ROOTFS_SLOT_B
  · rw [ValidateRootfsStatus_of_invalid_chain Cfg _ _ hm hc] at hOut
    simp at hOut
  have hChain : BootParams.BootChain ≤ ROOTFS_SLOT_B := by omega
  have hChain1 : BootParams.BootChain ≤ 1 := hChain
  by_cases hL : Store.Loads
  swap
  · rw [ValidateRootfsStatus_of_not_loads Cfg Store _ hm hChain hL] at hOut
    simp at hOut
  rw [ValidateRootfsStatus_of_loads Cfg Store _ hm hChain hL] at hOut hBP
  by_cases hv : IsValidRootfs Cfg (LoadedInfo Store) = true
  swap
  · simp only [hv, Bool.not_false, if_true, L4T_BOOT_PARAMS.mk.injEq] at hBP
    exact absurd hBP.1.symm hCfg
  simp only [hv, Bool.not_true, Bool.false_eq_true, if_false] at hOut hBP
  have hSl := ValidateRootfsStatusSlots_eq Cfg
    { LoadedInfo Store with CurrentSlot := BootParams.BootChain } BootParams hChain
  simp only at hSl
  rw [hSl] at hOut hBP
  have hidx : RetryIndex BootParams.BootChain < 6 := by
    unfold RetryIndex; split_ifs <;> decide
  have hidx2 : RetryIndex (LogicalNot BootParams.BootChain) < 6 := by
    unfold RetryIndex; split_ifs <;> decide
  simp only [LoadedInfo_Value, RF_VARIABLE_INDEX_MAX, hidx, hidx2, if_true] at hOut hBP
  by_cases h1 : LoadedValue Store (RetryIndex BootParams.BootChain) = 0
  swap
  · simp only [ne_eq, h1, not_false_eq_true, if_true] at hBP
    obtain ⟨T, -, -, hP, -, -⟩ := ValidateRootfsStatusExit_success BootParams
      { Store := Store
        mRootfsInfo := BootableInfo
          { LoadedInfo Store with CurrentSlot := BootParams.BootChain } BootParams.BootChain
        Trace := ReadTrace }
    rw [hP] at hBP
    simp only [BootableInfo, SetUpdateFlag_CurrentSlot, SetValue_CurrentSlot,
      L4T_BOOT_PARAMS.mk.injEq] at hBP
    rw [← hBP.2]
    exact h1
  simp only [h1, ne_eq, not_true_eq_false, if_false] at hOut hBP
  by_cases h2 : LoadedValue Store (RetryIndex (LogicalNot BootParams.BootChain)) = 0
  · simp only [h2, ne_eq, not_true_eq_false, if_false] at hBP
    obtain ⟨T, -, -, hP, -, -⟩ := ValidateRootfsStatusExit_success
      { BootParams with BootMode := Cfg.NVIDIA_L4T_BOOTMODE_RECOVERY }
      { Store := Store
        mRootfsInfo := ExhaustedInfo Cfg
          { LoadedInfo Store with CurrentSlot := BootParams.BootChain } BootParams.BootChain
          (LogicalNot BootParams.BootChain)
        Trace := ReadTrace }
    rw [hP] at hBP
    simp only [L4T_BOOT_PARAMS.mk.injEq] at hBP
    exact absurd hBP.1.symm hCfg
  · simp only [ne_eq, h2, not_false_eq_true, if_true] at hOut
    obtain ⟨T, -, hO, -, -, -⟩ := ValidateRootfsStatusExit_success BootParams
      { Store := Store
        mRootfsInfo := SwitchInfo Cfg
          { LoadedInfo Store with CurrentSlot := BootParams.BootChain } BootParams.BootChain
          (LogicalNot BootParams.BootChain)
        Trace := ReadTrace }
    rw [hO] at hOut
    simp [SwitchInfo] at hOut

/-- Witness of C5: on the fresh sample store the call for slot A returns `EFI_SUCCESS` with
`BootMode = BOOTIMG` and `BootChain = 0`, and the loaded retry count of slot A is not 0. -/
theorem C5_zero_retry_slot_never_chosen_witness :
    SampleConfiguration.NVIDIA_L4T_BOOTMODE_BOOTIMG
        ≠ SampleConfiguration.NVIDIA_L4T_BOOTMODE_RECOVERY ∧
      (ValidateRootfsStatus SampleConfiguration (MACHINE.Entry SampleStoreFresh)
        { BootMode := 2, BootChain := 0 }).1 = OUTCOME.Returned EFI_SUCCESS ∧
      (ValidateRootfsStatus SampleConfiguration (MACHINE.Entry SampleStoreFresh)
        { BootMode := 2, BootChain := 0 }).2.1 = { BootMode := 2, BootChain := 0 } ∧
      LoadedValue SampleStoreFresh (RetryIndex 0) ≠ 0 :=
  ⟨by decide, by decide, by decide,
    (C5_zero_retry_slot_never_chosen SampleConfiguration SampleStoreFresh
      { BootMode := 2, BootChain := 0 } 0 (by decide)).1 (by decide) (by decide)⟩

/-- C6 (recovery short-circuit). From any machine state and for any `BootChain`, values
above 1 included, a call whose `BootMode` is already `RECOVERY` returns `EFI_SUCCESS` and
leaves `*BootParams` and the whole machine as they were: the store, `mRootfsInfo` and the
list of calls are unchanged, so there is no variable read, write or deletion and no reset. -/
theorem C6_recovery_short_circuit (Cfg : NVIDIA_CONFIGURATION) (m : MACHINE)
    (BootParams : L4T_BOOT_PARAMS)
    (hMode : BootParams.BootMode = Cfg.NVIDIA_L4T_BOOTMODE_RECOVERY) :
    ValidateRootfsStatus Cfg m BootParams = (OUTCOME.Returned EFI_SUCCESS, BootParams, m) := by
  unfold ValidateRootfsStatus
  rw [if_pos hMode]

/-- Witness of C6: `BootMode = RECOVERY` with the out-of-range `BootChain = 5`. -/
theorem C6_recovery_short_circuit_witness :
    ValidateRootfsStatus SampleConfiguration (MACHINE.Entry SampleStoreFresh)
        { BootMode := 3, BootChain := 5 }
      = (OUTCOME.Returned EFI_SUCCESS, { BootMode := 3, BootChain := 5 },
          MACHINE.Entry SampleStoreFresh) :=
  C6_recovery_short_circuit SampleConfiguration (MACHINE.Entry SampleStoreFresh)
    { BootMode := 3, BootChain := 5 } rfl

/-- C7 (invalid chain rejected). From any machine state, a call whose `BootMode` is not
`RECOVERY` and whose `BootChain` is above 1 returns `EFI_INVALID_PARAMETER` and leaves
`*BootParams` and the whole machine as they were: no variable read, write or deletion and no
reset. -/
theorem C7_invalid_chain_rejected (Cfg : NVIDIA_CONFIGURATION) (m : MACHINE)
    (BootParams : L4T_BOOT_PARAMS)
    (hMode : BootParams.BootMode ≠ Cfg.NVIDIA_L4T_BOOTMODE_RECOVERY)
    (hChain : BootParams.BootChain > ROOTFS_SLOT_B) :
    ValidateRootfsStatus Cfg m BootParams
      = (OUTCOME.Returned EFI_INVALID_PARAMETER, BootParams, m) := by
  unfold ValidateRootfsStatus
  rw [if_neg hMode, if_pos hChain]

/-- Witness of C7: `BootMode = BOOTIMG` with `BootChain = 2`. -/
theorem C7_invalid_chain_rejected_witness :
    ValidateRootfsStatus SampleConfiguration (MACHINE.Entry SampleStoreFresh)
        { BootMode := 2, BootChain := 2 }
      = (OUTCOME.Returned EFI_INVALID_PARAMETER, { BootMode := 2, BootChain := 2 },
          MACHINE.Entry SampleStoreFresh) :=
  C7_invalid_chain_rejected SampleConfiguration (MACHINE.Entry SampleStoreFresh)
    { BootMode := 2, BootChain := 2 } (by decide) (by decide)

/-- C8 (load phase), as the code has it. For a call with `BootMode = BOOTIMG` and `BootChain`
in {0, 1} from the entry machine. (1) `RFGetVariable` returns `EFI_SUCCESS` with the stored
value for a variable that exists, with 7 for an absent retry counter, and with 0 for an absent
`BootChainFwNext` or `BootChainFwStatus`. (2) The load loop reads the counters in index order
and stops at the first one that fails to load: the snapshot `Value` of every counter the loop
has reached (every counter before it loaded) is the stored value when the variable exists,
7 when it is an absent retry counter, and 0 otherwise; (3) the snapshot `Value` of a counter
after one that failed to load is still 0. (4) When both status variables exist and no variable
is unreadable the loop reaches all six counters and runs to its end. (5) If
`RootfsStatusSlotA` or `RootfsStatusSlotB` is absent the call returns `EFI_LOAD_ERROR` with
`*BootParams` as passed, the store unchanged and only `GetVariable` calls made: nothing is
written or deleted and there is no reset. -/
theorem C8_load_phase (Cfg : NVIDIA_CONFIGURATION) (Store : VARIABLE_STORE)
    (BootParams : L4T_BOOT_PARAMS)
    (hCfg : Cfg.NVIDIA_L4T_BOOTMODE_BOOTIMG ≠ Cfg.NVIDIA_L4T_BOOTMODE_RECOVERY)
    (hMode : BootParams.BootMode = Cfg.NVIDIA_L4T_BOOTMODE_BOOTIMG)
    (hChain : BootParams.BootChain ≤ ROOTFS_SLOT_B) :
    (∀ (Index : Nat) (m : MACHINE) (Value : Nat), Index < RF_VARIABLE_INDEX_MAX →
        m.Store = Store →
        (∀ v, Store.Cell Index = VARIABLE_CELL.Present v →
          (RFGetVariable m Index Value).1 = EFI_SUCCESS ∧
          (RFGetVariable m Index Value).2.1 = v) ∧
        (Store.Cell Index = VARIABLE_CELL.Absent →
          (Index = RF_RETRY_A ∨ Index = RF_RETRY_B) →
          (RFGetVariable m Index Value).1 = EFI_SUCCESS ∧
          (RFGetVariable m Index Value).2.1 = ROOTFS_RETRY_MAX) ∧
        (Store.Cell Index = VARIABLE_CELL.Absent →
          (Index = RF_FW_NEXT ∨ Index = RF_BC_STATUS) →
          (RFGetVariable m Index Value).1 = EFI_SUCCESS ∧
          (RFGetVariable m Index Value).2.1 = 0)) ∧
      (∀ Index, Index < RF_VARIABLE_INDEX_MAX →
        (∀ j, j < Index → LoadStatus Store j = EFI_SUCCESS) →
        ((ReadRootfsVariables (List.range RF_VARIABLE_INDEX_MAX)
            (MACHINE.Entry Store)).2.mRootfsInfo.RootfsVar Index).Value
          = (match Store.Cell Index with
            | VARIABLE_CELL.Present v => v
            | VARIABLE_CELL.Absent =>
              if Index = RF_RETRY_A ∨ Index = RF_RETRY_B then ROOTFS_RETRY_MAX else 0
            | VARIABLE_CELL.Unreadable => 0)) ∧
      (∀ Index, (∃ j, j < Index ∧ LoadStatus Store j ≠ EFI_SUCCESS) →
        ((ReadRootfsVariables (List.range RF_VARIABLE_INDEX_MAX)
            (MACHINE.Entry Store)).2.mRootfsInfo.RootfsVar Index).Value = 0) ∧
      ((∀ Index, Index < RF_VARIABLE_INDEX_MAX → Store.Cell Index ≠ VARIABLE_CELL.Unreadable) →
        Store.Cell RF_STATUS_A ≠ VARIABLE_CELL.Absent →
        Store.Cell RF_STATUS_B ≠ VARIABLE_CELL.Absent →
        (∀ j, j < RF_VARIABLE_INDEX_MAX → LoadStatus Store j = EFI_SUCCESS) ∧
        (ReadRootfsVariables (List.range RF_VARIABLE_INDEX_MAX) (MACHINE.Entry Store)).1
          = none) ∧
      ((Store.Cell RF_STATUS_A = VARIABLE_CELL.Absent ∨
          Store.Cell RF_STATUS_B = VARIABLE_CELL.Absent) →
        (ValidateRootfsStatus Cfg (MACHINE.Entry Store) BootParams).1
          = OUTCOME.Returned EFI_LOAD_ERROR ∧
        (ValidateRootfsStatus Cfg (MACHINE.Entry Store) BootParams).2.1 = BootParams ∧
        (ValidateRootfsStatus Cfg (MACHINE.Entry Store) BootParams).2.2.Store = Store ∧
        ∀ e ∈ (ValidateRootfsStatus Cfg (MACHINE.Entry Store) BootParams).2.2.Trace,
          ∃ Index, e = EVENT.GetVariable Index) := by
  have hm : BootParams.BootMode ≠ Cfg.NVIDIA_L4T_BOOTMODE_RECOVERY := by rw [hMode]; exact hCfg
  have hval : ∀ Index, Index < RF_VARIABLE_INDEX_MAX →
      (∀ v, Store.Cell Index = VARIABLE_CELL.Present v →
        LoadStatus Store Index = EFI_SUCCESS ∧ LoadedValue Store Index = v) ∧
      (Store.Cell Index = VARIABLE_CELL.Absent → (Index = RF_RETRY_A ∨ Index = RF_RETRY_B) →
        LoadStatus Store Index = EFI_SUCCESS ∧ LoadedValue Store Index = ROOTFS_RETRY_MAX) ∧
      (Store.Cell Index = VARIABLE_CELL.Absent → (Index = RF_FW_NEXT ∨ Index = RF_BC_STATUS) →
        LoadStatus Store Index = EFI_SUCCESS ∧ LoadedValue Store Index = 0) := by
    intro Index hI
    have h1 : ¬ (Index ≥ RF_VARIABLE_INDEX_MAX) := by omega
    refine ⟨fun v hv => LoadedValue_of_present Store Index v hI hv, ?_, ?_⟩
    · intro ha hi
      unfold LoadStatus LoadedValue RFGetVariable gRT_GetVariable MACHINE.Entry
      rcases hi with rfl | rfl <;> simp [ha, EFI_ERROR]
    · intro ha hi
      unfold LoadStatus LoadedValue RFGetVariable gRT_GetVariable MACHINE.Entry
      rcases hi with rfl | rfl <;> simp [ha, EFI_ERROR]
  refine ⟨?_, ?_, ?_, ?_, ?_⟩
  · intro Index m Value hI hS
    rw [RFGetVariable_eq m Index Value hI, hS]
    exact hval Index hI
  · intro Index hI hPrev
    rw [ReadRootfsVariables_Value_of_reached Store Index hI hPrev]
    have h1 : ¬ (Index ≥ RF_VARIABLE_INDEX_MAX) := by omega
    cases hc : Store.Cell Index with
    | Present v => exact (LoadedValue_of_present Store Index v hI hc).2
    | Unreadable =>
      unfold LoadedValue RFGetVariable gRT_GetVariable MACHINE.Entry
      simp [h1, hc, EFI_ERROR]
    | Absent =>
      unfold LoadedValue RFGetVariable gRT_GetVariable MACHINE.Entry
      simp only [if_neg h1, hc, EFI_ERROR, if_true]
      split_ifs <;> rfl
  · rintro Index ⟨j, hj, hF⟩
    have hr : List.range RF_VARIABLE_INDEX_MAX = List.range' 0 6 := by decide
    rw [hr]
    exact ReadRootfsVariables_unreached 6 0 (MACHINE.Entry Store) Index
      ⟨j, Nat.zero_le j, hj, hF⟩
  · intro hU hA hB
    have hL : Store.Loads := by
      intro Index hI
      have h := hval Index hI
      have hu := hU Index hI
      cases hc : Store.Cell Index with
      | Present v => exact (h.1 v hc).1
      | Unreadable => exact absurd hc hu
      | Absent =>
        have h6 : Index < 6 := hI
        have hi : Index = 0 ∨ Index = 1 ∨ Index = 2 ∨ Index = 3 ∨ Index = 4 ∨ Index = 5 := by
          omega
        rcases hi with rfl | rfl | rfl | rfl | rfl | rfl
        · exact absurd hc hA
        · exact absurd hc hB
        · exact (h.2.1 hc (Or.inl rfl)).1
        · exact (h.2.1 hc (Or.inr rfl)).1
        · exact (h.2.2 hc (Or.inl rfl)).1
        · exact (h.2.2 hc (Or.inr rfl)).1
    exact ⟨hL, by rw [ReadRootfsVariables_of_loads Store hL]⟩
  · intro hAbs
    have hL : ¬ Store.Loads := by
      intro hL
      rcases hAbs with ha | ha
      · have := Cell_of_loads_status Store RF_STATUS_A (Or.inl rfl) (hL _ (by decide))
        rw [ha] at this
        cases this
      · have := Cell_of_loads_status Store RF_STATUS_B (Or.inr rfl) (hL _ (by decide))
        rw [ha] at this
        cases this
    rw [ValidateRootfsStatus_of_not_loads Cfg Store _ hm hChain hL]
    obtain ⟨hS, -, ⟨T, hT, hP⟩, -, -⟩ :=
      ReadRootfsVariables_frame (List.range RF_VARIABLE_INDEX_MAX) (MACHINE.Entry Store)
    refine ⟨rfl, rfl, hS, ?_⟩
    intro e he
    simp only at he
    rw [hT] at he
    simp only [MACHINE.Entry, List.nil_append] at he
    have := hP.subset he
    simp only [List.mem_map] at this
    obtain ⟨i, -, rfl⟩ := this
    exact ⟨i, rfl⟩

/-- Witness of C8: with `RootfsStatusSlotB` absent the call returns `EFI_LOAD_ERROR`, and
the absent `RootfsRetrySlotB` of that store is read as 7. -/
theorem C8_load_phase_witness :
    SampleStoreNoStatusB.Cell RF_STATUS_B = VARIABLE_CELL.Absent ∧
      (ValidateRootfsStatus SampleConfiguration (MACHINE.Entry SampleStoreNoStatusB)
        { BootMode := 2, BootChain := 0 }).1 = OUTCOME.Returned EFI_LOAD_ERROR ∧
      (RFGetVariable (MACHINE.Entry SampleStoreNoStatusB) RF_RETRY_B 0).2.1 = 7 :=
  have h := C8_load_phase SampleConfiguration SampleStoreNoStatusB
    { BootMode := 2, BootChain := 0 } (by decide) (by decide) (by decide)
  ⟨by decide, (h.2.2.2.2 (Or.inr (by decide))).1,
    ((h.1 RF_RETRY_B (MACHINE.Entry SampleStoreNoStatusB) 0 (by decide) rfl).2.1 (by decide)
      (Or.inr rfl)).2⟩

/-- Counterexample to C8 as stated: `RootfsStatusSlotA` is absent and the five other variables
exist. The call in boot-image mode for chain 0 returns `EFI_LOAD_ERROR` after the single call
`GetVariable` of `RootfsStatusSlotA`; `RootfsStatusSlotB` holds 255 and `RootfsRetrySlotA`
holds 3 in the store, and their snapshot values are 0. -/
theorem C8_snapshot_after_load_error_counterexample :
    SampleStoreNoStatusA.Cell RF_STATUS_B = VARIABLE_CELL.Present 255 ∧
    SampleStoreNoStatusA.Cell RF_RETRY_A = VARIABLE_CELL.Present 3 ∧
    (ValidateRootfsStatus SampleConfiguration (MACHINE.Entry SampleStoreNoStatusA)
      { BootMode := 2, BootChain := 0 }).1 = OUTCOME.Returned EFI_LOAD_ERROR ∧
    (ValidateRootfsStatus SampleConfiguration (MACHINE.Entry SampleStoreNoStatusA)
      { BootMode := 2, BootChain := 0 }).2.2.Trace = [EVENT.GetVariable RF_STATUS_A] ∧
    ((ValidateRootfsStatus SampleConfiguration (MACHINE.Entry SampleStoreNoStatusA)
      { BootMode := 2, BootChain := 0 }).2.2.mRootfsInfo.RootfsVar RF_STATUS_B).Value = 0 ∧
    ((ValidateRootfsStatus SampleConfiguration (MACHINE.Entry SampleStoreNoStatusA)
      { BootMode := 2, BootChain := 0 }).2.2.mRootfsInfo.RootfsVar RF_RETRY_A).Value = 0 := by
  refine ⟨?_, ?_, ?_, ?_, ?_, ?_⟩ <;> decide

/-- C9 (retry counts saturate at 0). For a slot in {0, 1} and a snapshot whose retry count
`r` of that slot is a 32-bit value: when `r > 0`, `DecreaseRootfsRetryCount` returns
`EFI_SUCCESS`, stores `r - 1` (the `UINT32` decrement does not wrap) and sets the
`UpdateFlag` of the counter, changing nothing else in the snapshot; when `r = 0` it returns
`EFI_INVALID_PARAMETER` and leaves the snapshot as it is. Consequently, for every store and
every input, if the loaded retry count of the slot is 0, every `SetVariable` call that
`ValidateRootfsStatus` makes on the retry counter of that slot carries the value 0 (there is
in fact no such call). -/
theorem C9_retry_saturates_at_zero (Cfg : NVIDIA_CONFIGURATION) (Store : VARIABLE_STORE)
    (BootParams : L4T_BOOT_PARAMS) (Info : L4T_RF_AB_PARAM) (Slot : Nat)
    (hSlot : Slot ≤ ROOTFS_SLOT_B)
    (h32 : (Info.RootfsVar (RetryIndex Slot)).Value < UINT32_MODULUS) :
    (0 < (Info.RootfsVar (RetryIndex Slot)).Value →
        DecreaseRootfsRetryCount Info Slot
          = (EFI_SUCCESS,
              (Info.SetValue (RetryIndex Slot)
                ((Info.RootfsVar (RetryIndex Slot)).Value - 1)).SetUpdateFlag
                (RetryIndex Slot) 1)) ∧
      ((Info.RootfsVar (RetryIndex Slot)).Value = 0 →
        DecreaseRootfsRetryCount Info Slot = (EFI_INVALID_PARAMETER, Info)) ∧
      (LoadedValue Store (RetryIndex Slot) = 0 →
        ∀ v, EVENT.SetVariable (RetryIndex Slot) v ∈
            (ValidateRootfsStatus Cfg (MACHINE.Entry Store) BootParams).2.2.Trace →
          v = 0) := by
  have hSlot1 : Slot ≤ 1 := hSlot
  have hs : Slot = 0 ∨ Slot = 1 := by omega
  refine ⟨?_, ?_, ?_⟩
  · intro hPos
    rcases hs with rfl | rfl
    · have hP : 0 < (Info.RootfsVar 2).Value := hPos
      have hB : (Info.RootfsVar 2).Value < 4294967296 := h32
      have hne : (Info.RootfsVar 2).Value ≠ 0 := by omega
      have hdec : ((Info.RootfsVar 2).Value + 4294967295) % 4294967296
          = (Info.RootfsVar 2).Value - 1 := by omega
      simp [DecreaseRootfsRetryCount, GetRetryCountFrommRootfsInfo, SetRetryCountTomRootfsInfo,
        EFI_ERROR, RetryIndex, hne, hdec]
    · have hP : 0 < (Info.RootfsVar 3).Value := hPos
      have hB : (Info.RootfsVar 3).Value < 4294967296 := h32
      have hne : (Info.RootfsVar 3).Value ≠ 0 := by omega
      have hdec : ((Info.RootfsVar 3).Value + 4294967295) % 4294967296
          = (Info.RootfsVar 3).Value - 1 := by omega
      simp [DecreaseRootfsRetryCount, GetRetryCountFrommRootfsInfo, SetRetryCountTomRootfsInfo,
        EFI_ERROR, RetryIndex, hne, hdec]
  · intro hZ
    rcases hs with rfl | rfl
    · have hZ1 : (Info.RootfsVar 2).Value = 0 := hZ
      simp [DecreaseRootfsRetryCount, GetRetryCountFrommRootfsInfo, EFI_ERROR, hZ1]
    · have hZ1 : (Info.RootfsVar 3).Value = 0 := hZ
      simp [DecreaseRootfsRetryCount, GetRetryCountFrommRootfsInfo, EFI_ERROR, hZ1]
  · intro hZ v hv
    exfalso
    by_cases hm : BootParams.BootMode = Cfg.NVIDIA_L4T_BOOTMODE_RECOVERY
    · rw [ValidateRootfsStatus_of_recovery Cfg _ _ hm] at hv
      simp [MACHINE.Entry] at hv
    by_cases hc : BootParams.BootChain > ROOTFS_SLOT_B
    · rw [ValidateRootfsStatus_of_invalid_chain Cfg _ _ hm hc] at hv
      simp [MACHINE.Entry] at hv
    have hChain : BootParams.BootChain ≤ ROOTFS_SLOT_B := by omega
    have hChain1 : BootParams.BootChain ≤ 1 := hChain
    by_cases hL : Store.Loads
    swap
    · rw [ValidateRootfsStatus_of_not_loads Cfg Store _ hm hChain hL] at hv
      obtain ⟨-, -, ⟨T, hT, hP⟩, -, -⟩ :=
        ReadRootfsVariables_frame (List.range RF_VARIABLE_INDEX_MAX) (MACHINE.Entry Store)
      simp only at hv
      rw [hT] at hv
      simp only [MACHINE.Entry, List.nil_append] at hv
      have := hP.subset hv
      simp at this
    rw [ValidateRootfsStatus_of_loads Cfg Store _ hm hChain hL] at hv
    have hr : List.range 6 = [0, 1, 2, 3, 4, 5] := by decide
    by_cases hvld : IsValidRootfs Cfg (LoadedInfo Store) = true
    swap
    · simp only [hvld, Bool.not_false, if_true] at hv
      rcases hs with rfl | rfl <;> simp [ReadTrace, hr, RetryIndex] at hv
    simp only [hvld, Bool.not_true, Bool.false_eq_true, if_false] at hv
    have hSl := ValidateRootfsStatusSlots_eq Cfg
      { LoadedInfo Store with CurrentSlot := BootParams.BootChain } BootParams hChain
    simp only at hSl
    rw [hSl] at hv
    have key : ∀ (BP : L4T_BOOT_PARAMS) (I : L4T_RF_AB_PARAM),
        (I.RootfsVar (RetryIndex Slot)).UpdateFlag = 0 →
        EVENT.SetVariable (RetryIndex Slot) v ∈
          (ValidateRootfsStatusExit EFI_SUCCESS BP
            { Store := Store, mRootfsInfo := I, Trace := ReadTrace }).2.2.Trace → False := by
      intro BP I hF hmem
      obtain ⟨T, hP, -, -, -, hT⟩ := ValidateRootfsStatusExit_success BP
        { Store := Store, mRootfsInfo := I, Trace := ReadTrace }
      rw [hT] at hmem
      simp only [List.mem_append] at hmem
      rcases hmem with (hmem | hmem) | hmem
      · rcases hs with rfl | rfl <;> simp [ReadTrace, hr, RetryIndex] at hmem
      · have := (mem_CommitTrace _ _ _).1 (hP.subset hmem)
        obtain ⟨i, -, hfi, he⟩ := this
        simp only [EVENT.SetVariable.injEq] at he
        rw [← he.1] at hfi
        exact hfi hF
      · split_ifs at hmem <;> simp at hmem
    have hR := RetryIndex_cases Slot
    split_ifs at hv with h1 h2
    · refine key _ _ ?_ hv
      have hne : RetryIndex Slot ≠ RetryIndex BootParams.BootChain := by
        intro heq
        rw [← heq] at h1
        have h6 : RetryIndex Slot < 6 := by omega
        simp [h6, hZ] at h1
      have hS := StatusIndex_cases BootParams.BootChain
      have hne2 : RetryIndex Slot ≠ StatusIndex BootParams.BootChain := by omega
      rw [BootableInfo_UpdateFlag, if_neg hne2, if_neg hne]
      simp
    · refine key _ _ ?_ hv
      have hS := StatusIndex_cases BootParams.BootChain
      have hne1 : RetryIndex Slot ≠ RF_FW_NEXT := by
        have : RF_FW_NEXT = 4 := rfl
        omega
      have hne2 : RetryIndex Slot ≠ StatusIndex BootParams.BootChain := by omega
      rw [SwitchInfo_UpdateFlag, if_neg hne1, if_neg hne2]
      simp
    · refine key _ _ ?_ hv
      have hS := StatusIndex_cases BootParams.BootChain
      have hS2 := StatusIndex_cases (LogicalNot BootParams.BootChain)
      have hne1 : RetryIndex Slot ≠ StatusIndex (LogicalNot BootParams.BootChain) := by omega
      have hne2 : RetryIndex Slot ≠ StatusIndex BootParams.BootChain := by omega
      rw [ExhaustedInfo_UpdateFlag, if_neg hne1, if_neg hne2]
      simp

/-- Witness of C9: slot B of the sample snapshot has retry count 6, a 32-bit value above 0;
`DecreaseRootfsRetryCount` returns `EFI_SUCCESS` and leaves 5 in the snapshot. -/
theorem C9_retry_saturates_at_zero_witness :
    ((SampleSnapshot.RootfsVar (RetryIndex 1)).Value < UINT32_MODULUS ∧
      0 < (SampleSnapshot.RootfsVar (RetryIndex 1)).Value) ∧
    (DecreaseRootfsRetryCount SampleSnapshot 1).1 = EFI_SUCCESS ∧
    ((DecreaseRootfsRetryCount SampleSnapshot 1).2.RootfsVar RF_RETRY_B).Value = 5 :=
  have h := (C9_retry_saturates_at_zero SampleConfiguration SampleStoreFresh
    { BootMode := 2, BootChain := 0 } SampleSnapshot 1 (by decide) (by decide)).1 (by decide)
  ⟨⟨by decide, by decide⟩, by rw [h], by rw [h]; decide⟩

/-- C10 (the commit writes exactly the flagged counters). For every machine state whose
store answers every write with `EFI_SUCCESS`, `CheckAndUpdateVariable` returns `EFI_SUCCESS`;
the calls it makes are one `SetVariable` with the snapshot `Value` for each index below 6
whose `UpdateFlag` is set and for no other index, in ascending order of the index
(`RF_STATUS_A`, `RF_STATUS_B`, `RF_RETRY_A`, `RF_RETRY_B`, `RF_FW_NEXT`, `RF_BC_STATUS`);
afterwards the store holds that value under each flagged index and is unchanged under every
other one; the snapshot is unchanged. -/
theorem C10_commit_writes_flagged (m : MACHINE) (hWrites : m.Store.WritesSucceed) :
    (CheckAndUpdateVariable m).1 = EFI_SUCCESS ∧
      (CheckAndUpdateVariable m).2.Trace
        = m.Trace ++
          ((List.range RF_VARIABLE_INDEX_MAX).filter
            (fun i => decide ((m.mRootfsInfo.RootfsVar i).UpdateFlag ≠ 0))).map
            (fun i => EVENT.SetVariable i (m.mRootfsInfo.RootfsVar i).Value) ∧
      (∀ i v, EVENT.SetVariable i v ∈ (CheckAndUpdateVariable m).2.Trace.drop m.Trace.length ↔
        (i < RF_VARIABLE_INDEX_MAX ∧ (m.mRootfsInfo.RootfsVar i).UpdateFlag ≠ 0 ∧
          v = (m.mRootfsInfo.RootfsVar i).Value)) ∧
      (∀ i, (CheckAndUpdateVariable m).2.Store.Cell i
        = if i < RF_VARIABLE_INDEX_MAX ∧ (m.mRootfsInfo.RootfsVar i).UpdateFlag ≠ 0 then
            VARIABLE_CELL.Present (m.mRootfsInfo.RootfsVar i).Value
          else m.Store.Cell i) ∧
      (CheckAndUpdateVariable m).2.mRootfsInfo = m.mRootfsInfo := by
  have h := CheckAndUpdateVariableLoop_of_writesSucceed (List.range RF_VARIABLE_INDEX_MAX) m
    (fun i hi => List.mem_range.1 hi) hWrites
  unfold CheckAndUpdateVariable
  rw [h]
  refine ⟨rfl, rfl, ?_, ?_, rfl⟩
  · intro i v
    simp only [List.drop_left]
    rw [mem_CommitTrace]
    constructor
    · rintro ⟨j, hj, hf, he⟩
      simp only [EVENT.SetVariable.injEq] at he
      obtain ⟨rfl, rfl⟩ := he
      exact ⟨List.mem_range.1 hj, hf, rfl⟩
    · rintro ⟨hi, hf, rfl⟩
      exact ⟨i, List.mem_range.2 hi, hf, rfl⟩
  · intro i
    simp only [CommitStore, List.mem_range]

/-- Witness of C10: the sample snapshot has entries 1 and 3 flagged; the commit writes 255
to `RootfsStatusSlotB`, then 6 to `RootfsRetrySlotB`, and nothing else. -/
theorem C10_commit_writes_flagged_witness :
    (CheckAndUpdateVariable
        { Store := SampleStoreFresh, mRootfsInfo := SampleSnapshot, Trace := [] }).1
      = EFI_SUCCESS ∧
    (CheckAndUpdateVariable
        { Store := SampleStoreFresh, mRootfsInfo := SampleSnapshot, Trace := [] }).2.Trace
      = [EVENT.SetVariable RF_STATUS_B 255, EVENT.SetVariable RF_RETRY_B 6] :=
  have h := C10_commit_writes_flagged
    { Store := SampleStoreFresh, mRootfsInfo := SampleSnapshot, Trace := [] } (fun _ _ => rfl)
  ⟨h.1, h.2.1.trans (by decide)⟩

/-- C11 (the commit is not atomic), as the code has it. For every machine state,
`CheckAndUpdateVariable` stops at the first flagged counter whose write the store refuses:
there is an index `k` (6 when no write is refused) such that every flagged counter below `k`
was written successfully and holds its snapshot `Value` in the store, every other variable
of the store is as before, and, when `k < 6`, counter `k` is flagged, its write was refused and
the status of that write is what the function returns; when `k = 6` it returns
`EFI_SUCCESS`. Writes made before a refused one stay in the store. -/
theorem C11_commit_stops_at_first_failure (m : MACHINE) :
    ∃ k, k ≤ RF_VARIABLE_INDEX_MAX ∧
      (∀ i, i < k → (m.mRootfsInfo.RootfsVar i).UpdateFlag ≠ 0 →
        EFI_ERROR (m.Store.SetResult i (some (m.mRootfsInfo.RootfsVar i).Value)) = false) ∧
      (∀ i, (CheckAndUpdateVariable m).2.Store.Cell i
        = if i < k ∧ (m.mRootfsInfo.RootfsVar i).UpdateFlag ≠ 0 then
            VARIABLE_CELL.Present (m.mRootfsInfo.RootfsVar i).Value
          else m.Store.Cell i) ∧
      (k = RF_VARIABLE_INDEX_MAX → (CheckAndUpdateVariable m).1 = EFI_SUCCESS) ∧
      (k < RF_VARIABLE_INDEX_MAX →
        (m.mRootfsInfo.RootfsVar k).UpdateFlag ≠ 0 ∧
        EFI_ERROR (m.Store.SetResult k (some (m.mRootfsInfo.RootfsVar k).Value)) = true ∧
        (CheckAndUpdateVariable m).1
          = m.Store.SetResult k (some (m.mRootfsInfo.RootfsVar k).Value)) := by
  have hr : List.range RF_VARIABLE_INDEX_MAX = List.range' 0 6 := by decide
  obtain ⟨k, -, hk2, hk3, hk4, hk5, hk6⟩ := CheckAndUpdateVariableLoop_stops 6 0 m (by decide)
  unfold CheckAndUpdateVariable
  rw [hr]
  refine ⟨k, hk2, fun i hi hd => hk3 i (Nat.zero_le i) hi hd, ?_, hk5, hk6⟩
  intro i
  rw [hk4 i]
  simp only [Nat.zero_le, true_and]

/-- Counterexample to C11 as stated: with entries 1 and 3 of the snapshot flagged and a store
that refuses writes to `RootfsRetrySlotB`, the commit has written `RootfsStatusSlotB` and
has not written `RootfsRetrySlotB`: neither all flagged counters nor none. -/
theorem C11_commit_not_atomic_counterexample :
    ¬ CommitIsAllOrNothing
      { Store := SampleStoreRetryBProtected, mRootfsInfo := SampleSnapshot, Trace := [] } := by
  unfold CommitIsAllOrNothing
  decide

/-- C12 (a commit failure does not change the decision). Take two stores with the same
variable contents that may answer writes differently (one may refuse a write of the commit,
the other accept every write), all six counters loading, and an input with
`BootMode = BOOTIMG` and `BootChain` in {0, 1}. The two runs leave the same `BootMode` and
`BootChain` in `*BootParams`, end in `ResetCold ()` together or not at all, and call the
deletion of `BootChainFwStatus` together or not at all; if the two stores answer that
deletion alike, `BootChainFwStatus` is in the same state after both runs. -/
theorem C12_commit_failure_keeps_decision (Cfg : NVIDIA_CONFIGURATION)
    (Store1 Store2 : VARIABLE_STORE) (BootParams : L4T_BOOT_PARAMS)
    (hCfg : Cfg.NVIDIA_L4T_BOOTMODE_BOOTIMG ≠ Cfg.NVIDIA_L4T_BOOTMODE_RECOVERY)
    (hCell : Store1.Cell = Store2.Cell)
    (hLoads : Store1.Loads)
    (hMode : BootParams.BootMode = Cfg.NVIDIA_L4T_BOOTMODE_BOOTIMG)
    (hChain : BootParams.BootChain ≤ ROOTFS_SLOT_B) :
    (ValidateRootfsStatus Cfg (MACHINE.Entry Store1) BootParams).2.1
        = (ValidateRootfsStatus Cfg (MACHINE.Entry Store2) BootParams).2.1 ∧
      ((ValidateRootfsStatus Cfg (MACHINE.Entry Store1) BootParams).1 = OUTCOME.ColdReset ↔
        (ValidateRootfsStatus Cfg (MACHINE.Entry Store2) BootParams).1 = OUTCOME.ColdReset) ∧
      (EVENT.DeleteVariable RF_BC_STATUS ∈
          (ValidateRootfsStatus Cfg (MACHINE.Entry Store1) BootParams).2.2.Trace ↔
        EVENT.DeleteVariable RF_BC_STATUS ∈
          (ValidateRootfsStatus Cfg (MACHINE.Entry Store2) BootParams).2.2.Trace) ∧
      (Store1.SetResult RF_BC_STATUS none = Store2.SetResult RF_BC_STATUS none →
        (ValidateRootfsStatus Cfg (MACHINE.Entry Store1) BootParams).2.2.Store.Cell RF_BC_STATUS
          = (ValidateRootfsStatus Cfg (MACHINE.Entry Store2) BootParams).2.2.Store.Cell
              RF_BC_STATUS) := by
  have hm : BootParams.BootMode ≠ Cfg.NVIDIA_L4T_BOOTMODE_RECOVERY := by rw [hMode]; exact hCfg
  have hLoads2 := Loads_congr Store1 Store2 hCell hLoads
  have hInfo := LoadedInfo_congr Store1 Store2 hCell
  have hr : List.range 6 = [0, 1, 2, 3, 4, 5] := by decide
  rw [ValidateRootfsStatus_of_loads Cfg Store1 _ hm hChain hLoads,
    ValidateRootfsStatus_of_loads Cfg Store2 _ hm hChain hLoads2, hInfo]
  by_cases hv : IsValidRootfs Cfg (LoadedInfo Store2) = true
  swap
  · have hv1 : IsValidRootfs Cfg (LoadedInfo Store2) = false := by simpa using hv
    rw [hv1]
    exact ⟨rfl, Iff.rfl, Iff.rfl, fun _ => congrFun hCell RF_BC_STATUS⟩
  simp only [hv, Bool.not_true, Bool.false_eq_true, if_false]
  have hSl := ValidateRootfsStatusSlots_eq Cfg
    { LoadedInfo Store2 with CurrentSlot := BootParams.BootChain } BootParams hChain
  simp only at hSl
  rw [hSl]
  have key : ∀ (BP : L4T_BOOT_PARAMS) (I : L4T_RF_AB_PARAM),
      (I.RootfsVar RF_BC_STATUS).UpdateFlag = 0 →
      (ValidateRootfsStatusExit EFI_SUCCESS BP
            { Store := Store1, mRootfsInfo := I, Trace := ReadTrace }).2.1
          = (ValidateRootfsStatusExit EFI_SUCCESS BP
            { Store := Store2, mRootfsInfo := I, Trace := ReadTrace }).2.1 ∧
        ((ValidateRootfsStatusExit EFI_SUCCESS BP
            { Store := Store1, mRootfsInfo := I, Trace := ReadTrace }).1 = OUTCOME.ColdReset ↔
          (ValidateRootfsStatusExit EFI_SUCCESS BP
            { Store := Store2, mRootfsInfo := I, Trace := ReadTrace }).1 = OUTCOME.ColdReset) ∧
        (EVENT.DeleteVariable RF_BC_STATUS ∈
            (ValidateRootfsStatusExit EFI_SUCCESS BP
              { Store := Store1, mRootfsInfo := I, Trace := ReadTrace }).2.2.Trace ↔
          EVENT.DeleteVariable RF_BC_STATUS ∈
            (ValidateRootfsStatusExit EFI_SUCCESS BP
              { Store := Store2, mRootfsInfo := I, Trace := ReadTrace }).2.2.Trace) ∧
        (Store1.SetResult RF_BC_STATUS none = Store2.SetResult RF_BC_STATUS none →
          (ValidateRootfsStatusExit EFI_SUCCESS BP
              { Store := Store1, mRootfsInfo := I, Trace := ReadTrace }).2.2.Store.Cell
              RF_BC_STATUS
            = (ValidateRootfsStatusExit EFI_SUCCESS BP
              { Store := Store2, mRootfsInfo := I, Trace := ReadTrace }).2.2.Store.Cell
              RF_BC_STATUS) := by
    intro BP I hF
    obtain ⟨T1, hP1, hO1, hB1, -, hT1⟩ := ValidateRootfsStatusExit_success BP
      { Store := Store1, mRootfsInfo := I, Trace := ReadTrace }
    obtain ⟨T2, hP2, hO2, hB2, -, hT2⟩ := ValidateRootfsStatusExit_success BP
      { Store := Store2, mRootfsInfo := I, Trace := ReadTrace }
    have hC1 := ValidateRootfsStatusExit_Cell_BC_STATUS BP
      { Store := Store1, mRootfsInfo := I, Trace := ReadTrace } hF
    have hC2 := ValidateRootfsStatusExit_Cell_BC_STATUS BP
      { Store := Store2, mRootfsInfo := I, Trace := ReadTrace } hF
    have hnot : ∀ T : List EVENT, T <+: CommitTrace I (List.range RF_VARIABLE_INDEX_MAX) →
        EVENT.DeleteVariable RF_BC_STATUS ∉ ReadTrace ++ T := by
      intro T hP hmem
      rcases List.mem_append.1 hmem with h | h
      · simp [ReadTrace, hr] at h
      · obtain ⟨i, -, -, he⟩ := (mem_CommitTrace _ _ _).1 (hP.subset h)
        cases he
    refine ⟨by rw [hB1, hB2], ?_, ?_, ?_⟩
    · rw [hO1, hO2]
      simp only
      split_ifs <;> simp
    · rw [hT1, hT2]
      simp only
      by_cases hN : (I.RootfsVar RF_FW_NEXT).UpdateFlag = 0
      · have hN1 : ¬ ((I.RootfsVar RF_FW_NEXT).UpdateFlag ≠ 0) := not_not.2 hN
        simp only [if_neg hN1, List.append_nil]
        exact ⟨fun h => absurd h (hnot T1 hP1), fun h => absurd h (hnot T2 hP2)⟩
      · have hN1 : (I.RootfsVar RF_FW_NEXT).UpdateFlag ≠ 0 := hN
        simp only [if_pos hN1]
        simp
    · intro hD
      rw [hC1, hC2]
      simp only
      rw [hD, congrFun hCell RF_BC_STATUS]
  have hS := StatusIndex_cases BootParams.BootChain
  have hS2 := StatusIndex_cases (LogicalNot BootParams.BootChain)
  have hR := RetryIndex_cases BootParams.BootChain
  have h5 : RF_BC_STATUS = 5 := rfl
  have h4 : RF_FW_NEXT = 4 := rfl
  split_ifs
  · refine key _ _ ?_
    rw [BootableInfo_UpdateFlag, if_neg (by omega), if_neg (by omega)]
    simp
  · refine key _ _ ?_
    rw [SwitchInfo_UpdateFlag, if_neg (by omega), if_neg (by omega)]
    simp
  · refine key _ _ ?_
    rw [ExhaustedInfo_UpdateFlag, if_neg (by omega), if_neg (by omega)]
    simp

/-- Witness of C12: on the chain-switch sample, the store that refuses the write of
`RootfsStatusSlotA` and the store that accepts every write both end in `ResetCold ()`. -/
theorem C12_commit_failure_keeps_decision_witness :
    (SampleStoreSwitchProtected.Cell = SampleStoreSwitch.Cell ∧
      SampleStoreSwitchProtected.Loads) ∧
    ((ValidateRootfsStatus SampleConfiguration (MACHINE.Entry SampleStoreSwitchProtected)
        { BootMode := 2, BootChain := 0 }).1 = OUTCOME.ColdReset ↔
      (ValidateRootfsStatus SampleConfiguration (MACHINE.Entry SampleStoreSwitch)
        { BootMode := 2, BootChain := 0 }).1 = OUTCOME.ColdReset) ∧
    (ValidateRootfsStatus SampleConfiguration (MACHINE.Entry SampleStoreSwitchProtected)
        { BootMode := 2, BootChain := 0 }).1 = OUTCOME.ColdReset :=
  have h := C12_commit_failure_keeps_decision SampleConfiguration SampleStoreSwitchProtected
    SampleStoreSwitch { BootMode := 2, BootChain := 0 } (by decide) rfl (by decide)
    (by decide) (by decide)
  ⟨⟨rfl, by decide⟩, h.2.1, by decide⟩

/-- C13 (store round trip). For each of the six counter indices and every value `v`, from
any machine state whose store accepts the write: `RFSetVariable (Index, v)` returns
`EFI_SUCCESS`, and `RFGetVariable (Index)` called next returns `EFI_SUCCESS` with the
value `v` (the default of an absent retry counter does not replace it). -/
theorem C13_store_round_trip (m : MACHINE) (Index v Value : Nat)
    (hIndex : Index < RF_VARIABLE_INDEX_MAX)
    (hWrite : m.Store.SetResult Index (some v) = EFI_SUCCESS) :
    (RFSetVariable m Index v).1 = EFI_SUCCESS ∧
      (RFGetVariable (RFSetVariable m Index v).2 Index Value).1 = EFI_SUCCESS ∧
      (RFGetVariable (RFSetVariable m Index v).2 Index Value).2.1 = v := by
  have hI : ¬ (Index ≥ RF_VARIABLE_INDEX_MAX) := by omega
  have hS : EFI_ERROR EFI_SUCCESS = false := rfl
  have hset : RFSetVariable m Index v
      = (EFI_SUCCESS,
          { Store := m.Store.Put Index (VARIABLE_CELL.Present v)
            mRootfsInfo := m.mRootfsInfo
            Trace := m.Trace ++ [EVENT.SetVariable Index v] }) := by
    simp only [RFSetVariable, if_neg hI, gRT_SetVariable, hWrite, hS, Bool.false_eq_true,
      if_false]
  rw [hset]
  have hcell : (m.Store.Put Index (VARIABLE_CELL.Present v)).Cell Index
      = VARIABLE_CELL.Present v := by simp
  have hget := LoadedValue_of_present (m.Store.Put Index (VARIABLE_CELL.Present v)) Index v
    hIndex hcell
  rw [RFGetVariable_eq _ Index Value hIndex]
  exact ⟨rfl, hget.1, hget.2⟩

/-- Witness of C13: writing 5 to the absent `RootfsRetrySlotA` of the fresh sample store and
reading it back gives 5, not the default 7. -/
theorem C13_store_round_trip_witness :
    (RF_RETRY_A < RF_VARIABLE_INDEX_MAX ∧
      SampleStoreFresh.SetResult RF_RETRY_A (some 5) = EFI_SUCCESS) ∧
    (RFGetVariable (RFSetVariable (MACHINE.Entry SampleStoreFresh) RF_RETRY_A 5).2
      RF_RETRY_A 0).2.1 = 5 :=
  ⟨⟨by decide, rfl⟩,
    (C13_store_round_trip (MACHINE.Entry SampleStoreFresh) RF_RETRY_A 5 0 (by decide) rfl).2.2⟩

/-! ## Theorems on the partition lookup of `AndroidLauncher.c` -/

/-- C16 (suffix naming). Code units: 65 is `A`, 66 is `B`, 97 is `a`, 98 is `b`, 95 is the
underscore. For a base name `B` of at most 36 characters, a slot `s` in {0, 1} and any
character `X`, the name `B_X` is a primary match (and nothing else) when `X` is `A + s` or
`a + s`, an alternate match (and nothing else) when `X` is `B - s` or `b - s`, and no match
at all for any other `X`. A name equal to `B` is the generic match, and only that, for slot 0
and for slot 1. -/
theorem C16_suffix_naming (Base : List Nat) (s X : Nat)
    (hLen : Base.length ≤ MAX_PARTITION_NAME_SIZE) (hs : s ≤ 1) :
    ((X = 65 + s ∨ X = 97 + s) →
        IsPrimaryMatch Base s (Base ++ [95, X]) = true ∧
        IsAlternateMatch Base s (Base ++ [95, X]) = false ∧
        IsGenericMatch Base s (Base ++ [95, X]) = false) ∧
      ((X = 66 - s ∨ X = 98 - s) →
        IsAlternateMatch Base s (Base ++ [95, X]) = true ∧
        IsPrimaryMatch Base s (Base ++ [95, X]) = false ∧
        IsGenericMatch Base s (Base ++ [95, X]) = false) ∧
      (¬ (X = 65 + s ∨ X = 97 + s) → ¬ (X = 66 - s ∨ X = 98 - s) →
        IsPrimaryMatch Base s (Base ++ [95, X]) = false ∧
        IsAlternateMatch Base s (Base ++ [95, X]) = false ∧
        IsGenericMatch Base s (Base ++ [95, X]) = false) ∧
      (IsGenericMatch Base 0 Base = true ∧ IsGenericMatch Base 1 Base = true ∧
        IsPrimaryMatch Base 0 Base = false ∧ IsPrimaryMatch Base 1 Base = false ∧
        IsAlternateMatch Base 0 Base = false ∧ IsAlternateMatch Base 1 Base = false) := by
  have h := ClassifyPartitionName_suffixed Base s X hLen hs
  have hs01 : s = 0 ∨ s = 1 := by omega
  unfold IsPrimaryMatch IsAlternateMatch IsGenericMatch
  rw [h, ClassifyPartitionName_self Base 0, ClassifyPartitionName_self Base 1]
  refine ⟨?_, ?_, ?_, by decide⟩
  · intro hX
    have hX1 : X = 97 + s ∨ X = 65 + s := hX.symm
    rw [if_pos hX1]
    decide
  · intro hX
    have hX1 : ¬ (X = 97 + s ∨ X = 65 + s) := by
      rcases hs01 with rfl | rfl <;> omega
    have hX2 : X = 98 - s ∨ X = 66 - s := hX.symm
    rw [if_neg hX1, if_pos hX2]
    decide
  · intro hX hY
    have hX1 : ¬ (X = 97 + s ∨ X = 65 + s) := fun h => hX h.symm
    have hX2 : ¬ (X = 98 - s ∨ X = 66 - s) := fun h => hY h.symm
    rw [if_neg hX1, if_neg hX2]
    decide

/-- Witness of C16: for the base name `kernel-dtb` and slot 0 the name `kernel-dtb_a` is a
primary match. -/
theorem C16_suffix_naming_witness :
    ((L "kernel-dtb").length ≤ MAX_PARTITION_NAME_SIZE ∧ (0 : Nat) ≤ 1) ∧
    L "kernel-dtb" ++ [95, 97] = L "kernel-dtb_a" ∧
    IsPrimaryMatch (L "kernel-dtb") 0 (L "kernel-dtb" ++ [95, 97]) = true :=
  ⟨⟨by decide, by decide⟩, by decide,
    ((C16_suffix_naming (L "kernel-dtb") 0 97 (by decide) (by decide)).1 (Or.inr rfl)).1⟩

/-- C18 (out-of-range slot in the resolver), as the code has it. For every disk, device
handle, base name (also a `NULL` one) and slot index greater than 1, `FindPartitionInfo`
returns `EFI_UNSUPPORTED`, which is not `EFI_INVALID_PARAMETER`; it makes no call at all, so
it enumerates no partition, and it leaves both outputs as they were. -/
theorem C18_out_of_range_slot_unsupported (Db : HANDLE_DATABASE) (DeviceHandle : EFI_HANDLE)
    (PartitionBasename : Option (List Nat)) (BootChain : Nat) (PartitionIndex : Option Nat)
    (PartitionHandle : Option EFI_HANDLE) (hChain : BootChain > 1) :
    FindPartitionInfo Db DeviceHandle PartitionBasename BootChain PartitionIndex
        PartitionHandle =
      { Status := EFI_UNSUPPORTED, PartitionIndex := PartitionIndex
        PartitionHandle := PartitionHandle, Trace := [] } ∧
    (FindPartitionInfo Db DeviceHandle PartitionBasename BootChain PartitionIndex
      PartitionHandle).Status ≠ EFI_INVALID_PARAMETER := by
  unfold FindPartitionInfo
  rw [if_pos hChain]
  refine ⟨rfl, ?_⟩
  intro h
  cases h

/-- Witness of C18: slot 2 on the sample disk with `kernel-dtb_a` and `kernel-dtb_b`. -/
theorem C18_out_of_range_slot_unsupported_witness :
    (2 : Nat) > 1 ∧
    FindPartitionInfo SampleDiskBothSlots 1 (some (L "kernel-dtb")) 2 none (some 0) =
      { Status := EFI_UNSUPPORTED, PartitionIndex := none
        PartitionHandle := some 0, Trace := [] } ∧
    (FindPartitionInfo SampleDiskBothSlots 1 (some (L "kernel-dtb")) 2 none
      (some 0)).Status ≠ EFI_INVALID_PARAMETER :=
  ⟨by decide, C18_out_of_range_slot_unsupported SampleDiskBothSlots 1 (some (L "kernel-dtb")) 2
    none (some 0) (by decide)⟩

/-- Counterexample to C18 as written: for slot 2 the lookup of `kernel-dtb` on the sample disk
does not return `EFI_INVALID_PARAMETER`, the status `ValidateRootfsStatus` gives for a chain
of 2. -/
theorem C18_out_of_range_slot_counterexample :
    (FindPartitionInfo SampleDiskBothSlots 1 (some (L "kernel-dtb")) 2 none
        (some 0)).Status ≠ EFI_INVALID_PARAMETER ∧
    (ValidateRootfsStatus SampleConfiguration (MACHINE.Entry SampleStoreFresh)
        { BootMode := SampleConfiguration.NVIDIA_L4T_BOOTMODE_BOOTIMG, BootChain := 2 }).1 =
      OUTCOME.Returned EFI_INVALID_PARAMETER := by
  constructor
  · decide
  · rfl

/-! ## Theorems on `ProcessBootParams` -/

/-- C19 (initial chain resolution), as the code has it. For every store, load options and
limit of the string library, `ProcessBootParams` calls `ValidateRootfsStatus` with the boot
parameters resolved before it, and the `BootChain` among them is as follows. Without load
options, or when `bootchain=` does not occur in them, it is the value of `BootChainOsCurrent`
when present and at most 1, otherwise the value of `BootChainFwCurrent` when present and at
most 1, otherwise 0. When `bootchain=` occurs, let `N` be the number written by the decimal
digits that follow its first occurrence, blanks before them skipped, and 0 when no digit
follows: if the text after `bootchain=` is within the length limit of the string library, the
chain is `N` when `N` is at most 1 and otherwise the chain resolved from the two variables;
if the text is longer than the limit, the override is ignored and the chain is the one
resolved from the two variables. -/
theorem C19_initial_chain_resolution (Cfg : NVIDIA_CONFIGURATION) (RSIZE_MAX : Nat)
    (m : MACHINE) (LoadedImage : EFI_LOADED_IMAGE_PROTOCOL) (BootParams : L4T_BOOT_PARAMS) :
    ProcessBootParams Cfg RSIZE_MAX m (some LoadedImage) (some BootParams) =
      ((ProcessBootParamsStore (ValidateRootfsStatus Cfg
          (ProcessBootParamsResolve Cfg RSIZE_MAX m LoadedImage).2
          (ProcessBootParamsResolve Cfg RSIZE_MAX m LoadedImage).1)).1,
        some (ProcessBootParamsStore (ValidateRootfsStatus Cfg
          (ProcessBootParamsResolve Cfg RSIZE_MAX m LoadedImage).2
          (ProcessBootParamsResolve Cfg RSIZE_MAX m LoadedImage).1)).2.1,
        (ProcessBootParamsStore (ValidateRootfsStatus Cfg
          (ProcessBootParamsResolve Cfg RSIZE_MAX m LoadedImage).2
          (ProcessBootParamsResolve Cfg RSIZE_MAX m LoadedImage).1)).2.2) ∧
    ((LoadedImage.LoadOptionsSize = 0 ∨
        ¬ BOOTCHAIN_OVERRIDE_STRING <:+: LoadedImage.LoadOptions) →
      (ProcessBootParamsResolve Cfg RSIZE_MAX m LoadedImage).1.BootChain =
        InitialBootChainOfVariables (ChainVariable m.Store BOOT_OS_VARIABLE_NAME)
          (ChainVariable m.Store BOOT_FW_VARIABLE_NAME)) ∧
    (∀ Pre Text : List Nat, LoadedImage.LoadOptionsSize ≠ 0 →
      LoadedImage.LoadOptions = Pre ++ BOOTCHAIN_OVERRIDE_STRING ++ Text →
      (∀ k, k < Pre.length → ¬ BOOTCHAIN_OVERRIDE_STRING <+: LoadedImage.LoadOptions.drop k) →
      ((RSIZE_MAX = 0 ∨ Text.length ≤ RSIZE_MAX) →
        (ProcessBootParamsResolve Cfg RSIZE_MAX m LoadedImage).1.BootChain =
          InitialBootChain (some (OverrideNumber Text))
            (ChainVariable m.Store BOOT_OS_VARIABLE_NAME)
            (ChainVariable m.Store BOOT_FW_VARIABLE_NAME) ∧
        (OverrideNumber Text > 1 →
          (ProcessBootParamsResolve Cfg RSIZE_MAX m LoadedImage).1.BootChain =
            InitialBootChainOfVariables (ChainVariable m.Store BOOT_OS_VARIABLE_NAME)
              (ChainVariable m.Store BOOT_FW_VARIABLE_NAME))) ∧
      (RSIZE_MAX ≠ 0 → RSIZE_MAX < Text.length →
        (ProcessBootParamsResolve Cfg RSIZE_MAX m LoadedImage).1.BootChain =
          InitialBootChainOfVariables (ChainVariable m.Store BOOT_OS_VARIABLE_NAME)
            (ChainVariable m.Store BOOT_FW_VARIABLE_NAME))) := by
  refine ⟨rfl, ?_, ?_⟩
  · intro h
    rw [ProcessBootParamsResolve_BootChain, ParsedBootChainOverride_absent RSIZE_MAX _ h]
    rfl
  · intro Pre Text hSize hOpt hFirst
    have hP := ParsedBootChainOverride_text RSIZE_MAX LoadedImage Pre Text hSize hOpt hFirst
    rw [ProcessBootParamsResolve_BootChain, hP]
    refine ⟨?_, ?_⟩
    · intro hLimit
      have hMain : InitialBootChain
            (if EFI_ERROR (StrDecimalToUint64S RSIZE_MAX Text 0).1 then none
              else some (StrDecimalToUint64S RSIZE_MAX Text 0).2)
            (ChainVariable m.Store BOOT_OS_VARIABLE_NAME)
            (ChainVariable m.Store BOOT_FW_VARIABLE_NAME) =
          InitialBootChain (some (OverrideNumber Text))
            (ChainVariable m.Store BOOT_OS_VARIABLE_NAME)
            (ChainVariable m.Store BOOT_FW_VARIABLE_NAME) := by
        rcases StrDecimalToUint64S_eq RSIZE_MAX Text hLimit with h | ⟨h, hBig⟩
        · rw [h]
          have hS : EFI_ERROR EFI_SUCCESS = false := rfl
          simp only [hS, Bool.false_eq_true, if_false]
        · rw [h]
          have hU : EFI_ERROR EFI_UNSUPPORTED = true := rfl
          have hB : 18446744073709551615 < OverrideNumber Text := hBig
          have hN : ¬ OverrideNumber Text ≤ 1 := by omega
          simp only [hU, if_true, InitialBootChain, if_neg hN]
      refine ⟨hMain, ?_⟩
      intro hGt
      rw [hMain]
      have hN : ¬ OverrideNumber Text ≤ 1 := by omega
      simp only [InitialBootChain, if_neg hN]
    · intro h0 hLong
      rw [StrDecimalToUint64S_too_long RSIZE_MAX Text 0 h0 hLong]
      have hI : EFI_ERROR EFI_INVALID_PARAMETER = true := rfl
      simp only [hI, if_true]
      rfl

/-- Witness of C19: with `BootChainFwCurrent` holding 1, no `BootChainOsCurrent` and the load
options `bootchain=2`, the number of the override is 2 and the chain passed on is 1, the one
resolved from the variables. With the load options `bootmode=bootimg bootchain=1` and neither
variable, the number of the override is 1 and the chain passed on is 1. -/
theorem C19_initial_chain_resolution_witness :
    (SampleImageChain2.LoadOptions = [] ++ BOOTCHAIN_OVERRIDE_STRING ++ L "2" ∧
      OverrideNumber (L "2") = 2 ∧
      SampleImageChain1.LoadOptions =
        L "bootmode=bootimg " ++ BOOTCHAIN_OVERRIDE_STRING ++ L "1" ∧
      OverrideNumber (L "1") = 1) ∧
    ((ProcessBootParamsResolve SampleConfiguration 1000000 (MACHINE.Entry SampleStoreFwChain1)
        SampleImageChain2).1.BootChain =
      InitialBootChainOfVariables
        (ChainVariable (MACHINE.Entry SampleStoreFwChain1).Store BOOT_OS_VARIABLE_NAME)
        (ChainVariable (MACHINE.Entry SampleStoreFwChain1).Store BOOT_FW_VARIABLE_NAME) ∧
      InitialBootChainOfVariables
        (ChainVariable (MACHINE.Entry SampleStoreFwChain1).Store BOOT_OS_VARIABLE_NAME)
        (ChainVariable (MACHINE.Entry SampleStoreFwChain1).Store BOOT_FW_VARIABLE_NAME) = 1) ∧
    ((ProcessBootParamsResolve SampleConfiguration 1000000 (MACHINE.Entry SampleStoreFresh)
        SampleImageChain1).1.BootChain =
      InitialBootChain (some (OverrideNumber (L "1")))
        (ChainVariable (MACHINE.Entry SampleStoreFresh).Store BOOT_OS_VARIABLE_NAME)
        (ChainVariable (MACHINE.Entry SampleStoreFresh).Store BOOT_FW_VARIABLE_NAME) ∧
      InitialBootChain (some (OverrideNumber (L "1")))
        (ChainVariable (MACHINE.Entry SampleStoreFresh).Store BOOT_OS_VARIABLE_NAME)
        (ChainVariable (MACHINE.Entry SampleStoreFresh).Store BOOT_FW_VARIABLE_NAME) = 1) :=
  ⟨⟨by decide, by decide, by decide, by decide⟩,
    ⟨(((C19_initial_chain_resolution SampleConfiguration 1000000
        (MACHINE.Entry SampleStoreFwChain1) SampleImageChain2
        { BootMode := 0, BootChain := 0 }).2.2 [] (L "2") (by decide) (by decide)
        (by decide)).1 (Or.inr (by decide))).2 (by decide),
      by decide⟩,
    ⟨(((C19_initial_chain_resolution SampleConfiguration 1000000
        (MACHINE.Entry SampleStoreFresh) SampleImageChain1
        { BootMode := 0, BootChain := 0 }).2.2 (L "bootmode=bootimg ") (L "1") (by decide)
        (by decide) (by decide)).1 (Or.inr (by decide))).1,
      by decide⟩⟩

/-- Counterexample to C19 as stated: `BootChainFwCurrent` holds 1, `BootChainOsCurrent` is
absent, and the load options are `bootchain=abc` (or `bootchain=` with nothing after it). No
decimal digit follows `bootchain=`, so the load options carry no override number and the
chain resolved from the variables is 1; the chain that `ProcessBootParams` hands to
`ValidateRootfsStatus` is 0. -/
theorem C19_override_without_number_counterexample :
    SampleImageChainAbc.LoadOptions = BOOTCHAIN_OVERRIDE_STRING ++ L "abc" ∧
    ((L "abc").dropWhile IsBlank).takeWhile IsDecimalDigit = [] ∧
    SampleImageChainEmpty.LoadOptions = BOOTCHAIN_OVERRIDE_STRING ++ [] ∧
    InitialBootChainOfVariables
      (ChainVariable (MACHINE.Entry SampleStoreFwChain1).Store BOOT_OS_VARIABLE_NAME)
      (ChainVariable (MACHINE.Entry SampleStoreFwChain1).Store BOOT_FW_VARIABLE_NAME) = 1 ∧
    (ProcessBootParamsResolve SampleConfiguration 1000000 (MACHINE.Entry SampleStoreFwChain1)
      SampleImageChainAbc).1.BootChain = 0 ∧
    (ProcessBootParamsResolve SampleConfiguration 1000000 (MACHINE.Entry SampleStoreFwChain1)
      SampleImageChainEmpty).1.BootChain = 0 := by
  refine ⟨?_, ?_, ?_, ?_, ?_, ?_⟩ <;> decide

/-- C20 (OS-chain persistence), as the code has it. `ProcessBootParams` writes
`BootChainOsCurrent` after `ValidateRootfsStatus` has come back, not before. The calls of
`ValidateRootfsStatus` follow the two reads of the chain variables and none of them writes
`BootChainOsCurrent`. When `ValidateRootfsStatus` returns, with whatever status, the write
of the resolved `BootChain` is the next and last call, `ProcessBootParams` returns
`EFI_SUCCESS`, and the variable holds the resolved chain if the store accepts the write. When
`ValidateRootfsStatus` ends in a cold reset nothing runs after it: `BootChainOsCurrent` is not
written and holds what it held on entry. -/
theorem C20_os_chain_written_after_engine (Cfg : NVIDIA_CONFIGURATION) (RSIZE_MAX : Nat)
    (m : MACHINE) (LoadedImage : EFI_LOADED_IMAGE_PROTOCOL) (BootParams : L4T_BOOT_PARAMS) :
    (∃ T, (ValidateRootfsStatus Cfg (ProcessBootParamsResolve Cfg RSIZE_MAX m LoadedImage).2
          (ProcessBootParamsResolve Cfg RSIZE_MAX m LoadedImage).1).2.2.Trace =
        m.Trace ++
          [EVENT.GetVariable BOOT_FW_VARIABLE_NAME, EVENT.GetVariable BOOT_OS_VARIABLE_NAME] ++
          T ∧
      ∀ v, EVENT.SetVariable BOOT_OS_VARIABLE_NAME v ∉ T) ∧
    (∀ Status,
      (ValidateRootfsStatus Cfg (ProcessBootParamsResolve Cfg RSIZE_MAX m LoadedImage).2
        (ProcessBootParamsResolve Cfg RSIZE_MAX m LoadedImage).1).1 =
          OUTCOME.Returned Status →
      (ProcessBootParams Cfg RSIZE_MAX m (some LoadedImage) (some BootParams)).1 =
          OUTCOME.Returned EFI_SUCCESS ∧
        (ProcessBootParams Cfg RSIZE_MAX m (some LoadedImage) (some BootParams)).2.2.Trace =
          (ValidateRootfsStatus Cfg (ProcessBootParamsResolve Cfg RSIZE_MAX m LoadedImage).2
            (ProcessBootParamsResolve Cfg RSIZE_MAX m LoadedImage).1).2.2.Trace ++
          [EVENT.SetVariable BOOT_OS_VARIABLE_NAME
            (ProcessBootParamsResolve Cfg RSIZE_MAX m LoadedImage).1.BootChain] ∧
        (EFI_ERROR (m.Store.SetResult BOOT_OS_VARIABLE_NAME
            (some (ProcessBootParamsResolve Cfg RSIZE_MAX m LoadedImage).1.BootChain)) = false →
          (ProcessBootParams Cfg RSIZE_MAX m (some LoadedImage)
            (some BootParams)).2.2.Store.Cell BOOT_OS_VARIABLE_NAME =
            VARIABLE_CELL.Present
              (ProcessBootParamsResolve Cfg RSIZE_MAX m LoadedImage).1.BootChain)) ∧
    ((ValidateRootfsStatus Cfg (ProcessBootParamsResolve Cfg RSIZE_MAX m LoadedImage).2
        (ProcessBootParamsResolve Cfg RSIZE_MAX m LoadedImage).1).1 = OUTCOME.ColdReset →
      (ProcessBootParams Cfg RSIZE_MAX m (some LoadedImage) (some BootParams)).1 =
          OUTCOME.ColdReset ∧
        (ProcessBootParams Cfg RSIZE_MAX m (some LoadedImage) (some BootParams)).2.2 =
          (ValidateRootfsStatus Cfg (ProcessBootParamsResolve Cfg RSIZE_MAX m LoadedImage).2
            (ProcessBootParamsResolve Cfg RSIZE_MAX m LoadedImage).1).2.2 ∧
        (ProcessBootParams Cfg RSIZE_MAX m (some LoadedImage)
          (some BootParams)).2.2.Store.Cell BOOT_OS_VARIABLE_NAME =
          m.Store.Cell BOOT_OS_VARIABLE_NAME ∧
        ∀ v, EVENT.SetVariable BOOT_OS_VARIABLE_NAME v ∈
            (ProcessBootParams Cfg RSIZE_MAX m (some LoadedImage)
              (some BootParams)).2.2.Trace →
          EVENT.SetVariable BOOT_OS_VARIABLE_NAME v ∈ m.Trace) := by
  have hP : ProcessBootParams Cfg RSIZE_MAX m (some LoadedImage) (some BootParams) =
      ((ProcessBootParamsStore (ValidateRootfsStatus Cfg
          (ProcessBootParamsResolve Cfg RSIZE_MAX m LoadedImage).2
          (ProcessBootParamsResolve Cfg RSIZE_MAX m LoadedImage).1)).1,
        some (ProcessBootParamsStore (ValidateRootfsStatus Cfg
          (ProcessBootParamsResolve Cfg RSIZE_MAX m LoadedImage).2
          (ProcessBootParamsResolve Cfg RSIZE_MAX m LoadedImage).1)).2.1,
        (ProcessBootParamsStore (ValidateRootfsStatus Cfg
          (ProcessBootParamsResolve Cfg RSIZE_MAX m LoadedImage).2
          (ProcessBootParamsResolve Cfg RSIZE_MAX m LoadedImage).1)).2.2) := rfl
  rw [hP]
  have hRm := ProcessBootParamsResolve_machine Cfg RSIZE_MAX m LoadedImage
  have hF := ValidateRootfsStatus_engineFrame Cfg
    (ProcessBootParamsResolve Cfg RSIZE_MAX m LoadedImage).2
    (ProcessBootParamsResolve Cfg RSIZE_MAX m LoadedImage).1
  have hB := ValidateRootfsStatus_BootChain Cfg
    (ProcessBootParamsResolve Cfg RSIZE_MAX m LoadedImage).2
    (ProcessBootParamsResolve Cfg RSIZE_MAX m LoadedImage).1
  generalize ProcessBootParamsResolve Cfg RSIZE_MAX m LoadedImage = R at hRm hF hB ⊢
  obtain ⟨BootParams0, m0⟩ := R
  simp only at hRm hF hB ⊢
  generalize ValidateRootfsStatus Cfg m0 BootParams0 = V at hF hB ⊢
  obtain ⟨Outcome, BootParams1, m2⟩ := V
  simp only at hF hB ⊢
  obtain ⟨hSet, hCell, T, hT, hNo⟩ := hF
  have h67 : RF_VARIABLE_INDEX_MAX ≤ BOOT_OS_VARIABLE_NAME := by decide
  have hm0S : m0.Store = m.Store := by rw [hRm]
  have hm0T : m0.Trace = m.Trace ++
      [EVENT.GetVariable BOOT_FW_VARIABLE_NAME, EVENT.GetVariable BOOT_OS_VARIABLE_NAME] := by
    rw [hRm]
  refine ⟨⟨T, by rw [hT, hm0T], (hNo _ h67).2⟩, ?_, ?_⟩
  · intro Status hO
    subst hO
    refine ⟨rfl, ?_, ?_⟩
    · show (gRT_SetVariable m2 BOOT_OS_VARIABLE_NAME BootParams1.BootChain).2.Trace = _
      rw [hB]
      unfold gRT_SetVariable
      split_ifs <;> rfl
    · intro hOk
      show (gRT_SetVariable m2 BOOT_OS_VARIABLE_NAME BootParams1.BootChain).2.Store.Cell
        BOOT_OS_VARIABLE_NAME = _
      rw [hB]
      unfold gRT_SetVariable
      rw [hSet, hm0S, hOk]
      simp [VARIABLE_STORE.Put]
  · intro hO
    subst hO
    refine ⟨rfl, rfl, ?_, ?_⟩
    · show m2.Store.Cell BOOT_OS_VARIABLE_NAME = _
      rw [hCell _ h67, hm0S]
    · intro v hv
      have hv2 : EVENT.SetVariable BOOT_OS_VARIABLE_NAME v ∈ m2.Trace := hv
      rw [hT, hm0T] at hv2
      simp only [List.mem_append] at hv2
      rcases hv2 with (h | h) | h
      · exact h
      · simp at h
      · exact absurd h ((hNo _ h67).2 v)

/-- Witness of C20: on the fresh sample store, without load options, `ValidateRootfsStatus`
returns `EFI_SUCCESS`; the write of `BootChainOsCurrent` is the call after its last one and
the variable then holds the resolved chain. -/
theorem C20_os_chain_written_after_engine_witness :
    ((ValidateRootfsStatus SampleConfiguration
        (ProcessBootParamsResolve SampleConfiguration 1000000 (MACHINE.Entry SampleStoreFresh)
          SampleImageNoOptions).2
        (ProcessBootParamsResolve SampleConfiguration 1000000 (MACHINE.Entry SampleStoreFresh)
          SampleImageNoOptions).1).1 = OUTCOME.Returned EFI_SUCCESS ∧
      EFI_ERROR ((MACHINE.Entry SampleStoreFresh).Store.SetResult BOOT_OS_VARIABLE_NAME
        (some (ProcessBootParamsResolve SampleConfiguration 1000000
          (MACHINE.Entry SampleStoreFresh) SampleImageNoOptions).1.BootChain)) = false) ∧
    (ProcessBootParams SampleConfiguration 1000000 (MACHINE.Entry SampleStoreFresh)
        (some SampleImageNoOptions) (some { BootMode := 0, BootChain := 0 })).1 =
      OUTCOME.Returned EFI_SUCCESS ∧
    (ProcessBootParams SampleConfiguration 1000000 (MACHINE.Entry SampleStoreFresh)
        (some SampleImageNoOptions) (some { BootMode := 0, BootChain := 0 })).2.2.Trace =
      (ValidateRootfsStatus SampleConfiguration
        (ProcessBootParamsResolve SampleConfiguration 1000000 (MACHINE.Entry SampleStoreFresh)
          SampleImageNoOptions).2
        (ProcessBootParamsResolve SampleConfiguration 1000000 (MACHINE.Entry SampleStoreFresh)
          SampleImageNoOptions).1).2.2.Trace ++
      [EVENT.SetVariable BOOT_OS_VARIABLE_NAME
        (ProcessBootParamsResolve SampleConfiguration 1000000 (MACHINE.Entry SampleStoreFresh)
          SampleImageNoOptions).1.BootChain] ∧
    (ProcessBootParams SampleConfiguration 1000000 (MACHINE.Entry SampleStoreFresh)
        (some SampleImageNoOptions)
        (some { BootMode := 0, BootChain := 0 })).2.2.Store.Cell BOOT_OS_VARIABLE_NAME =
      VARIABLE_CELL.Present
        (ProcessBootParamsResolve SampleConfiguration 1000000 (MACHINE.Entry SampleStoreFresh)
          SampleImageNoOptions).1.BootChain :=
  ⟨⟨by decide, by decide⟩,
    ((C20_os_chain_written_after_engine SampleConfiguration 1000000
      (MACHINE.Entry SampleStoreFresh) SampleImageNoOptions
      { BootMode := 0, BootChain := 0 }).2.1 EFI_SUCCESS (by decide)).1,
    ((C20_os_chain_written_after_engine SampleConfiguration 1000000
      (MACHINE.Entry SampleStoreFresh) SampleImageNoOptions
      { BootMode := 0, BootChain := 0 }).2.1 EFI_SUCCESS (by decide)).2.1,
    ((C20_os_chain_written_after_engine SampleConfiguration 1000000
      (MACHINE.Entry SampleStoreFresh) SampleImageNoOptions
      { BootMode := 0, BootChain := 0 }).2.1 EFI_SUCCESS (by decide)).2.2 (by decide)⟩

/-- Counterexample to C20 as written: on the chain-switch sample store, without load options,
the resolved chain is 0 and `ValidateRootfsStatus` ends in a cold reset; `ProcessBootParams`
ends there too, no call writes `BootChainOsCurrent`, and the variable is still absent. On the
fresh sample store, where `ValidateRootfsStatus` returns, the write of `BootChainOsCurrent`
comes after all its calls. -/
theorem C20_os_chain_precedes_engine_counterexample :
    (ProcessBootParamsResolve SampleConfiguration 1000000 (MACHINE.Entry SampleStoreSwitch)
        SampleImageNoOptions).1.BootChain = 0 ∧
    (ProcessBootParams SampleConfiguration 1000000 (MACHINE.Entry SampleStoreSwitch)
        (some SampleImageNoOptions) (some { BootMode := 0, BootChain := 0 })).1 =
      OUTCOME.ColdReset ∧
    (ProcessBootParams SampleConfiguration 1000000 (MACHINE.Entry SampleStoreSwitch)
        (some SampleImageNoOptions)
        (some { BootMode := 0, BootChain := 0 })).2.2.Store.Cell BOOT_OS_VARIABLE_NAME =
      VARIABLE_CELL.Absent ∧
    (ProcessBootParams SampleConfiguration 1000000 (MACHINE.Entry SampleStoreSwitch)
        (some SampleImageNoOptions) (some { BootMode := 0, BootChain := 0 })).2.2.Trace =
      [EVENT.GetVariable 6, EVENT.GetVariable 7, EVENT.GetVariable 0, EVENT.GetVariable 1,
        EVENT.GetVariable 2, EVENT.GetVariable 3, EVENT.GetVariable 4, EVENT.GetVariable 5,
        EVENT.SetVariable 0 255, EVENT.SetVariable 4 1, EVENT.DeleteVariable 5, EVENT.Print,
        EVENT.MicroSecondDelay 2000000, EVENT.ResetCold] ∧
    (ProcessBootParams SampleConfiguration 1000000 (MACHINE.Entry SampleStoreFresh)
        (some SampleImageNoOptions) (some { BootMode := 0, BootChain := 0 })).2.2.Trace =
      [EVENT.GetVariable 6, EVENT.GetVariable 7, EVENT.GetVariable 0, EVENT.GetVariable 1,
        EVENT.GetVariable 2, EVENT.GetVariable 3, EVENT.GetVariable 4, EVENT.GetVariable 5,
        EVENT.SetVariable 0 1, EVENT.SetVariable 2 6, EVENT.SetVariable 7 0] := by
  refine ⟨?_, ?_, ?_, ?_, ?_⟩ <;> decide

/-! ## Theorems on what the rootfs validation leaves alone -/

/-- C25 (the engine never changes the chain and moves the mode only to recovery). For every
machine state and every input, however `ValidateRootfsStatus` ends (with success, with an
error, or in the cold reset), the `BootChain` it leaves in `*BootParams` is the one passed in,
and the `BootMode` it leaves is the one passed in or `NVIDIA_L4T_BOOTMODE_RECOVERY`. -/
theorem C25_engine_keeps_chain (Cfg : NVIDIA_CONFIGURATION) (m : MACHINE)
    (BootParams : L4T_BOOT_PARAMS) :
    (ValidateRootfsStatus Cfg m BootParams).2.1.BootChain = BootParams.BootChain ∧
    ((ValidateRootfsStatus Cfg m BootParams).2.1.BootMode = BootParams.BootMode ∨
      (ValidateRootfsStatus Cfg m BootParams).2.1.BootMode =
        Cfg.NVIDIA_L4T_BOOTMODE_RECOVERY) :=
  ⟨ValidateRootfsStatus_BootChain Cfg m BootParams,
    ValidateRootfsStatus_BootMode Cfg m BootParams⟩

/-- C26 (write footprint of one run). From the entry machine (no dirty flag set) and for an
input with `BootChain = c` in {0, 1}, among the calls of `ValidateRootfsStatus` there is no
`SetVariable` of the retry counter of the other slot `1 - c` and no `SetVariable` of
`BootChainFwStatus`; `BootChainFwStatus` is deleted only on the chain-switch path, and a
`SetVariable` of `BootChainFwNext` occurs only on the chain-switch path and with the value
`1 - c`. -/
theorem C26_write_footprint (Cfg : NVIDIA_CONFIGURATION) (Store : VARIABLE_STORE)
    (BootParams : L4T_BOOT_PARAMS) (hChain : BootParams.BootChain ≤ ROOTFS_SLOT_B) :
    (∀ v, EVENT.SetVariable (RetryIndex (1 - BootParams.BootChain)) v ∉
      (ValidateRootfsStatus Cfg (MACHINE.Entry Store) BootParams).2.2.Trace) ∧
    (∀ v, EVENT.SetVariable RF_BC_STATUS v ∉
      (ValidateRootfsStatus Cfg (MACHINE.Entry Store) BootParams).2.2.Trace) ∧
    (EVENT.DeleteVariable RF_BC_STATUS ∈
        (ValidateRootfsStatus Cfg (MACHINE.Entry Store) BootParams).2.2.Trace →
      OnChainSwitchPath Cfg Store BootParams) ∧
    (∀ v, EVENT.SetVariable RF_FW_NEXT v ∈
        (ValidateRootfsStatus Cfg (MACHINE.Entry Store) BootParams).2.2.Trace →
      OnChainSwitchPath Cfg Store BootParams ∧ v = 1 - BootParams.BootChain) := by
  have hOnly : ∀ (T : List EVENT), (∀ e ∈ T, ∃ i, e = EVENT.GetVariable i) →
      (∀ v, EVENT.SetVariable (RetryIndex (1 - BootParams.BootChain)) v ∉ T) ∧
      (∀ v, EVENT.SetVariable RF_BC_STATUS v ∉ T) ∧
      (EVENT.DeleteVariable RF_BC_STATUS ∈ T → OnChainSwitchPath Cfg Store BootParams) ∧
      (∀ v, EVENT.SetVariable RF_FW_NEXT v ∈ T →
        OnChainSwitchPath Cfg Store BootParams ∧ v = 1 - BootParams.BootChain) := by
    intro T hT
    refine ⟨?_, ?_, ?_, ?_⟩
    · intro v h
      obtain ⟨i, hi⟩ := hT _ h
      cases hi
    · intro v h
      obtain ⟨i, hi⟩ := hT _ h
      cases hi
    · intro h
      obtain ⟨i, hi⟩ := hT _ h
      cases hi
    · intro v h
      obtain ⟨i, hi⟩ := hT _ h
      cases hi
  by_cases hM : BootParams.BootMode = Cfg.NVIDIA_L4T_BOOTMODE_RECOVERY
  · rw [ValidateRootfsStatus_of_recovery Cfg _ _ hM]
    exact hOnly _ (fun e he => absurd he (List.not_mem_nil e))
  by_cases hL : Store.Loads
  swap
  · rw [ValidateRootfsStatus_of_not_loads Cfg Store _ hM hChain hL]
    obtain ⟨_, _, ⟨T, hT, hP⟩, _, _⟩ :=
      ReadRootfsVariables_frame (List.range RF_VARIABLE_INDEX_MAX) (MACHINE.Entry Store)
    apply hOnly
    intro e he
    have he1 : e ∈ (ReadRootfsVariables (List.range RF_VARIABLE_INDEX_MAX)
        (MACHINE.Entry Store)).2.Trace := he
    rw [hT] at he1
    have he2 : e ∈ T := by simpa [MACHINE.Entry] using he1
    obtain ⟨i, _, hi⟩ := List.mem_map.1 (hP.subset he2)
    exact ⟨i, hi.symm⟩
  rw [ValidateRootfsStatus_of_loads Cfg Store _ hM hChain hL]
  by_cases hv : IsValidRootfs Cfg (LoadedInfo Store) = true
  swap
  · have hv1 : IsValidRootfs Cfg (LoadedInfo Store) = false := by simpa using hv
    rw [hv1]
    simp only [Bool.not_false, if_true]
    exact hOnly _ (fun e he => not_mem_ReadTrace e he)
  rw [hv]
  simp only [Bool.not_true, Bool.false_eq_true, if_false]
  have hValid := (IsValidRootfs_LoadedInfo Cfg Store hL).1 hv
  have hE := ValidateRootfsStatusSlots_eq Cfg
    { LoadedInfo Store with CurrentSlot := BootParams.BootChain } BootParams hChain
  simp only at hE
  rw [hE]
  obtain ⟨Mode, Chain⟩ := BootParams
  have hChain1 : Chain ≤ 1 := hChain
  have hc : Chain = 0 ∨ Chain = 1 := by omega
  rcases hc with rfl | rfl
  · split_ifs with a b
    · exact ValidateRootfsStatusExit_footprint _ _ _ _ _ rfl
        (by simp [BootableInfo, RetryIndex, StatusIndex])
        (by simp [BootableInfo, RetryIndex, StatusIndex])
        (by simp [BootableInfo, RetryIndex, StatusIndex])
    · refine ValidateRootfsStatusExit_footprint _ _ _ _ _ rfl
        (by simp [SwitchInfo, RetryIndex, StatusIndex])
        (by simp [SwitchInfo, RetryIndex, StatusIndex]) ?_
      intro _
      refine ⟨⟨hM, hL, hValid, ?_, ?_⟩, by simp [SwitchInfo, StatusIndex, LogicalNot]⟩
      · simpa [RetryIndex] using a
      · simpa [RetryIndex, LogicalNot] using b
    · exact ValidateRootfsStatusExit_footprint _ _ _ _ _ rfl
        (by simp [ExhaustedInfo, RetryIndex, StatusIndex, LogicalNot])
        (by simp [ExhaustedInfo, RetryIndex, StatusIndex, LogicalNot])
        (by simp [ExhaustedInfo, RetryIndex, StatusIndex, LogicalNot])
  · split_ifs with a b
    · exact ValidateRootfsStatusExit_footprint _ _ _ _ _ rfl
        (by simp [BootableInfo, RetryIndex, StatusIndex])
        (by simp [BootableInfo, RetryIndex, StatusIndex])
        (by simp [BootableInfo, RetryIndex, StatusIndex])
    · refine ValidateRootfsStatusExit_footprint _ _ _ _ _ rfl
        (by simp [SwitchInfo, RetryIndex, StatusIndex])
        (by simp [SwitchInfo, RetryIndex, StatusIndex]) ?_
      intro _
      refine ⟨⟨hM, hL, hValid, ?_, ?_⟩, by simp [SwitchInfo, StatusIndex, LogicalNot]⟩
      · simpa [RetryIndex] using a
      · simpa [RetryIndex, LogicalNot] using b
    · exact ValidateRootfsStatusExit_footprint _ _ _ _ _ rfl
        (by simp [ExhaustedInfo, RetryIndex, StatusIndex, LogicalNot])
        (by simp [ExhaustedInfo, RetryIndex, StatusIndex, LogicalNot])
        (by simp [ExhaustedInfo, RetryIndex, StatusIndex, LogicalNot])

/-- Witness of C26: on the chain-switch sample store with `BootChain = 0` the run writes
`BootChainFwNext` with the value 1, it is on the chain-switch path, and it never writes the
retry counter of slot 1. -/
theorem C26_write_footprint_witness :
    ((0 : Nat) ≤ ROOTFS_SLOT_B ∧
      EVENT.SetVariable RF_FW_NEXT 1 ∈
        (ValidateRootfsStatus SampleConfiguration (MACHINE.Entry SampleStoreSwitch)
          { BootMode := 2, BootChain := 0 }).2.2.Trace) ∧
    (OnChainSwitchPath SampleConfiguration SampleStoreSwitch { BootMode := 2, BootChain := 0 } ∧
      (1 : Nat) = 1 - 0) ∧
    (∀ v, EVENT.SetVariable (RetryIndex (1 - 0)) v ∉
      (ValidateRootfsStatus SampleConfiguration (MACHINE.Entry SampleStoreSwitch)
        { BootMode := 2, BootChain := 0 }).2.2.Trace) :=
  ⟨⟨by decide, by decide⟩,
    (C26_write_footprint SampleConfiguration SampleStoreSwitch { BootMode := 2, BootChain := 0 }
      (by decide)).2.2.2 1 (by decide),
    (C26_write_footprint SampleConfiguration SampleStoreSwitch { BootMode := 2, BootChain := 0 }
      (by decide)).1⟩

/-- C27 (mutation-step errors are unreachable). On a slot of 0 or 1 none of the helpers
`GetRetryCountFrommRootfsInfo`, `SetStatusTomRootfsInfo`, `SetRetryCountTomRootfsInfo`
returns an error, and neither does `DecreaseRootfsRetryCount` on a slot that
`IsRootfsSlotBootable` accepts. So over a store in which all six variables load, with a mode
other than recovery and `BootChain` in {0, 1}, `Status` is `EFI_SUCCESS` at the label `Exit`,
and an error that `ValidateRootfsStatus` returns is the answer of the store to a
`SetVariable` it refused; when every write succeeds no error is returned. -/
theorem C27_mutation_errors_unreachable (Cfg : NVIDIA_CONFIGURATION) (Store : VARIABLE_STORE)
    (BootParams : L4T_BOOT_PARAMS) (hLoads : Store.Loads)
    (hMode : BootParams.BootMode ≠ Cfg.NVIDIA_L4T_BOOTMODE_RECOVERY)
    (hChain : BootParams.BootChain ≤ ROOTFS_SLOT_B) :
    (∀ (Info : L4T_RF_AB_PARAM) (Slot x : Nat), Slot ≤ ROOTFS_SLOT_B →
      (GetRetryCountFrommRootfsInfo Info Slot x).1 = EFI_SUCCESS ∧
      (SetStatusTomRootfsInfo Info Slot x).1 = EFI_SUCCESS ∧
      (SetRetryCountTomRootfsInfo Info Slot x).1 = EFI_SUCCESS ∧
      (IsRootfsSlotBootable Info Slot = true →
        (DecreaseRootfsRetryCount Info Slot).1 = EFI_SUCCESS)) ∧
    (ValidateRootfsStatusSlots Cfg
      { LoadedInfo Store with CurrentSlot := BootParams.BootChain }
      (LogicalNot BootParams.BootChain) BootParams).1 = EFI_SUCCESS ∧
    (∀ E, (ValidateRootfsStatus Cfg (MACHINE.Entry Store) BootParams).1 = OUTCOME.Returned E →
      EFI_ERROR E = true →
      ∃ i v, i < RF_VARIABLE_INDEX_MAX ∧ EFI_ERROR (Store.SetResult i (some v)) = true ∧
        E = Store.SetResult i (some v)) ∧
    (Store.WritesSucceed →
      ∀ E, (ValidateRootfsStatus Cfg (MACHINE.Entry Store) BootParams).1 = OUTCOME.Returned E →
        E = EFI_SUCCESS) := by
  have hE := ValidateRootfsStatusSlots_eq Cfg
    { LoadedInfo Store with CurrentSlot := BootParams.BootChain } BootParams hChain
  simp only at hE
  have hErr : ∀ E,
      (ValidateRootfsStatus Cfg (MACHINE.Entry Store) BootParams).1 = OUTCOME.Returned E →
      EFI_ERROR E = true →
      ∃ i v, i < RF_VARIABLE_INDEX_MAX ∧ EFI_ERROR (Store.SetResult i (some v)) = true ∧
        E = Store.SetResult i (some v) := by
    intro E hO hEr
    rw [ValidateRootfsStatus_of_loads Cfg Store _ hMode hChain hLoads] at hO
    by_cases hv : IsValidRootfs Cfg (LoadedInfo Store) = true
    · rw [hv, hE] at hO
      simp only [Bool.not_true, Bool.false_eq_true, if_false] at hO
      split_ifs at hO
      all_goals
        have hEq := ValidateRootfsStatusExit_returned _ _ _ hO
        rw [hEq] at hEr
        obtain ⟨i, hi, _, h2, h3⟩ := CheckAndUpdateVariable_error _ hEr
        exact ⟨i, _, hi, h2, hEq.trans h3⟩
    · have hv1 : IsValidRootfs Cfg (LoadedInfo Store) = false := by simpa using hv
      rw [hv1] at hO
      simp only [Bool.not_false, if_true] at hO
      injection hO with hO
      rw [← hO] at hEr
      exact absurd hEr (by decide)
  refine ⟨fun Info Slot x hSlot => helpers_succeed Info Slot x hSlot, ?_, hErr, ?_⟩
  · rw [hE]
    split_ifs <;> rfl
  · intro hW E hO
    by_cases hEr : EFI_ERROR E = true
    · obtain ⟨i, v, _, h2, _⟩ := hErr E hO hEr
      rw [hW i (some v)] at h2
      exact absurd h2 (by decide)
    · cases E <;> first | rfl | exact absurd rfl hEr

/-- Witness of C27: on the fresh sample store that refuses writes to `RootfsRetrySlotB`, the
run for `BootChain = 1` returns `EFI_WRITE_PROTECTED`, which is the answer of the store to a
refused write. -/
theorem C27_mutation_errors_unreachable_witness :
    (SampleStoreRetryBProtected.Loads ∧
      (2 : Nat) ≠ SampleConfiguration.NVIDIA_L4T_BOOTMODE_RECOVERY ∧
      (1 : Nat) ≤ ROOTFS_SLOT_B ∧
      (ValidateRootfsStatus SampleConfiguration (MACHINE.Entry SampleStoreRetryBProtected)
        { BootMode := 2, BootChain := 1 }).1 = OUTCOME.Returned EFI_WRITE_PROTECTED ∧
      EFI_ERROR EFI_WRITE_PROTECTED = true) ∧
    ∃ i v, i < RF_VARIABLE_INDEX_MAX ∧
      EFI_ERROR (SampleStoreRetryBProtected.SetResult i (some v)) = true ∧
      EFI_WRITE_PROTECTED = SampleStoreRetryBProtected.SetResult i (some v) :=
  ⟨⟨by decide, by decide, by decide, by decide, by decide⟩,
    (C27_mutation_errors_unreachable SampleConfiguration SampleStoreRetryBProtected
      { BootMode := 2, BootChain := 1 } (by decide) (by decide) (by decide)).2.2.1
      EFI_WRITE_PROTECTED (by decide) (by decide)⟩

/-- C28 (retry budget over consecutive boots). Take a slot `c` in {0, 1} and a store in which
all six variables load, the two statuses are not both unbootable, every write succeeds and the
retry count of slot `c` loads as `r` with `1 ≤ r` (a 32-bit value; an absent counter loads as
7); the constants are such that boot-image mode is not recovery mode and `UNBOOTABLE` is not
`BOOTING`. Run `ValidateRootfsStatus` again and again in boot-image mode for slot `c`, each
run with a fresh snapshot over the store the run before left. Each of the first `r` runs
returns `EFI_SUCCESS` with boot-image mode and lowers the stored retry count by one. Run
`r + 1` ends in the cold reset or returns `EFI_SUCCESS` with recovery mode, and leaves the
status of slot `c` stored as `UNBOOTABLE`. -/
theorem C28_retry_budget (Cfg : NVIDIA_CONFIGURATION) (Store : VARIABLE_STORE) (c r : Nat)
    (hChain : c ≤ ROOTFS_SLOT_B) (hr : 1 ≤ r) (h32 : r < UINT32_MODULUS)
    (hCfg : Cfg.NVIDIA_L4T_BOOTMODE_BOOTIMG ≠ Cfg.NVIDIA_L4T_BOOTMODE_RECOVERY)
    (hU : ANDROIDLAUNCHER_STATUS_UNBOOTABLE Cfg ≠ ANDROIDLAUNCHER_STATUS_BOOTING)
    (hLoads : Store.Loads)
    (hValid : ¬ (Store.Cell RF_STATUS_A
          = VARIABLE_CELL.Present (ANDROIDLAUNCHER_STATUS_UNBOOTABLE Cfg) ∧
        Store.Cell RF_STATUS_B
          = VARIABLE_CELL.Present (ANDROIDLAUNCHER_STATUS_UNBOOTABLE Cfg)))
    (hWrites : Store.WritesSucceed)
    (hRetry : LoadedValue Store (RetryIndex c) = r) :
    (∀ k, k < r →
      (RunFromFreshSnapshot Cfg c (StoreAfterRuns Cfg c k Store)).1
        = OUTCOME.Returned EFI_SUCCESS ∧
      (RunFromFreshSnapshot Cfg c (StoreAfterRuns Cfg c k Store)).2.1.BootMode
        = Cfg.NVIDIA_L4T_BOOTMODE_BOOTIMG ∧
      LoadedValue (StoreAfterRuns Cfg c k Store) (RetryIndex c) = r - k ∧
      LoadedValue (StoreAfterRuns Cfg c (k + 1) Store) (RetryIndex c) = r - k - 1) ∧
    ((RunFromFreshSnapshot Cfg c (StoreAfterRuns Cfg c r Store)).1 = OUTCOME.ColdReset ∨
      ((RunFromFreshSnapshot Cfg c (StoreAfterRuns Cfg c r Store)).1
          = OUTCOME.Returned EFI_SUCCESS ∧
        (RunFromFreshSnapshot Cfg c (StoreAfterRuns Cfg c r Store)).2.1.BootMode
          = Cfg.NVIDIA_L4T_BOOTMODE_RECOVERY)) ∧
    (StoreAfterRuns Cfg c (r + 1) Store).Cell (StatusIndex c)
      = VARIABLE_CELL.Present (ANDROIDLAUNCHER_STATUS_UNBOOTABLE Cfg) := by
  have hInv := StoreAfterRuns_invariant Cfg Store c r hChain h32 hCfg hU hLoads hValid hWrites
    hRetry
  have h32a : r < 4294967296 := h32
  refine ⟨?_, ?_⟩
  · intro k hk
    obtain ⟨hL, hW, hV, hR⟩ := hInv k (by omega)
    obtain ⟨_, _, _, hR1⟩ := hInv (k + 1) (by omega)
    obtain ⟨hO, hB, _, _⟩ := ValidateRootfsStatus_run_bootable Cfg
      (StoreAfterRuns Cfg c k Store) c hCfg hL hV hW hChain (by rw [hR]; omega)
      (by rw [hR]; show r - k < 4294967296; omega)
    refine ⟨hO, ?_, hR, ?_⟩
    · unfold RunFromFreshSnapshot
      rw [hB]
    · rw [hR1]
      omega
  · obtain ⟨hL, hW, hV, hR⟩ := hInv r (le_refl r)
    rw [Nat.sub_self] at hR
    exact ValidateRootfsStatus_run_zero Cfg (StoreAfterRuns Cfg c r Store) c hCfg hL hV hW
      hChain hR

/-- Witness of C28: slot A with 2 retries left and slot B with 4. The first run returns
`EFI_SUCCESS` in boot-image mode and leaves 1 retry, and the third run, which finds 0 retries,
leaves the status of slot A stored as `UNBOOTABLE` (255). -/
theorem C28_retry_budget_witness :
    ((0 : Nat) ≤ ROOTFS_SLOT_B ∧ (1 : Nat) ≤ 2 ∧ (2 : Nat) < UINT32_MODULUS ∧
      SampleConfiguration.NVIDIA_L4T_BOOTMODE_BOOTIMG ≠
        SampleConfiguration.NVIDIA_L4T_BOOTMODE_RECOVERY ∧
      ANDROIDLAUNCHER_STATUS_UNBOOTABLE SampleConfiguration ≠ ANDROIDLAUNCHER_STATUS_BOOTING ∧
      SampleStoreTwoLeft.Loads ∧
      ¬ (SampleStoreTwoLeft.Cell RF_STATUS_A
          = VARIABLE_CELL.Present (ANDROIDLAUNCHER_STATUS_UNBOOTABLE SampleConfiguration) ∧
        SampleStoreTwoLeft.Cell RF_STATUS_B
          = VARIABLE_CELL.Present (ANDROIDLAUNCHER_STATUS_UNBOOTABLE SampleConfiguration)) ∧
      SampleStoreTwoLeft.WritesSucceed ∧
      LoadedValue SampleStoreTwoLeft (RetryIndex 0) = 2) ∧
    ((RunFromFreshSnapshot SampleConfiguration 0
          (StoreAfterRuns SampleConfiguration 0 0 SampleStoreTwoLeft)).1
        = OUTCOME.Returned EFI_SUCCESS ∧
      (RunFromFreshSnapshot SampleConfiguration 0
          (StoreAfterRuns SampleConfiguration 0 0 SampleStoreTwoLeft)).2.1.BootMode
        = SampleConfiguration.NVIDIA_L4T_BOOTMODE_BOOTIMG ∧
      LoadedValue (StoreAfterRuns SampleConfiguration 0 0 SampleStoreTwoLeft) (RetryIndex 0)
        = 2 - 0 ∧
      LoadedValue (StoreAfterRuns SampleConfiguration 0 (0 + 1) SampleStoreTwoLeft)
        (RetryIndex 0) = 2 - 0 - 1) ∧
    (StoreAfterRuns SampleConfiguration 0 (2 + 1) SampleStoreTwoLeft).Cell (StatusIndex 0)
      = VARIABLE_CELL.Present (ANDROIDLAUNCHER_STATUS_UNBOOTABLE SampleConfiguration) :=
  ⟨⟨by decide, by decide, by decide, by decide, by decide, by decide, by decide,
      fun _ _ => rfl, by decide⟩,
    (C28_retry_budget SampleConfiguration SampleStoreTwoLeft 0 2 (by decide) (by decide)
      (by decide) (by decide) (by decide) (by decide) (by decide) (fun _ _ => rfl)
      (by decide)).1 0 (by decide),
    (C28_retry_budget SampleConfiguration SampleStoreTwoLeft 0 2 (by decide) (by decide)
      (by decide) (by decide) (by decide) (by decide) (by decide) (fun _ _ => rfl)
      (by decide)).2.2⟩

/-! ## Theorems on the loader -/

/-- C21 (two-offset header probe). Take a load in which the boot partition and its two
protocols are found and the header read at offset 0 succeeds. If `AndroidBootImgGetImgSize`
accepts that header and the buffer is allocated, the next read is the image of the computed
size from offset 0. If it refuses the header, the header read at the offset
`PcdSignedImageHeaderSize` succeeds and is accepted, and the buffer is allocated, the next read
is the image of the size computed from the second header, from that offset. If the second
header is refused too, the function returns the status of that refusal, and the calls it has
made are the lookup, the two protocol lookups, the two header reads and the two size
computations: no image is read and `AndroidBootImgBoot` is not called. -/
theorem C21_two_offset_header_probe (Env : LOADER_ENVIRONMENT) (s : LOADER_STATE)
    (DeviceHandle : EFI_HANDLE) (Base DtbBase : List Nat) (BootParams : L4T_BOOT_PARAMS)
    (PartitionHandle : EFI_HANDLE) (Media : EFI_BLOCK_IO_MEDIA) (Header0 Header1 : List Nat)
    (hStatus : (FindPartitionInfo Env.Db DeviceHandle (some Base) BootParams.BootChain none
      (some 0)).Status = EFI_SUCCESS)
    (hHandle : (FindPartitionInfo Env.Db DeviceHandle (some Base) BootParams.BootChain none
      (some 0)).PartitionHandle = some PartitionHandle)
    (hBlock : Env.BlockIoProtocol PartitionHandle = (EFI_SUCCESS, Media))
    (hDisk : Env.DiskIoProtocol PartitionHandle = EFI_SUCCESS)
    (hRead0 : Env.ReadDisk PartitionHandle Media.MediaId 0 Env.ANDROID_BOOTIMG_HEADER_SIZE =
      (EFI_SUCCESS, Header0)) :
    (EFI_ERROR (Env.AndroidBootImgGetImgSize Header0).1 = false →
      Env.AllocatePool (Env.AndroidBootImgGetImgSize Header0).2 = true →
      ∃ T, (BootAndroidStylePartition Env s DeviceHandle Base DtbBase BootParams).2.Trace =
        s.Trace ++
          [LOADER_EVENT.FindPartitionInfo Base BootParams.BootChain,
            LOADER_EVENT.HandleProtocolBlockIo PartitionHandle,
            LOADER_EVENT.HandleProtocolDiskIo PartitionHandle,
            LOADER_EVENT.ReadDisk PartitionHandle Media.MediaId 0
              Env.ANDROID_BOOTIMG_HEADER_SIZE,
            LOADER_EVENT.AndroidBootImgGetImgSize Header0,
            LOADER_EVENT.AllocatePool (Env.AndroidBootImgGetImgSize Header0).2,
            LOADER_EVENT.ReadDisk PartitionHandle Media.MediaId 0
              (Env.AndroidBootImgGetImgSize Header0).2] ++ T) ∧
    (EFI_ERROR (Env.AndroidBootImgGetImgSize Header0).1 = true →
      Env.ReadDisk PartitionHandle Media.MediaId Env.PcdSignedImageHeaderSize
        Env.ANDROID_BOOTIMG_HEADER_SIZE = (EFI_SUCCESS, Header1) →
      EFI_ERROR (Env.AndroidBootImgGetImgSize Header1).1 = false →
      Env.AllocatePool (Env.AndroidBootImgGetImgSize Header1).2 = true →
      ∃ T, (BootAndroidStylePartition Env s DeviceHandle Base DtbBase BootParams).2.Trace =
        s.Trace ++
          [LOADER_EVENT.FindPartitionInfo Base BootParams.BootChain,
            LOADER_EVENT.HandleProtocolBlockIo PartitionHandle,
            LOADER_EVENT.HandleProtocolDiskIo PartitionHandle,
            LOADER_EVENT.ReadDisk PartitionHandle Media.MediaId 0
              Env.ANDROID_BOOTIMG_HEADER_SIZE,
            LOADER_EVENT.AndroidBootImgGetImgSize Header0,
            LOADER_EVENT.ReadDisk PartitionHandle Media.MediaId Env.PcdSignedImageHeaderSize
              Env.ANDROID_BOOTIMG_HEADER_SIZE,
            LOADER_EVENT.AndroidBootImgGetImgSize Header1,
            LOADER_EVENT.AllocatePool (Env.AndroidBootImgGetImgSize Header1).2,
            LOADER_EVENT.ReadDisk PartitionHandle Media.MediaId Env.PcdSignedImageHeaderSize
              (Env.AndroidBootImgGetImgSize Header1).2] ++ T) ∧
    (EFI_ERROR (Env.AndroidBootImgGetImgSize Header0).1 = true →
      Env.ReadDisk PartitionHandle Media.MediaId Env.PcdSignedImageHeaderSize
        Env.ANDROID_BOOTIMG_HEADER_SIZE = (EFI_SUCCESS, Header1) →
      EFI_ERROR (Env.AndroidBootImgGetImgSize Header1).1 = true →
      BootAndroidStylePartition Env s DeviceHandle Base DtbBase BootParams =
        (some (Env.AndroidBootImgGetImgSize Header1).1,
          { FdtTable := s.FdtTable
            Trace := s.Trace ++
              [LOADER_EVENT.FindPartitionInfo Base BootParams.BootChain,
                LOADER_EVENT.HandleProtocolBlockIo PartitionHandle,
                LOADER_EVENT.HandleProtocolDiskIo PartitionHandle,
                LOADER_EVENT.ReadDisk PartitionHandle Media.MediaId 0
                  Env.ANDROID_BOOTIMG_HEADER_SIZE,
                LOADER_EVENT.AndroidBootImgGetImgSize Header0,
                LOADER_EVENT.ReadDisk PartitionHandle Media.MediaId
                  Env.PcdSignedImageHeaderSize Env.ANDROID_BOOTIMG_HEADER_SIZE,
                LOADER_EVENT.AndroidBootImgGetImgSize Header1] })) := by
  have hS : EFI_ERROR EFI_SUCCESS = false := rfl
  have hWhole : BootAndroidStylePartition Env s DeviceHandle Base DtbBase BootParams =
      BootAndroidStylePartitionHeader Env
        (((s.Call (LOADER_EVENT.FindPartitionInfo Base BootParams.BootChain)).Call
          (LOADER_EVENT.HandleProtocolBlockIo PartitionHandle)).Call
          (LOADER_EVENT.HandleProtocolDiskIo PartitionHandle))
        DeviceHandle DtbBase BootParams PartitionHandle Media := by
    unfold BootAndroidStylePartition
    simp only [hStatus, hHandle, hBlock, hDisk, hS, Bool.false_eq_true, if_false,
      Option.getD_some]
  rw [hWhole]
  unfold BootAndroidStylePartitionHeader
  simp only [hRead0, hS, Bool.false_eq_true, if_false]
  refine ⟨?_, ?_, ?_⟩
  · intro h0 hPool
    simp only [h0, Bool.false_eq_true, if_false]
    obtain ⟨T, hT⟩ := BootAndroidStylePartitionImage_trace Env
      (((((s.Call (LOADER_EVENT.FindPartitionInfo Base BootParams.BootChain)).Call
          (LOADER_EVENT.HandleProtocolBlockIo PartitionHandle)).Call
          (LOADER_EVENT.HandleProtocolDiskIo PartitionHandle)).Call
          (LOADER_EVENT.ReadDisk PartitionHandle Media.MediaId 0
            Env.ANDROID_BOOTIMG_HEADER_SIZE)).Call
          (LOADER_EVENT.AndroidBootImgGetImgSize Header0))
      DeviceHandle DtbBase BootParams PartitionHandle Media 0
      (Env.AndroidBootImgGetImgSize Header0).2 hPool
    refine ⟨T, ?_⟩
    rw [hT]
    simp [LOADER_STATE.Call]
  · intro h0 hRead1 h1 hPool
    simp only [h0, hRead1, h1, hS, if_true, Bool.false_eq_true, if_false]
    obtain ⟨T, hT⟩ := BootAndroidStylePartitionImage_trace Env
      (((((((s.Call (LOADER_EVENT.FindPartitionInfo Base BootParams.BootChain)).Call
          (LOADER_EVENT.HandleProtocolBlockIo PartitionHandle)).Call
          (LOADER_EVENT.HandleProtocolDiskIo PartitionHandle)).Call
          (LOADER_EVENT.ReadDisk PartitionHandle Media.MediaId 0
            Env.ANDROID_BOOTIMG_HEADER_SIZE)).Call
          (LOADER_EVENT.AndroidBootImgGetImgSize Header0)).Call
          (LOADER_EVENT.ReadDisk PartitionHandle Media.MediaId Env.PcdSignedImageHeaderSize
            Env.ANDROID_BOOTIMG_HEADER_SIZE)).Call
          (LOADER_EVENT.AndroidBootImgGetImgSize Header1))
      DeviceHandle DtbBase BootParams PartitionHandle Media Env.PcdSignedImageHeaderSize
      (Env.AndroidBootImgGetImgSize Header1).2 hPool
    refine ⟨T, ?_⟩
    rw [hT]
    simp [LOADER_STATE.Call]
  · intro h0 hRead1 h1
    simp only [h0, hRead1, h1, hS, if_true, Bool.false_eq_true, if_false]
    simp [LOADER_STATE.Call]

/-- Witness of C21: the sample boot partition holds 16 zero bytes and then a boot image. The
header at offset 0 is refused, the one at offset 16 is accepted, and the image of 20 bytes is
read from offset 16. -/
theorem C21_two_offset_header_probe_witness :
    ((FindPartitionInfo
        (SampleLoader SampleSignedBootImage SampleDtb EFI_NOT_FOUND EFI_SUCCESS).Db 1
        (some (L "boot")) 0 none (some 0)).Status = EFI_SUCCESS ∧
      EFI_ERROR ((SampleLoader SampleSignedBootImage SampleDtb EFI_NOT_FOUND
        EFI_SUCCESS).AndroidBootImgGetImgSize (List.replicate 12 0)).1 = true ∧
      EFI_ERROR ((SampleLoader SampleSignedBootImage SampleDtb EFI_NOT_FOUND
        EFI_SUCCESS).AndroidBootImgGetImgSize (SampleBootImage.take 12)).1 = false) ∧
    ∃ T, (BootAndroidStylePartition
        (SampleLoader SampleSignedBootImage SampleDtb EFI_NOT_FOUND EFI_SUCCESS)
        SampleLoaderState 1 (L "boot") (L "kernel-dtb")
        { BootMode := 2, BootChain := 0 }).2.Trace =
      SampleLoaderState.Trace ++
        [LOADER_EVENT.FindPartitionInfo (L "boot") 0,
          LOADER_EVENT.HandleProtocolBlockIo 10,
          LOADER_EVENT.HandleProtocolDiskIo 10,
          LOADER_EVENT.ReadDisk 10 10 0 12,
          LOADER_EVENT.AndroidBootImgGetImgSize (List.replicate 12 0),
          LOADER_EVENT.ReadDisk 10 10 16 12,
          LOADER_EVENT.AndroidBootImgGetImgSize (SampleBootImage.take 12),
          LOADER_EVENT.AllocatePool 20,
          LOADER_EVENT.ReadDisk 10 10 16 20] ++ T :=
  ⟨⟨by decide, by decide, by decide⟩,
    (C21_two_offset_header_probe
      (SampleLoader SampleSignedBootImage SampleDtb EFI_NOT_FOUND EFI_SUCCESS)
      SampleLoaderState 1 (L "boot") (L "kernel-dtb") { BootMode := 2, BootChain := 0 }
      10 { MediaId := 10, BlockSize := 8, LastBlock := 3 } (List.replicate 12 0)
      (SampleBootImage.take 12) (by decide) (by decide) rfl rfl (by decide)).2.1
      (by decide) (by decide) (by decide) rfl⟩


/-- C22 (a corrupt companion device tree), the code at the failing input. On the sample disk
the image is read, no ACPI table is present, the partition `kernel-dtb_a` is found and read,
and its content, all zeros, fails `fdt_check_header` at offset 0 and at the signed-image
offset. `BootAndroidStylePartition` installs no device tree, and it returns `EFI_SUCCESS`
right after the read of the partition: `AndroidBootImgBoot` is not called. -/
theorem C22_corrupt_dtb_skips_boot :
    ((SampleLoader SampleBootImage SampleCorruptDtb EFI_NOT_FOUND
        EFI_SUCCESS).fdt_check_header SampleCorruptDtb ≠ 0 ∧
      (SampleLoader SampleBootImage SampleCorruptDtb EFI_NOT_FOUND
        EFI_SUCCESS).fdt_check_header (SampleCorruptDtb.drop 16) ≠ 0) ∧
    (BootAndroidStylePartition
        (SampleLoader SampleBootImage SampleCorruptDtb EFI_NOT_FOUND EFI_SUCCESS)
        SampleLoaderState 1 (L "boot") (L "kernel-dtb")
        { BootMode := 2, BootChain := 0 }).1 = some EFI_SUCCESS ∧
    (BootAndroidStylePartition
        (SampleLoader SampleBootImage SampleCorruptDtb EFI_NOT_FOUND EFI_SUCCESS)
        SampleLoaderState 1 (L "boot") (L "kernel-dtb")
        { BootMode := 2, BootChain := 0 }).2.FdtTable = SampleLoaderState.FdtTable ∧
    (BootAndroidStylePartition
        (SampleLoader SampleBootImage SampleCorruptDtb EFI_NOT_FOUND EFI_SUCCESS)
        SampleLoaderState 1 (L "boot") (L "kernel-dtb")
        { BootMode := 2, BootChain := 0 }).2.Trace =
      [LOADER_EVENT.FindPartitionInfo (L "boot") 0,
        LOADER_EVENT.HandleProtocolBlockIo 10,
        LOADER_EVENT.HandleProtocolDiskIo 10,
        LOADER_EVENT.ReadDisk 10 10 0 12,
        LOADER_EVENT.AndroidBootImgGetImgSize (SampleBootImage.take 12),
        LOADER_EVENT.AllocatePool 20,
        LOADER_EVENT.ReadDisk 10 10 0 20,
        LOADER_EVENT.EfiGetSystemConfigurationTableAcpi,
        LOADER_EVENT.FindPartitionInfo (L "kernel-dtb") 0,
        LOADER_EVENT.HandleProtocolBlockIo 12,
        LOADER_EVENT.HandleProtocolDiskIo 12,
        LOADER_EVENT.AllocatePool 32,
        LOADER_EVENT.ReadDisk 12 12 0 32] ∧
    LOADER_EVENT.AndroidBootImgBoot SampleBootImage 20 ∉
      (BootAndroidStylePartition
        (SampleLoader SampleBootImage SampleCorruptDtb EFI_NOT_FOUND EFI_SUCCESS)
        SampleLoaderState 1 (L "boot") (L "kernel-dtb")
        { BootMode := 2, BootChain := 0 }).2.Trace := by
  refine ⟨⟨?_, ?_⟩, ?_, ?_, ?_, ?_⟩ <;> decide

/-- C23 (transfer errors are reported upward), the code at the failing input. On the sample
disk with a valid device tree partition and a device tree already installed by the firmware,
`AndroidBootImgBoot` fails with `EFI_LOAD_ERROR`; the previous device tree is installed again
and `BootAndroidStylePartition` returns the status of that call, `EFI_SUCCESS`. On the same
disk with `fdt_open_into` failing, where the pages are allocated but no tree is installed and
none is saved, it returns `EFI_LOAD_ERROR`. With an ACPI table present, where `ExpandedDtb` is
never assigned, the failed `AndroidBootImgBoot` is followed by the read through that pointer
and no status is returned. -/
theorem C23_transfer_error_masked :
    (SampleLoader SampleBootImage SampleDtb EFI_NOT_FOUND EFI_LOAD_ERROR).AndroidBootImgBoot
        SampleBootImage 20 = EFI_LOAD_ERROR ∧
    LOADER_EVENT.AndroidBootImgBoot SampleBootImage 20 ∈
      (BootAndroidStylePartition
        (SampleLoader SampleBootImage SampleDtb EFI_NOT_FOUND EFI_LOAD_ERROR)
        SampleLoaderState 1 (L "boot") (L "kernel-dtb")
        { BootMode := 2, BootChain := 0 }).2.Trace ∧
    (BootAndroidStylePartition
        (SampleLoader SampleBootImage SampleDtb EFI_NOT_FOUND EFI_LOAD_ERROR)
        SampleLoaderState 1 (L "boot") (L "kernel-dtb")
        { BootMode := 2, BootChain := 0 }).1 = some EFI_SUCCESS ∧
    (BootAndroidStylePartition (SampleLoaderOpenFails EFI_LOAD_ERROR)
        SampleLoaderState 1 (L "boot") (L "kernel-dtb")
        { BootMode := 2, BootChain := 0 }).1 = some EFI_LOAD_ERROR ∧
    (BootAndroidStylePartition
        (SampleLoader SampleBootImage SampleDtb EFI_SUCCESS EFI_LOAD_ERROR)
        SampleLoaderState 1 (L "boot") (L "kernel-dtb")
        { BootMode := 2, BootChain := 0 }).1 = none ∧
    (BootAndroidStylePartition
        (SampleLoader SampleBootImage SampleDtb EFI_SUCCESS EFI_LOAD_ERROR)
        SampleLoaderState 1 (L "boot") (L "kernel-dtb")
        { BootMode := 2, BootChain := 0 }).2.Trace =
      [LOADER_EVENT.FindPartitionInfo (L "boot") 0,
        LOADER_EVENT.HandleProtocolBlockIo 10,
        LOADER_EVENT.HandleProtocolDiskIo 10,
        LOADER_EVENT.ReadDisk 10 10 0 12,
        LOADER_EVENT.AndroidBootImgGetImgSize (SampleBootImage.take 12),
        LOADER_EVENT.AllocatePool 20,
        LOADER_EVENT.ReadDisk 10 10 0 20,
        LOADER_EVENT.EfiGetSystemConfigurationTableAcpi,
        LOADER_EVENT.AndroidBootImgBoot SampleBootImage 20] := by
  refine ⟨?_, ?_, ?_, ?_, ?_, ?_⟩ <;> decide

/-- C24 (the previous device tree is installed again), as the code has it. Take the part of
`BootAndroidStylePartition` from the allocation of the pages for the new tree on, entered with
a device tree `Old` installed, and suppose the pages are allocated, `fdt_open_into` succeeds
and the new tree is installed. Then the calls are the allocation, the lookup of the installed
tree, the installation of the new tree, `AndroidBootImgBoot`, `FreePages` when that failed,
and last the installation of `Old`, whether `AndroidBootImgBoot` failed or returned
`EFI_SUCCESS`. When that last call is accepted, `Old` is the installed tree at the end. -/
theorem C24_previous_tree_reinstalled (Env : LOADER_ENVIRONMENT) (s : LOADER_STATE)
    (Dtb Image Old : List Nat) (ImageSize : Nat)
    (hTable : s.FdtTable = some Old)
    (hPages : Env.AllocatePages
      (EFI_SIZE_TO_PAGES ((2 * Env.fdt_totalsize Dtb) % UINT32_MODULUS)) = true)
    (hOpen : (Env.fdt_open_into Dtb ((2 * Env.fdt_totalsize Dtb) % UINT32_MODULUS)).1 = 0)
    (hInstall : Env.InstallConfigurationTable
      (Env.fdt_open_into Dtb ((2 * Env.fdt_totalsize Dtb) % UINT32_MODULUS)).2 = EFI_SUCCESS) :
    (BootAndroidStylePartitionInstall Env s Dtb Image ImageSize).2.Trace =
      s.Trace ++
        [LOADER_EVENT.AllocatePages
            (EFI_SIZE_TO_PAGES ((2 * Env.fdt_totalsize Dtb) % UINT32_MODULUS)),
          LOADER_EVENT.EfiGetSystemConfigurationTableFdt,
          LOADER_EVENT.InstallConfigurationTable
            (Env.fdt_open_into Dtb ((2 * Env.fdt_totalsize Dtb) % UINT32_MODULUS)).2,
          LOADER_EVENT.AndroidBootImgBoot Image ImageSize] ++
        (if EFI_ERROR (Env.AndroidBootImgBoot Image ImageSize) then [LOADER_EVENT.FreePages]
          else []) ++
        [LOADER_EVENT.InstallConfigurationTable Old] ∧
    (Env.InstallConfigurationTable Old = EFI_SUCCESS →
      (BootAndroidStylePartitionInstall Env s Dtb Image ImageSize).2.FdtTable = some Old) ∧
    (EFI_ERROR (Env.InstallConfigurationTable Old) = true →
      (BootAndroidStylePartitionInstall Env s Dtb Image ImageSize).2.FdtTable =
        some (Env.fdt_open_into Dtb ((2 * Env.fdt_totalsize Dtb) % UINT32_MODULUS)).2) := by
  have hS : EFI_ERROR EFI_SUCCESS = false := rfl
  unfold BootAndroidStylePartitionInstall
  simp only [hPages, hOpen, and_self, if_true, hTable]
  unfold gBS_InstallConfigurationTable
  simp only [hInstall, hS, Bool.false_eq_true, if_false]
  refine ⟨?_, ?_, ?_⟩
  · rw [BootAndroidStylePartitionBoot_trace]
    simp [LOADER_STATE.Call]
  · intro hOld
    unfold BootAndroidStylePartitionBoot BootAndroidStylePartitionRestore
      gBS_InstallConfigurationTable
    simp only [hOld, hS, Bool.false_eq_true, if_false]
    split_ifs <;> rfl
  · intro hOld
    unfold BootAndroidStylePartitionBoot BootAndroidStylePartitionRestore
      gBS_InstallConfigurationTable
    simp only [hOld, if_true]
    split_ifs <;> rfl

/-- Witness of C24: the sample loader whose `AndroidBootImgBoot` returns `EFI_SUCCESS`, entered
with the device tree `[1, 2, 3]` installed. -/
theorem C24_previous_tree_reinstalled_witness :
    (SampleLoaderState.FdtTable = some [1, 2, 3] ∧
      (SampleLoader SampleBootImage SampleDtb EFI_NOT_FOUND
        EFI_SUCCESS).InstallConfigurationTable [1, 2, 3] = EFI_SUCCESS) ∧
    (BootAndroidStylePartitionInstall
      (SampleLoader SampleBootImage SampleDtb EFI_NOT_FOUND EFI_SUCCESS) SampleLoaderState
      SampleDtb SampleBootImage 20).2.FdtTable = some [1, 2, 3] :=
  ⟨⟨rfl, rfl⟩,
    (C24_previous_tree_reinstalled
      (SampleLoader SampleBootImage SampleDtb EFI_NOT_FOUND EFI_SUCCESS) SampleLoaderState
      SampleDtb SampleBootImage [1, 2, 3] 20 rfl rfl rfl rfl).2.1 rfl⟩

/-- Counterexample to C24 as written: on the sample disk `AndroidBootImgBoot` returns
`EFI_SUCCESS` after the new device tree was installed over the one of the firmware, and
`BootAndroidStylePartition` installs the previous tree `[1, 2, 3]` again: that is its last
call, and the previous tree, not the new one, is the installed table at the end. -/
theorem C24_restore_after_success_counterexample :
    EFI_ERROR ((SampleLoader SampleBootImage SampleDtb EFI_NOT_FOUND
      EFI_SUCCESS).AndroidBootImgBoot SampleBootImage 20) = false ∧
    (BootAndroidStylePartition
        (SampleLoader SampleBootImage SampleDtb EFI_NOT_FOUND EFI_SUCCESS)
        SampleLoaderState 1 (L "boot") (L "kernel-dtb")
        { BootMode := 2, BootChain := 0 }).2.Trace =
      [LOADER_EVENT.FindPartitionInfo (L "boot") 0,
        LOADER_EVENT.HandleProtocolBlockIo 10,
        LOADER_EVENT.HandleProtocolDiskIo 10,
        LOADER_EVENT.ReadDisk 10 10 0 12,
        LOADER_EVENT.AndroidBootImgGetImgSize (SampleBootImage.take 12),
        LOADER_EVENT.AllocatePool 20,
        LOADER_EVENT.ReadDisk 10 10 0 20,
        LOADER_EVENT.EfiGetSystemConfigurationTableAcpi,
        LOADER_EVENT.FindPartitionInfo (L "kernel-dtb") 0,
        LOADER_EVENT.HandleProtocolBlockIo 12,
        LOADER_EVENT.HandleProtocolDiskIo 12,
        LOADER_EVENT.AllocatePool 32,
        LOADER_EVENT.ReadDisk 12 12 0 32,
        LOADER_EVENT.AllocatePages 1,
        LOADER_EVENT.EfiGetSystemConfigurationTableFdt,
        LOADER_EVENT.InstallConfigurationTable SampleDtb,
        LOADER_EVENT.AndroidBootImgBoot SampleBootImage 20,
        LOADER_EVENT.InstallConfigurationTable [1, 2, 3]] ∧
    (BootAndroidStylePartition
        (SampleLoader SampleBootImage SampleDtb EFI_NOT_FOUND EFI_SUCCESS)
        SampleLoaderState 1 (L "boot") (L "kernel-dtb")
        { BootMode := 2, BootChain := 0 }).2.FdtTable = some [1, 2, 3] ∧
    some [1, 2, 3] ≠ some SampleDtb := by
  refine ⟨?_, ?_, ?_, ?_⟩ <;> decide

/-! ## Theorems on an engine failure and on the slot symmetry of the name classifier -/

/-- C29 (an engine failure does not stop the boot), as the code has it. For every store and
load options on which `ValidateRootfsStatus` returns an error, `ProcessBootParams` still
returns `EFI_SUCCESS`, with `BootChain` exactly as resolved before the call and with the two
stored retry counters as they were. `BootMode` is as resolved before the call, except when the
error is a refused write after all six variables loaded with both retry counts 0: then
`BootMode` is recovery. In the first case the mode is boot-image mode and `AndroidLauncher`
ends as `BootAndroidStylePartition` does on the partitions `boot` and `kernel-dtb` of the
resolved slot, whatever the stored retry count of that slot. -/
theorem C29_engine_failure_keeps_boot (Cfg : NVIDIA_CONFIGURATION) (RSIZE_MAX : Nat)
    (Env : LOADER_ENVIRONMENT) (Store : VARIABLE_STORE)
    (LoadedImage : EFI_LOADED_IMAGE_PROTOCOL) (Initial : L4T_BOOT_PARAMS) (s : LOADER_STATE)
    (E : EFI_STATUS)
    (hO : (ValidateRootfsStatus Cfg
        (ProcessBootParamsResolve Cfg RSIZE_MAX (MACHINE.Entry Store) LoadedImage).2
        (ProcessBootParamsResolve Cfg RSIZE_MAX (MACHINE.Entry Store) LoadedImage).1).1
      = OUTCOME.Returned E)
    (hEr : EFI_ERROR E = true) :
    ∃ (BootParams : L4T_BOOT_PARAMS) (m1 : MACHINE),
      ProcessBootParams Cfg RSIZE_MAX (MACHINE.Entry Store) (some LoadedImage) (some Initial)
        = (OUTCOME.Returned EFI_SUCCESS, some BootParams, m1) ∧
      BootParams.BootChain =
        (ProcessBootParamsResolve Cfg RSIZE_MAX (MACHINE.Entry Store) LoadedImage).1.BootChain ∧
      (BootParams.BootMode =
          (ProcessBootParamsResolve Cfg RSIZE_MAX (MACHINE.Entry Store) LoadedImage).1.BootMode ∨
        (BootParams.BootMode = Cfg.NVIDIA_L4T_BOOTMODE_RECOVERY ∧ Store.Loads ∧
          LoadedValue Store RF_RETRY_A = 0 ∧ LoadedValue Store RF_RETRY_B = 0)) ∧
      m1.Store.Cell RF_RETRY_A = Store.Cell RF_RETRY_A ∧
      m1.Store.Cell RF_RETRY_B = Store.Cell RF_RETRY_B ∧
      (BootParams.BootMode =
          (ProcessBootParamsResolve Cfg RSIZE_MAX (MACHINE.Entry Store) LoadedImage).1.BootMode →
        BootParams.BootMode = Cfg.NVIDIA_L4T_BOOTMODE_BOOTIMG ∧
        (AndroidLauncher Cfg RSIZE_MAX Env (MACHINE.Entry Store) s
            (EFI_SUCCESS, LoadedImage)).1 =
          (BootAndroidStylePartition Env s LoadedImage.DeviceHandle
            BOOTIMG_BASE_NAME BOOTIMG_DTB_BASE_NAME BootParams).1.map OUTCOME.Returned ∧
        (AndroidLauncher Cfg RSIZE_MAX Env (MACHINE.Entry Store) s
            (EFI_SUCCESS, LoadedImage)).2.2 =
          (BootAndroidStylePartition Env s LoadedImage.DeviceHandle
            BOOTIMG_BASE_NAME BOOTIMG_DTB_BASE_NAME BootParams).2) := by
  have hP : ∀ Initial : L4T_BOOT_PARAMS,
      ProcessBootParams Cfg RSIZE_MAX (MACHINE.Entry Store) (some LoadedImage) (some Initial) =
      ((ProcessBootParamsStore (ValidateRootfsStatus Cfg
          (ProcessBootParamsResolve Cfg RSIZE_MAX (MACHINE.Entry Store) LoadedImage).2
          (ProcessBootParamsResolve Cfg RSIZE_MAX (MACHINE.Entry Store) LoadedImage).1)).1,
        some (ProcessBootParamsStore (ValidateRootfsStatus Cfg
          (ProcessBootParamsResolve Cfg RSIZE_MAX (MACHINE.Entry Store) LoadedImage).2
          (ProcessBootParamsResolve Cfg RSIZE_MAX (MACHINE.Entry Store) LoadedImage).1)).2.1,
        (ProcessBootParamsStore (ValidateRootfsStatus Cfg
          (ProcessBootParamsResolve Cfg RSIZE_MAX (MACHINE.Entry Store) LoadedImage).2
          (ProcessBootParamsResolve Cfg RSIZE_MAX (MACHINE.Entry Store) LoadedImage).1)).2.2) :=
    fun _ => rfl
  have hRm := ProcessBootParamsResolve_machine Cfg RSIZE_MAX (MACHINE.Entry Store) LoadedImage
  have hCh := ProcessBootParamsResolve_chain_le Cfg RSIZE_MAX (MACHINE.Entry Store) LoadedImage
  have hMd := ProcessBootParamsResolve_BootMode Cfg RSIZE_MAX (MACHINE.Entry Store) LoadedImage
  have hL : AndroidLauncher Cfg RSIZE_MAX Env (MACHINE.Entry Store) s (EFI_SUCCESS, LoadedImage)
      = match ProcessBootParams Cfg RSIZE_MAX (MACHINE.Entry Store) (some LoadedImage)
          (some { BootMode := 0, BootChain := 0 }) with
        | (OUTCOME.ColdReset, _, m1) => (some OUTCOME.ColdReset, m1, s)
        | (OUTCOME.Returned Status, none, m1) => (some (OUTCOME.Returned Status), m1, s)
        | (OUTCOME.Returned Status, some BootParams, m1) =>
          if EFI_ERROR Status then (some (OUTCOME.Returned Status), m1, s)
          else if BootParams.BootMode = Cfg.NVIDIA_L4T_BOOTMODE_BOOTIMG then
            match BootAndroidStylePartition Env s LoadedImage.DeviceHandle BOOTIMG_BASE_NAME
                BOOTIMG_DTB_BASE_NAME BootParams with
            | (Status1, s1) => (Status1.map OUTCOME.Returned, m1, s1)
          else if BootParams.BootMode = Cfg.NVIDIA_L4T_BOOTMODE_RECOVERY then
            match BootAndroidStylePartition Env s LoadedImage.DeviceHandle RECOVERY_BASE_NAME
                RECOVERY_DTB_BASE_NAME BootParams with
            | (Status1, s1) => (Status1.map OUTCOME.Returned, m1, s1)
          else (some (OUTCOME.Returned Status), m1, s) := rfl
  rw [hL, hP Initial, hP { BootMode := 0, BootChain := 0 }]
  generalize ProcessBootParamsResolve Cfg RSIZE_MAX (MACHINE.Entry Store) LoadedImage = R
    at hO hRm hCh hMd ⊢
  obtain ⟨Resolved, m0⟩ := R
  simp only at hO hRm hCh hMd ⊢
  have hm0 : m0 = ⟨Store, mRootfsInfoInitial,
      [] ++ [EVENT.GetVariable BOOT_FW_VARIABLE_NAME, EVENT.GetVariable BOOT_OS_VARIABLE_NAME]⟩ :=
    hRm
  obtain ⟨c1, c2, c3⟩ := ValidateRootfsStatus_congr Cfg Resolved Store mRootfsInfoInitial
    ([] ++ [EVENT.GetVariable BOOT_FW_VARIABLE_NAME, EVENT.GetVariable BOOT_OS_VARIABLE_NAME]) []
  rw [← hm0] at c1 c2 c3
  have hO1 : (ValidateRootfsStatus Cfg (MACHINE.Entry Store) Resolved).1 = OUTCOME.Returned E :=
    c1.symm.trans hO
  obtain ⟨hMode, hA, hB, hM⟩ := ValidateRootfsStatus_error Cfg Store Resolved E hCh hO1 hEr
  have hBC := ValidateRootfsStatus_BootChain Cfg m0 Resolved
  have e1 : (ValidateRootfsStatus Cfg (MACHINE.Entry Store) Resolved).2.1
      = (ValidateRootfsStatus Cfg m0 Resolved).2.1 := c2.symm
  have e2 : (ValidateRootfsStatus Cfg (MACHINE.Entry Store) Resolved).2.2.Store
      = (ValidateRootfsStatus Cfg m0 Resolved).2.2.Store := c3.symm
  rw [e1] at hM
  rw [e2] at hA hB
  generalize ValidateRootfsStatus Cfg m0 Resolved = V at hO hM hA hB hBC ⊢
  obtain ⟨Outcome, BootParams, m2⟩ := V
  simp only at hO hM hA hB hBC ⊢
  subst hO
  have hS : ∀ i, i ≠ BOOT_OS_VARIABLE_NAME →
      (gRT_SetVariable m2 BOOT_OS_VARIABLE_NAME BootParams.BootChain).2.Store.Cell i
        = m2.Store.Cell i := by
    intro i hi
    unfold gRT_SetVariable
    split_ifs
    · rfl
    · simp only [Put_Cell, if_neg hi]
  refine ⟨BootParams, (gRT_SetVariable m2 BOOT_OS_VARIABLE_NAME BootParams.BootChain).2, rfl,
    hBC, hM, (hS _ (by decide)).trans hA, (hS _ (by decide)).trans hB, ?_⟩
  intro hSame
  have hBI : BootParams.BootMode = Cfg.NVIDIA_L4T_BOOTMODE_BOOTIMG := by
    rcases hMd with h | h
    · exact hSame.trans h
    · exact absurd h hMode
  refine ⟨hBI, ?_, ?_⟩
  · simp only [ProcessBootParamsStore, EFI_ERROR, Bool.false_eq_true, if_false, hBI, if_true]
  · simp only [ProcessBootParamsStore, EFI_ERROR, Bool.false_eq_true, if_false, hBI, if_true]

/-- Witness of C29: `RootfsStatusSlotB` is absent and slot A has the stored retry count 0.
Without load options the run of `ValidateRootfsStatus` returns `EFI_LOAD_ERROR`, and
`ProcessBootParams` returns `EFI_SUCCESS` with the mode and chain resolved before it. -/
theorem C29_engine_failure_keeps_boot_witness :
    ((ValidateRootfsStatus SampleConfiguration
        (ProcessBootParamsResolve SampleConfiguration 1000000
          (MACHINE.Entry SampleStoreNoStatusBSpent) SampleImageNoOptions).2
        (ProcessBootParamsResolve SampleConfiguration 1000000
          (MACHINE.Entry SampleStoreNoStatusBSpent) SampleImageNoOptions).1).1
        = OUTCOME.Returned EFI_LOAD_ERROR ∧
      EFI_ERROR EFI_LOAD_ERROR = true) ∧
    SampleStoreNoStatusBSpent.Cell RF_RETRY_A = VARIABLE_CELL.Present 0 ∧
    ∃ (BootParams : L4T_BOOT_PARAMS) (m1 : MACHINE),
      ProcessBootParams SampleConfiguration 1000000 (MACHINE.Entry SampleStoreNoStatusBSpent)
          (some SampleImageNoOptions) (some { BootMode := 0, BootChain := 0 })
        = (OUTCOME.Returned EFI_SUCCESS, some BootParams, m1) ∧
      BootParams.BootChain =
        (ProcessBootParamsResolve SampleConfiguration 1000000
          (MACHINE.Entry SampleStoreNoStatusBSpent) SampleImageNoOptions).1.BootChain ∧
      (BootParams.BootMode =
          (ProcessBootParamsResolve SampleConfiguration 1000000
            (MACHINE.Entry SampleStoreNoStatusBSpent) SampleImageNoOptions).1.BootMode ∨
        (BootParams.BootMode = SampleConfiguration.NVIDIA_L4T_BOOTMODE_RECOVERY ∧
          SampleStoreNoStatusBSpent.Loads ∧
          LoadedValue SampleStoreNoStatusBSpent RF_RETRY_A = 0 ∧
          LoadedValue SampleStoreNoStatusBSpent RF_RETRY_B = 0)) ∧
      m1.Store.Cell RF_RETRY_A = SampleStoreNoStatusBSpent.Cell RF_RETRY_A ∧
      m1.Store.Cell RF_RETRY_B = SampleStoreNoStatusBSpent.Cell RF_RETRY_B ∧
      (BootParams.BootMode =
          (ProcessBootParamsResolve SampleConfiguration 1000000
            (MACHINE.Entry SampleStoreNoStatusBSpent) SampleImageNoOptions).1.BootMode →
        BootParams.BootMode = SampleConfiguration.NVIDIA_L4T_BOOTMODE_BOOTIMG ∧
        (AndroidLauncher SampleConfiguration 1000000
            (SampleLoader SampleBootImage SampleDtb EFI_NOT_FOUND EFI_LOAD_ERROR)
            (MACHINE.Entry SampleStoreNoStatusBSpent) SampleLoaderState
            (EFI_SUCCESS, SampleImageNoOptions)).1 =
          (BootAndroidStylePartition
            (SampleLoader SampleBootImage SampleDtb EFI_NOT_FOUND EFI_LOAD_ERROR)
            SampleLoaderState SampleImageNoOptions.DeviceHandle
            BOOTIMG_BASE_NAME BOOTIMG_DTB_BASE_NAME BootParams).1.map OUTCOME.Returned ∧
        (AndroidLauncher SampleConfiguration 1000000
            (SampleLoader SampleBootImage SampleDtb EFI_NOT_FOUND EFI_LOAD_ERROR)
            (MACHINE.Entry SampleStoreNoStatusBSpent) SampleLoaderState
            (EFI_SUCCESS, SampleImageNoOptions)).2.2 =
          (BootAndroidStylePartition
            (SampleLoader SampleBootImage SampleDtb EFI_NOT_FOUND EFI_LOAD_ERROR)
            SampleLoaderState SampleImageNoOptions.DeviceHandle
            BOOTIMG_BASE_NAME BOOTIMG_DTB_BASE_NAME BootParams).2) :=
  ⟨⟨by decide, by decide⟩, by decide,
    C29_engine_failure_keeps_boot SampleConfiguration 1000000
      (SampleLoader SampleBootImage SampleDtb EFI_NOT_FOUND EFI_LOAD_ERROR)
      SampleStoreNoStatusBSpent SampleImageNoOptions { BootMode := 0, BootChain := 0 }
      SampleLoaderState EFI_LOAD_ERROR (by decide) (by decide)⟩

/-- Counterexample to C29 as written: both retry counters are 0 and the store refuses the
write of `RootfsStatusSlotA`. The mode resolved before the call is boot-image mode (2) on
chain 0; `ValidateRootfsStatus` returns `EFI_WRITE_PROTECTED`; `ProcessBootParams` returns
`EFI_SUCCESS` with recovery mode (3), and the first call of the loader looks for the
partition `recovery`. -/
theorem C29_mode_as_resolved_counterexample :
    (ProcessBootParamsResolve SampleConfiguration 1000000
        (MACHINE.Entry SampleStoreExhaustedProtected) SampleImageNoOptions).1
      = { BootMode := 2, BootChain := 0 } ∧
    (ValidateRootfsStatus SampleConfiguration
        (ProcessBootParamsResolve SampleConfiguration 1000000
          (MACHINE.Entry SampleStoreExhaustedProtected) SampleImageNoOptions).2
        (ProcessBootParamsResolve SampleConfiguration 1000000
          (MACHINE.Entry SampleStoreExhaustedProtected) SampleImageNoOptions).1).1
      = OUTCOME.Returned EFI_WRITE_PROTECTED ∧
    EFI_ERROR EFI_WRITE_PROTECTED = true ∧
    (ProcessBootParams SampleConfiguration 1000000
        (MACHINE.Entry SampleStoreExhaustedProtected) (some SampleImageNoOptions)
        (some { BootMode := 0, BootChain := 0 })).1 = OUTCOME.Returned EFI_SUCCESS ∧
    (ProcessBootParams SampleConfiguration 1000000
        (MACHINE.Entry SampleStoreExhaustedProtected) (some SampleImageNoOptions)
        (some { BootMode := 0, BootChain := 0 })).2.1
      = some { BootMode := 3, BootChain := 0 } ∧
    (AndroidLauncher SampleConfiguration 1000000
        (SampleLoader SampleBootImage SampleDtb EFI_NOT_FOUND EFI_LOAD_ERROR)
        (MACHINE.Entry SampleStoreExhaustedProtected) SampleLoaderState
        (EFI_SUCCESS, SampleImageNoOptions)).2.2.Trace.head?
      = some (LOADER_EVENT.FindPartitionInfo RECOVERY_BASE_NAME 0) := by
  decide

/-- C30 (slot symmetry of the name classifier). For every base name, every partition name and
every slot `s` in {0, 1}: the name is a primary match for slot `s` exactly when it is an
alternate match for slot `1 - s`; it is the generic match for slot 0 exactly when it is for
slot 1; and for one slot it is in at most one of the three categories. -/
theorem C30_slot_symmetry (Base Name : List Nat) (s : Nat) (hs : s ≤ 1) :
    (IsPrimaryMatch Base s Name = true ↔ IsAlternateMatch Base (1 - s) Name = true) ∧
    (IsGenericMatch Base 0 Name = true ↔ IsGenericMatch Base 1 Name = true) ∧
    ¬ (IsPrimaryMatch Base s Name = true ∧ IsGenericMatch Base s Name = true) ∧
    ¬ (IsPrimaryMatch Base s Name = true ∧ IsAlternateMatch Base s Name = true) ∧
    ¬ (IsGenericMatch Base s Name = true ∧ IsAlternateMatch Base s Name = true) := by
  have h65 : (65 + 0) % UINT32_MODULUS = 65 := by decide
  have h97 : (97 + 0) % UINT32_MODULUS = 97 := by decide
  have h66 : (65 + 1) % UINT32_MODULUS = 66 := by decide
  have h98 : (97 + 1) % UINT32_MODULUS = 98 := by decide
  have a66 : (66 + UINT32_MODULUS - 0) % UINT32_MODULUS = 66 := by decide
  have a98 : (98 + UINT32_MODULUS - 0) % UINT32_MODULUS = 98 := by decide
  have a65 : (66 + UINT32_MODULUS - 1) % UINT32_MODULUS = 65 := by decide
  have a97 : (98 + UINT32_MODULUS - 1) % UINT32_MODULUS = 97 := by decide
  have h10 : 1 - 0 = 1 := rfl
  have h11 : 1 - 1 = 0 := rfl
  have hs01 : s = 0 ∨ s = 1 := by omega
  unfold IsPrimaryMatch IsAlternateMatch IsGenericMatch
  simp only [decide_eq_true_eq, ClassifyPartitionName_eq]
  generalize StrnLenS Base MAX_PARTITION_NAME_SIZE = Len
  by_cases h1 : StrCmp Name Base = 0
  · simp only [h1, if_true]
    decide
  simp only [h1, if_false]
  by_cases h2 : Len + 2 = StrLen Name
  swap
  · simp only [h2, if_false]
    decide
  simp only [h2, if_true]
  cases hS : StrStr Name Base with
  | none =>
    simp only []
    decide
  | some SubString =>
    simp only []
    by_cases h3 : SubString = 2 ∧ CharAt Name 1 = 95
    · simp only [if_pos h3]
      generalize CharAt Name 0 = x
      rcases hs01 with rfl | rfl
      · simp only [h65, h97, h66, h98, a66, a98, a65, a97, h10, h11]
        (by_cases e65 : x = 65 <;> by_cases e97 : x = 97 <;> by_cases e66 : x = 66 <;>
          by_cases e98 : x = 98 <;> first | omega | simp [e65, e97, e66, e98])
      · simp only [h65, h97, h66, h98, a66, a98, a65, a97, h10, h11]
        (by_cases e65 : x = 65 <;> by_cases e97 : x = 97 <;> by_cases e66 : x = 66 <;>
          by_cases e98 : x = 98 <;> first | omega | simp [e65, e97, e66, e98])
    · simp only [if_neg h3]
      by_cases h6 : SubString = 0 ∧ CharAt Name Len = 95
      · simp only [if_pos h6]
        generalize CharAt Name (Len + 1) = x
        rcases hs01 with rfl | rfl
        · simp only [h65, h97, h66, h98, a66, a98, a65, a97, h10, h11]
          (by_cases e65 : x = 65 <;> by_cases e97 : x = 97 <;> by_cases e66 : x = 66 <;>
          by_cases e98 : x = 98 <;> first | omega | simp [e65, e97, e66, e98])
        · simp only [h65, h97, h66, h98, a66, a98, a65, a97, h10, h11]
          (by_cases e65 : x = 65 <;> by_cases e97 : x = 97 <;> by_cases e66 : x = 66 <;>
          by_cases e98 : x = 98 <;> first | omega | simp [e65, e97, e66, e98])
      · simp only [if_neg h6]
        decide

/-- Witness of C30: for the base name `kernel-dtb` the name `kernel-dtb_a` is a primary match
for slot 0, hence an alternate match for slot 1. -/
theorem C30_slot_symmetry_witness :
    ((0 : Nat) ≤ 1 ∧ IsPrimaryMatch (L "kernel-dtb") 0 (L "kernel-dtb_a") = true) ∧
    IsAlternateMatch (L "kernel-dtb") (1 - 0) (L "kernel-dtb_a") = true :=
  ⟨⟨by decide, by decide⟩,
    (C30_slot_symmetry (L "kernel-dtb") (L "kernel-dtb_a") 0 (by decide)).1.mp (by decide)⟩
end L4TRootfsValidation
